import Mathlib

/-! A shallow embedding of `src/connector/odbc/src/todbc.c`

The ODBC adapter of the time-series engine: reference-counted environment,
connection and statement handles, and the matrix of conversions applied by
`SQLGetData` to the cells of the current row.

Conventions of the embedding

* A handle is `Option Nat`: `none` is the C `NULL`, `some p` an address.  The
  three kinds of objects live in three stores of the `Heap`; `calloc` takes the
  next free slot, `free` empties the slot.
* A C function becomes a function from the state before the call to an
  `Outcome`: it returns a status together with the state after the call, or
  the process is stopped by a failed `DASSERT` (the outcome keeps the state
  reached at that moment), or the call has no defined behaviour in C (a freed
  or null pointer is dereferenced).
* Machine integers are `Nat` / `Int`, reduced modulo `2 ^ w` where the C
  arithmetic can wrap.
* Memory of the caller (target buffer, cells) is a list of byte values.
* What the engine, the allocator and libc answer is an argument of the
  function that asks.
-/

set_option autoImplicit false

namespace Todbc

/-! ## Basic types -/

/-- Raw memory: a list of byte values. -/
abbrev Bytes := List Nat

/-- Return codes of the call-level interface (`SQLRETURN`). -/
inductive SQLRETURN where
  | SQL_SUCCESS
  | SQL_SUCCESS_WITH_INFO
  | SQL_NO_DATA
  | SQL_ERROR
  deriving DecidableEq, Repr

/-- Modelled from the spec: the error codes of `taoserror.h` (not under src/)
that `todbc.c` names, by name; `other` stands for any further code the engine
reports through `terrno`, `taos_errno` or a statement call. -/
inductive TsdbCode where
  | TSDB_CODE_SUCCESS
  | TSDB_CODE_ODBC_OOM
  | TSDB_CODE_ODBC_CONV_NOT_SUPPORT
  | TSDB_CODE_ODBC_CONV_UNDEF
  | TSDB_CODE_ODBC_CONV_TRUNC
  | TSDB_CODE_COM_OPS_NOT_SUPPORT
  | TSDB_CODE_TSC_APP_ERROR
  | TSDB_CODE_TSC_INVALID_CONNECTION
  | TSDB_CODE_TSC_QUERY_CACHE_ERASED
  | TSDB_CODE_TSC_INVALID_SQL
  | TSDB_CODE_MND_FIELD_NOT_EXIST
  | TSDB_CODE_QRY_INVALID_QHANDLE
  | TSDB_CODE_RPC_NETWORK_UNAVAIL
  | other (code : Int)
  deriving DecidableEq, Repr

/-- The outcome of running a C function on a state of type `σ`. -/
inductive Outcome (σ : Type) where
  /-- The function returned `r`, leaving the state `s`. -/
  | ret (r : SQLRETURN) (s : σ)
  /-- A `DASSERT` failed and `abort()` stopped the process in state `s`. -/
  | abort (s : σ)
  /-- The call is undefined in C: a null, freed or wild pointer is used. -/
  | fault
  deriving DecidableEq, Repr

/-- The struct `taos_error_s`: the error context of a handle. -/
structure taos_error_t where
  err_str : Option String := none
  err_no : TsdbCode := TsdbCode.TSDB_CODE_SUCCESS
  sql_state : String := ""
  deriving DecidableEq, Repr

/-- The macro `SET_ERROR`.  `msg` is the formatted message
(`tstrerror(eno)`, `__LINE__` and the arguments), or `none` when `snprintf` or
`realloc` fails: the macro then leaves after having stored the code only. -/
def SET_ERROR (err : taos_error_t) (sqlstate : String) (eno : TsdbCode)
    (msg : Option String) : taos_error_t :=
  match msg with
  | none => { err with err_no := eno }
  | some m => { err_str := some m, err_no := eno, sql_state := sqlstate }

/-- The macro `CLR_ERROR`. -/
def CLR_ERROR (err : taos_error_t) : taos_error_t :=
  { err_str := err.err_str.map (fun _ => ""),
    err_no := TsdbCode.TSDB_CODE_SUCCESS,
    sql_state := "" }

/-- The macro `FREE_ERROR`. -/
def FREE_ERROR (_err : taos_error_t) : taos_error_t :=
  { err_str := none, err_no := TsdbCode.TSDB_CODE_SUCCESS, sql_state := "" }

/-! ## The engine boundary -/

/-- Modelled from the spec: a `TAOS_FIELD` of `taos.h` (not under src/): name
buffer, wire type tag, byte width. -/
structure TAOS_FIELD where
  name : Bytes := []
  type : Nat := 0
  bytes : Int := 0
  deriving DecidableEq, Repr

/-- A `TAOS_ROW`: one cell pointer per column, `none` for a null cell,
otherwise the bytes the pointer leads to. -/
abbrev TAOS_ROW := List (Option Bytes)

/-- Modelled from the spec: what the adapter can observe of an engine result
set (`TAOS_RES`, an object of the engine): its error code, its field
descriptors and the rows that `taos_fetch_row` has not delivered yet. -/
structure TAOS_RES where
  id : Nat := 0
  errno : TsdbCode := TsdbCode.TSDB_CODE_SUCCESS
  field_count : Int := 0
  fields : Option (List TAOS_FIELD) := none
  rows : List TAOS_ROW := []
  affected_rows : Int := 0
  deriving DecidableEq, Repr

/-- Modelled from the spec: the wire bind structure `TAOS_BIND` of `taos.h`
(not under src/).  Pointers are addresses in the memory of the caller. -/
structure TAOS_BIND where
  buffer_type : Int := 0
  buffer : Option Nat := none
  buffer_length : Nat := 0
  length : Option Nat := none
  is_null : Option Nat := none
  is_unsigned : Int := 0
  error : Option Nat := none
  deriving DecidableEq, Repr

/-- The struct `param_bind_s`. -/
structure param_bind_t where
  ParameterNumber : Nat := 0
  ValueType : Int := 0
  ParameterType : Int := 0
  LengthPrecision : Nat := 0
  ParameterScale : Int := 0
  ParameterValue : Option Nat := none
  StrLen_or_Ind : Option Nat := none
  valid : Nat := 0
  deriving DecidableEq, Repr

/-- Calls made to the engine, in the order they are made. -/
inductive EngineCall where
  | taos_init
  | taos_connect (ip : String) (user : Option Bytes) (pass : Option Bytes)
  | taos_close (taos : Nat)
  | taos_query (taos : Nat) (sql : Option Bytes)
  | taos_free_result (rs : Nat)
  | taos_fetch_row (rs : Nat)
  | taos_stmt_init (taos : Nat)
  | taos_stmt_prepare (stmt : Nat) (sql : Option Bytes) (length : Int)
  | taos_stmt_close (stmt : Nat)
  | taos_stmt_bind_param (stmt : Nat) (binds : Option (List TAOS_BIND))
  | taos_stmt_add_batch (stmt : Nat)
  | taos_stmt_execute (stmt : Nat)
  | taos_stmt_use_result (stmt : Nat)
  deriving DecidableEq, Repr

/-! ## Handles -/

/-- The struct `env_s`; the default value is what `calloc` returns. -/
structure env_t where
  refcount : Nat := 0
  destroying : Bool := false
  err : taos_error_t := {}
  deriving DecidableEq, Repr

/-- The struct `conn_s`. -/
structure conn_t where
  refcount : Nat := 0
  env : Option Nat := none
  taos : Option Nat := none
  err : taos_error_t := {}
  deriving DecidableEq, Repr

/-- The struct `sql_s`. -/
structure sql_t where
  refcount : Nat := 0
  conn : Option Nat := none
  stmt : Option Nat := none
  binds : Option (List TAOS_BIND) := none
  params : Option (List param_bind_t) := none
  n_params : Int := 0
  rs : Option TAOS_RES := none
  row : Option TAOS_ROW := none
  err : taos_error_t := {}
  deriving DecidableEq, Repr

/-- The objects of the process: the three stores of handles, the once-only
initialisation flag (`init_once`) and the calls made to the engine so far. -/
structure Heap where
  envs : List (Option env_t) := []
  conns : List (Option conn_t) := []
  sqls : List (Option sql_t) := []
  inited : Bool := false
  log : List EngineCall := []
  deriving DecidableEq, Repr

/-- The live environment at address `p`, if any. -/
def Heap.env (h : Heap) (p : Nat) : Option env_t := (h.envs[p]?).join

/-- The live connection at address `p`, if any. -/
def Heap.conn (h : Heap) (p : Nat) : Option conn_t := (h.conns[p]?).join

/-- The live statement at address `p`, if any. -/
def Heap.sql (h : Heap) (p : Nat) : Option sql_t := (h.sqls[p]?).join

/-- Store (or, with `none`, free) the environment at address `p`. -/
def Heap.set_env (h : Heap) (p : Nat) (e : Option env_t) : Heap :=
  { h with envs := h.envs.set p e }

/-- Store (or free) the connection at address `p`. -/
def Heap.set_conn (h : Heap) (p : Nat) (c : Option conn_t) : Heap :=
  { h with conns := h.conns.set p c }

/-- Store (or free) the statement at address `p`. -/
def Heap.set_sql (h : Heap) (p : Nat) (s : Option sql_t) : Heap :=
  { h with sqls := h.sqls.set p s }

/-- The object `env` placed in a fresh slot (`calloc`). -/
def Heap.push_env (h : Heap) (env : env_t) : Heap :=
  { h with envs := h.envs ++ [some env] }

/-- The object `conn` placed in a fresh slot (`calloc`). -/
def Heap.push_conn (h : Heap) (conn : conn_t) : Heap :=
  { h with conns := h.conns ++ [some conn] }

/-- The object `sql` placed in a fresh slot (`calloc`). -/
def Heap.push_sql (h : Heap) (sql : sql_t) : Heap :=
  { h with sqls := h.sqls ++ [some sql] }

/-- Record a call to the engine. -/
def Heap.call (h : Heap) (c : EngineCall) : Heap :=
  { h with log := h.log ++ [c] }

/-- The macro `GET_REF`: `atomic_load_64`. -/
def GET_REF (refcount : Nat) : Nat := refcount

/-- The macro `INC_REF`: `atomic_add_fetch_64` on the `uint64_t` counter; the
value is the new count. -/
def INC_REF (refcount : Nat) : Nat := (refcount + 1) % 2 ^ 64

/-- The macro `DEC_REF`: `atomic_sub_fetch_64` on the `uint64_t` counter. -/
def DEC_REF (refcount : Nat) : Nat := (refcount + (2 ^ 64 - 1)) % 2 ^ 64

/-- The call `pthread_once(&init_once, init_routine)`: `taos_init` runs the
first time only. -/
def pthread_once_init (h : Heap) : Heap :=
  if h.inited then h else { h.call EngineCall.taos_init with inited := true }

/-! ## Handle lifecycle -/

/-- The function `doSQLAllocEnv`.  `calloc_ok` tells whether `calloc`
succeeds; the second component of the state is the handle stored through
`EnvironmentHandle`. -/
def doSQLAllocEnv (h : Heap) (calloc_ok : Bool) : Outcome (Heap × Option Nat) :=
  let h := pthread_once_init h
  if !calloc_ok then Outcome.ret SQLRETURN.SQL_ERROR (h, none) else
  let p := h.envs.length
  let env : env_t := {}
  let env := { env with refcount := INC_REF env.refcount }
  let h := h.push_env env
  if ¬ (env.refcount > 0) then Outcome.abort (h, none) else
  let env := { env with err := CLR_ERROR env.err }
  Outcome.ret SQLRETURN.SQL_SUCCESS (h.set_env p (some env), some p)

/-- The function `doSQLFreeEnv`. -/
def doSQLFreeEnv (h : Heap) (EnvironmentHandle : Option Nat) : Outcome Heap :=
  match EnvironmentHandle with
  | none => Outcome.ret SQLRETURN.SQL_ERROR h
  | some p =>
    match h.env p with
    | none => Outcome.fault
    | some env =>
      if ¬ (GET_REF env.refcount = 1) then Outcome.abort h else
      if env.destroying then Outcome.abort h else
      let env := { env with destroying := true }
      let h := h.set_env p (some env)
      if ¬ (env.destroying = true) then Outcome.abort h else
      let env := { env with refcount := DEC_REF env.refcount }
      let h := h.set_env p (some env)
      if ¬ (env.refcount = 0) then Outcome.abort h else
      Outcome.ret SQLRETURN.SQL_SUCCESS (h.set_env p none)

/-- The function `doSQLAllocConnect`. -/
def doSQLAllocConnect (h : Heap) (EnvironmentHandle : Option Nat) (calloc_ok : Bool)
    (msg : Option String) : Outcome (Heap × Option Nat) :=
  match EnvironmentHandle with
  | none => Outcome.ret SQLRETURN.SQL_ERROR (h, none)
  | some e =>
    match h.env e with
    | none => Outcome.fault
    | some env =>
      let env := { env with refcount := INC_REF env.refcount }
      let h := h.set_env e (some env)
      if ¬ (env.refcount > 1) then Outcome.abort (h, none) else
      if calloc_ok then
        let c := h.conns.length
        let conn : conn_t := { env := some e }
        let conn := { conn with refcount := INC_REF conn.refcount }
        let h := h.push_conn conn
        if ¬ (conn.refcount > 0) then Outcome.abort (h, some c) else
        Outcome.ret SQLRETURN.SQL_SUCCESS (h, some c)
      else
        let env := { env with err := SET_ERROR env.err "HY000" TsdbCode.TSDB_CODE_ODBC_OOM msg }
        let env := { env with refcount := DEC_REF env.refcount }
        let h := h.set_env e (some env)
        if ¬ (env.refcount > 0) then Outcome.abort (h, none) else
        Outcome.ret SQLRETURN.SQL_ERROR (h, none)

/-- The function `doSQLFreeConnect`. -/
def doSQLFreeConnect (h : Heap) (ConnectionHandle : Option Nat) : Outcome Heap :=
  match ConnectionHandle with
  | none => Outcome.ret SQLRETURN.SQL_ERROR h
  | some c =>
    match h.conn c with
    | none => Outcome.fault
    | some conn =>
      if ¬ (GET_REF conn.refcount = 1) then Outcome.abort h else
      match conn.env with
      | none => Outcome.abort h
      | some e =>
        let h := match conn.taos with
          | some t => h.call (EngineCall.taos_close t)
          | none => h
        let conn := { conn with taos := none }
        let h := h.set_conn c (some conn)
        match h.env e with
        | none => Outcome.fault
        | some env =>
          let env := { env with refcount := DEC_REF env.refcount }
          let h := h.set_env e (some env)
          if ¬ (env.refcount > 0) then Outcome.abort h else
          let conn := { conn with refcount := DEC_REF conn.refcount }
          let h := h.set_conn c (some conn)
          if ¬ (conn.refcount = 0) then Outcome.abort h else
          Outcome.ret SQLRETURN.SQL_SUCCESS (h.set_conn c none)

/-- The C string at the start of `b`: the bytes before the first zero byte. -/
def c_str (b : Bytes) : Bytes := b.takeWhile (fun x => x != 0)

/-- The macro `SDUP(s, n)`: `strdup("")` for a null `s`, `strndup(s, n)` when
`s[n]` is not the terminator, `s` itself otherwise.  The inner value is the C
string obtained (`none` when the allocation fails); the outer `none` means
that `s[n]` lies outside the array of the caller. -/
def SDUP (s : Option Bytes) (n : Int) (alloc_ok : Bool) : Option (Option Bytes) :=
  match s with
  | none => some (if alloc_ok then some [] else none)
  | some b =>
    if n < 0 ∨ (b.length : Int) ≤ n then none
    else if b.getD n.toNat 0 ≠ 0 then
      some (if alloc_ok then some ((c_str b).take n.toNat) else none)
    else some (some (c_str b))

/-- The function `doSQLConnect`.  `alloc1`, `alloc2`, `alloc3` tell whether the
three `SDUP` allocations succeed, `taos` is the answer of `taos_connect` and
`terrno` the error code of the engine. -/
def doSQLConnect (h : Heap) (ConnectionHandle : Option Nat)
    (ServerName : Option Bytes) (NameLength1 : Int)
    (UserName : Option Bytes) (NameLength2 : Int)
    (Authentication : Option Bytes) (NameLength3 : Int)
    (alloc1 alloc2 alloc3 : Bool) (taos : Option Nat) (terrno : TsdbCode)
    (msg : Option String) : Outcome Heap :=
  match ConnectionHandle with
  | none => Outcome.ret SQLRETURN.SQL_ERROR h
  | some c =>
    match h.conn c with
    | none => Outcome.fault
    | some conn =>
      if conn.taos.isSome then
        let conn := { conn with
          err := SET_ERROR conn.err "HY000" TsdbCode.TSDB_CODE_TSC_APP_ERROR msg }
        Outcome.ret SQLRETURN.SQL_ERROR (h.set_conn c (some conn))
      else
        match SDUP ServerName NameLength1 alloc1, SDUP UserName NameLength2 alloc2,
            SDUP Authentication NameLength3 alloc3 with
        | some serverName, some userName, some auth =>
          if (ServerName.isSome && serverName.isNone) || (UserName.isSome && userName.isNone)
              || (Authentication.isSome && auth.isNone) then
            let conn := { conn with
              err := SET_ERROR conn.err "HY000" TsdbCode.TSDB_CODE_ODBC_OOM msg }
            Outcome.ret SQLRETURN.SQL_ERROR (h.set_conn c (some conn))
          else
            let h := h.call (EngineCall.taos_connect "localhost" userName auth)
            match taos with
            | some t =>
              Outcome.ret SQLRETURN.SQL_SUCCESS (h.set_conn c (some { conn with taos := some t }))
            | none =>
              let conn := { conn with err := SET_ERROR conn.err "HY000" terrno msg }
              Outcome.ret SQLRETURN.SQL_ERROR (h.set_conn c (some conn))
        | _, _, _ => Outcome.fault

/-- The function `doSQLDisconnect`. -/
def doSQLDisconnect (h : Heap) (ConnectionHandle : Option Nat) : Outcome Heap :=
  match ConnectionHandle with
  | none => Outcome.ret SQLRETURN.SQL_ERROR h
  | some c =>
    match h.conn c with
    | none => Outcome.fault
    | some conn =>
      match conn.taos with
      | some t =>
        Outcome.ret SQLRETURN.SQL_SUCCESS
          ((h.call (EngineCall.taos_close t)).set_conn c (some { conn with taos := none }))
      | none => Outcome.ret SQLRETURN.SQL_SUCCESS h

/-- The function `doSQLAllocStmt`. -/
def doSQLAllocStmt (h : Heap) (ConnectionHandle : Option Nat) (calloc_ok : Bool)
    (msg : Option String) : Outcome (Heap × Option Nat) :=
  match ConnectionHandle with
  | none => Outcome.ret SQLRETURN.SQL_ERROR (h, none)
  | some c =>
    match h.conn c with
    | none => Outcome.fault
    | some conn =>
      let conn := { conn with refcount := INC_REF conn.refcount }
      let h := h.set_conn c (some conn)
      if ¬ (conn.refcount > 1) then Outcome.abort (h, none) else
      if calloc_ok then
        let s := h.sqls.length
        let sql : sql_t := { conn := some c }
        let sql := { sql with refcount := INC_REF sql.refcount }
        let h := h.push_sql sql
        if ¬ (sql.refcount > 0) then Outcome.abort (h, none) else
        Outcome.ret SQLRETURN.SQL_SUCCESS (h, some s)
      else
        let conn := { conn with err := SET_ERROR conn.err "HY000" TsdbCode.TSDB_CODE_ODBC_OOM msg }
        let conn := { conn with refcount := DEC_REF conn.refcount }
        let h := h.set_conn c (some conn)
        if ¬ (conn.refcount > 0) then Outcome.abort (h, none) else
        Outcome.ret SQLRETURN.SQL_ERROR (h, none)

/-- The option `SQL_CLOSE` of `SQLFreeStmt` (sql.h). -/
def SQL_CLOSE : Nat := 0

/-- The option `SQL_DROP` of `SQLFreeStmt` (sql.h). -/
def SQL_DROP : Nat := 1

/-- The teardown shared by `doSQLFreeStmt`, `doSQLExecDirect` and
`doSQLPrepare`: release the prepared handle and the parameter arrays. -/
def release_stmt_params (h : Heap) (sql : sql_t) : Heap × sql_t :=
  let h := match sql.stmt with
    | some st => h.call (EngineCall.taos_stmt_close st)
    | none => h
  (h, { sql with stmt := none, binds := none, params := none, n_params := 0 })

/-- The function `doSQLFreeStmt`; `Option_` is its argument `Option`. -/
def doSQLFreeStmt (h : Heap) (StatementHandle : Option Nat) (Option_ : Nat)
    (msg : Option String) : Outcome Heap :=
  match StatementHandle with
  | none => Outcome.ret SQLRETURN.SQL_ERROR h
  | some s =>
    if Option_ = SQL_CLOSE then Outcome.ret SQLRETURN.SQL_SUCCESS h else
    match h.sql s with
    | none => Outcome.fault
    | some sql =>
      if Option_ ≠ SQL_DROP then
        let sql := { sql with
          err := SET_ERROR sql.err "HY000" TsdbCode.TSDB_CODE_COM_OPS_NOT_SUPPORT msg }
        Outcome.ret SQLRETURN.SQL_ERROR (h.set_sql s (some sql))
      else
      if ¬ (GET_REF sql.refcount = 1) then Outcome.abort h else
      let h := match sql.rs with
        | some rs => h.call (EngineCall.taos_free_result rs.id)
        | none => h
      let sql := { sql with rs := none }
      let (h, sql) := release_stmt_params h sql
      let h := h.set_sql s (some sql)
      match sql.conn with
      | none => Outcome.fault
      | some c =>
        match h.conn c with
        | none => Outcome.fault
        | some conn =>
          let conn := { conn with refcount := DEC_REF conn.refcount }
          let h := h.set_conn c (some conn)
          if ¬ (conn.refcount > 0) then Outcome.abort h else
          let sql := { sql with refcount := DEC_REF sql.refcount }
          let h := h.set_sql s (some sql)
          if ¬ (sql.refcount = 0) then Outcome.abort h else
          Outcome.ret SQLRETURN.SQL_SUCCESS (h.set_sql s none)

/-! ## Statement execution and fetch -/

/-- The connection checks that open every statement operation: the statement
must point to a connection and the connection must hold a native handle.  The
value is the native handle, or the statement with the error recorded. -/
def check_connection (h : Heap) (sql : sql_t) (msg : Option String) :
    Option (Except sql_t Nat) :=
  match sql.conn with
  | none =>
    some (Except.error { sql with
      err := SET_ERROR sql.err "HY000" TsdbCode.TSDB_CODE_TSC_INVALID_CONNECTION msg })
  | some c =>
    match h.conn c with
    | none => none
    | some conn =>
      match conn.taos with
      | none =>
        some (Except.error { sql with
          err := SET_ERROR sql.err "HY000" TsdbCode.TSDB_CODE_TSC_INVALID_CONNECTION msg })
      | some t => some (Except.ok t)

/-- The release of the previous result set and of the row cursor that opens
`doSQLExecDirect`, `doSQLPrepare` and `doSQLExecute`. -/
def release_result (h : Heap) (sql : sql_t) : Heap × sql_t :=
  match sql.rs with
  | some rs => (h.call (EngineCall.taos_free_result rs.id), { sql with rs := none, row := none })
  | none => (h, sql)

/-- The macro `CHK_RS`: the status and the statement after the check of the
result set just obtained. -/
def CHK_RS (sql : sql_t) (terrno : TsdbCode) (msg : Option String) : SQLRETURN × sql_t :=
  let e := match sql.rs with
    | some rs => rs.errno
    | none => terrno
  if e ≠ TsdbCode.TSDB_CODE_SUCCESS then
    (SQLRETURN.SQL_ERROR, { sql with err := SET_ERROR sql.err "HY000" e msg })
  else (SQLRETURN.SQL_SUCCESS, sql)

/-- The function `doSQLExecDirect`.  `alloc_ok` tells whether the copy of the
statement text can be allocated, `rs` is the answer of `taos_query`. -/
def doSQLExecDirect (h : Heap) (StatementHandle : Option Nat)
    (StatementText : Option Bytes) (TextLength : Int) (alloc_ok : Bool)
    (rs : Option TAOS_RES) (terrno : TsdbCode) (msg : Option String) : Outcome Heap :=
  match StatementHandle with
  | none => Outcome.ret SQLRETURN.SQL_ERROR h
  | some s =>
    match h.sql s with
    | none => Outcome.fault
    | some sql =>
      match check_connection h sql msg with
      | none => Outcome.fault
      | some (Except.error sql) => Outcome.ret SQLRETURN.SQL_ERROR (h.set_sql s (some sql))
      | some (Except.ok taos) =>
        let (h, sql) := release_result h sql
        let (h, sql) := release_stmt_params h sql
        match SDUP StatementText TextLength alloc_ok with
        | none => Outcome.fault
        | some none =>
          let sql := { sql with
            err := SET_ERROR sql.err "HY000" TsdbCode.TSDB_CODE_ODBC_OOM msg }
          Outcome.ret SQLRETURN.SQL_ERROR (h.set_sql s (some sql))
        | some (some stxt) =>
          let h := h.call (EngineCall.taos_query taos (some stxt))
          let sql := { sql with rs := rs }
          let (r, sql) := CHK_RS sql terrno msg
          Outcome.ret r (h.set_sql s (some sql))

/-- The function `doSQLPrepare`.  `stmt` is the answer of `taos_stmt_init`
and `prepared` the code returned by `taos_stmt_prepare`. -/
def doSQLPrepare (h : Heap) (StatementHandle : Option Nat)
    (StatementText : Option Bytes) (TextLength : Int)
    (stmt : Option Nat) (terrno : TsdbCode) (prepared : TsdbCode)
    (msg : Option String) : Outcome Heap :=
  match StatementHandle with
  | none => Outcome.ret SQLRETURN.SQL_ERROR h
  | some s =>
    match h.sql s with
    | none => Outcome.fault
    | some sql =>
      match check_connection h sql msg with
      | none => Outcome.fault
      | some (Except.error sql) => Outcome.ret SQLRETURN.SQL_ERROR (h.set_sql s (some sql))
      | some (Except.ok taos) =>
        let (h, sql) := release_result h sql
        let (h, sql) := release_stmt_params h sql
        let h := h.call (EngineCall.taos_stmt_init taos)
        match stmt with
        | none =>
          let sql := { sql with err := SET_ERROR sql.err "HY000" terrno msg }
          Outcome.ret SQLRETURN.SQL_ERROR (h.set_sql s (some sql))
        | some st =>
          let h := h.call (EngineCall.taos_stmt_prepare st StatementText TextLength)
          if prepared ≠ TsdbCode.TSDB_CODE_SUCCESS then
            let sql := { sql with err := SET_ERROR sql.err "HY000" prepared msg }
            let h := h.call (EngineCall.taos_stmt_close st)
            Outcome.ret SQLRETURN.SQL_ERROR (h.set_sql s (some { sql with stmt := none }))
          else
            Outcome.ret SQLRETURN.SQL_SUCCESS (h.set_sql s (some { sql with stmt := some st }))

/-- The function `doSQLFetch`: `taos_fetch_row` delivers the next row of the
result set, or null when the rows are exhausted. -/
def doSQLFetch (h : Heap) (StatementHandle : Option Nat) (msg : Option String) :
    Outcome Heap :=
  match StatementHandle with
  | none => Outcome.ret SQLRETURN.SQL_ERROR h
  | some s =>
    match h.sql s with
    | none => Outcome.fault
    | some sql =>
      match check_connection h sql msg with
      | none => Outcome.fault
      | some (Except.error sql) => Outcome.ret SQLRETURN.SQL_ERROR (h.set_sql s (some sql))
      | some (Except.ok _) =>
        match sql.rs with
        | none =>
          let sql := { sql with
            err := SET_ERROR sql.err "HY000" TsdbCode.TSDB_CODE_TSC_QUERY_CACHE_ERASED msg }
          Outcome.ret SQLRETURN.SQL_ERROR (h.set_sql s (some sql))
        | some rs =>
          let h := h.call (EngineCall.taos_fetch_row rs.id)
          let sql := { sql with row := rs.rows.head?, rs := some { rs with rows := rs.rows.tail } }
          Outcome.ret (if sql.row.isSome then SQLRETURN.SQL_SUCCESS else SQLRETURN.SQL_NO_DATA)
            (h.set_sql s (some sql))

/-! ## Bytes, integers and text -/

/-- The `w` bytes of the unsigned value `x`, least significant first (the
layout of the x86-64 targets of the driver). -/
def le_bytes : Nat → Nat → Bytes
  | 0, _ => []
  | w + 1, x => x % 256 :: le_bytes w (x / 256)

/-- The unsigned value held by a little-endian run of bytes. -/
def le_val : Bytes → Nat
  | [] => 0
  | b :: bs => b % 256 + 256 * le_val bs

/-- The representation of `v` modulo `2 ^ (8 w)`. -/
def to_unsigned (w : Nat) (v : Int) : Nat := (v % (2 : Int) ^ (8 * w)).toNat

/-- The two's complement reading of a `w`-byte unsigned value. -/
def to_signed (w : Nat) (u : Nat) : Int :=
  let m := u % 2 ^ (8 * w)
  if m < 2 ^ (8 * w - 1) then (m : Int) else (m : Int) - (2 : Int) ^ (8 * w)

/-- The C conversion of an integer to the signed type of `w` bytes. -/
def int_cast (w : Nat) (v : Int) : Int := to_signed w (to_unsigned w v)

/-- The object representation of a signed integer of `w` bytes. -/
def int_bytes (w : Nat) (v : Int) : Bytes := le_bytes w (to_unsigned w v)

/-- The object representation of an unsigned integer of `w` bytes. -/
def uint_bytes (w : Nat) (v : Nat) : Bytes := le_bytes w (v % 2 ^ (8 * w))

/-- The load `*(intN_t*)row` of a signed integer of `w` bytes. -/
def read_int (w : Nat) (b : Bytes) : Int := to_signed w (le_val (b.take w))

/-- The conversion of a `SQLLEN` or `int` to `size_t`. -/
def to_size_t (v : Int) : Nat := (v % (2 : Int) ^ 64).toNat

/-- The decimal digits of `n`, most significant first, in front of `acc`;
`fuel` bounds the number of digits. -/
def dec_digits : Nat → Nat → Bytes → Bytes
  | 0, _, acc => acc
  | fuel + 1, n, acc =>
    if n < 10 then (48 + n) :: acc else dec_digits fuel (n / 10) ((48 + n % 10) :: acc)

/-- The text of `printf("%lu")`; 20 digits hold every 64-bit value. -/
def fmt_u (n : Nat) : Bytes := dec_digits 20 n []

/-- The text of `printf("%d")` and `printf("%ld")`. -/
def fmt_d (v : Int) : Bytes := if v < 0 then 45 :: fmt_u v.natAbs else fmt_u v.toNat

/-- The text of `printf("%03d")`. -/
def fmt_03d (v : Int) : Bytes :=
  if v < 0 then
    45 :: (List.replicate (2 - (fmt_u v.natAbs).length) 48 ++ fmt_u v.natAbs)
  else List.replicate (3 - (fmt_u v.toNat).length) 48 ++ fmt_u v.toNat

/-- The memory `dst` after `data` has been written at its start. -/
def mem_write (dst data : Bytes) : Bytes := data ++ dst.drop data.length

/-- The bytes that `strncpy(dst, src, k)` writes for the C string `src`: its
first `k` characters, padded with zero bytes up to `k`. -/
def strncpy_data (src : Bytes) (k : Nat) : Bytes :=
  src.take k ++ List.replicate (k - src.length) 0

/-- The bytes that `snprintf(dst, size, ...)` writes for the text `text`. -/
def snprintf_data (text : Bytes) (size : Nat) : Bytes :=
  if size = 0 then [] else text.take (size - 1) ++ [0]

/-! ## Type tags -/

/-- Modelled from the spec: the wire type tag `TSDB_DATA_TYPE_BOOL` of `taos.h`
(not under src/). -/
def TSDB_DATA_TYPE_BOOL : Nat := 1
/-- Modelled from the spec: the wire type tag of 8-bit integers (`taos.h`). -/
def TSDB_DATA_TYPE_TINYINT : Nat := 2
/-- Modelled from the spec: the wire type tag of 16-bit integers (`taos.h`). -/
def TSDB_DATA_TYPE_SMALLINT : Nat := 3
/-- Modelled from the spec: the wire type tag of 32-bit integers (`taos.h`). -/
def TSDB_DATA_TYPE_INT : Nat := 4
/-- Modelled from the spec: the wire type tag of 64-bit integers (`taos.h`). -/
def TSDB_DATA_TYPE_BIGINT : Nat := 5
/-- Modelled from the spec: the wire type tag of 32-bit floats (`taos.h`). -/
def TSDB_DATA_TYPE_FLOAT : Nat := 6
/-- Modelled from the spec: the wire type tag of 64-bit floats (`taos.h`). -/
def TSDB_DATA_TYPE_DOUBLE : Nat := 7
/-- Modelled from the spec: the wire type tag of fixed binary (`taos.h`). -/
def TSDB_DATA_TYPE_BINARY : Nat := 8
/-- Modelled from the spec: the wire type tag of timestamps (`taos.h`). -/
def TSDB_DATA_TYPE_TIMESTAMP : Nat := 9
/-- Modelled from the spec: the wire type tag of wide text (`taos.h`). -/
def TSDB_DATA_TYPE_NCHAR : Nat := 10

/-- The target type `SQL_C_CHAR` (sql.h / sqlext.h). -/
def SQL_C_CHAR : Int := 1
/-- The target type `SQL_C_LONG`. -/
def SQL_C_LONG : Int := 4
/-- The target type `SQL_C_SHORT`. -/
def SQL_C_SHORT : Int := 5
/-- The target type `SQL_C_FLOAT`. -/
def SQL_C_FLOAT : Int := 7
/-- The target type `SQL_C_DOUBLE`. -/
def SQL_C_DOUBLE : Int := 8
/-- The target type `SQL_C_TIMESTAMP`. -/
def SQL_C_TIMESTAMP : Int := 11
/-- The target type `SQL_C_BINARY`. -/
def SQL_C_BINARY : Int := -2
/-- The target type `SQL_C_TINYINT`. -/
def SQL_C_TINYINT : Int := -6
/-- The target type `SQL_C_BIT`. -/
def SQL_C_BIT : Int := -7
/-- The target type `SQL_C_SBIGINT`. -/
def SQL_C_SBIGINT : Int := -25
/-- The indicator value `SQL_NULL_DATA`. -/
def SQL_NULL_DATA : Int := -1

/-! ## libc -/

/-- The struct `tm` of `time.h`, the fields the driver sets or reads. -/
structure tm where
  tm_sec : Int := 0
  tm_min : Int := 0
  tm_hour : Int := 0
  tm_mday : Int := 0
  tm_mon : Int := 0
  tm_year : Int := 0
  deriving DecidableEq, Repr

/-- The struct `TIMESTAMP_STRUCT` of sqltypes.h: a signed 16-bit year, five
unsigned 16-bit fields and an unsigned 32-bit fraction. -/
structure TIMESTAMP_STRUCT where
  year : Int := 0
  month : Nat := 0
  day : Nat := 0
  hour : Nat := 0
  minute : Nat := 0
  second : Nat := 0
  fraction : Nat := 0
  deriving DecidableEq, Repr

/-- The 16 bytes of a `TIMESTAMP_STRUCT`. -/
def TIMESTAMP_STRUCT.to_bytes (ts : TIMESTAMP_STRUCT) : Bytes :=
  int_bytes 2 ts.year ++ uint_bytes 2 ts.month ++ uint_bytes 2 ts.day ++ uint_bytes 2 ts.hour
    ++ uint_bytes 2 ts.minute ++ uint_bytes 2 ts.second ++ uint_bytes 4 ts.fraction

/-- The services of libc and of the floating-point unit that the conversions
call, over a type `D` of `double` values and a type `F` of `float` values. -/
structure LibC (D F : Type) where
  /-- The load `*(float*)row`. -/
  f4_load : Bytes → F
  /-- The 4 bytes of a `float`. -/
  f4_store : F → Bytes
  /-- The load `*(double*)row`. -/
  f8_load : Bytes → D
  /-- The 8 bytes of a `double`. -/
  f8_store : D → Bytes
  /-- The conversion of an integer to `float`. -/
  f4_of_int : Int → F
  /-- The conversion of an integer to `double`. -/
  f8_of_int : Int → D
  /-- The conversion of a `float` to `double`. -/
  f8_of_f4 : F → D
  /-- The conversion of a `double` to `float`. -/
  f4_of_f8 : D → F
  /-- The conversion of a `double` to the signed integer type of `w` bytes
  (whatever the platform yields when the value is out of range). -/
  f8_to_int : Nat → D → Int
  /-- The comparison `<` of two `double` values. -/
  f8_lt : D → D → Bool
  /-- The text of `printf("%g")`. -/
  printf_g : D → Bytes
  /-- The text of `printf("%.6f")`. -/
  printf_f6 : D → Bytes
  /-- The call `sscanf(str, "%lf%n", &f8, &bytes)`: the value and the number
  of bytes consumed when a number is matched, `none` otherwise. -/
  sscanf_lf : Bytes → Option (D × Int)
  /-- The call `localtime_r`. -/
  localtime_r : Int → tm
  /-- The call `mktime`. -/
  mktime : tm → Int
  /-- The text of `strftime` with the format `%Y-%m-%d %H:%M:%S`. -/
  strftime : tm → Bytes

/-! ## The target of a conversion -/

/-- The struct `c_target_s`: column, target type, target buffer (`none` for a
null pointer, otherwise its contents), buffer length and indicator slot
(`none` for a null pointer, otherwise its contents). -/
structure c_target_t where
  col : Nat := 0
  ct : Int := 0
  ptr : Option Bytes := none
  len : Int := 0
  soi : Option Int := none
  deriving DecidableEq, Repr

/-- The statement `if (target->ptr) memcpy(target->ptr, &v, sizeof(v))`. -/
def c_target_t.memcpy (t : c_target_t) (data : Bytes) : c_target_t :=
  match t.ptr with
  | none => t
  | some p => { t with ptr := some (mem_write p data) }

/-- The statement `*target->soi = v`; `none` when the indicator pointer is
null. -/
def c_target_t.set_soi (t : c_target_t) (v : Int) : Option c_target_t :=
  match t.soi with
  | none => none
  | some _ => some { t with soi := some v }

/-- The statement `if (target->ptr) strncpy(target->ptr, buf, cnt)` with the
count taken as a `size_t`; `none` when the count exceeds every object (a
negative length converted to `size_t`). -/
def c_target_t.strncpy (t : c_target_t) (buf : Bytes) (cnt : Nat) : Option c_target_t :=
  match t.ptr with
  | none => some t
  | some p =>
    if 2 ^ 63 ≤ cnt then none
    else some { t with ptr := some (mem_write p (strncpy_data buf cnt)) }

/-- The statement `if (target->ptr) memcpy(target->ptr, src, cnt)` with the
count taken as a `size_t`; `none` when the count exceeds every object. -/
def c_target_t.memcpy_n (t : c_target_t) (src : Bytes) (cnt : Nat) : Option c_target_t :=
  match t.ptr with
  | none => some t
  | some p =>
    if 2 ^ 63 ≤ cnt then none
    else some { t with ptr := some (mem_write p (src.take cnt)) }

/-- The result of a conversion: status, statement (its error context) and
target after the call. -/
abbrev Conv := Outcome (sql_t × c_target_t)

/-- Record an error on the statement and return `SQL_SUCCESS_WITH_INFO`. -/
def conv_info (sql : sql_t) (target : c_target_t) (sqlstate : String) (eno : TsdbCode)
    (msg : Option String) : Conv :=
  Outcome.ret SQLRETURN.SQL_SUCCESS_WITH_INFO
    ({ sql with err := SET_ERROR sql.err sqlstate eno msg }, target)

/-- The body shared by the conversions between fixed-width integers:
`intN_t v = x; if (target->ptr) memcpy(target->ptr, &v, sizeof(v));
return SQL_SUCCESS;` for the signed type of `w` bytes. -/
def store_int (w : Nat) (sql : sql_t) (target : c_target_t) (x : Int) : Conv :=
  Outcome.ret SQLRETURN.SQL_SUCCESS (sql, target.memcpy (int_bytes w (int_cast w x)))

/-- The body shared by the conversions of an integer to a floating target. -/
def store_bytes (sql : sql_t) (target : c_target_t) (data : Bytes) : Conv :=
  Outcome.ret SQLRETURN.SQL_SUCCESS (sql, target.memcpy data)

/-- The body shared by the `..._to_c_char` conversions of numbers: `text` is
what `snprintf(buf, sizeof(buf), ...)` formats into the 64-byte scratch
buffer. -/
def text_to_c_char (sql : sql_t) (target : c_target_t) (text : Bytes)
    (msg : Option String) : Conv :=
  let n : Int := text.length
  if ¬ (n < 64) then Outcome.abort (sql, target) else
  match target.set_soi n with
  | none => Outcome.fault
  | some target =>
    match target.strncpy text (to_size_t (if n ≥ target.len then target.len else n + 1)) with
    | none => Outcome.fault
    | some target =>
      if n ≤ target.len then Outcome.ret SQLRETURN.SQL_SUCCESS (sql, target)
      else conv_info sql target "22003" TsdbCode.TSDB_CODE_ODBC_CONV_UNDEF msg

/-- The body shared by the `..._to_c_binary` conversions of numbers. -/
def text_to_c_binary (sql : sql_t) (target : c_target_t) (text : Bytes)
    (msg : Option String) : Conv :=
  let n : Int := text.length
  if ¬ (n < 64) then Outcome.abort (sql, target) else
  match target.set_soi n with
  | none => Outcome.fault
  | some target =>
    match target.strncpy text (to_size_t (if n > target.len then target.len else n)) with
    | none => Outcome.fault
    | some target =>
      if n ≤ target.len then Outcome.ret SQLRETURN.SQL_SUCCESS (sql, target)
      else conv_info sql target "22003" TsdbCode.TSDB_CODE_ODBC_CONV_UNDEF msg

/-! ## Conversions from `TSDB_DATA_TYPE_XXX` to `SQL_C_XXX` -/

section conversions

variable {D F : Type} (L : LibC D F)

/-- The function `conv_tsdb_bool_to_c_bit`. -/
def conv_tsdb_bool_to_c_bit (sql : sql_t) (target : c_target_t) (_field : TAOS_FIELD)
    (b : Int) : Conv := store_int 1 sql target b

/-- The function `conv_tsdb_bool_to_c_tinyint`. -/
def conv_tsdb_bool_to_c_tinyint (sql : sql_t) (target : c_target_t) (_field : TAOS_FIELD)
    (b : Int) : Conv := store_int 1 sql target b

/-- The function `conv_tsdb_bool_to_c_short`. -/
def conv_tsdb_bool_to_c_short (sql : sql_t) (target : c_target_t) (_field : TAOS_FIELD)
    (b : Int) : Conv := store_int 2 sql target b

/-- The function `conv_tsdb_bool_to_c_long`. -/
def conv_tsdb_bool_to_c_long (sql : sql_t) (target : c_target_t) (_field : TAOS_FIELD)
    (b : Int) : Conv := store_int 4 sql target b

/-- The function `conv_tsdb_bool_to_c_sbigint`. -/
def conv_tsdb_bool_to_c_sbigint (sql : sql_t) (target : c_target_t) (_field : TAOS_FIELD)
    (b : Int) : Conv := store_int 8 sql target b

/-- The function `conv_tsdb_bool_to_c_float`. -/
def conv_tsdb_bool_to_c_float (sql : sql_t) (target : c_target_t) (_field : TAOS_FIELD)
    (b : Int) : Conv := store_bytes sql target (L.f4_store (L.f4_of_int b))

/-- The function `conv_tsdb_bool_to_c_double`. -/
def conv_tsdb_bool_to_c_double (sql : sql_t) (target : c_target_t) (_field : TAOS_FIELD)
    (b : Int) : Conv := store_bytes sql target (L.f8_store (L.f8_of_int b))

/-- The function `conv_tsdb_bool_to_c_char`. -/
def conv_tsdb_bool_to_c_char (sql : sql_t) (target : c_target_t) (_field : TAOS_FIELD)
    (b : Int) : Conv :=
  if ¬ (target.len > 0) then Outcome.abort (sql, target) else
  match target.set_soi 1 with
  | none => Outcome.fault
  | some target =>
    let c := to_unsigned 1 (48 + b)
    Outcome.ret SQLRETURN.SQL_SUCCESS
      (sql, target.memcpy (if target.len > 1 then [c, 0] else [c]))

/-- The function `conv_tsdb_bool_to_c_binary`. -/
def conv_tsdb_bool_to_c_binary (sql : sql_t) (target : c_target_t) (_field : TAOS_FIELD)
    (b : Int) : Conv :=
  if ¬ (target.len > 0) then Outcome.abort (sql, target) else
  match target.set_soi 1 with
  | none => Outcome.fault
  | some target =>
    match target.ptr with
    | none => Outcome.fault
    | some _ => Outcome.ret SQLRETURN.SQL_SUCCESS (sql, target.memcpy [to_unsigned 1 (48 + b)])

/-- The function `conv_tsdb_v1_to_c_tinyint`. -/
def conv_tsdb_v1_to_c_tinyint (sql : sql_t) (target : c_target_t) (_field : TAOS_FIELD)
    (v1 : Int) : Conv := store_int 1 sql target v1

/-- The function `conv_tsdb_v1_to_c_short`. -/
def conv_tsdb_v1_to_c_short (sql : sql_t) (target : c_target_t) (_field : TAOS_FIELD)
    (v1 : Int) : Conv := store_int 2 sql target v1

/-- The function `conv_tsdb_v1_to_c_long`. -/
def conv_tsdb_v1_to_c_long (sql : sql_t) (target : c_target_t) (_field : TAOS_FIELD)
    (v1 : Int) : Conv := store_int 4 sql target v1

/-- The function `conv_tsdb_v1_to_c_sbigint`. -/
def conv_tsdb_v1_to_c_sbigint (sql : sql_t) (target : c_target_t) (_field : TAOS_FIELD)
    (v1 : Int) : Conv := store_int 8 sql target v1

/-- The function `conv_tsdb_v1_to_c_float`. -/
def conv_tsdb_v1_to_c_float (sql : sql_t) (target : c_target_t) (_field : TAOS_FIELD)
    (v1 : Int) : Conv := store_bytes sql target (L.f4_store (L.f4_of_int v1))

/-- The function `conv_tsdb_v1_to_c_double`. -/
def conv_tsdb_v1_to_c_double (sql : sql_t) (target : c_target_t) (_field : TAOS_FIELD)
    (v1 : Int) : Conv := store_bytes sql target (L.f8_store (L.f8_of_int v1))

/-- The function `conv_tsdb_v1_to_c_char`. -/
def conv_tsdb_v1_to_c_char (sql : sql_t) (target : c_target_t) (_field : TAOS_FIELD)
    (v1 : Int) (msg : Option String) : Conv := text_to_c_char sql target (fmt_d v1) msg

/-- The function `conv_tsdb_v1_to_c_binary`. -/
def conv_tsdb_v1_to_c_binary (sql : sql_t) (target : c_target_t) (_field : TAOS_FIELD)
    (v1 : Int) (msg : Option String) : Conv := text_to_c_binary sql target (fmt_d v1) msg

/-- The function `conv_tsdb_v2_to_c_short`. -/
def conv_tsdb_v2_to_c_short (sql : sql_t) (target : c_target_t) (_field : TAOS_FIELD)
    (v2 : Int) : Conv := store_int 2 sql target v2

/-- The function `conv_tsdb_v2_to_c_long`. -/
def conv_tsdb_v2_to_c_long (sql : sql_t) (target : c_target_t) (_field : TAOS_FIELD)
    (v2 : Int) : Conv := store_int 4 sql target v2

/-- The function `conv_tsdb_v2_to_c_sbigint`. -/
def conv_tsdb_v2_to_c_sbigint (sql : sql_t) (target : c_target_t) (_field : TAOS_FIELD)
    (v2 : Int) : Conv := store_int 8 sql target v2

/-- The function `conv_tsdb_v2_to_c_float`. -/
def conv_tsdb_v2_to_c_float (sql : sql_t) (target : c_target_t) (_field : TAOS_FIELD)
    (v2 : Int) : Conv := store_bytes sql target (L.f4_store (L.f4_of_int v2))

/-- The function `conv_tsdb_v2_to_c_double`. -/
def conv_tsdb_v2_to_c_double (sql : sql_t) (target : c_target_t) (_field : TAOS_FIELD)
    (v2 : Int) : Conv := store_bytes sql target (L.f8_store (L.f8_of_int v2))

/-- The function `conv_tsdb_v2_to_c_char`. -/
def conv_tsdb_v2_to_c_char (sql : sql_t) (target : c_target_t) (_field : TAOS_FIELD)
    (v2 : Int) (msg : Option String) : Conv := text_to_c_char sql target (fmt_d v2) msg

/-- The function `conv_tsdb_v2_to_c_binary`. -/
def conv_tsdb_v2_to_c_binary (sql : sql_t) (target : c_target_t) (_field : TAOS_FIELD)
    (v2 : Int) (msg : Option String) : Conv := text_to_c_binary sql target (fmt_d v2) msg

/-- The function `conv_tsdb_v4_to_c_long`. -/
def conv_tsdb_v4_to_c_long (sql : sql_t) (target : c_target_t) (_field : TAOS_FIELD)
    (v4 : Int) : Conv := store_int 4 sql target v4

/-- The function `conv_tsdb_v4_to_c_sbigint`. -/
def conv_tsdb_v4_to_c_sbigint (sql : sql_t) (target : c_target_t) (_field : TAOS_FIELD)
    (v4 : Int) : Conv := store_int 8 sql target v4

/-- The function `conv_tsdb_v4_to_c_float`. -/
def conv_tsdb_v4_to_c_float (sql : sql_t) (target : c_target_t) (_field : TAOS_FIELD)
    (v4 : Int) : Conv := store_bytes sql target (L.f4_store (L.f4_of_int v4))

/-- The function `conv_tsdb_v4_to_c_double`. -/
def conv_tsdb_v4_to_c_double (sql : sql_t) (target : c_target_t) (_field : TAOS_FIELD)
    (v4 : Int) : Conv := store_bytes sql target (L.f8_store (L.f8_of_int v4))

/-- The function `conv_tsdb_v4_to_c_char`. -/
def conv_tsdb_v4_to_c_char (sql : sql_t) (target : c_target_t) (_field : TAOS_FIELD)
    (v4 : Int) (msg : Option String) : Conv := text_to_c_char sql target (fmt_d v4) msg

/-- The function `conv_tsdb_v4_to_c_binary`. -/
def conv_tsdb_v4_to_c_binary (sql : sql_t) (target : c_target_t) (_field : TAOS_FIELD)
    (v4 : Int) (msg : Option String) : Conv := text_to_c_binary sql target (fmt_d v4) msg

/-- The function `conv_tsdb_v8_to_c_sbigint`. -/
def conv_tsdb_v8_to_c_sbigint (sql : sql_t) (target : c_target_t) (_field : TAOS_FIELD)
    (v8 : Int) : Conv := store_int 8 sql target v8

/-- The function `conv_tsdb_v8_to_c_float`. -/
def conv_tsdb_v8_to_c_float (sql : sql_t) (target : c_target_t) (_field : TAOS_FIELD)
    (v8 : Int) : Conv := store_bytes sql target (L.f4_store (L.f4_of_int v8))

/-- The function `conv_tsdb_v8_to_c_double`. -/
def conv_tsdb_v8_to_c_double (sql : sql_t) (target : c_target_t) (_field : TAOS_FIELD)
    (v8 : Int) : Conv := store_bytes sql target (L.f8_store (L.f8_of_int v8))

/-- The function `conv_tsdb_v8_to_c_char`. -/
def conv_tsdb_v8_to_c_char (sql : sql_t) (target : c_target_t) (_field : TAOS_FIELD)
    (v8 : Int) (msg : Option String) : Conv := text_to_c_char sql target (fmt_d v8) msg

/-- The function `conv_tsdb_v8_to_c_binary`. -/
def conv_tsdb_v8_to_c_binary (sql : sql_t) (target : c_target_t) (_field : TAOS_FIELD)
    (v8 : Int) (msg : Option String) : Conv := text_to_c_binary sql target (fmt_d v8) msg

/-- The function `conv_tsdb_f4_to_c_float`. -/
def conv_tsdb_f4_to_c_float (sql : sql_t) (target : c_target_t) (_field : TAOS_FIELD)
    (f4 : F) : Conv := store_bytes sql target (L.f4_store f4)

/-- The function `conv_tsdb_f4_to_c_double`. -/
def conv_tsdb_f4_to_c_double (sql : sql_t) (target : c_target_t) (_field : TAOS_FIELD)
    (f4 : F) : Conv := store_bytes sql target (L.f8_store (L.f8_of_f4 f4))

/-- The function `conv_tsdb_f4_to_c_char`. -/
def conv_tsdb_f4_to_c_char (sql : sql_t) (target : c_target_t) (_field : TAOS_FIELD)
    (f4 : F) (msg : Option String) : Conv :=
  text_to_c_char sql target (L.printf_g (L.f8_of_f4 f4)) msg

/-- The function `conv_tsdb_f4_to_c_binary`. -/
def conv_tsdb_f4_to_c_binary (sql : sql_t) (target : c_target_t) (_field : TAOS_FIELD)
    (f4 : F) (msg : Option String) : Conv :=
  text_to_c_binary sql target (L.printf_g (L.f8_of_f4 f4)) msg

/-- The function `conv_tsdb_f8_to_c_double`. -/
def conv_tsdb_f8_to_c_double (sql : sql_t) (target : c_target_t) (_field : TAOS_FIELD)
    (f8 : D) : Conv := store_bytes sql target (L.f8_store f8)

/-- The function `conv_tsdb_f8_to_c_char`. -/
def conv_tsdb_f8_to_c_char (sql : sql_t) (target : c_target_t) (_field : TAOS_FIELD)
    (f8 : D) (msg : Option String) : Conv := text_to_c_char sql target (L.printf_f6 f8) msg

/-- The function `conv_tsdb_f8_to_c_binary`. -/
def conv_tsdb_f8_to_c_binary (sql : sql_t) (target : c_target_t) (_field : TAOS_FIELD)
    (f8 : D) (msg : Option String) : Conv := text_to_c_binary sql target (L.printf_g f8) msg

end conversions

section conversions_ts_str

variable {D F : Type} (L : LibC D F)

/-- The struct `tm` that the timestamp conversions rebuild from the
`TIMESTAMP_STRUCT`. -/
def tm_of_ts (ts : TIMESTAMP_STRUCT) : tm :=
  { tm_sec := ts.second, tm_min := ts.minute, tm_hour := ts.hour, tm_mday := ts.day,
    tm_mon := (ts.month : Int) - 1, tm_year := ts.year - 1900 }

/-- The call `strftime(buf, sizeof(buf), "%Y-%m-%d %H:%M:%S", &tm)`: the
length returned (0 when the text does not fit the 64 bytes) and the text left
in `buf`. -/
def strftime_buf (text : Bytes) : Int × Bytes :=
  if text.length < 64 then (text.length, text) else (0, [])

/-- The function `conv_tsdb_ts_to_c_v8`. -/
def conv_tsdb_ts_to_c_v8 (sql : sql_t) (target : c_target_t) (_field : TAOS_FIELD)
    (ts : TIMESTAMP_STRUCT) : Conv :=
  let t := L.mktime (tm_of_ts ts)
  let v := int_cast 8 t
  let v := int_cast 8 (v * 1000)
  let v := int_cast 8 (v + ((ts.fraction % 1000 : Nat) : Int))
  Outcome.ret SQLRETURN.SQL_SUCCESS (sql, target.memcpy (int_bytes 8 v))

/-- The function `conv_tsdb_ts_to_c_str`. -/
def conv_tsdb_ts_to_c_str (sql : sql_t) (target : c_target_t) (_field : TAOS_FIELD)
    (ts : TIMESTAMP_STRUCT) (msg : Option String) : Conv :=
  let (n, buf) := strftime_buf (L.strftime (tm_of_ts ts))
  if ¬ (n < 64) then Outcome.abort (sql, target) else
  match target.set_soi n with
  | none => Outcome.fault
  | some target =>
    let text := buf ++ [46] ++ fmt_03d (to_signed 4 ts.fraction)
    let written : Option c_target_t :=
      match target.ptr with
      | none => some target
      | some p =>
        if target.len < 0 then none
        else some { target with ptr := some (mem_write p (snprintf_data text target.len.toNat)) }
    match written with
    | none => Outcome.fault
    | some target =>
      if n ≤ target.len then Outcome.ret SQLRETURN.SQL_SUCCESS (sql, target)
      else conv_info sql target "22003" TsdbCode.TSDB_CODE_ODBC_CONV_UNDEF msg

/-- The function `conv_tsdb_ts_to_c_bin`. -/
def conv_tsdb_ts_to_c_bin (sql : sql_t) (target : c_target_t) (_field : TAOS_FIELD)
    (ts : TIMESTAMP_STRUCT) (msg : Option String) : Conv :=
  let (n, buf) := strftime_buf (L.strftime (tm_of_ts ts))
  if ¬ (n < 64) then Outcome.abort (sql, target) else
  match target.set_soi n with
  | none => Outcome.fault
  | some target =>
    match target.memcpy_n buf (to_size_t (if n > target.len then target.len else n)) with
    | none => Outcome.fault
    | some target =>
      if n ≤ target.len then Outcome.ret SQLRETURN.SQL_SUCCESS (sql, target)
      else conv_info sql target "22003" TsdbCode.TSDB_CODE_ODBC_CONV_UNDEF msg

/-- The function `conv_tsdb_ts_to_c_ts`. -/
def conv_tsdb_ts_to_c_ts (sql : sql_t) (target : c_target_t) (_field : TAOS_FIELD)
    (ts : TIMESTAMP_STRUCT) : Conv :=
  Outcome.ret SQLRETURN.SQL_SUCCESS (sql, target.memcpy ts.to_bytes)

/-- The body shared by `conv_tsdb_bin_to_c_str` and `conv_tsdb_bin_to_c_bin`
(the two functions have the same text). -/
def bin_to_c (sql : sql_t) (target : c_target_t) (field : TAOS_FIELD) (bin : Bytes)
    (msg : Option String) : Conv :=
  let n := to_size_t field.bytes
  match target.set_soi (to_signed 8 n) with
  | none => Outcome.fault
  | some target =>
    match target.memcpy_n bin (if n > to_size_t target.len then to_size_t target.len else n) with
    | none => Outcome.fault
    | some target =>
      if n ≤ to_size_t target.len then Outcome.ret SQLRETURN.SQL_SUCCESS (sql, target)
      else conv_info sql target "01004" TsdbCode.TSDB_CODE_ODBC_CONV_UNDEF msg

/-- The function `conv_tsdb_bin_to_c_str`. -/
def conv_tsdb_bin_to_c_str (sql : sql_t) (target : c_target_t) (field : TAOS_FIELD)
    (bin : Bytes) (msg : Option String) : Conv := bin_to_c sql target field bin msg

/-- The function `conv_tsdb_bin_to_c_bin`. -/
def conv_tsdb_bin_to_c_bin (sql : sql_t) (target : c_target_t) (field : TAOS_FIELD)
    (bin : Bytes) (msg : Option String) : Conv := bin_to_c sql target field bin msg

/-- The value left in `f8` by `sscanf(str, "%lf%n", &f8, &bytes)`: the number
matched, or the initial 0. -/
def scanned_f8 (str : Bytes) : D :=
  match L.sscanf_lf str with
  | some (x, _) => x
  | none => L.f8_of_int 0

/-- The test `n!=1 || bytes!=strlen(str)` after the `sscanf`. -/
def scan_incomplete (str : Bytes) : Bool :=
  match L.sscanf_lf str with
  | some (_, bytes) => to_size_t bytes != str.length
  | none => true

/-- The function `conv_tsdb_str_to_c_bit`. -/
def conv_tsdb_str_to_c_bit (sql : sql_t) (target : c_target_t) (_field : TAOS_FIELD)
    (str : Bytes) (msg : Option String) : Conv :=
  let f8 := scanned_f8 L str
  let v := int_cast 1 (L.f8_to_int 1 f8)
  let target := target.memcpy (int_bytes 1 v)
  match target.set_soi 1 with
  | none => Outcome.fault
  | some target =>
    if scan_incomplete L str then
      conv_info sql target "22018" TsdbCode.TSDB_CODE_ODBC_CONV_UNDEF msg
    else if fmt_d v = str then
      if v = 0 ∨ v = 1 then Outcome.ret SQLRETURN.SQL_SUCCESS (sql, target)
      else conv_info sql target "22003" TsdbCode.TSDB_CODE_ODBC_CONV_UNDEF msg
    else if L.f8_lt (L.f8_of_int 0) f8 || L.f8_lt f8 (L.f8_of_int 2) then
      conv_info sql target "01S07" TsdbCode.TSDB_CODE_ODBC_CONV_TRUNC msg
    else if L.f8_lt f8 (L.f8_of_int 0) || L.f8_lt (L.f8_of_int 2) f8 then
      conv_info sql target "22003" TsdbCode.TSDB_CODE_ODBC_CONV_UNDEF msg
    else conv_info sql target "01S07" TsdbCode.TSDB_CODE_ODBC_CONV_UNDEF msg

/-- The body shared by `conv_tsdb_str_to_c_v1`, `_v2`, `_v4` and `_v8` for the
signed target of `w` bytes: `INTw_MAX` is `2 ^ (8 w - 1) - 1` and `INTw_MIN` is
`- 2 ^ (8 w - 1)`. -/
def str_to_c_int (w : Nat) (sql : sql_t) (target : c_target_t) (str : Bytes)
    (msg : Option String) : Conv :=
  let f8 := scanned_f8 L str
  let v := int_cast w (L.f8_to_int w f8)
  let target := target.memcpy (int_bytes w v)
  match target.set_soi w with
  | none => Outcome.fault
  | some target =>
    if scan_incomplete L str then
      conv_info sql target "22018" TsdbCode.TSDB_CODE_ODBC_CONV_UNDEF msg
    else if fmt_d v = str then Outcome.ret SQLRETURN.SQL_SUCCESS (sql, target)
    else if L.f8_lt (L.f8_of_int ((2 : Int) ^ (8 * w - 1) - 1)) f8
        || L.f8_lt f8 (L.f8_of_int (- (2 : Int) ^ (8 * w - 1))) then
      conv_info sql target "22003" TsdbCode.TSDB_CODE_ODBC_CONV_UNDEF msg
    else conv_info sql target "01S07" TsdbCode.TSDB_CODE_ODBC_CONV_TRUNC msg

/-- The function `conv_tsdb_str_to_c_v1`. -/
def conv_tsdb_str_to_c_v1 (sql : sql_t) (target : c_target_t) (_field : TAOS_FIELD)
    (str : Bytes) (msg : Option String) : Conv := str_to_c_int L 1 sql target str msg

/-- The function `conv_tsdb_str_to_c_v2`. -/
def conv_tsdb_str_to_c_v2 (sql : sql_t) (target : c_target_t) (_field : TAOS_FIELD)
    (str : Bytes) (msg : Option String) : Conv := str_to_c_int L 2 sql target str msg

/-- The function `conv_tsdb_str_to_c_v4`. -/
def conv_tsdb_str_to_c_v4 (sql : sql_t) (target : c_target_t) (_field : TAOS_FIELD)
    (str : Bytes) (msg : Option String) : Conv := str_to_c_int L 4 sql target str msg

/-- The function `conv_tsdb_str_to_c_v8`. -/
def conv_tsdb_str_to_c_v8 (sql : sql_t) (target : c_target_t) (_field : TAOS_FIELD)
    (str : Bytes) (msg : Option String) : Conv := str_to_c_int L 8 sql target str msg

/-- The function `conv_tsdb_str_to_c_f4`. -/
def conv_tsdb_str_to_c_f4 (sql : sql_t) (target : c_target_t) (_field : TAOS_FIELD)
    (str : Bytes) (msg : Option String) : Conv :=
  let f8 := scanned_f8 L str
  let target := target.memcpy (L.f4_store (L.f4_of_f8 f8))
  match target.set_soi 4 with
  | none => Outcome.fault
  | some target =>
    if scan_incomplete L str then
      conv_info sql target "22018" TsdbCode.TSDB_CODE_ODBC_CONV_UNDEF msg
    else Outcome.ret SQLRETURN.SQL_SUCCESS (sql, target)

/-- The function `conv_tsdb_str_to_c_f8` (its local `v` is a `float`). -/
def conv_tsdb_str_to_c_f8 (sql : sql_t) (target : c_target_t) (_field : TAOS_FIELD)
    (str : Bytes) (msg : Option String) : Conv :=
  let f8 := scanned_f8 L str
  let target := target.memcpy (L.f4_store (L.f4_of_f8 f8))
  match target.set_soi 8 with
  | none => Outcome.fault
  | some target =>
    if scan_incomplete L str then
      conv_info sql target "22018" TsdbCode.TSDB_CODE_ODBC_CONV_UNDEF msg
    else Outcome.ret SQLRETURN.SQL_SUCCESS (sql, target)

/-- The function `conv_tsdb_str_to_c_str`; `str` is the C string of the cell. -/
def conv_tsdb_str_to_c_str (sql : sql_t) (target : c_target_t) (_field : TAOS_FIELD)
    (str : Bytes) (msg : Option String) : Conv :=
  let n := str.length
  match target.set_soi (to_signed 8 n) with
  | none => Outcome.fault
  | some target =>
    match target.strncpy str (if n < to_size_t target.len then n + 1 else to_size_t target.len) with
    | none => Outcome.fault
    | some target =>
      if n < to_size_t target.len then Outcome.ret SQLRETURN.SQL_SUCCESS (sql, target)
      else conv_info sql target "01004" TsdbCode.TSDB_CODE_ODBC_CONV_TRUNC msg

/-- The function `conv_tsdb_str_to_c_bin`. -/
def conv_tsdb_str_to_c_bin (sql : sql_t) (target : c_target_t) (_field : TAOS_FIELD)
    (str : Bytes) (msg : Option String) : Conv :=
  let n := str.length
  match target.set_soi (to_signed 8 n) with
  | none => Outcome.fault
  | some target =>
    match target.memcpy_n str (if n < to_size_t target.len then n else to_size_t target.len) with
    | none => Outcome.fault
    | some target =>
      if n ≤ to_size_t target.len then Outcome.ret SQLRETURN.SQL_SUCCESS (sql, target)
      else conv_info sql target "01004" TsdbCode.TSDB_CODE_ODBC_CONV_TRUNC msg

end conversions_ts_str

/-! ## `SQLGetData` -/

section getdata

variable {D F : Type} (L : LibC D F)

/-- The default branches of the dispatch of `doSQLGetData`: the conversion is
not supported. -/
def conv_not_support (sql : sql_t) (target : c_target_t) (msg : Option String) : Conv :=
  Outcome.ret SQLRETURN.SQL_ERROR
    ({ sql with
        err := SET_ERROR sql.err "HY000" TsdbCode.TSDB_CODE_ODBC_CONV_NOT_SUPPORT msg },
      target)

/-- The `TIMESTAMP_STRUCT` that `doSQLGetData` builds from a timestamp cell:
milliseconds since the epoch, split by C division and `localtime_r`. -/
def ts_of_cell (row : Bytes) : TIMESTAMP_STRUCT :=
  let v := read_int 8 row
  let t := Int.tdiv v 1000
  let tm := L.localtime_r t
  { year := int_cast 2 (tm.tm_year + 1900),
    month := to_unsigned 2 (tm.tm_mon + 1),
    day := to_unsigned 2 tm.tm_mday,
    hour := to_unsigned 2 tm.tm_hour,
    minute := to_unsigned 2 tm.tm_min,
    second := to_unsigned 2 tm.tm_sec,
    fraction := to_unsigned 4 (Int.tmod v 1000) }

/-- The two-level `switch` of `doSQLGetData` on `field->type` and
`target.ct`, applied to the bytes `row` of a non-null cell. -/
def dispatch (sql : sql_t) (target : c_target_t) (field : TAOS_FIELD) (row : Bytes)
    (msg : Option String) : Conv :=
  if field.type = TSDB_DATA_TYPE_BOOL then
    let v := read_int 1 row
    let v := if v ≠ 0 then 1 else v
    if target.ct = SQL_C_BIT then conv_tsdb_bool_to_c_bit sql target field v
    else if target.ct = SQL_C_TINYINT then conv_tsdb_bool_to_c_tinyint sql target field v
    else if target.ct = SQL_C_SHORT then conv_tsdb_bool_to_c_short sql target field v
    else if target.ct = SQL_C_LONG then conv_tsdb_bool_to_c_long sql target field v
    else if target.ct = SQL_C_SBIGINT then conv_tsdb_bool_to_c_sbigint sql target field v
    else if target.ct = SQL_C_FLOAT then conv_tsdb_bool_to_c_float L sql target field v
    else if target.ct = SQL_C_DOUBLE then conv_tsdb_bool_to_c_double L sql target field v
    else if target.ct = SQL_C_CHAR then conv_tsdb_bool_to_c_char sql target field v
    else if target.ct = SQL_C_BINARY then conv_tsdb_bool_to_c_binary sql target field v
    else conv_not_support sql target msg
  else if field.type = TSDB_DATA_TYPE_TINYINT then
    let v := read_int 1 row
    if target.ct = SQL_C_TINYINT then conv_tsdb_v1_to_c_tinyint sql target field v
    else if target.ct = SQL_C_SHORT then conv_tsdb_v1_to_c_short sql target field v
    else if target.ct = SQL_C_LONG then conv_tsdb_v1_to_c_long sql target field v
    else if target.ct = SQL_C_SBIGINT then conv_tsdb_v1_to_c_sbigint sql target field v
    else if target.ct = SQL_C_FLOAT then conv_tsdb_v1_to_c_float L sql target field v
    else if target.ct = SQL_C_DOUBLE then conv_tsdb_v1_to_c_double L sql target field v
    else if target.ct = SQL_C_CHAR then conv_tsdb_v1_to_c_char sql target field v msg
    else if target.ct = SQL_C_BINARY then conv_tsdb_v1_to_c_binary sql target field v msg
    else conv_not_support sql target msg
  else if field.type = TSDB_DATA_TYPE_SMALLINT then
    let v := read_int 2 row
    if target.ct = SQL_C_SHORT then conv_tsdb_v2_to_c_short sql target field v
    else if target.ct = SQL_C_LONG then conv_tsdb_v2_to_c_long sql target field v
    else if target.ct = SQL_C_SBIGINT then conv_tsdb_v2_to_c_sbigint sql target field v
    else if target.ct = SQL_C_FLOAT then conv_tsdb_v2_to_c_float L sql target field v
    else if target.ct = SQL_C_DOUBLE then conv_tsdb_v2_to_c_double L sql target field v
    else if target.ct = SQL_C_CHAR then conv_tsdb_v2_to_c_char sql target field v msg
    else if target.ct = SQL_C_BINARY then conv_tsdb_v2_to_c_binary sql target field v msg
    else conv_not_support sql target msg
  else if field.type = TSDB_DATA_TYPE_INT then
    let v := read_int 4 row
    if target.ct = SQL_C_LONG then conv_tsdb_v4_to_c_long sql target field v
    else if target.ct = SQL_C_SBIGINT then conv_tsdb_v4_to_c_sbigint sql target field v
    else if target.ct = SQL_C_FLOAT then conv_tsdb_v4_to_c_float L sql target field v
    else if target.ct = SQL_C_DOUBLE then conv_tsdb_v4_to_c_double L sql target field v
    else if target.ct = SQL_C_CHAR then conv_tsdb_v4_to_c_char sql target field v msg
    else if target.ct = SQL_C_BINARY then conv_tsdb_v4_to_c_binary sql target field v msg
    else conv_not_support sql target msg
  else if field.type = TSDB_DATA_TYPE_BIGINT then
    let v := read_int 8 row
    if target.ct = SQL_C_SBIGINT then conv_tsdb_v8_to_c_sbigint sql target field v
    else if target.ct = SQL_C_FLOAT then conv_tsdb_v8_to_c_float L sql target field v
    else if target.ct = SQL_C_DOUBLE then conv_tsdb_v8_to_c_double L sql target field v
    else if target.ct = SQL_C_CHAR then conv_tsdb_v8_to_c_char sql target field v msg
    else if target.ct = SQL_C_BINARY then conv_tsdb_v8_to_c_binary sql target field v msg
    else conv_not_support sql target msg
  else if field.type = TSDB_DATA_TYPE_FLOAT then
    let v := L.f4_load row
    if target.ct = SQL_C_FLOAT then conv_tsdb_f4_to_c_float L sql target field v
    else if target.ct = SQL_C_DOUBLE then conv_tsdb_f4_to_c_double L sql target field v
    else if target.ct = SQL_C_CHAR then conv_tsdb_f4_to_c_char L sql target field v msg
    else if target.ct = SQL_C_BINARY then conv_tsdb_f4_to_c_binary L sql target field v msg
    else conv_not_support sql target msg
  else if field.type = TSDB_DATA_TYPE_DOUBLE then
    let v := L.f8_load row
    if target.ct = SQL_C_DOUBLE then conv_tsdb_f8_to_c_double L sql target field v
    else if target.ct = SQL_C_CHAR then conv_tsdb_f8_to_c_char L sql target field v msg
    else if target.ct = SQL_C_BINARY then conv_tsdb_f8_to_c_binary L sql target field v msg
    else conv_not_support sql target msg
  else if field.type = TSDB_DATA_TYPE_TIMESTAMP then
    let ts := ts_of_cell L row
    if target.ct = SQL_C_SBIGINT then conv_tsdb_ts_to_c_v8 L sql target field ts
    else if target.ct = SQL_C_CHAR then conv_tsdb_ts_to_c_str L sql target field ts msg
    else if target.ct = SQL_C_BINARY then conv_tsdb_ts_to_c_bin L sql target field ts msg
    else if target.ct = SQL_C_TIMESTAMP then conv_tsdb_ts_to_c_ts sql target field ts
    else conv_not_support sql target msg
  else if field.type = TSDB_DATA_TYPE_BINARY then
    if target.ct = SQL_C_CHAR then conv_tsdb_bin_to_c_str sql target field row msg
    else if target.ct = SQL_C_BINARY then conv_tsdb_bin_to_c_bin sql target field row msg
    else conv_not_support sql target msg
  else if field.type = TSDB_DATA_TYPE_NCHAR then
    let str := c_str row
    if target.ct = SQL_C_BIT then conv_tsdb_str_to_c_bit L sql target field str msg
    else if target.ct = SQL_C_TINYINT then conv_tsdb_str_to_c_v1 L sql target field str msg
    else if target.ct = SQL_C_SHORT then conv_tsdb_str_to_c_v2 L sql target field str msg
    else if target.ct = SQL_C_LONG then conv_tsdb_str_to_c_v4 L sql target field str msg
    else if target.ct = SQL_C_SBIGINT then conv_tsdb_str_to_c_v8 L sql target field str msg
    else if target.ct = SQL_C_FLOAT then conv_tsdb_str_to_c_f4 L sql target field str msg
    else if target.ct = SQL_C_DOUBLE then conv_tsdb_str_to_c_f8 L sql target field str msg
    else if target.ct = SQL_C_CHAR then conv_tsdb_str_to_c_str sql target field str msg
    else if target.ct = SQL_C_BINARY then conv_tsdb_str_to_c_bin sql target field str msg
    else conv_not_support sql target msg
  else conv_not_support sql target msg

/-- The memory that `doSQLGetData` can change: the objects of the process, the
target buffer and the indicator slot. -/
abbrev GetDataState := Heap × Option Bytes × Option Int

/-- The outcome of a conversion seen from the caller of `doSQLGetData`: the
statement is stored back, the target buffer and the indicator slot are those
of the target. -/
def store_back (h : Heap) (s : Nat) : Conv → Outcome GetDataState
  | Outcome.ret r (sql, t) => Outcome.ret r (h.set_sql s (some sql), t.ptr, t.soi)
  | Outcome.abort (sql, t) => Outcome.abort (h.set_sql s (some sql), t.ptr, t.soi)
  | Outcome.fault => Outcome.fault

/-- The function `doSQLGetData`.  `TargetValue` and `StrLen_or_Ind` are the
two pointers of the caller with the contents of what they point to. -/
def doSQLGetData (h : Heap) (StatementHandle : Option Nat) (ColumnNumber : Nat)
    (TargetType : Int) (TargetValue : Option Bytes) (BufferLength : Int)
    (StrLen_or_Ind : Option Int) (msg : Option String) : Outcome GetDataState :=
  match StatementHandle with
  | none => Outcome.ret SQLRETURN.SQL_ERROR (h, TargetValue, StrLen_or_Ind)
  | some s =>
    match h.sql s with
    | none => Outcome.fault
    | some sql =>
      let fail (eno : TsdbCode) : Outcome GetDataState :=
        Outcome.ret SQLRETURN.SQL_ERROR
          (h.set_sql s (some { sql with err := SET_ERROR sql.err "HY000" eno msg }),
            TargetValue, StrLen_or_Ind)
      match check_connection h sql msg with
      | none => Outcome.fault
      | some (Except.error sql) =>
        Outcome.ret SQLRETURN.SQL_ERROR (h.set_sql s (some sql), TargetValue, StrLen_or_Ind)
      | some (Except.ok _) =>
        match sql.rs with
        | none => fail TsdbCode.TSDB_CODE_TSC_QUERY_CACHE_ERASED
        | some rs =>
          match sql.row with
          | none => fail TsdbCode.TSDB_CODE_TSC_QUERY_CACHE_ERASED
          | some row =>
            if TargetValue.isNone then Outcome.abort (h, TargetValue, StrLen_or_Ind) else
            let nfields := rs.field_count
            if nfields = 0 ∨ rs.fields.isNone then fail TsdbCode.TSDB_CODE_MND_FIELD_NOT_EXIST else
            if (ColumnNumber : Int) < 0 then fail TsdbCode.TSDB_CODE_TSC_APP_ERROR else
            if ColumnNumber = 0 then fail TsdbCode.TSDB_CODE_COM_OPS_NOT_SUPPORT else
            if (ColumnNumber : Int) > nfields then fail TsdbCode.TSDB_CODE_TSC_APP_ERROR else
            match row[ColumnNumber - 1]? with
            | none => Outcome.fault
            | some none =>
              Outcome.ret SQLRETURN.SQL_SUCCESS
                (h, TargetValue, StrLen_or_Ind.map (fun _ => SQL_NULL_DATA))
            | some (some cell) =>
              match rs.fields.bind (fun fs => fs[ColumnNumber - 1]?) with
              | none => Outcome.fault
              | some field =>
                let target : c_target_t :=
                  { col := ColumnNumber, ct := TargetType, ptr := TargetValue,
                    len := BufferLength, soi := StrLen_or_Ind }
                store_back h s (dispatch L sql target field cell msg)

end getdata

/-! ## A reference libc

An executable instance of `LibC` in which a `double` is an exact decimal
number and the local time zone is UTC.  It agrees with the C library wherever
the C library computes without rounding; exponents, hexadecimal literals,
infinities and NaN are outside it. -/

/-- An exact decimal number `num / 10 ^ scale`. -/
structure Dec where
  num : Int := 0
  scale : Nat := 0
  deriving DecidableEq, Repr

/-- The comparison `a < b` of two decimals. -/
def Dec.lt (a b : Dec) : Bool := decide (a.num * 10 ^ b.scale < b.num * 10 ^ a.scale)

/-- The integer part of a decimal, rounded toward zero. -/
def Dec.trunc (d : Dec) : Int := Int.tdiv d.num (10 ^ d.scale)

/-- The white space skipped by `sscanf`. -/
def is_space (c : Nat) : Bool := c == 32 || (decide (9 ≤ c) && decide (c ≤ 13))

/-- The decimal digits. -/
def is_digit (c : Nat) : Bool := decide (48 ≤ c) && decide (c ≤ 57)

/-- The number written by a run of decimal digits. -/
def digits_val (ds : Bytes) : Nat := ds.foldl (fun a c => 10 * a + (c - 48)) 0

/-- The directive `%lf%n` on decimal literals: white space, a sign, digits
and a fraction. -/
def scan_decimal (str : Bytes) : Option (Dec × Int) :=
  let ws := str.takeWhile is_space
  let s1 := str.drop ws.length
  let neg := s1.head? == some 45
  let sgn := if s1.head? == some 45 || s1.head? == some 43 then 1 else 0
  let s2 := s1.drop sgn
  let ip := s2.takeWhile is_digit
  let s3 := s2.drop ip.length
  let dot := if s3.head? == some 46 then 1 else 0
  let fp := if s3.head? == some 46 then s3.tail.takeWhile is_digit else []
  if ip.isEmpty && fp.isEmpty then none
  else
    let m : Int := digits_val (ip ++ fp)
    some ({ num := if neg then - m else m, scale := fp.length },
      ((ws.length + sgn + ip.length + dot + fp.length : Nat) : Int))

/-- The text of `%.6f` for a decimal: six digits of fraction, the further
ones dropped. -/
def dec_f6 (d : Dec) : Bytes :=
  let q := (d.num.natAbs * 10 ^ 6) / 10 ^ d.scale
  let frac := fmt_u (q % 10 ^ 6)
  (if d.num < 0 then [45] else []) ++ fmt_u (q / 10 ^ 6) ++ [46]
    ++ List.replicate (6 - frac.length) 48 ++ frac

/-- The civil date (year, month, day) of a day number counted from
1970-01-01. -/
def civil_from_days (z : Int) : Int × Int × Int :=
  let z := z + 719468
  let era := z / 146097
  let doe := z - era * 146097
  let yoe := (doe - doe / 1460 + doe / 36524 - doe / 146096) / 365
  let doy := doe - (365 * yoe + yoe / 4 - yoe / 100)
  let mp := (5 * doy + 2) / 153
  let d := doy - (153 * mp + 2) / 5 + 1
  let m := if mp < 10 then mp + 3 else mp - 9
  (yoe + era * 400 + (if m ≤ 2 then 1 else 0), m, d)

/-- The day number, counted from 1970-01-01, of a civil date. -/
def days_from_civil (y m d : Int) : Int :=
  let y := if m ≤ 2 then y - 1 else y
  let era := y / 400
  let yoe := y - era * 400
  let doy := (153 * (if m > 2 then m - 3 else m + 9) + 2) / 5 + d - 1
  let doe := yoe * 365 + yoe / 4 - yoe / 100 + doy
  era * 146097 + doe - 719468

/-- The call `localtime_r` in the time zone UTC. -/
def utc_localtime (t : Int) : tm :=
  let days := t / 86400
  let sod := t % 86400
  let (y, m, d) := civil_from_days days
  { tm_sec := sod % 60, tm_min := sod / 60 % 60, tm_hour := sod / 3600, tm_mday := d,
    tm_mon := m - 1, tm_year := y - 1900 }

/-- The call `mktime` in the time zone UTC. -/
def utc_mktime (t : tm) : Int :=
  days_from_civil (t.tm_year + 1900) (t.tm_mon + 1) t.tm_mday * 86400
    + t.tm_hour * 3600 + t.tm_min * 60 + t.tm_sec

/-- A number printed with at least `k` digits. -/
def fmt_pad (k : Nat) (v : Int) : Bytes :=
  (if v < 0 then [45] else [])
    ++ List.replicate (k - (fmt_u v.natAbs).length) 48 ++ fmt_u v.natAbs

/-- The text of `strftime` with the format `%Y-%m-%d %H:%M:%S`. -/
def fmt_ymdhms (t : tm) : Bytes :=
  fmt_d (t.tm_year + 1900) ++ [45] ++ fmt_pad 2 (t.tm_mon + 1) ++ [45] ++ fmt_pad 2 t.tm_mday
    ++ [32] ++ fmt_pad 2 t.tm_hour ++ [58] ++ fmt_pad 2 t.tm_min ++ [58] ++ fmt_pad 2 t.tm_sec

/-- The reference libc.  A floating value in memory is kept as the two's
complement image of its integer part (not the IEEE layout). -/
def dec_libc : LibC Dec Dec where
  f4_load b := { num := read_int 4 b, scale := 0 }
  f4_store d := int_bytes 4 d.trunc
  f8_load b := { num := read_int 8 b, scale := 0 }
  f8_store d := int_bytes 8 d.trunc
  f4_of_int k := { num := k, scale := 0 }
  f8_of_int k := { num := k, scale := 0 }
  f8_of_f4 d := d
  f4_of_f8 d := d
  f8_to_int _ d := d.trunc
  f8_lt a b := a.lt b
  printf_g d := if d.scale = 0 then fmt_d d.num else dec_f6 d
  printf_f6 d := dec_f6 d
  sscanf_lf := scan_decimal
  localtime_r := utc_localtime
  mktime := utc_mktime
  strftime := fmt_ymdhms

/-- An ASCII text as bytes. -/
def ascii (s : String) : Bytes := s.toList.map Char.toNat

/-! ## Scenarios and invariants of the handle graph -/

/-- The scenario of `n` calls of `doSQLAllocConnect` on the environment `e`,
each of which returns `SQL_SUCCESS`: the final state and the handles obtained,
in order; `none` when one of the calls does not return `SQL_SUCCESS`. -/
def alloc_connections (msg : Option String) : Nat → Heap → Nat → Option (Heap × List Nat)
  | 0, h, _ => some (h, [])
  | n + 1, h, e =>
    match doSQLAllocConnect h (some e) true msg with
    | Outcome.ret SQLRETURN.SQL_SUCCESS (h1, some c) =>
      match alloc_connections msg n h1 e with
      | some (h2, cs) => some (h2, c :: cs)
      | none => none
    | _ => none

/-- The scenario of freeing the connections `cs` one after the other with
`doSQLFreeConnect`: the final state, or `none` when one of the calls does not
return `SQL_SUCCESS`. -/
def free_connections : List Nat → Heap → Option Heap
  | [], h => some h
  | c :: cs, h =>
    match doSQLFreeConnect h (some c) with
    | Outcome.ret SQLRETURN.SQL_SUCCESS h1 => free_connections cs h1
    | _ => none

/-- The scenario of `n` calls of `doSQLAllocStmt` on the connection `c`, each
of which returns `SQL_SUCCESS`. -/
def alloc_statements (msg : Option String) : Nat → Heap → Nat → Option (Heap × List Nat)
  | 0, h, _ => some (h, [])
  | n + 1, h, c =>
    match doSQLAllocStmt h (some c) true msg with
    | Outcome.ret SQLRETURN.SQL_SUCCESS (h1, some s) =>
      match alloc_statements msg n h1 c with
      | some (h2, ss) => some (h2, s :: ss)
      | none => none
    | _ => none

/-- The scenario of dropping the statements `ss` one after the other with
`doSQLFreeStmt(.., SQL_DROP)`. -/
def free_statements (msg : Option String) : List Nat → Heap → Option Heap
  | [], h => some h
  | s :: ss, h =>
    match doSQLFreeStmt h (some s) SQL_DROP msg with
    | Outcome.ret SQLRETURN.SQL_SUCCESS h1 => free_statements msg ss h1
    | _ => none

/-- The slot holds a live connection of the environment `e`. -/
def conn_in (e : Nat) : Option conn_t → Bool
  | some conn => conn.env == some e
  | none => false

/-- The slot holds a live statement of the connection `c`. -/
def sql_in (c : Nat) : Option sql_t → Bool
  | some sql => sql.conn == some c
  | none => false

/-- The number of live connections of the environment `e`. -/
def live_conns_of (h : Heap) (e : Nat) : Nat := h.conns.countP (conn_in e)

/-- The number of live statements of the connection `c`. -/
def live_sqls_of (h : Heap) (c : Nat) : Nat := h.sqls.countP (sql_in c)

/-- The invariant of the handle graph: every count is one more than the
number of live children, fits its `uint64_t` field, and the parent of a live
handle is live. -/
structure Inv (h : Heap) : Prop where
  env_count : ∀ e env, h.env e = some env → env.refcount = 1 + live_conns_of h e
  env_bound : ∀ e env, h.env e = some env → env.refcount < 2 ^ 64
  conn_count : ∀ c conn, h.conn c = some conn → conn.refcount = 1 + live_sqls_of h c
  conn_bound : ∀ c conn, h.conn c = some conn → conn.refcount < 2 ^ 64
  conn_parent : ∀ c conn, h.conn c = some conn → ∃ e env, conn.env = some e ∧ h.env e = some env
  sql_count : ∀ s sql, h.sql s = some sql → sql.refcount = 1
  sql_parent : ∀ s sql, h.sql s = some sql → ∃ c conn, sql.conn = some c ∧ h.conn c = some conn

/-- The image of a state in the state of the objects alone. -/
def Outcome.map {σ τ : Type} (f : σ → τ) : Outcome σ → Outcome τ
  | Outcome.ret r s => Outcome.ret r (f s)
  | Outcome.abort s => Outcome.abort (f s)
  | Outcome.fault => Outcome.fault

/-- A process with one environment that owns one connection. -/
def demo_heap : Heap :=
  { envs := [some { refcount := 2 }], conns := [some { refcount := 1, env := some 0 }] }

/-- The outcome `o` of a conversion keeps every field of the statement `sql`
but its error context. -/
def conv_framed (sql : sql_t) (o : Conv) : Prop :=
  ∀ r s' t', o = Outcome.ret r (s', t') → ∃ err, s' = { sql with err := err }

/-- The process after `SQLAllocEnv`, `SQLAllocConnect` on the environment and
`SQLAllocStmt` on the connection have succeeded. -/
def demo_tree : Heap :=
  { envs := [some { refcount := 2 }],
    conns := [some { refcount := 2, env := some 0 }],
    sqls := [some { refcount := 1, conn := some 0 }],
    inited := true,
    log := [EngineCall.taos_init] }

/-! ## Preconditions and tables of `SQLGetData` -/

/-- The statement at `s` is in the state HasCurrentRow: it passes the state
checks that open `doSQLGetData` (it points to a connection that holds a native
handle, it holds the result set `rs` and the row `row` is cached). -/
structure HasCurrentRow (h : Heap) (s : Nat) (sql : sql_t) (rs : TAOS_RES) (row : TAOS_ROW) :
    Prop where
  live : h.sql s = some sql
  connected : ∃ c conn t, sql.conn = some c ∧ h.conn c = some conn ∧ conn.taos = some t
  result : sql.rs = some rs
  cursor : sql.row = some row

/-- The number `col` is a valid column number of the result set: between 1 and
the number of fields, with the field descriptor `field` and, in the current
row, the cell `cell` (`none` for a null cell). -/
structure ValidColumn (rs : TAOS_RES) (row : TAOS_ROW) (col : Nat) (field : TAOS_FIELD)
    (cell : Option Bytes) : Prop where
  pos : 1 ≤ col
  le : (col : Int) ≤ rs.field_count
  described : rs.fields.bind (fun fs => fs[col - 1]?) = some field
  fetched : row[col - 1]? = some cell

/-- The conversion dispatch table: the pairs (source wire type, target type)
that have a `case` in the two-level `switch` of `doSQLGetData`. -/
def conv_table : List (Nat × Int) :=
  [(TSDB_DATA_TYPE_BOOL, SQL_C_BIT), (TSDB_DATA_TYPE_BOOL, SQL_C_TINYINT),
   (TSDB_DATA_TYPE_BOOL, SQL_C_SHORT), (TSDB_DATA_TYPE_BOOL, SQL_C_LONG),
   (TSDB_DATA_TYPE_BOOL, SQL_C_SBIGINT), (TSDB_DATA_TYPE_BOOL, SQL_C_FLOAT),
   (TSDB_DATA_TYPE_BOOL, SQL_C_DOUBLE), (TSDB_DATA_TYPE_BOOL, SQL_C_CHAR),
   (TSDB_DATA_TYPE_BOOL, SQL_C_BINARY),
   (TSDB_DATA_TYPE_TINYINT, SQL_C_TINYINT), (TSDB_DATA_TYPE_TINYINT, SQL_C_SHORT),
   (TSDB_DATA_TYPE_TINYINT, SQL_C_LONG), (TSDB_DATA_TYPE_TINYINT, SQL_C_SBIGINT),
   (TSDB_DATA_TYPE_TINYINT, SQL_C_FLOAT), (TSDB_DATA_TYPE_TINYINT, SQL_C_DOUBLE),
   (TSDB_DATA_TYPE_TINYINT, SQL_C_CHAR), (TSDB_DATA_TYPE_TINYINT, SQL_C_BINARY),
   (TSDB_DATA_TYPE_SMALLINT, SQL_C_SHORT), (TSDB_DATA_TYPE_SMALLINT, SQL_C_LONG),
   (TSDB_DATA_TYPE_SMALLINT, SQL_C_SBIGINT), (TSDB_DATA_TYPE_SMALLINT, SQL_C_FLOAT),
   (TSDB_DATA_TYPE_SMALLINT, SQL_C_DOUBLE), (TSDB_DATA_TYPE_SMALLINT, SQL_C_CHAR),
   (TSDB_DATA_TYPE_SMALLINT, SQL_C_BINARY),
   (TSDB_DATA_TYPE_INT, SQL_C_LONG), (TSDB_DATA_TYPE_INT, SQL_C_SBIGINT),
   (TSDB_DATA_TYPE_INT, SQL_C_FLOAT), (TSDB_DATA_TYPE_INT, SQL_C_DOUBLE),
   (TSDB_DATA_TYPE_INT, SQL_C_CHAR), (TSDB_DATA_TYPE_INT, SQL_C_BINARY),
   (TSDB_DATA_TYPE_BIGINT, SQL_C_SBIGINT), (TSDB_DATA_TYPE_BIGINT, SQL_C_FLOAT),
   (TSDB_DATA_TYPE_BIGINT, SQL_C_DOUBLE), (TSDB_DATA_TYPE_BIGINT, SQL_C_CHAR),
   (TSDB_DATA_TYPE_BIGINT, SQL_C_BINARY),
   (TSDB_DATA_TYPE_FLOAT, SQL_C_FLOAT), (TSDB_DATA_TYPE_FLOAT, SQL_C_DOUBLE),
   (TSDB_DATA_TYPE_FLOAT, SQL_C_CHAR), (TSDB_DATA_TYPE_FLOAT, SQL_C_BINARY),
   (TSDB_DATA_TYPE_DOUBLE, SQL_C_DOUBLE), (TSDB_DATA_TYPE_DOUBLE, SQL_C_CHAR),
   (TSDB_DATA_TYPE_DOUBLE, SQL_C_BINARY),
   (TSDB_DATA_TYPE_TIMESTAMP, SQL_C_SBIGINT), (TSDB_DATA_TYPE_TIMESTAMP, SQL_C_CHAR),
   (TSDB_DATA_TYPE_TIMESTAMP, SQL_C_BINARY), (TSDB_DATA_TYPE_TIMESTAMP, SQL_C_TIMESTAMP),
   (TSDB_DATA_TYPE_BINARY, SQL_C_CHAR), (TSDB_DATA_TYPE_BINARY, SQL_C_BINARY),
   (TSDB_DATA_TYPE_NCHAR, SQL_C_BIT), (TSDB_DATA_TYPE_NCHAR, SQL_C_TINYINT),
   (TSDB_DATA_TYPE_NCHAR, SQL_C_SHORT), (TSDB_DATA_TYPE_NCHAR, SQL_C_LONG),
   (TSDB_DATA_TYPE_NCHAR, SQL_C_SBIGINT), (TSDB_DATA_TYPE_NCHAR, SQL_C_FLOAT),
   (TSDB_DATA_TYPE_NCHAR, SQL_C_DOUBLE), (TSDB_DATA_TYPE_NCHAR, SQL_C_CHAR),
   (TSDB_DATA_TYPE_NCHAR, SQL_C_BINARY)]

/-- The width in bytes of the fixed-width integer wire types (boolean, int8,
int16, int32, int64). -/
def int_wire_width (ty : Nat) : Option Nat :=
  if ty = TSDB_DATA_TYPE_BOOL then some 1
  else if ty = TSDB_DATA_TYPE_TINYINT then some 1
  else if ty = TSDB_DATA_TYPE_SMALLINT then some 2
  else if ty = TSDB_DATA_TYPE_INT then some 4
  else if ty = TSDB_DATA_TYPE_BIGINT then some 8
  else none

/-- The width in bytes of the integer target types (tinyint, short, long,
sbigint). -/
def int_target_width (ct : Int) : Option Nat :=
  if ct = SQL_C_TINYINT then some 1
  else if ct = SQL_C_SHORT then some 2
  else if ct = SQL_C_LONG then some 4
  else if ct = SQL_C_SBIGINT then some 8
  else none

/-- The integer held by a cell of an integer wire type of `sw` bytes; a
boolean cell holds 0 or 1 (any non-zero byte is 1). -/
def cell_int_value (ty sw : Nat) (cell : Bytes) : Int :=
  if ty = TSDB_DATA_TYPE_BOOL then (if read_int 1 cell ≠ 0 then 1 else 0) else read_int sw cell

/-- The values of the signed integer type of `w` bytes. -/
def in_range (w : Nat) (k : Int) : Prop := - (2 : Int) ^ (8 * w - 1) ≤ k ∧ k < (2 : Int) ^ (8 * w - 1)

/-- The C library reads the decimal rendering of every integer of `w` bytes
back exactly: `sscanf("%lf%n")` consumes the whole text and the value
converts to the integer. -/
def LibC.exact_on_integers {D F : Type} (L : LibC D F) (w : Nat) : Prop :=
  ∀ k : Int, in_range w k →
    ∃ f, L.sscanf_lf (fmt_d k) = some (f, ((fmt_d k).length : Int)) ∧ L.f8_to_int w f = k

/-- A result set of five columns: int64, wide text, int32, boolean and wide
text. -/
def demo_rs : TAOS_RES :=
  { id := 1, field_count := 5,
    fields := some
      [{ name := ascii "ts", type := TSDB_DATA_TYPE_BIGINT, bytes := 8 },
       { name := ascii "txt", type := TSDB_DATA_TYPE_NCHAR, bytes := 22 },
       { name := ascii "n", type := TSDB_DATA_TYPE_INT, bytes := 4 },
       { name := ascii "b", type := TSDB_DATA_TYPE_BOOL, bytes := 1 },
       { name := ascii "num", type := TSDB_DATA_TYPE_NCHAR, bytes := 22 }] }

/-- A row of `demo_rs`: the int64 5, the text "hello", the int32 12, a null
boolean and the text "127". -/
def demo_row : TAOS_ROW :=
  [some (int_bytes 8 5), some (ascii "hello" ++ [0]), some (int_bytes 4 12), none,
   some (ascii "127" ++ [0])]

/-- A statement that holds `demo_rs` and has fetched `demo_row`. -/
def demo_sql : sql_t :=
  { refcount := 1, conn := some 0, rs := some demo_rs, row := some demo_row }

/-- A process with one environment, one connected connection and the
statement `demo_sql`. -/
def demo_fetch : Heap :=
  { envs := [some { refcount := 2 }],
    conns := [some { refcount := 2, env := some 0, taos := some 7 }],
    sqls := [some demo_sql],
    inited := true,
    log := [EngineCall.taos_init] }

end Todbc
namespace Todbc

/-- Truncation toward zero of a rational number: the value that the C
conversion of a floating value to an integer type yields when it is
representable. -/
def q_trunc (x : ℚ) : Int := if 0 ≤ x then ⌊x⌋ else ⌈x⌉

/-- The laws of IEEE doubles and of the C library that the numeric conversions
of text rely on, for a reading `val` of the finite `double` values as rational
numbers (`none` for infinities and NaN): `<` compares the values; the
conversion of an integer is exact up to `2 ^ 53`, `INT64_MIN` is exact and
`INT64_MAX` rounds to a value between `2 ^ 63 - 1` and `2 ^ 63`; the conversion
to an integer type truncates toward zero when the result is representable;
`sscanf("%lf%n")` consumes the whole `printf("%d")` rendering of a 64-bit
integer and yields an integer value, the integer itself up to `2 ^ 53`. -/
structure LibC.Laws {D F : Type} (L : LibC D F) (val : D → Option ℚ) : Prop where
  lt : ∀ a b x y, val a = some x → val b = some y → (L.f8_lt a b = true ↔ x < y)
  of_int : ∀ k : Int, |k| ≤ 2 ^ 53 → val (L.f8_of_int k) = some (k : ℚ)
  of_int64_max : ∃ y : ℚ, val (L.f8_of_int (2 ^ 63 - 1)) = some y ∧ 2 ^ 63 - 1 ≤ y ∧ y ≤ 2 ^ 63
  of_int64_min : val (L.f8_of_int (- 2 ^ 63)) = some (- 2 ^ 63)
  to_int : ∀ w f x, val f = some x → in_range w (q_trunc x) → L.f8_to_int w f = q_trunc x
  scan_int : ∀ k : Int, in_range 8 k →
    ∃ (f : D) (y : Int), L.sscanf_lf (fmt_d k) = some (f, ((fmt_d k).length : Int))
      ∧ val f = some (y : ℚ) ∧ (|k| ≤ 2 ^ 53 → y = k) ∧ - 2 ^ 63 ≤ y ∧ y ≤ 2 ^ 63

/-- The value of an exact decimal. -/
def dec_val (d : Dec) : Option ℚ := some ((d.num : ℚ) / (10 : ℚ) ^ d.scale)

/-- A result set of one column, described by `field`. -/
def demo_rs1 (field : TAOS_FIELD) : TAOS_RES :=
  { id := 1, field_count := 1, fields := some [field] }

/-- A statement that holds `demo_rs1 field` and has fetched a row whose one
cell is `cell`. -/
def demo_sql1 (field : TAOS_FIELD) (cell : Option Bytes) : sql_t :=
  { refcount := 1, conn := some 0, rs := some (demo_rs1 field), row := some [cell] }

/-- A process with one environment, one connected connection and the
statement `demo_sql1 field cell`. -/
def demo_fetch1 (field : TAOS_FIELD) (cell : Option Bytes) : Heap :=
  { envs := [some { refcount := 2 }],
    conns := [some { refcount := 2, env := some 0, taos := some 7 }],
    sqls := [some (demo_sql1 field cell)],
    inited := true,
    log := [EngineCall.taos_init] }

/-- A wide-text column. -/
def demo_nchar : TAOS_FIELD := { name := ascii "txt", type := TSDB_DATA_TYPE_NCHAR, bytes := 22 }

/-- The process `demo_fetch1` for a wide-text column whose cell holds the
text `s`. -/
def demo_text (s : String) : Heap := demo_fetch1 demo_nchar (some (ascii s ++ [0]))


/-! ## Prepared execution -/

/-- The indicator value `SQL_NTS`. -/
def SQL_NTS : Int := -3

/-- What `doSQLExecute` takes from outside the statement: the memory of the
caller behind the parameter pointers, the addresses of its own objects and the
answers of the engine. -/
structure ExecuteEnv where
  /-- The value `*pb->StrLen_or_Ind` behind an indicator pointer. -/
  ind : Nat → Int
  /-- The value `strlen(pb->ParameterValue)` behind a value pointer. -/
  strlen : Nat → Nat
  /-- The address of the local `yes`. -/
  addr_yes : Nat
  /-- The address of the local `no`. -/
  addr_no : Nat
  /-- The address `&b->buffer_length` of the bind structure at a position. -/
  addr_buffer_length : Nat → Nat
  /-- The code returned by `taos_stmt_bind_param`. -/
  bind_param : TsdbCode
  /-- The code returned by `taos_stmt_add_batch`. -/
  add_batch : TsdbCode
  /-- The code returned by `taos_stmt_execute`. -/
  execute : TsdbCode
  /-- The answer of `taos_stmt_use_result`. -/
  use_result : Option TAOS_RES
  /-- The value of `terrno` after `taos_stmt_use_result`. -/
  terrno : TsdbCode

/-- The wire types whose bind structure takes the value pointer as it is. -/
def fixed_width_wire_type (t : Int) : Bool :=
  t = TSDB_DATA_TYPE_BOOL || t = TSDB_DATA_TYPE_TINYINT || t = TSDB_DATA_TYPE_SMALLINT
    || t = TSDB_DATA_TYPE_INT || t = TSDB_DATA_TYPE_BIGINT || t = TSDB_DATA_TYPE_FLOAT
    || t = TSDB_DATA_TYPE_DOUBLE || t = TSDB_DATA_TYPE_TIMESTAMP

/-- The body of the loop of `doSQLExecute` for the parameter at position `i`,
past the test of `pb->valid`: the bind structure `b` as the body leaves it,
with the code of the error when the body returns `SQL_ERROR`.  `none`:
`strlen` of a null pointer. -/
def prepare_bind (E : ExecuteEnv) (i : Nat) (pb : param_bind_t) (b : TAOS_BIND) :
    Option (Except (TsdbCode × TAOS_BIND) TAOS_BIND) :=
  if (pb.StrLen_or_Ind.map E.ind) = some SQL_NULL_DATA then
    some (Except.ok { b with is_null := some E.addr_yes })
  else
    let b := { b with is_null := some E.addr_no }
    if fixed_width_wire_type b.buffer_type then
      some (Except.ok { b with length := some (E.addr_buffer_length i),
                               buffer := pb.ParameterValue })
    else if b.buffer_type = (TSDB_DATA_TYPE_BINARY : Int)
        ∨ b.buffer_type = (TSDB_DATA_TYPE_NCHAR : Int) then
      match pb.StrLen_or_Ind with
      | none => some (Except.error (TsdbCode.TSDB_CODE_COM_OPS_NOT_SUPPORT, b))
      | some a =>
        let n := to_size_t (E.ind a)
        if n = to_size_t SQL_NTS then
          match pb.ParameterValue with
          | none => none
          | some v =>
            some (Except.ok { b with buffer_length := E.strlen v,
                                     length := some (E.addr_buffer_length i),
                                     buffer := pb.ParameterValue })
        else if n > b.buffer_length then
          some (Except.error (TsdbCode.TSDB_CODE_COM_OPS_NOT_SUPPORT, b))
        else
          some (Except.ok { b with buffer_length := n,
                                   length := some (E.addr_buffer_length i),
                                   buffer := pb.ParameterValue })
    else some (Except.error (TsdbCode.TSDB_CODE_COM_OPS_NOT_SUPPORT, b))

/-- The loop of `doSQLExecute` over the parameters `i, i + 1, ...` (`k` of
them are left): the bind array when every parameter passes, or the bind array
with the code of the error recorded.  `none`: a position outside an array, or
`strlen` of a null pointer. -/
def prepare_binds (E : ExecuteEnv) (params : List param_bind_t) :
    Nat → Nat → List TAOS_BIND → Option (Except (TsdbCode × List TAOS_BIND) (List TAOS_BIND))
  | 0, _, binds => some (Except.ok binds)
  | k + 1, i, binds =>
    match params[i]? with
    | none => none
    | some pb =>
      if pb.valid = 0 then
        some (Except.error (TsdbCode.TSDB_CODE_COM_OPS_NOT_SUPPORT, binds))
      else
        match binds[i]? with
        | none => none
        | some b =>
          match prepare_bind E i pb b with
          | none => none
          | some (Except.error (eno, b)) => some (Except.error (eno, binds.set i b))
          | some (Except.ok b) => prepare_binds E params k (i + 1) (binds.set i b)

/-- The loop of `doSQLExecute` over the parameters of the statement: the
statement with the bind array as the loop leaves it, with the code of the
error when the loop returns `SQL_ERROR`.  `none`: an access through a null
array pointer or outside an array. -/
def execute_binds (E : ExecuteEnv) (sql : sql_t) : Option (Except (TsdbCode × sql_t) sql_t) :=
  if sql.n_params ≤ 0 then some (Except.ok sql) else
  match sql.params with
  | none => none
  | some params =>
    match prepare_binds E params sql.n_params.toNat 0 (sql.binds.getD []) with
    | none => none
    | some (Except.error (eno, binds)) =>
      some (Except.error (eno, { sql with binds := sql.binds.map (fun _ => binds) }))
    | some (Except.ok binds) =>
      some (Except.ok { sql with binds := sql.binds.map (fun _ => binds) })

/-- The calls `taos_stmt_bind_param` and `taos_stmt_add_batch` of
`doSQLExecute`, made when the statement has parameters: the code of the call
that fails, if one does. -/
def execute_send (E : ExecuteEnv) (h : Heap) (st : Nat) (sql : sql_t) : Heap × Option TsdbCode :=
  if sql.n_params > 0 then
    let h := h.call (EngineCall.taos_stmt_bind_param st sql.binds)
    if E.bind_param ≠ TsdbCode.TSDB_CODE_SUCCESS then (h, some E.bind_param) else
    let h := h.call (EngineCall.taos_stmt_add_batch st)
    if E.add_batch ≠ TsdbCode.TSDB_CODE_SUCCESS then (h, some E.add_batch)
    else (h, none)
  else (h, none)

/-- The function `doSQLExecute`. -/
def doSQLExecute (h : Heap) (StatementHandle : Option Nat) (E : ExecuteEnv)
    (msg : Option String) : Outcome Heap :=
  match StatementHandle with
  | none => Outcome.ret SQLRETURN.SQL_ERROR h
  | some s =>
    match h.sql s with
    | none => Outcome.fault
    | some sql =>
      match check_connection h sql msg with
      | none => Outcome.fault
      | some (Except.error sql) => Outcome.ret SQLRETURN.SQL_ERROR (h.set_sql s (some sql))
      | some (Except.ok _) =>
        match sql.stmt with
        | none =>
          Outcome.ret SQLRETURN.SQL_ERROR (h.set_sql s (some { sql with
            err := SET_ERROR sql.err "HY000" TsdbCode.TSDB_CODE_TSC_INVALID_SQL msg }))
        | some st =>
          let (h, sql) := release_result h sql
          let fail (h : Heap) (sql : sql_t) (eno : TsdbCode) : Outcome Heap :=
            Outcome.ret SQLRETURN.SQL_ERROR
              (h.set_sql s (some { sql with err := SET_ERROR sql.err "HY000" eno msg }))
          match execute_binds E sql with
          | none => Outcome.fault
          | some (Except.error (eno, sql)) => fail h sql eno
          | some (Except.ok sql) =>
            match execute_send E h st sql with
            | (h, some eno) => fail h sql eno
            | (h, none) =>
              let h := h.call (EngineCall.taos_stmt_execute st)
              if E.execute ≠ TsdbCode.TSDB_CODE_SUCCESS then fail h sql E.execute else
              let h := h.call (EngineCall.taos_stmt_use_result st)
              let sql := { sql with rs := E.use_result }
              let (r, sql) := CHK_RS sql E.terrno msg
              Outcome.ret r (h.set_sql s (some sql))

/-- The code that the macro `CHK_RS` tests: `taos_errno` of the result object
when the engine returned one, `terrno` otherwise. -/
def answer_code (rs : Option TAOS_RES) (terrno : TsdbCode) : TsdbCode :=
  match rs with
  | some x => x.errno
  | none => terrno

/-- A connected statement: it is live, its connection is live and holds a
native handle. -/
structure Connected (h : Heap) (s : Nat) (sql : sql_t) : Prop where
  live : h.sql s = some sql
  connected : ∃ c conn t, sql.conn = some c ∧ h.conn c = some conn ∧ conn.taos = some t

/-- The arguments of one call of `doSQLGetData` on a statement. -/
structure GetDataCall where
  ColumnNumber : Nat
  TargetType : Int
  TargetValue : Option Bytes
  BufferLength : Int
  StrLen_or_Ind : Option Int
  msg : Option String

/-- Successive calls of `doSQLGetData` on the statement `s`, each on the
objects left by the call before it: the outcomes in order.  The run ends at a
call that does not return. -/
def get_data_calls {D F : Type} (L : LibC D F) (h : Heap) (s : Nat) :
    List GetDataCall → List (Outcome GetDataState)
  | [] => []
  | c :: cs =>
    match doSQLGetData L h (some s) c.ColumnNumber c.TargetType c.TargetValue c.BufferLength
        c.StrLen_or_Ind c.msg with
    | Outcome.ret r (h1, b, i) => Outcome.ret r (h1, b, i) :: get_data_calls L h1 s cs
    | o => [o]

/-- A process with one environment, one connected connection and one
statement `sql`. -/
def demo_heap1 (sql : sql_t) : Heap :=
  { envs := [some { refcount := 2 }],
    conns := [some { refcount := 2, env := some 0, taos := some 7 }],
    sqls := [some sql],
    inited := true,
    log := [EngineCall.taos_init] }

end Todbc

namespace Todbc

/-! ## Parameter binding -/

/-- The direction `SQL_PARAM_INPUT` of a parameter (sqlext.h). -/
def SQL_PARAM_INPUT : Int := 1
/-- The SQL type `SQL_BIT` (sql.h / sqlext.h). -/
def SQL_BIT : Int := -7
/-- The SQL type `SQL_TINYINT`. -/
def SQL_TINYINT : Int := -6
/-- The SQL type `SQL_SMALLINT`. -/
def SQL_SMALLINT : Int := 5
/-- The SQL type `SQL_INTEGER`. -/
def SQL_INTEGER : Int := 4
/-- The SQL type `SQL_BIGINT`. -/
def SQL_BIGINT : Int := -5
/-- The SQL type `SQL_FLOAT`. -/
def SQL_FLOAT : Int := 6
/-- The SQL type `SQL_DOUBLE`. -/
def SQL_DOUBLE : Int := 8
/-- The SQL type `SQL_VARCHAR`. -/
def SQL_VARCHAR : Int := 12
/-- The SQL type `SQL_VARBINARY`. -/
def SQL_VARBINARY : Int := -3
/-- The SQL type `SQL_TIMESTAMP`. -/
def SQL_TIMESTAMP : Int := 11
/-- The value type `SQL_C_NUMERIC`. -/
def SQL_C_NUMERIC : Int := 2
/-- The value type `SQL_C_DATE`. -/
def SQL_C_DATE : Int := 9
/-- The value type `SQL_C_TIME`. -/
def SQL_C_TIME : Int := 10

/-- The two-level `switch` of `doSQLBindParameter` on `ValueType` and
`ParameterType`: the wire type that `buffer_type` receives, or `none` in the
`default` branches, which record an error and return. -/
def bind_buffer_type (ValueType ParameterType : Int) : Option Nat :=
  if ValueType = SQL_C_BIT then
    if ParameterType = SQL_BIT then some TSDB_DATA_TYPE_BOOL
    else if ParameterType = SQL_TINYINT then some TSDB_DATA_TYPE_TINYINT
    else if ParameterType = SQL_SMALLINT then some TSDB_DATA_TYPE_SMALLINT
    else if ParameterType = SQL_INTEGER then some TSDB_DATA_TYPE_INT
    else if ParameterType = SQL_BIGINT then some TSDB_DATA_TYPE_BIGINT
    else if ParameterType = SQL_FLOAT then some TSDB_DATA_TYPE_FLOAT
    else if ParameterType = SQL_DOUBLE then some TSDB_DATA_TYPE_DOUBLE
    else if ParameterType = SQL_VARCHAR then some TSDB_DATA_TYPE_NCHAR
    else none
  else if ValueType = SQL_C_TINYINT ∨ ValueType = SQL_C_SHORT ∨ ValueType = SQL_C_LONG
      ∨ ValueType = SQL_C_SBIGINT ∨ ValueType = SQL_C_FLOAT ∨ ValueType = SQL_C_DOUBLE
      ∨ ValueType = SQL_C_NUMERIC then
    if ParameterType = SQL_BIT then some TSDB_DATA_TYPE_BOOL
    else if ParameterType = SQL_TINYINT then some TSDB_DATA_TYPE_TINYINT
    else if ParameterType = SQL_SMALLINT then some TSDB_DATA_TYPE_SMALLINT
    else if ParameterType = SQL_INTEGER then some TSDB_DATA_TYPE_INT
    else if ParameterType = SQL_BIGINT then some TSDB_DATA_TYPE_BIGINT
    else if ParameterType = SQL_FLOAT then some TSDB_DATA_TYPE_FLOAT
    else if ParameterType = SQL_DOUBLE then some TSDB_DATA_TYPE_DOUBLE
    else if ParameterType = SQL_VARCHAR then some TSDB_DATA_TYPE_NCHAR
    else if ParameterType = SQL_TIMESTAMP then some TSDB_DATA_TYPE_TIMESTAMP
    else none
  else if ValueType = SQL_C_DATE ∨ ValueType = SQL_C_TIME ∨ ValueType = SQL_C_TIMESTAMP then
    if ParameterType = SQL_VARCHAR then some TSDB_DATA_TYPE_NCHAR
    else if ParameterType = SQL_TIMESTAMP then some TSDB_DATA_TYPE_TIMESTAMP
    else none
  else if ValueType = SQL_C_CHAR ∨ ValueType = SQL_C_BINARY then
    if ParameterType = SQL_BIT then some TSDB_DATA_TYPE_BOOL
    else if ParameterType = SQL_TINYINT then some TSDB_DATA_TYPE_TINYINT
    else if ParameterType = SQL_SMALLINT then some TSDB_DATA_TYPE_SMALLINT
    else if ParameterType = SQL_INTEGER then some TSDB_DATA_TYPE_INT
    else if ParameterType = SQL_BIGINT then some TSDB_DATA_TYPE_BIGINT
    else if ParameterType = SQL_FLOAT then some TSDB_DATA_TYPE_FLOAT
    else if ParameterType = SQL_DOUBLE then some TSDB_DATA_TYPE_DOUBLE
    else if ParameterType = SQL_VARCHAR then some TSDB_DATA_TYPE_NCHAR
    else if ParameterType = SQL_VARBINARY then some TSDB_DATA_TYPE_BINARY
    else if ParameterType = SQL_TIMESTAMP then some TSDB_DATA_TYPE_TIMESTAMP
    else none
  else none

/-- A call `realloc(old, n * sizeof(*old))` that succeeds: the block of `n`
entries obtained.  The entries that the old block had are kept; `realloc` does
not initialise the others, they are what the memory happens to hold, `mem`. -/
def realloc_array {α : Type} (old : Option (List α)) (n : Nat) (mem : Nat → α) : List α :=
  (List.range n).map (fun j => ((old.getD [])[j]?).getD (mem j))

/-- The array pointer that `doSQLBindParameter` goes on with: the array of the
statement when `n_params >= ParameterNumber`, the answer of `realloc`
otherwise (`mem` is `none` when `realloc` returns null). -/
def grown_array {α : Type} (n_params : Int) (ParameterNumber : Nat) (old : Option (List α))
    (mem : Option (Nat → α)) : Option (List α) :=
  if n_params ≥ ParameterNumber then old else mem.map (realloc_array old ParameterNumber)

/-- The end of `doSQLBindParameter`, from the test `if (!ar || !binds)` on:
`ar` and `binds` are the two array pointers obtained, `buffer_type` the wire
type resolved.  The position `ParameterNumber - 1` that is written must lie in
both arrays: the call is undefined otherwise, as it is for `ParameterNumber`
0, where the position computed is one entry before the arrays. -/
def bind_parameter_store (h : Heap) (s : Nat) (sql : sql_t) (buffer_type : Nat)
    (ParameterNumber : Nat) (ValueType ParameterType : Int) (LengthPrecision : Nat)
    (ParameterScale : Int) (ParameterValue : Option Nat) (StrLen_or_Ind : Option Nat)
    (ar : Option (List param_bind_t)) (binds : Option (List TAOS_BIND))
    (msg : Option String) : Outcome Heap :=
  match ar, binds with
  | some ar, some binds =>
    let n_params : Int :=
      if sql.n_params < ParameterNumber then ParameterNumber else sql.n_params
    if ParameterNumber = 0 ∨ ar.length < ParameterNumber
        ∨ binds.length < ParameterNumber then Outcome.fault else
    let b : TAOS_BIND :=
      { buffer_type := buffer_type, buffer_length := LengthPrecision, buffer := none,
        length := none, is_null := none, is_unsigned := 0, error := none }
    let pb : param_bind_t :=
      { ParameterNumber := ParameterNumber, ValueType := ValueType,
        ParameterType := ParameterType, LengthPrecision := LengthPrecision,
        ParameterScale := ParameterScale, ParameterValue := ParameterValue,
        StrLen_or_Ind := StrLen_or_Ind, valid := 1 }
    Outcome.ret SQLRETURN.SQL_SUCCESS
      (h.set_sql s (some { sql with
        params := some (ar.set (ParameterNumber - 1) pb),
        binds := some (binds.set (ParameterNumber - 1) b),
        n_params := n_params }))
  | ar, binds =>
    Outcome.ret SQLRETURN.SQL_ERROR
      (h.set_sql s (some { sql with
        err := SET_ERROR sql.err "HY000" TsdbCode.TSDB_CODE_ODBC_OOM msg,
        params := if ar.isSome then ar else sql.params,
        binds := if binds.isSome then binds else sql.binds }))

/-- The function `doSQLBindParameter`.  Pointers of the caller are addresses;
`params_mem` and `binds_mem` are the answers of the two calls of `realloc`:
`none` for a null answer, otherwise the contents of the memory obtained. -/
def doSQLBindParameter (h : Heap) (StatementHandle : Option Nat) (ParameterNumber : Nat)
    (fParamType ValueType ParameterType : Int) (LengthPrecision : Nat) (ParameterScale : Int)
    (ParameterValue : Option Nat) (_cbValueMax : Int) (StrLen_or_Ind : Option Nat)
    (params_mem : Option (Nat → param_bind_t)) (binds_mem : Option (Nat → TAOS_BIND))
    (msg : Option String) : Outcome Heap :=
  match StatementHandle with
  | none => Outcome.ret SQLRETURN.SQL_ERROR h
  | some s =>
    match h.sql s with
    | none => Outcome.fault
    | some sql =>
      let fail (eno : TsdbCode) : Outcome Heap :=
        Outcome.ret SQLRETURN.SQL_ERROR
          (h.set_sql s (some { sql with err := SET_ERROR sql.err "HY000" eno msg }))
      match check_connection h sql msg with
      | none => Outcome.fault
      | some (Except.error sql) => Outcome.ret SQLRETURN.SQL_ERROR (h.set_sql s (some sql))
      | some (Except.ok _) =>
        if sql.stmt.isNone then fail TsdbCode.TSDB_CODE_TSC_INVALID_SQL else
        if fParamType ≠ SQL_PARAM_INPUT then fail TsdbCode.TSDB_CODE_COM_OPS_NOT_SUPPORT else
        match bind_buffer_type ValueType ParameterType with
        | none => fail TsdbCode.TSDB_CODE_COM_OPS_NOT_SUPPORT
        | some buffer_type =>
          bind_parameter_store h s sql buffer_type ParameterNumber ValueType ParameterType
            LengthPrecision ParameterScale ParameterValue StrLen_or_Ind
            (grown_array sql.n_params ParameterNumber sql.params params_mem)
            (grown_array sql.n_params ParameterNumber sql.binds binds_mem) msg

/-! ## Calls and reachable states -/

/-- A call of one of the operations of the handle lifecycle or of a statement,
with its arguments and with the answers of the allocator and of the engine. -/
inductive Op where
  | alloc_env (calloc_ok : Bool)
  | free_env (EnvironmentHandle : Option Nat)
  | alloc_connect (EnvironmentHandle : Option Nat) (calloc_ok : Bool)
  | free_connect (ConnectionHandle : Option Nat)
  | connect (ConnectionHandle : Option Nat) (ServerName : Option Bytes) (NameLength1 : Int)
      (UserName : Option Bytes) (NameLength2 : Int) (Authentication : Option Bytes)
      (NameLength3 : Int) (alloc1 alloc2 alloc3 : Bool) (taos : Option Nat) (terrno : TsdbCode)
  | disconnect (ConnectionHandle : Option Nat)
  | alloc_stmt (ConnectionHandle : Option Nat) (calloc_ok : Bool)
  | free_stmt (StatementHandle : Option Nat) (Option_ : Nat)
  | exec_direct (StatementHandle : Option Nat) (StatementText : Option Bytes) (TextLength : Int)
      (alloc_ok : Bool) (rs : Option TAOS_RES) (terrno : TsdbCode)
  | prepare (StatementHandle : Option Nat) (StatementText : Option Bytes) (TextLength : Int)
      (stmt : Option Nat) (terrno : TsdbCode) (prepared : TsdbCode)
  | fetch (StatementHandle : Option Nat)
  | get_data (StatementHandle : Option Nat) (ColumnNumber : Nat) (TargetType : Int)
      (TargetValue : Option Bytes) (BufferLength : Int) (StrLen_or_Ind : Option Int)
  | execute (StatementHandle : Option Nat) (E : ExecuteEnv)
  | bind_parameter (StatementHandle : Option Nat) (ParameterNumber : Nat)
      (fParamType ValueType ParameterType : Int) (LengthPrecision : Nat) (ParameterScale : Int)
      (ParameterValue : Option Nat) (cbValueMax : Int) (StrLen_or_Ind : Option Nat)
      (params_mem : Option (Nat → param_bind_t)) (binds_mem : Option (Nat → TAOS_BIND))

/-- The effect of a call on the objects of the process; `msg` is the text of
the error message, should the call record one. -/
def Op.run {D F : Type} (L : LibC D F) (h : Heap) (msg : Option String) : Op → Outcome Heap
  | Op.alloc_env calloc_ok => (doSQLAllocEnv h calloc_ok).map Prod.fst
  | Op.free_env e => doSQLFreeEnv h e
  | Op.alloc_connect e calloc_ok => (doSQLAllocConnect h e calloc_ok msg).map Prod.fst
  | Op.free_connect c => doSQLFreeConnect h c
  | Op.connect c s1 n1 s2 n2 s3 n3 a1 a2 a3 taos terrno =>
    doSQLConnect h c s1 n1 s2 n2 s3 n3 a1 a2 a3 taos terrno msg
  | Op.disconnect c => doSQLDisconnect h c
  | Op.alloc_stmt c calloc_ok => (doSQLAllocStmt h c calloc_ok msg).map Prod.fst
  | Op.free_stmt s o => doSQLFreeStmt h s o msg
  | Op.exec_direct s txt n a rs terrno => doSQLExecDirect h s txt n a rs terrno msg
  | Op.prepare s txt n stmt terrno prepared => doSQLPrepare h s txt n stmt terrno prepared msg
  | Op.fetch s => doSQLFetch h s msg
  | Op.get_data s col ct ptr len soi => (doSQLGetData L h s col ct ptr len soi msg).map Prod.fst
  | Op.execute s E => doSQLExecute h s E msg
  | Op.bind_parameter s i dir vt pt len scale val cb soi pm bm =>
    doSQLBindParameter h s i dir vt pt len scale val cb soi pm bm msg

/-- The states of the process reachable from its start (no handle allocated)
through calls that all return: none aborts, none is undefined. -/
inductive Reachable {D F : Type} (L : LibC D F) : Heap → Prop where
  | init : Reachable L {}
  | step {h h' : Heap} (op : Op) (msg : Option String) (r : SQLRETURN) :
      Reachable L h → op.run L h msg = Outcome.ret r h' → Reachable L h'

/-! ## Teardown, engine calls and sequences of calls -/

/-- The teardown that opens `doSQLExecDirect` and `doSQLPrepare` past the
connection checks: the result set and the row cursor, then the prepared handle
and the parameter arrays. -/
def reset_statement (h : Heap) (sql : sql_t) : Heap × sql_t :=
  release_stmt_params (release_result h sql).1 (release_result h sql).2

/-- The objects `h` after a call that has made the calls `cs` to the engine and
has left the statement at `s` as `sql`, everything else being as before. -/
def Heap.after (h : Heap) (s : Nat) (sql : sql_t) (cs : List EngineCall) : Heap :=
  { h with sqls := h.sqls.set s (some sql), log := h.log ++ cs }

/-- The result object that a statement holds, as a list of at most one
identifier. -/
def held_result (rs : Option TAOS_RES) : List Nat := (rs.map (fun x => x.id)).toList

/-- The wire types of the bind structures of an array (none for a null
pointer). -/
def wire_types (binds : Option (List TAOS_BIND)) : List Int :=
  (binds.getD []).map (fun b => b.buffer_type)

/-- The calls made to the engine between the state `h` and the later state
`h'`. -/
def calls_between (h h' : Heap) : List EngineCall := h'.log.drop h.log.length

/-- The native handles that the calls `cs` hand to `taos_close`, in order. -/
def closed_handles (cs : List EngineCall) : List Nat :=
  cs.filterMap (fun c => match c with
    | EngineCall.taos_close t => some t
    | _ => none)

/-- The result objects that the calls `cs` hand to `taos_free_result`, in
order. -/
def freed_results (cs : List EngineCall) : List Nat :=
  cs.filterMap (fun c => match c with
    | EngineCall.taos_free_result rs => some rs
    | _ => none)

/-- The calls in which the engine hands a result object to the driver:
`taos_query` and `taos_stmt_use_result`. -/
def hands_result : EngineCall → Bool
  | EngineCall.taos_query _ _ => true
  | EngineCall.taos_stmt_use_result _ => true
  | _ => false

/-- The result object that the statement receives from the engine during a
call that takes the objects from `h` to `h'`: the answer given to
`doSQLExecDirect` or `doSQLExecute`, when it is not null and the call has got
as far as `taos_query` or `taos_stmt_use_result`. -/
def Op.handed (op : Op) (h h' : Heap) : List Nat :=
  if (calls_between h h').any hands_result then
    match op with
    | Op.exec_direct _ _ _ _ rs _ => (rs.map (fun x => x.id)).toList
    | Op.execute _ E => (E.use_result.map (fun x => x.id)).toList
    | _ => []
  else []

/-- Successive calls, each on the objects left by the call before it: the
objects after the last call and the result objects handed over by the engine on
the way, when every call returns. -/
def run_calls {D F : Type} (L : LibC D F) (h : Heap) :
    List (Op × Option String) → Option (Heap × List Nat)
  | [] => some (h, [])
  | (op, msg) :: ops =>
    match op.run L h msg with
    | Outcome.ret _ h1 => (run_calls L h1 ops).map (fun p => (p.1, op.handed h h1 ++ p.2))
    | _ => none

/-- The calls `doSQLDisconnect` and `doSQLFreeConnect` on the connection `c`. -/
def Op.on_connection (c : Nat) : Op → Bool
  | Op.disconnect (some c1) => c1 = c
  | Op.free_connect (some c1) => c1 = c
  | _ => false

/-- The calls `doSQLExecDirect`, `doSQLPrepare`, `doSQLExecute` and
`doSQLFreeStmt` with `SQL_DROP` on the statement `s`. -/
def Op.on_statement (s : Nat) : Op → Bool
  | Op.exec_direct (some s1) _ _ _ _ _ => s1 = s
  | Op.prepare (some s1) _ _ _ _ _ => s1 = s
  | Op.execute (some s1) _ => s1 = s
  | Op.free_stmt (some s1) o => s1 = s && o = SQL_DROP
  | _ => false

/-- The calls `doSQLBindParameter`, `doSQLPrepare`, `doSQLExecDirect`,
`doSQLExecute` and `doSQLFreeStmt` with `SQL_DROP` on the statement `s`. -/
def Op.on_parameters (s : Nat) : Op → Bool
  | Op.bind_parameter (some s1) _ _ _ _ _ _ _ _ _ _ _ => s1 = s
  | op => op.on_statement s

/-- The positions bound after a call on the statement `s` that returns `r`
and leaves the objects `h'`, `B` being the positions bound before: a
`doSQLBindParameter` that succeeds binds the position `ParameterNumber - 1`,
and a position stays bound as long as it lies below `n_params`. -/
def bound_after (s : Nat) (op : Op) (r : SQLRETURN) (h' : Heap) (B : List Nat) : List Nat :=
  let B1 := match op with
    | Op.bind_parameter _ i _ _ _ _ _ _ _ _ _ _ =>
      if r = SQLRETURN.SQL_SUCCESS then (i - 1) :: B else B
    | _ => B
  match h'.sql s with
  | some sql => B1.filter (fun j => decide ((j : Int) < sql.n_params))
  | none => []

/-- The states of the statement at `s` reachable from its allocation through
`doSQLBindParameter` (whether it succeeds or fails), `doSQLPrepare`,
`doSQLExecDirect`, `doSQLExecute` and `doSQLFreeStmt` with `SQL_DROP`, each
with the positions of its parameter arrays that are bound. -/
inductive StmtReach {D F : Type} (L : LibC D F) (s : Nat) : Heap → List Nat → Prop where
  | alloc {h h' : Heap} (c : Option Nat) (msg : Option String) :
      doSQLAllocStmt h c true msg = Outcome.ret SQLRETURN.SQL_SUCCESS (h', some s) →
      StmtReach L s h' []
  | step {h h' : Heap} {B : List Nat} (op : Op) (msg : Option String) (r : SQLRETURN) :
      StmtReach L s h B → op.on_parameters s = true → op.run L h msg = Outcome.ret r h' →
      StmtReach L s h' (bound_after s op r h' B)

/-- The outcome `o` of a conversion on the statement `sql`, when it is
`SQL_SUCCESS`, leaves the statement as it was. -/
def conv_clean (sql : sql_t) (o : Conv) : Prop :=
  ∀ s' t', o = Outcome.ret SQLRETURN.SQL_SUCCESS (s', t') → s' = sql

/-- The position `j` of the parameter arrays of `sql` holds a descriptor
marked valid and a bind structure whose wire type is the one that the switch
of `doSQLBindParameter` resolves for the value type and the SQL type of that
descriptor. -/
def bound_entry (sql : sql_t) (j : Nat) : Prop :=
  ∃ pb b ty, (sql.params.getD [])[j]? = some pb ∧ (sql.binds.getD [])[j]? = some b
    ∧ pb.valid = 1 ∧ bind_buffer_type pb.ValueType pb.ParameterType = some ty
    ∧ b.buffer_type = ty

/-- The parameter arrays of `sql` hold at least `n_params` entries each, and
every position of `B` lies below `n_params` and is a bound entry. -/
def params_ok (sql : sql_t) (B : List Nat) : Prop :=
  0 ≤ sql.n_params ∧ sql.n_params ≤ ((sql.params.getD []).length : Int)
    ∧ sql.n_params ≤ ((sql.binds.getD []).length : Int)
    ∧ ∀ j ∈ B, (j : Int) < sql.n_params ∧ bound_entry sql j

/-! ## Prepared statements for the examples -/

/-- A parameter descriptor: an `int` of the caller at address 100 for an
`INTEGER` parameter. -/
def demo_param : param_bind_t :=
  { ParameterNumber := 1, ValueType := SQL_C_LONG, ParameterType := SQL_INTEGER,
    LengthPrecision := 4, ParameterValue := some 100, valid := 1 }

/-- The bind structure that `doSQLBindParameter` writes for `demo_param`. -/
def demo_bind : TAOS_BIND := { buffer_type := TSDB_DATA_TYPE_INT, buffer_length := 4 }

/-- A statement just prepared: it holds the prepared handle 3 and no
parameter. -/
def demo_prepared : sql_t := { refcount := 1, conn := some 0, stmt := some 3 }

/-- A prepared statement with its one parameter bound. -/
def demo_bound : sql_t :=
  { refcount := 1, conn := some 0, stmt := some 3, binds := some [demo_bind],
    params := some [demo_param], n_params := 1 }

/-- An engine that accepts every call of `doSQLExecute` and returns no result
object, and a caller whose indicators hold 0. -/
def demo_env : ExecuteEnv :=
  { ind := fun _ => 0, strlen := fun _ => 0, addr_yes := 1, addr_no := 2,
    addr_buffer_length := fun i => 16 + i, bind_param := TsdbCode.TSDB_CODE_SUCCESS,
    add_batch := TsdbCode.TSDB_CODE_SUCCESS, execute := TsdbCode.TSDB_CODE_SUCCESS,
    use_result := none, terrno := TsdbCode.TSDB_CODE_SUCCESS }

/-- A process with one environment and one connected connection without
statements. -/
def demo_connected : Heap :=
  { envs := [some { refcount := 2 }],
    conns := [some { refcount := 1, env := some 0, taos := some 7 }],
    inited := true,
    log := [EngineCall.taos_init] }

/-! ## Error contexts -/

/-- The error contexts of a store of handles, slot by slot (`none` for a slot
without a live handle). -/
def errs_of {α : Type} (err : α → taos_error_t) (xs : List (Option α)) :
    List (Option taos_error_t) := xs.map (Option.map err)

/-- What happens to the error contexts of a store: nothing, or a fresh slot
with a clear context is added, or a slot is released. -/
def errs_step (E E' : List (Option taos_error_t)) : Prop :=
  E' = E ∨ E' = E ++ [some ({} : taos_error_t)] ∨ ∃ p, E' = E.set p none

/-- The error contexts of the three stores of `h'` come from those of `h` by
`errs_step`. -/
def Heap.errs_step (h h' : Heap) : Prop :=
  Todbc.errs_step (errs_of env_t.err h.envs) (errs_of env_t.err h'.envs)
    ∧ Todbc.errs_step (errs_of conn_t.err h.conns) (errs_of conn_t.err h'.conns)
    ∧ Todbc.errs_step (errs_of sql_t.err h.sqls) (errs_of sql_t.err h'.sqls)

/-- A statement of the connection 0 on which a failed `doSQLFetch` has
recorded its error. -/
def demo_failed : sql_t :=
  { refcount := 1, conn := some 0,
    err := { err_str := some "no result set",
             err_no := TsdbCode.TSDB_CODE_TSC_QUERY_CACHE_ERASED, sql_state := "HY000" } }

end Todbc
namespace Todbc

/-- A process with one environment and one connection that holds no native
handle. -/
def demo_disconnected : Heap :=
  { envs := [some { refcount := 2 }],
    conns := [some { refcount := 1, env := some 0 }],
    inited := true,
    log := [EngineCall.taos_init] }

/-- The width in bytes of the integer targets of `doSQLGetData`: those of
`int_target_width` and `SQL_C_BIT`, which takes one byte. -/
def int_or_bit_target_width (ct : Int) : Option Nat :=
  if ct = SQL_C_BIT then some 1 else int_target_width ct

/-- The pairs (integer wire type, integer target) for which the conversion is
to be supported: boolean to bit, tinyint, short, long and sbigint; int8 to
tinyint and wider; int16 to short and wider; int32 to long and sbigint; int64
to sbigint. -/
def widening_pairs : List (Nat × Int) :=
  [(TSDB_DATA_TYPE_BOOL, SQL_C_BIT), (TSDB_DATA_TYPE_BOOL, SQL_C_TINYINT),
   (TSDB_DATA_TYPE_BOOL, SQL_C_SHORT), (TSDB_DATA_TYPE_BOOL, SQL_C_LONG),
   (TSDB_DATA_TYPE_BOOL, SQL_C_SBIGINT),
   (TSDB_DATA_TYPE_TINYINT, SQL_C_TINYINT), (TSDB_DATA_TYPE_TINYINT, SQL_C_SHORT),
   (TSDB_DATA_TYPE_TINYINT, SQL_C_LONG), (TSDB_DATA_TYPE_TINYINT, SQL_C_SBIGINT),
   (TSDB_DATA_TYPE_SMALLINT, SQL_C_SHORT), (TSDB_DATA_TYPE_SMALLINT, SQL_C_LONG),
   (TSDB_DATA_TYPE_SMALLINT, SQL_C_SBIGINT),
   (TSDB_DATA_TYPE_INT, SQL_C_LONG), (TSDB_DATA_TYPE_INT, SQL_C_SBIGINT),
   (TSDB_DATA_TYPE_BIGINT, SQL_C_SBIGINT)]

/-! ## Column attributes -/

/-- Modelled from the spec: the size `VARSTR_HEADER_SIZE` of the length header
in front of a variable-length value (`taosdef.h`, not under src/), the size of
an `int16_t`. -/
def VARSTR_HEADER_SIZE : Int := 2

/-- Modelled from the spec: `sizeof(field->name)`, the size of the name buffer
of a `TAOS_FIELD` (`taos.h`, not under src/). -/
def TAOS_FIELD_NAME_SIZE : Nat := 65

/-- The field identifier `SQL_COLUMN_DISPLAY_SIZE` (sqlext.h). -/
def SQL_COLUMN_DISPLAY_SIZE : Nat := 6
/-- The field identifier `SQL_COLUMN_UNSIGNED`. -/
def SQL_COLUMN_UNSIGNED : Nat := 8
/-- The field identifier `SQL_COLUMN_LABEL`. -/
def SQL_COLUMN_LABEL : Nat := 18
/-- The value `SQL_FALSE`. -/
def SQL_FALSE : Int := 0

/-- The function `do_field_display_size`.  The result is an `int`; the
expression for the variable-length types is computed in `size_t` (the header
size is a `sizeof`) and converted to `int` on return. -/
def do_field_display_size (field : TAOS_FIELD) : Int :=
  if field.type = TSDB_DATA_TYPE_TINYINT then 5
  else if field.type = TSDB_DATA_TYPE_SMALLINT then 7
  else if field.type = TSDB_DATA_TYPE_INT then 12
  else if field.type = TSDB_DATA_TYPE_BIGINT then 22
  else if field.type = TSDB_DATA_TYPE_FLOAT then 12
  else if field.type = TSDB_DATA_TYPE_DOUBLE then 20
  else if field.type = TSDB_DATA_TYPE_BINARY ∨ field.type = TSDB_DATA_TYPE_NCHAR then
    int_cast 4 (3 * (field.bytes - VARSTR_HEADER_SIZE) + 2)
  else if field.type = TSDB_DATA_TYPE_TIMESTAMP then 26
  else if field.type = TSDB_DATA_TYPE_BOOL then 7
  else 10

/-- What `doSQLColAttribute` leaves: the objects of the process, the buffer
behind `CharacterAttribute` and the value behind `NumericAttribute`. -/
abbrev ColAttributeState := Heap × Option Bytes × Option Int

/-- The function `doSQLColAttribute`.  `CharacterAttribute` and
`NumericAttribute` are the two pointers of the caller with the contents of
what they point to; `StringLength` is never used. -/
def doSQLColAttribute (h : Heap) (StatementHandle : Option Nat) (ColumnNumber : Nat)
    (FieldIdentifier : Nat) (CharacterAttribute : Option Bytes) (BufferLength : Int)
    (_StringLength : Option Int) (NumericAttribute : Option Int) (msg : Option String) :
    Outcome ColAttributeState :=
  match StatementHandle with
  | none => Outcome.ret SQLRETURN.SQL_ERROR (h, CharacterAttribute, NumericAttribute)
  | some s =>
    match h.sql s with
    | none => Outcome.fault
    | some sql =>
      let fail (eno : TsdbCode) : Outcome ColAttributeState :=
        Outcome.ret SQLRETURN.SQL_ERROR
          (h.set_sql s (some { sql with err := SET_ERROR sql.err "HY000" eno msg }),
            CharacterAttribute, NumericAttribute)
      match check_connection h sql msg with
      | none => Outcome.fault
      | some (Except.error sql) =>
        Outcome.ret SQLRETURN.SQL_ERROR
          (h.set_sql s (some sql), CharacterAttribute, NumericAttribute)
      | some (Except.ok _) =>
        match sql.rs with
        | none => fail TsdbCode.TSDB_CODE_TSC_QUERY_CACHE_ERASED
        | some rs =>
          let nfields := rs.field_count
          if nfields = 0 ∨ rs.fields.isNone then fail TsdbCode.TSDB_CODE_MND_FIELD_NOT_EXIST else
          if (ColumnNumber : Int) < 0 then fail TsdbCode.TSDB_CODE_TSC_APP_ERROR else
          if ColumnNumber = 0 then fail TsdbCode.TSDB_CODE_COM_OPS_NOT_SUPPORT else
          if (ColumnNumber : Int) > nfields then fail TsdbCode.TSDB_CODE_TSC_APP_ERROR else
          match rs.fields.bind (fun fs => fs[ColumnNumber - 1]?) with
          | none => Outcome.fault
          | some field =>
            if FieldIdentifier = SQL_COLUMN_DISPLAY_SIZE then
              match NumericAttribute with
              | none => Outcome.fault
              | some _ =>
                Outcome.ret SQLRETURN.SQL_SUCCESS
                  (h, CharacterAttribute, some (do_field_display_size field))
            else if FieldIdentifier = SQL_COLUMN_LABEL then
              let n := TAOS_FIELD_NAME_SIZE
              let cnt := if n > to_size_t BufferLength then to_size_t BufferLength else n
              match CharacterAttribute with
              | none => Outcome.fault
              | some p =>
                if p.length < cnt then Outcome.fault else
                Outcome.ret SQLRETURN.SQL_SUCCESS
                  (h, some (mem_write p (strncpy_data (c_str field.name) cnt)), NumericAttribute)
            else if FieldIdentifier = SQL_COLUMN_UNSIGNED then
              match NumericAttribute with
              | none => Outcome.fault
              | some _ => Outcome.ret SQLRETURN.SQL_SUCCESS (h, CharacterAttribute, some SQL_FALSE)
            else fail TsdbCode.TSDB_CODE_COM_OPS_NOT_SUPPORT

/-! ## Diagnostics -/

/-- The handle type `SQL_HANDLE_ENV` (sql.h). -/
def SQL_HANDLE_ENV : Int := 1
/-- The handle type `SQL_HANDLE_DBC`. -/
def SQL_HANDLE_DBC : Int := 2
/-- The handle type `SQL_HANDLE_STMT`. -/
def SQL_HANDLE_STMT : Int := 3

/-- The four outputs of `doSQLGetDiagRec`: what lies behind `Sqlstate`,
`NativeError`, `MessageText` and `TextLength` (`none` for a null pointer). -/
structure DiagRec where
  Sqlstate : Option Bytes := none
  NativeError : Option TsdbCode := none
  MessageText : Option Bytes := none
  TextLength : Option Int := none
  deriving DecidableEq, Repr

/-- The C string held by the array `sql_state[6]` of an error context: at most
5 characters. -/
def sql_state_text (err : taos_error_t) : Bytes := (c_str (ascii err.sql_state)).take 5

/-- The macro `FILL_ERROR`.  `none`: a write outside a buffer of the caller, or
`snprintf("%s")` of a null `err_str`. -/
def FILL_ERROR (err : taos_error_t) (out : DiagRec) (BufferLength : Int) : Option DiagRec :=
  let n := 6
  let Sqlstate : Option (Option Bytes) :=
    match out.Sqlstate with
    | none => some none
    | some p =>
      if p.length < n then none
      else some (some (mem_write p (strncpy_data (sql_state_text err) n)))
  let NativeError := out.NativeError.map (fun _ => err.err_no)
  match Sqlstate, err.err_str with
  | some Sqlstate, some m =>
    let text := c_str (ascii m)
    let data := snprintf_data text (to_size_t BufferLength)
    let MessageText : Option (Option Bytes) :=
      match out.MessageText with
      | none => if to_size_t BufferLength = 0 then some none else none
      | some p => if p.length < data.length then none else some (some (mem_write p data))
    match MessageText with
    | none => none
    | some MessageText =>
      some { Sqlstate := Sqlstate, NativeError := NativeError, MessageText := MessageText,
             TextLength := out.TextLength.map (fun _ => int_cast 2 text.length) }
  | _, _ => none

/-- The function `doSQLGetDiagRec`; `out` holds the four output pointers
`Sqlstate`, `NativeError`, `MessageText` and `TextLength`. -/
def doSQLGetDiagRec (h : Heap) (HandleType : Int) (Handle : Option Nat) (RecNumber : Int)
    (out : DiagRec) (BufferLength : Int) : Outcome DiagRec :=
  if RecNumber > 1 then Outcome.ret SQLRETURN.SQL_NO_DATA out else
  if HandleType = SQL_HANDLE_ENV then
    match Handle with
    | none => Outcome.ret SQLRETURN.SQL_ERROR out
    | some p =>
      match h.env p with
      | none => Outcome.fault
      | some env =>
        match FILL_ERROR env.err out BufferLength with
        | none => Outcome.fault
        | some out => Outcome.ret SQLRETURN.SQL_SUCCESS out
  else if HandleType = SQL_HANDLE_DBC then
    match Handle with
    | none => Outcome.ret SQLRETURN.SQL_ERROR out
    | some p =>
      match h.conn p with
      | none => Outcome.fault
      | some conn =>
        match FILL_ERROR conn.err out BufferLength with
        | none => Outcome.fault
        | some out => Outcome.ret SQLRETURN.SQL_SUCCESS out
  else if HandleType = SQL_HANDLE_STMT then
    match Handle with
    | none => Outcome.ret SQLRETURN.SQL_ERROR out
    | some p =>
      match h.sql p with
      | none => Outcome.fault
      | some sql =>
        match FILL_ERROR sql.err out BufferLength with
        | none => Outcome.fault
        | some out => Outcome.ret SQLRETURN.SQL_SUCCESS out
  else Outcome.ret SQLRETURN.SQL_ERROR out

/-- The error context of the live handle of the kind `HandleType` at `p`. -/
def handle_error (h : Heap) (HandleType : Int) (p : Nat) : Option taos_error_t :=
  if HandleType = SQL_HANDLE_ENV then (h.env p).map (fun x => x.err)
  else if HandleType = SQL_HANDLE_DBC then (h.conn p).map (fun x => x.err)
  else if HandleType = SQL_HANDLE_STMT then (h.sql p).map (fun x => x.err)
  else none

/-- A message of 32768 characters. -/
def long_message : String := String.mk (List.replicate 32768 (Char.ofNat 120))

/-- A statement of the connection 0 whose error context holds the message
`long_message`. -/
def demo_long_error : sql_t :=
  { refcount := 1, conn := some 0,
    err := { err_str := some long_message,
             err_no := TsdbCode.TSDB_CODE_RPC_NETWORK_UNAVAIL, sql_state := "HY000" } }

/-- The text that the conversions to `SQL_C_CHAR` produce for a cell of an
integer wire type of `sw` bytes: the digit `'0' + b` for a boolean
(`conv_tsdb_bool_to_c_char`), the `%d` rendering of the value otherwise
(`conv_tsdb_v1_to_c_char` to `conv_tsdb_v8_to_c_char`). -/
def int_cell_text (ty sw : Nat) (cell : Bytes) : Bytes :=
  if ty = TSDB_DATA_TYPE_BOOL then [to_unsigned 1 (48 + cell_int_value ty sw cell)]
  else fmt_d (cell_int_value ty sw cell)

/-- The text that `conv_tsdb_ts_to_c_str` produces for a timestamp cell: the
text of `strftime`, a dot and the fraction printed with `%03d`. -/
def ts_cell_text {D F : Type} (L : LibC D F) (cell : Bytes) : Bytes :=
  L.strftime (tm_of_ts (ts_of_cell L cell)) ++ [46]
    ++ fmt_03d (to_signed 4 (ts_of_cell L cell).fraction)

/-! ## A reference libc with the IEEE 754 layout of a `double` -/

/-- The value of the IEEE 754 binary64 number held by 8 bytes (least
significant first), as an exact decimal: every finite `double` is one.  An
infinity or a NaN reads as 0. -/
def ieee_f8 (b : Bytes) : Dec :=
  let u : Nat := le_val (b.take 8)
  let e : Nat := u / 2 ^ 52 % 2048
  let f : Nat := u % 2 ^ 52
  let m : Nat := if e = 0 then f else 2 ^ 52 + f
  let x : Int := if e = 0 then -1074 else (e : Int) - 1075
  let mag : Dec :=
    if e = 2047 then { num := 0, scale := 0 }
    else if 0 ≤ x then { num := m * 2 ^ x.toNat, scale := 0 }
    else { num := m * 5 ^ (-x).toNat, scale := (-x).toNat }
  if 2 ^ 63 ≤ u % 2 ^ 64 then { mag with num := - mag.num } else mag

/-- The text of `%.6f` for a decimal whose integer part has up to 400 digits
(the largest `double` has 309): six digits of fraction, the further ones
dropped. -/
def dec_f6_wide (d : Dec) : Bytes :=
  let q := (d.num.natAbs * 10 ^ 6) / 10 ^ d.scale
  let frac := fmt_u (q % 10 ^ 6)
  (if d.num < 0 then [45] else []) ++ dec_digits 400 (q / 10 ^ 6) [] ++ [46]
    ++ List.replicate (6 - frac.length) 48 ++ frac

/-- The reference libc with a `double` read from memory in the IEEE 754
layout and `%.6f` printing the integer part in full: it agrees with the C
library on the load of every finite `double` and on the `%.6f` text of every
`double` that is an integer (every one of magnitude `2 ^ 52` or more). -/
def ieee_libc : LibC Dec Dec :=
  { dec_libc with f8_load := ieee_f8, printf_f6 := dec_f6_wide }

/-- The 8 bytes of the `double` 1e100. -/
def f8_1e100 : Bytes := [125, 195, 148, 37, 173, 73, 178, 84]

/-- A descriptor as `doSQLBindParameter` leaves it for a string of the caller
at address 100, with its indicator at address 50, bound to a `VARCHAR`
parameter declared with the length 10. -/
def demo_text_param : param_bind_t :=
  { ParameterNumber := 1, ValueType := SQL_C_CHAR, ParameterType := SQL_VARCHAR,
    LengthPrecision := 10, ParameterValue := some 100, StrLen_or_Ind := some 50, valid := 1 }

/-- The bind structure that `doSQLBindParameter` writes for `demo_text_param`. -/
def demo_text_bind : TAOS_BIND := { buffer_type := TSDB_DATA_TYPE_NCHAR, buffer_length := 10 }

/-- A prepared statement with the one parameter `demo_text_param`. -/
def demo_text_bound : sql_t :=
  { refcount := 1, conn := some 0, stmt := some 3, binds := some [demo_text_bind],
    params := some [demo_text_param], n_params := 1 }

/-- The statement `demo_text_bound` holding a result set. -/
def demo_text_held : sql_t := { demo_text_bound with rs := some { id := 9 } }

/-- An engine that accepts every call of `doSQLExecute` and returns no result
object, and a caller whose indicators hold `n` and whose strings measure
`len` characters. -/
def demo_env_len (n : Int) (len : Nat) : ExecuteEnv :=
  { demo_env with ind := fun _ => n, strlen := fun _ => len }

end Todbc

namespace Todbc

/-! ## Lemmas on the stores -/

theorem Heap.env_lt {h : Heap} {p : Nat} {env : env_t} (he : h.env p = some env) :
    p < h.envs.length := by
  unfold Heap.env at he
  by_contra hlt
  rw [List.getElem?_eq_none (by omega)] at he
  simp at he

theorem Heap.conn_lt {h : Heap} {p : Nat} {conn : conn_t} (he : h.conn p = some conn) :
    p < h.conns.length := by
  unfold Heap.conn at he
  by_contra hlt
  rw [List.getElem?_eq_none (by omega)] at he
  simp at he

theorem Heap.sql_lt {h : Heap} {p : Nat} {sql : sql_t} (he : h.sql p = some sql) :
    p < h.sqls.length := by
  unfold Heap.sql at he
  by_contra hlt
  rw [List.getElem?_eq_none (by omega)] at he
  simp at he

theorem Heap.env_set_env (h : Heap) (p q : Nat) (x : Option env_t) :
    (h.set_env p x).env q
      = if p = q then (if p < h.envs.length then x else none) else h.env q := by
  unfold Heap.env Heap.set_env
  simp only [List.getElem?_set]
  split_ifs <;> simp

theorem Heap.conn_set_conn (h : Heap) (p q : Nat) (x : Option conn_t) :
    (h.set_conn p x).conn q
      = if p = q then (if p < h.conns.length then x else none) else h.conn q := by
  unfold Heap.conn Heap.set_conn
  simp only [List.getElem?_set]
  split_ifs <;> simp

theorem Heap.sql_set_sql (h : Heap) (p q : Nat) (x : Option sql_t) :
    (h.set_sql p x).sql q
      = if p = q then (if p < h.sqls.length then x else none) else h.sql q := by
  unfold Heap.sql Heap.set_sql
  simp only [List.getElem?_set]
  split_ifs <;> simp

@[simp] theorem Heap.conn_set_env (h : Heap) (p q : Nat) (x : Option env_t) :
    (h.set_env p x).conn q = h.conn q := rfl
@[simp] theorem Heap.sql_set_env (h : Heap) (p q : Nat) (x : Option env_t) :
    (h.set_env p x).sql q = h.sql q := rfl
@[simp] theorem Heap.env_set_conn (h : Heap) (p q : Nat) (x : Option conn_t) :
    (h.set_conn p x).env q = h.env q := rfl
@[simp] theorem Heap.sql_set_conn (h : Heap) (p q : Nat) (x : Option conn_t) :
    (h.set_conn p x).sql q = h.sql q := rfl
@[simp] theorem Heap.env_set_sql (h : Heap) (p q : Nat) (x : Option sql_t) :
    (h.set_sql p x).env q = h.env q := rfl
@[simp] theorem Heap.conn_set_sql (h : Heap) (p q : Nat) (x : Option sql_t) :
    (h.set_sql p x).conn q = h.conn q := rfl
@[simp] theorem Heap.env_call (h : Heap) (c : EngineCall) (q : Nat) :
    (h.call c).env q = h.env q := rfl
@[simp] theorem Heap.conn_call (h : Heap) (c : EngineCall) (q : Nat) :
    (h.call c).conn q = h.conn q := rfl
@[simp] theorem Heap.sql_call (h : Heap) (c : EngineCall) (q : Nat) :
    (h.call c).sql q = h.sql q := rfl
@[simp] theorem Heap.env_push_conn (h : Heap) (x : conn_t) (q : Nat) :
    (h.push_conn x).env q = h.env q := rfl
@[simp] theorem Heap.sql_push_conn (h : Heap) (x : conn_t) (q : Nat) :
    (h.push_conn x).sql q = h.sql q := rfl
@[simp] theorem Heap.env_push_sql (h : Heap) (x : sql_t) (q : Nat) :
    (h.push_sql x).env q = h.env q := rfl
@[simp] theorem Heap.conn_push_sql (h : Heap) (x : sql_t) (q : Nat) :
    (h.push_sql x).conn q = h.conn q := rfl
@[simp] theorem Heap.conn_push_env (h : Heap) (x : env_t) (q : Nat) :
    (h.push_env x).conn q = h.conn q := rfl
@[simp] theorem Heap.sql_push_env (h : Heap) (x : env_t) (q : Nat) :
    (h.push_env x).sql q = h.sql q := rfl

theorem Heap.env_push_env (h : Heap) (x : env_t) (q : Nat) :
    (h.push_env x).env q = if q = h.envs.length then some x else h.env q := by
  unfold Heap.env Heap.push_env
  simp only [List.getElem?_append]
  split_ifs with h1 h2 h2
  · omega
  · rfl
  · subst h2; simp
  · rw [List.getElem?_eq_none (by simp; omega), List.getElem?_eq_none (by omega)]

theorem Heap.conn_push_conn (h : Heap) (x : conn_t) (q : Nat) :
    (h.push_conn x).conn q = if q = h.conns.length then some x else h.conn q := by
  unfold Heap.conn Heap.push_conn
  simp only [List.getElem?_append]
  split_ifs with h1 h2 h2
  · omega
  · rfl
  · subst h2; simp
  · rw [List.getElem?_eq_none (by simp; omega), List.getElem?_eq_none (by omega)]

theorem Heap.sql_push_sql (h : Heap) (x : sql_t) (q : Nat) :
    (h.push_sql x).sql q = if q = h.sqls.length then some x else h.sql q := by
  unfold Heap.sql Heap.push_sql
  simp only [List.getElem?_append]
  split_ifs with h1 h2 h2
  · omega
  · rfl
  · subst h2; simp
  · rw [List.getElem?_eq_none (by simp; omega), List.getElem?_eq_none (by omega)]

theorem INC_REF_eq {r : Nat} (h : r + 1 < 2 ^ 64) : INC_REF r = r + 1 := by
  unfold INC_REF; exact Nat.mod_eq_of_lt h

theorem INC_REF_gt_one {r : Nat} (hr : r < 2 ^ 64) :
    INC_REF r > 1 ↔ (1 ≤ r ∧ r + 1 < 2 ^ 64) := by
  unfold INC_REF
  norm_num at hr ⊢
  omega

theorem DEC_REF_eq {r : Nat} (h1 : 1 ≤ r) (h : r < 2 ^ 64) : DEC_REF r = r - 1 := by
  unfold DEC_REF
  norm_num at h ⊢
  omega

end Todbc

namespace Todbc

/-! ## Allocation and release of children -/

theorem doSQLAllocConnect_eq {h : Heap} {e : Nat} {env : env_t} (msg : Option String)
    (he : h.env e = some env) (hb : env.refcount < 2 ^ 64) :
    doSQLAllocConnect h (some e) true msg =
      if 1 ≤ env.refcount ∧ env.refcount + 1 < 2 ^ 64 then
        Outcome.ret SQLRETURN.SQL_SUCCESS
          ((h.set_env e (some { env with refcount := env.refcount + 1 })).push_conn
              { refcount := 1, env := some e }, some h.conns.length)
      else Outcome.abort (h.set_env e (some { env with refcount := INC_REF env.refcount }), none) := by
  unfold doSQLAllocConnect
  simp only [he]
  by_cases hc : 1 ≤ env.refcount ∧ env.refcount + 1 < 2 ^ 64
  · have h1 : INC_REF env.refcount > 1 := (INC_REF_gt_one hb).mpr hc
    have h3 : INC_REF 0 = 1 := by decide
    rw [if_pos hc, if_neg (not_not.mpr h1)]
    simp only [h3, INC_REF_eq hc.2]
    rfl
  · have h1 : ¬ INC_REF env.refcount > 1 := fun hh => hc ((INC_REF_gt_one hb).mp hh)
    rw [if_neg hc, if_pos h1]

theorem doSQLAllocStmt_eq {h : Heap} {c : Nat} {conn : conn_t} (msg : Option String)
    (he : h.conn c = some conn) (hb : conn.refcount < 2 ^ 64) :
    doSQLAllocStmt h (some c) true msg =
      if 1 ≤ conn.refcount ∧ conn.refcount + 1 < 2 ^ 64 then
        Outcome.ret SQLRETURN.SQL_SUCCESS
          ((h.set_conn c (some { conn with refcount := conn.refcount + 1 })).push_sql
              { refcount := 1, conn := some c }, some h.sqls.length)
      else Outcome.abort (h.set_conn c (some { conn with refcount := INC_REF conn.refcount }), none) := by
  unfold doSQLAllocStmt
  simp only [he]
  by_cases hc : 1 ≤ conn.refcount ∧ conn.refcount + 1 < 2 ^ 64
  · have h1 : INC_REF conn.refcount > 1 := (INC_REF_gt_one hb).mpr hc
    have h3 : INC_REF 0 = 1 := by decide
    rw [if_pos hc, if_neg (not_not.mpr h1)]
    simp only [h3, INC_REF_eq hc.2]
    rfl
  · have h1 : ¬ INC_REF conn.refcount > 1 := fun hh => hc ((INC_REF_gt_one hb).mp hh)
    rw [if_neg hc, if_pos h1]

/-- The state after `doSQLFreeConnect` has released the connection `c` of the
environment `e`. -/
theorem doSQLFreeConnect_eq {h : Heap} {c e : Nat} {conn : conn_t} {env : env_t}
    (hc : h.conn c = some conn) (h1 : conn.refcount = 1) (hp : conn.env = some e)
    (he : h.env e = some env) (h2 : 2 ≤ env.refcount) (hb : env.refcount < 2 ^ 64) :
    ∃ h', doSQLFreeConnect h (some c) = Outcome.ret SQLRETURN.SQL_SUCCESS h'
      ∧ h'.envs = h.envs.set e (some { env with refcount := env.refcount - 1 })
      ∧ h'.conns = h.conns.set c none ∧ h'.sqls = h.sqls ∧ h'.inited = h.inited
      ∧ h'.log = h.log ++ (match conn.taos with
          | some t => [EngineCall.taos_close t]
          | none => []) := by
  have hd : DEC_REF env.refcount = env.refcount - 1 := DEC_REF_eq (by omega) hb
  have hd1 : DEC_REF 1 = 0 := by decide
  have hpos : env.refcount - 1 > 0 := by omega
  obtain ⟨rc, cenv, ctaos, cerr⟩ := conn
  simp only at h1 hp
  subst h1 hp
  unfold doSQLFreeConnect
  cases ctaos with
  | none =>
    simp only [hc, GET_REF, Heap.env_set_conn, he, hd, hd1, not_true_eq_false, if_false,
      not_not, if_neg (not_not.mpr hpos)]
    refine ⟨_, rfl, rfl, ?_, rfl, rfl, ?_⟩
    · simp [Heap.set_conn, Heap.set_env]
    · simp [Heap.set_conn, Heap.set_env]
  | some t =>
    simp only [hc, GET_REF, Heap.env_set_conn, Heap.env_call, he, hd, hd1, not_true_eq_false,
      if_false, not_not, if_neg (not_not.mpr hpos)]
    refine ⟨_, rfl, rfl, ?_, rfl, rfl, ?_⟩
    · simp [Heap.set_conn, Heap.set_env, Heap.call]
    · simp [Heap.set_conn, Heap.set_env, Heap.call]

end Todbc

namespace Todbc

/-- The state after `doSQLFreeStmt(.., SQL_DROP)` has released the statement
`s` of the connection `c`. -/
theorem doSQLFreeStmt_eq {h : Heap} {s c : Nat} {sql : sql_t} {conn : conn_t}
    (msg : Option String)
    (hs : h.sql s = some sql) (h1 : sql.refcount = 1) (hp : sql.conn = some c)
    (hc : h.conn c = some conn) (h2 : 2 ≤ conn.refcount) (hb : conn.refcount < 2 ^ 64) :
    ∃ h', doSQLFreeStmt h (some s) SQL_DROP msg = Outcome.ret SQLRETURN.SQL_SUCCESS h'
      ∧ h'.envs = h.envs
      ∧ h'.conns = h.conns.set c (some { conn with refcount := conn.refcount - 1 })
      ∧ h'.sqls = h.sqls.set s none ∧ h'.inited = h.inited := by
  have hd : DEC_REF conn.refcount = conn.refcount - 1 := DEC_REF_eq (by omega) hb
  have hd1 : DEC_REF 1 = 0 := by decide
  have hpos : conn.refcount - 1 > 0 := by omega
  have hne : SQL_DROP ≠ SQL_CLOSE := by decide
  obtain ⟨rc, sconn, sstmt, sbinds, sparams, snp, srs, srow, serr⟩ := sql
  simp only at h1 hp
  subst h1 hp
  unfold doSQLFreeStmt release_stmt_params
  simp only [if_neg hne, hs, ne_eq, not_true_eq_false, if_false, GET_REF]
  cases srs <;> cases sstmt <;>
    simp only [Heap.conn_set_sql, Heap.conn_call, hc, hd, hd1, not_true_eq_false, if_false,
      if_neg (not_not.mpr hpos)] <;>
    refine ⟨_, rfl, rfl, rfl, ?_, rfl⟩ <;>
    simp [Heap.set_conn, Heap.set_sql, Heap.call]

theorem Heap.env_of_envs_set {h h' : Heap} {e : Nat} {x : Option env_t}
    (hh : h'.envs = h.envs.set e x) (q : Nat) :
    h'.env q = if e = q then (if e < h.envs.length then x else none) else h.env q := by
  have : h'.env q = (h.set_env e x).env q := by
    unfold Heap.env Heap.set_env; rw [hh]
  rw [this, Heap.env_set_env]

theorem Heap.conn_of_conns_set {h h' : Heap} {c : Nat} {x : Option conn_t}
    (hh : h'.conns = h.conns.set c x) (q : Nat) :
    h'.conn q = if c = q then (if c < h.conns.length then x else none) else h.conn q := by
  have : h'.conn q = (h.set_conn c x).conn q := by
    unfold Heap.conn Heap.set_conn; rw [hh]
  rw [this, Heap.conn_set_conn]

theorem Heap.sql_of_sqls_set {h h' : Heap} {s : Nat} {x : Option sql_t}
    (hh : h'.sqls = h.sqls.set s x) (q : Nat) :
    h'.sql q = if s = q then (if s < h.sqls.length then x else none) else h.sql q := by
  have : h'.sql q = (h.set_sql s x).sql q := by
    unfold Heap.sql Heap.set_sql; rw [hh]
  rw [this, Heap.sql_set_sql]

theorem Heap.env_of_envs_eq {h h' : Heap} (hh : h'.envs = h.envs) (q : Nat) :
    h'.env q = h.env q := by
  unfold Heap.env; rw [hh]

theorem Heap.conn_of_conns_eq {h h' : Heap} (hh : h'.conns = h.conns) (q : Nat) :
    h'.conn q = h.conn q := by
  unfold Heap.conn; rw [hh]

theorem Heap.sql_of_sqls_eq {h h' : Heap} (hh : h'.sqls = h.sqls) (q : Nat) :
    h'.sql q = h.sql q := by
  unfold Heap.sql; rw [hh]

/-- What a successful run of `alloc_connections` has done. -/
theorem alloc_connections_spec (msg : Option String) :
    ∀ (N : Nat) (h : Heap) (e : Nat) (env : env_t) (h1 : Heap) (cs : List Nat),
      h.env e = some env → env.refcount < 2 ^ 64 →
      alloc_connections msg N h e = some (h1, cs) →
      cs = List.range' h.conns.length N
        ∧ h1.env e = some { env with refcount := env.refcount + N }
        ∧ (∀ c ∈ cs, h1.conn c = some { refcount := 1, env := some e })
        ∧ (∀ q, q < h.conns.length → h1.conn q = h.conn q)
        ∧ (N ≠ 0 → 1 ≤ env.refcount ∧ env.refcount + N < 2 ^ 64) := by
  intro N
  induction N with
  | zero =>
    intro h e env h1 cs he hb hrun
    simp only [alloc_connections, Option.some.injEq, Prod.mk.injEq] at hrun
    obtain ⟨rfl, rfl⟩ := hrun
    refine ⟨rfl, ?_, ?_, ?_, ?_⟩
    · simpa using he
    · intro c hc; simp at hc
    · intro q _; rfl
    · intro hn; exact absurd rfl hn
  | succ n ih =>
    intro h e env h1 cs he hb hrun
    rw [alloc_connections, doSQLAllocConnect_eq msg he hb] at hrun
    by_cases hc : 1 ≤ env.refcount ∧ env.refcount + 1 < 2 ^ 64
    · rw [if_pos hc] at hrun
      simp only at hrun
      have helt := Heap.env_lt he
      set h0 := (h.set_env e (some { env with refcount := env.refcount + 1 })).push_conn
        { refcount := 1, env := some e } with hh0
      have he0 : h0.env e = some { env with refcount := env.refcount + 1 } := by
        rw [hh0, Heap.env_push_conn, Heap.env_set_env]; simp [helt]
      cases hrec : alloc_connections msg n h0 e with
      | none => rw [hrec] at hrun; simp at hrun
      | some res =>
        obtain ⟨h2, cs2⟩ := res
        rw [hrec] at hrun
        simp only [Option.some.injEq, Prod.mk.injEq] at hrun
        obtain ⟨rfl, rfl⟩ := hrun
        obtain ⟨hcs, henv, hconns, hkeep, hbound⟩ := ih h0 e _ h2 cs2 he0 hc.2 hrec
        have hlen : h0.conns.length = h.conns.length + 1 := by
          simp [hh0, Heap.push_conn, Heap.set_env]
        have h0conn : ∀ q, h0.conn q
            = if q = h.conns.length then some { refcount := 1, env := some e } else h.conn q := by
          intro q
          rw [hh0, Heap.conn_push_conn]
          rfl
        refine ⟨?_, ?_, ?_, ?_, ?_⟩
        · rw [hcs, hlen]; rfl
        · rw [henv]; simp only [Option.some.injEq]
          congr 1; omega
        · intro c hcm
          rcases List.mem_cons.mp hcm with rfl | hcm
          · rw [hkeep _ (by omega), h0conn, if_pos rfl]
          · exact hconns c hcm
        · intro q hq
          rw [hkeep q (by omega), h0conn, if_neg (by omega)]
        · intro _
          by_cases hn : n = 0
          · subst hn; exact ⟨hc.1, hc.2⟩
          · have := hbound hn
            simp only at this
            omega
    · rw [if_neg hc] at hrun
      simp at hrun

/-- A run of `alloc_connections` succeeds as long as the count does not
wrap. -/
theorem alloc_connections_ok (msg : Option String) :
    ∀ (N : Nat) (h : Heap) (e : Nat) (env : env_t),
      h.env e = some env → 1 ≤ env.refcount → env.refcount + N < 2 ^ 64 →
      ∃ h1 cs, alloc_connections msg N h e = some (h1, cs) := by
  intro N
  induction N with
  | zero => intro h e env _ _ _; exact ⟨h, [], rfl⟩
  | succ n ih =>
    intro h e env he h1 hb
    have hc : 1 ≤ env.refcount ∧ env.refcount + 1 < 2 ^ 64 := ⟨h1, by omega⟩
    have helt := Heap.env_lt he
    have he0 : ((h.set_env e (some { env with refcount := env.refcount + 1 })).push_conn
        { refcount := 1, env := some e }).env e
          = some { env with refcount := env.refcount + 1 } := by
      rw [Heap.env_push_conn, Heap.env_set_env]; simp [helt]
    obtain ⟨h2, cs2, hrec⟩ := ih _ e _ he0 (by simp) (by simp only; omega)
    refine ⟨h2, h.conns.length :: cs2, ?_⟩
    rw [alloc_connections, doSQLAllocConnect_eq msg he (by omega), if_pos hc]
    simp only [hrec]

/-- Freeing distinct childless connections of one environment, in any order,
succeeds and gives their references back. -/
theorem free_connections_spec (e : Nat) :
    ∀ (cs : List Nat) (h : Heap) (env : env_t),
      cs.Nodup →
      (∀ c ∈ cs, ∃ conn, h.conn c = some conn ∧ conn.refcount = 1 ∧ conn.env = some e) →
      h.env e = some env → cs.length < env.refcount → env.refcount < 2 ^ 64 →
      ∃ h2, free_connections cs h = some h2
        ∧ h2.env e = some { env with refcount := env.refcount - cs.length } := by
  intro cs
  induction cs with
  | nil =>
    intro h env _ _ he _ _
    exact ⟨h, rfl, by simpa using he⟩
  | cons c cs ih =>
    intro h env hnd hall he hlen hb
    obtain ⟨conn, hc, h1, hp⟩ := hall c (List.mem_cons_self _ _)
    simp only [List.length_cons] at hlen
    obtain ⟨h', hrun, henvs, hconns, -, -, -⟩ :=
      doSQLFreeConnect_eq hc h1 hp he (by omega) hb
    have helt := Heap.env_lt he
    have he' : h'.env e = some { env with refcount := env.refcount - 1 } := by
      rw [Heap.env_of_envs_set henvs]; simp [helt]
    have hnd' := (List.nodup_cons.mp hnd)
    have hall' : ∀ c' ∈ cs, ∃ conn, h'.conn c' = some conn ∧ conn.refcount = 1
        ∧ conn.env = some e := by
      intro c' hc'
      obtain ⟨conn', hx⟩ := hall c' (List.mem_cons_of_mem _ hc')
      refine ⟨conn', ?_, hx.2⟩
      rw [Heap.conn_of_conns_set hconns, if_neg]
      · exact hx.1
      · rintro rfl; exact hnd'.1 hc'
    obtain ⟨h2, hrun2, he2⟩ := ih h' _ hnd'.2 hall' he' (by simp only; omega)
      (by simp only; omega)
    refine ⟨h2, ?_, ?_⟩
    · rw [free_connections, hrun]; exact hrun2
    · rw [he2]; simp only [Option.some.injEq, List.length_cons]
      congr 1; omega

end Todbc

namespace Todbc

/-- What a successful run of `alloc_statements` has done. -/
theorem alloc_statements_spec (msg : Option String) :
    ∀ (N : Nat) (h : Heap) (c : Nat) (conn : conn_t) (h1 : Heap) (ss : List Nat),
      h.conn c = some conn → conn.refcount < 2 ^ 64 →
      alloc_statements msg N h c = some (h1, ss) →
      ss = List.range' h.sqls.length N
        ∧ h1.conn c = some { conn with refcount := conn.refcount + N }
        ∧ (∀ s ∈ ss, h1.sql s = some { refcount := 1, conn := some c })
        ∧ (∀ q, q < h.sqls.length → h1.sql q = h.sql q)
        ∧ (N ≠ 0 → 1 ≤ conn.refcount ∧ conn.refcount + N < 2 ^ 64) := by
  intro N
  induction N with
  | zero =>
    intro h c conn h1 ss he hb hrun
    simp only [alloc_statements, Option.some.injEq, Prod.mk.injEq] at hrun
    obtain ⟨rfl, rfl⟩ := hrun
    refine ⟨rfl, ?_, ?_, ?_, ?_⟩
    · simpa using he
    · intro s hs; simp at hs
    · intro q _; rfl
    · intro hn; exact absurd rfl hn
  | succ n ih =>
    intro h c conn h1 ss he hb hrun
    rw [alloc_statements, doSQLAllocStmt_eq msg he hb] at hrun
    by_cases hc : 1 ≤ conn.refcount ∧ conn.refcount + 1 < 2 ^ 64
    · rw [if_pos hc] at hrun
      simp only at hrun
      have helt := Heap.conn_lt he
      set h0 := (h.set_conn c (some { conn with refcount := conn.refcount + 1 })).push_sql
        { refcount := 1, conn := some c } with hh0
      have he0 : h0.conn c = some { conn with refcount := conn.refcount + 1 } := by
        rw [hh0, Heap.conn_push_sql, Heap.conn_set_conn]; simp [helt]
      cases hrec : alloc_statements msg n h0 c with
      | none => rw [hrec] at hrun; simp at hrun
      | some res =>
        obtain ⟨h2, ss2⟩ := res
        rw [hrec] at hrun
        simp only [Option.some.injEq, Prod.mk.injEq] at hrun
        obtain ⟨rfl, rfl⟩ := hrun
        obtain ⟨hcs, henv, hsqls, hkeep, hbound⟩ := ih h0 c _ h2 ss2 he0 hc.2 hrec
        have hlen : h0.sqls.length = h.sqls.length + 1 := by
          simp [hh0, Heap.push_sql, Heap.set_conn]
        have h0sql : ∀ q, h0.sql q
            = if q = h.sqls.length then some { refcount := 1, conn := some c } else h.sql q := by
          intro q
          rw [hh0, Heap.sql_push_sql]
          rfl
        refine ⟨?_, ?_, ?_, ?_, ?_⟩
        · rw [hcs, hlen]; rfl
        · rw [henv]; simp only [Option.some.injEq]
          congr 1; omega
        · intro s hsm
          rcases List.mem_cons.mp hsm with rfl | hsm
          · rw [hkeep _ (by omega), h0sql, if_pos rfl]
          · exact hsqls s hsm
        · intro q hq
          rw [hkeep q (by omega), h0sql, if_neg (by omega)]
        · intro _
          by_cases hn : n = 0
          · subst hn; exact ⟨hc.1, hc.2⟩
          · have := hbound hn
            simp only at this
            omega
    · rw [if_neg hc] at hrun
      simp at hrun

/-- A run of `alloc_statements` succeeds as long as the count does not wrap. -/
theorem alloc_statements_ok (msg : Option String) :
    ∀ (N : Nat) (h : Heap) (c : Nat) (conn : conn_t),
      h.conn c = some conn → 1 ≤ conn.refcount → conn.refcount + N < 2 ^ 64 →
      ∃ h1 ss, alloc_statements msg N h c = some (h1, ss) := by
  intro N
  induction N with
  | zero => intro h c conn _ _ _; exact ⟨h, [], rfl⟩
  | succ n ih =>
    intro h c conn he h1 hb
    have hc : 1 ≤ conn.refcount ∧ conn.refcount + 1 < 2 ^ 64 := ⟨h1, by omega⟩
    have helt := Heap.conn_lt he
    have he0 : ((h.set_conn c (some { conn with refcount := conn.refcount + 1 })).push_sql
        { refcount := 1, conn := some c }).conn c
          = some { conn with refcount := conn.refcount + 1 } := by
      rw [Heap.conn_push_sql, Heap.conn_set_conn]; simp [helt]
    obtain ⟨h2, ss2, hrec⟩ := ih _ c _ he0 (by simp) (by simp only; omega)
    refine ⟨h2, h.sqls.length :: ss2, ?_⟩
    rw [alloc_statements, doSQLAllocStmt_eq msg he (by omega), if_pos hc]
    simp only [hrec]

/-- Dropping distinct statements of one connection, in any order, succeeds and
gives their references back. -/
theorem free_statements_spec (msg : Option String) (c : Nat) :
    ∀ (ss : List Nat) (h : Heap) (conn : conn_t),
      ss.Nodup →
      (∀ s ∈ ss, ∃ sql, h.sql s = some sql ∧ sql.refcount = 1 ∧ sql.conn = some c) →
      h.conn c = some conn → ss.length < conn.refcount → conn.refcount < 2 ^ 64 →
      ∃ h2, free_statements msg ss h = some h2
        ∧ h2.conn c = some { conn with refcount := conn.refcount - ss.length } := by
  intro ss
  induction ss with
  | nil =>
    intro h conn _ _ he _ _
    exact ⟨h, rfl, by simpa using he⟩
  | cons s ss ih =>
    intro h conn hnd hall he hlen hb
    obtain ⟨sql, hs, h1, hp⟩ := hall s (List.mem_cons_self _ _)
    simp only [List.length_cons] at hlen
    obtain ⟨h', hrun, -, hconns, hsqls, -⟩ :=
      doSQLFreeStmt_eq msg hs h1 hp he (by omega) hb
    have helt := Heap.conn_lt he
    have he' : h'.conn c = some { conn with refcount := conn.refcount - 1 } := by
      rw [Heap.conn_of_conns_set hconns]; simp [helt]
    have hnd' := (List.nodup_cons.mp hnd)
    have hall' : ∀ s' ∈ ss, ∃ sql, h'.sql s' = some sql ∧ sql.refcount = 1
        ∧ sql.conn = some c := by
      intro s' hs'
      obtain ⟨sql', hx⟩ := hall s' (List.mem_cons_of_mem _ hs')
      refine ⟨sql', ?_, hx.2⟩
      rw [Heap.sql_of_sqls_set hsqls, if_neg]
      · exact hx.1
      · rintro rfl; exact hnd'.1 hs'
    obtain ⟨h2, hrun2, he2⟩ := ih h' _ hnd'.2 hall' he' (by simp only; omega)
      (by simp only; omega)
    refine ⟨h2, ?_, ?_⟩
    · rw [free_statements, hrun]; exact hrun2
    · rw [he2]; simp only [Option.some.injEq, List.length_cons]
      congr 1; omega

/-- C1.  For both levels of the handle tree and every `N`: when `N` child
allocations succeed on a live parent whose reference count is `r`, the count
of the parent is `r + N`, and freeing the `N` children, in any order, succeeds
and brings it back to `r`; the `N` allocations do succeed whenever the
allocator does and `r + N` fits the 64-bit counter. -/
theorem refcount_children_balance (msg : Option String) (h : Heap) (N p r : Nat)
    (hr : r < 2 ^ 64) :
    (∀ env, h.env p = some env → env.refcount = r →
      (∀ h1 cs, alloc_connections msg N h p = some (h1, cs) →
        cs.length = N
        ∧ (h1.env p).map (fun x => x.refcount) = some (r + N)
        ∧ ∀ cs', cs'.Perm cs → ∃ h2, free_connections cs' h1 = some h2
            ∧ (h2.env p).map (fun x => x.refcount) = some r)
      ∧ (1 ≤ r → r + N < 2 ^ 64 → ∃ h1 cs, alloc_connections msg N h p = some (h1, cs)))
    ∧ (∀ conn, h.conn p = some conn → conn.refcount = r →
      (∀ h1 ss, alloc_statements msg N h p = some (h1, ss) →
        ss.length = N
        ∧ (h1.conn p).map (fun x => x.refcount) = some (r + N)
        ∧ ∀ ss', ss'.Perm ss → ∃ h2, free_statements msg ss' h1 = some h2
            ∧ (h2.conn p).map (fun x => x.refcount) = some r)
      ∧ (1 ≤ r → r + N < 2 ^ 64 → ∃ h1 ss, alloc_statements msg N h p = some (h1, ss))) := by
  constructor
  · intro env he hrr
    subst hrr
    refine ⟨?_, fun h1 hb => alloc_connections_ok msg N h p env he h1 hb⟩
    intro h1 cs hrun
    obtain ⟨hcs, henv, hconns, -, hbound⟩ := alloc_connections_spec msg N h p env h1 cs he hr hrun
    have hlen : cs.length = N := by rw [hcs]; simp
    refine ⟨hlen, by rw [henv]; rfl, ?_⟩
    intro cs' hperm
    have hnd : cs'.Nodup := hperm.nodup_iff.mpr (by rw [hcs]; exact List.nodup_range' _ _)
    have hall : ∀ c ∈ cs', ∃ conn, h1.conn c = some conn ∧ conn.refcount = 1
        ∧ conn.env = some p := by
      intro c hc
      exact ⟨_, hconns c (hperm.mem_iff.mp hc), rfl, rfl⟩
    have hl' : cs'.length = N := by rw [hperm.length_eq, hlen]
    by_cases hN : N = 0
    · subst hN
      have : cs' = [] := List.length_eq_zero.mp hl'
      subst this
      exact ⟨h1, rfl, by rw [henv]; rfl⟩
    · have hbound := hbound hN
      obtain ⟨h2, hrun2, he2⟩ := free_connections_spec p cs' h1 _ hnd hall henv
        (by simp only; omega) (by simp only; omega)
      refine ⟨h2, hrun2, ?_⟩
      rw [he2]; simp only [Option.map_some', Option.some.injEq]; omega
  · intro conn he hrr
    subst hrr
    refine ⟨?_, fun h1 hb => alloc_statements_ok msg N h p conn he h1 hb⟩
    intro h1 ss hrun
    obtain ⟨hcs, henv, hsqls, -, hbound⟩ := alloc_statements_spec msg N h p conn h1 ss he hr hrun
    have hlen : ss.length = N := by rw [hcs]; simp
    refine ⟨hlen, by rw [henv]; rfl, ?_⟩
    intro ss' hperm
    have hnd : ss'.Nodup := hperm.nodup_iff.mpr (by rw [hcs]; exact List.nodup_range' _ _)
    have hall : ∀ s ∈ ss', ∃ sql, h1.sql s = some sql ∧ sql.refcount = 1
        ∧ sql.conn = some p := by
      intro s hs
      exact ⟨_, hsqls s (hperm.mem_iff.mp hs), rfl, rfl⟩
    have hl' : ss'.length = N := by rw [hperm.length_eq, hlen]
    by_cases hN : N = 0
    · subst hN
      have : ss' = [] := List.length_eq_zero.mp hl'
      subst this
      exact ⟨h1, rfl, by rw [henv]; rfl⟩
    · have hbound := hbound hN
      obtain ⟨h2, hrun2, he2⟩ := free_statements_spec msg p ss' h1 _ hnd hall henv
        (by simp only; omega) (by simp only; omega)
      refine ⟨h2, hrun2, ?_⟩
      rw [he2]; simp only [Option.map_some', Option.some.injEq]; omega

end Todbc

namespace Todbc

/-- Witness of C1 at the environment of `demo_heap` (count 2) with three
connections, and at its connection (count 1) with two statements. -/
theorem refcount_children_balance_witness :
    (∃ h1 cs h2, alloc_connections none 3 demo_heap 0 = some (h1, cs)
      ∧ (h1.env 0).map (fun x => x.refcount) = some 5
      ∧ free_connections cs h1 = some h2
      ∧ (h2.env 0).map (fun x => x.refcount) = some 2)
    ∧ (∃ h1 ss h2, alloc_statements none 2 demo_heap 0 = some (h1, ss)
      ∧ (h1.conn 0).map (fun x => x.refcount) = some 3
      ∧ free_statements none ss h1 = some h2
      ∧ (h2.conn 0).map (fun x => x.refcount) = some 1) := by
  constructor
  · obtain ⟨henv, -⟩ := refcount_children_balance none demo_heap 3 0 2 (by norm_num)
    obtain ⟨hspec, hok⟩ := henv _ rfl rfl
    obtain ⟨h1, cs, hrun⟩ := hok (by norm_num) (by norm_num)
    obtain ⟨-, hcount, hfree⟩ := hspec h1 cs hrun
    obtain ⟨h2, hf, hc2⟩ := hfree cs (List.Perm.refl _)
    exact ⟨h1, cs, h2, hrun, hcount, hf, hc2⟩
  · obtain ⟨-, hconn⟩ := refcount_children_balance none demo_heap 2 0 1 (by norm_num)
    obtain ⟨hspec, hok⟩ := hconn _ rfl rfl
    obtain ⟨h1, ss, hrun⟩ := hok (by norm_num) (by norm_num)
    obtain ⟨-, hcount, hfree⟩ := hspec h1 ss hrun
    obtain ⟨h2, hf, hc2⟩ := hfree ss (List.Perm.refl _)
    exact ⟨h1, ss, h2, hrun, hcount, hf, hc2⟩

end Todbc

namespace Todbc

/-! ## The invariant of the handle graph is preserved -/

theorem countP_set_of_getElem? {α : Type} (p : α → Bool) :
    ∀ (l : List α) (i : Nat) (old new : α), l[i]? = some old →
      List.countP p (l.set i new) + (if p old then 1 else 0)
        = List.countP p l + (if p new then 1 else 0) := by
  intro l
  induction l with
  | nil => intro i old new hi; simp at hi
  | cons a l ih =>
    intro i old new hi
    cases i with
    | zero =>
      simp only [List.getElem?_cons_zero, Option.some.injEq] at hi
      subst hi
      simp only [List.set_cons_zero, List.countP_cons]
      omega
    | succ i =>
      simp only [List.getElem?_cons_succ] at hi
      have := ih i old new hi
      simp only [List.set_cons_succ, List.countP_cons]
      omega

theorem Heap.conn_eq_some {h : Heap} {c : Nat} {conn : conn_t} :
    h.conn c = some conn ↔ h.conns[c]? = some (some conn) := by
  unfold Heap.conn
  cases h.conns[c]? with
  | none => simp
  | some x => cases x <;> simp

theorem Heap.sql_eq_some {h : Heap} {s : Nat} {sql : sql_t} :
    h.sql s = some sql ↔ h.sqls[s]? = some (some sql) := by
  unfold Heap.sql
  cases h.sqls[s]? with
  | none => simp
  | some x => cases x <;> simp

theorem Heap.env_eq_some {h : Heap} {e : Nat} {env : env_t} :
    h.env e = some env ↔ h.envs[e]? = some (some env) := by
  unfold Heap.env
  cases h.envs[e]? with
  | none => simp
  | some x => cases x <;> simp

theorem conn_in_some (e : Nat) (conn : conn_t) :
    conn_in e (some conn) = decide (conn.env = some e) := by
  unfold conn_in; exact Bool.beq_eq_decide_eq _ _

theorem sql_in_some (c : Nat) (sql : sql_t) :
    sql_in c (some sql) = decide (sql.conn = some c) := by
  unfold sql_in; exact Bool.beq_eq_decide_eq _ _

theorem live_conns_set {h h' : Heap} {c : Nat} {conn : conn_t} {x : Option conn_t}
    (hc : h.conn c = some conn) (hh : h'.conns = h.conns.set c x) (e : Nat) :
    live_conns_of h' e + (if conn.env = some e then 1 else 0)
      = live_conns_of h e + (if conn_in e x then 1 else 0) := by
  unfold live_conns_of
  rw [hh]
  have := countP_set_of_getElem? (conn_in e) h.conns c (some conn) x (Heap.conn_eq_some.mp hc)
  simpa [conn_in_some] using this

theorem live_sqls_set {h h' : Heap} {s : Nat} {sql : sql_t} {x : Option sql_t}
    (hs : h.sql s = some sql) (hh : h'.sqls = h.sqls.set s x) (c : Nat) :
    live_sqls_of h' c + (if sql.conn = some c then 1 else 0)
      = live_sqls_of h c + (if sql_in c x then 1 else 0) := by
  unfold live_sqls_of
  rw [hh]
  have := countP_set_of_getElem? (sql_in c) h.sqls s (some sql) x (Heap.sql_eq_some.mp hs)
  simpa [sql_in_some] using this

theorem live_conns_push {h h' : Heap} {conn : conn_t}
    (hh : h'.conns = h.conns ++ [some conn]) (e : Nat) :
    live_conns_of h' e = live_conns_of h e + (if conn.env = some e then 1 else 0) := by
  unfold live_conns_of
  rw [hh, List.countP_append]
  simp [List.countP_cons, conn_in_some]

theorem live_sqls_push {h h' : Heap} {sql : sql_t}
    (hh : h'.sqls = h.sqls ++ [some sql]) (c : Nat) :
    live_sqls_of h' c = live_sqls_of h c + (if sql.conn = some c then 1 else 0) := by
  unfold live_sqls_of
  rw [hh, List.countP_append]
  simp [List.countP_cons, sql_in_some]

theorem live_conns_eq {h h' : Heap} (hh : h'.conns = h.conns) (e : Nat) :
    live_conns_of h' e = live_conns_of h e := by
  unfold live_conns_of; rw [hh]

theorem live_sqls_eq {h h' : Heap} (hh : h'.sqls = h.sqls) (c : Nat) :
    live_sqls_of h' c = live_sqls_of h c := by
  unfold live_sqls_of; rw [hh]

theorem live_conns_pos {h : Heap} {c e : Nat} {conn : conn_t}
    (hc : h.conn c = some conn) (hp : conn.env = some e) : 1 ≤ live_conns_of h e := by
  unfold live_conns_of
  apply List.countP_pos_iff.mpr
  refine ⟨some conn, ?_, by simp [conn_in_some, hp]⟩
  exact List.getElem?_mem (Heap.conn_eq_some.mp hc)

theorem live_sqls_pos {h : Heap} {s c : Nat} {sql : sql_t}
    (hs : h.sql s = some sql) (hp : sql.conn = some c) : 1 ≤ live_sqls_of h c := by
  unfold live_sqls_of
  apply List.countP_pos_iff.mpr
  refine ⟨some sql, ?_, by simp [sql_in_some, hp]⟩
  exact List.getElem?_mem (Heap.sql_eq_some.mp hs)

theorem Heap.env_of_envs_push {h h' : Heap} {x : env_t}
    (hh : h'.envs = h.envs ++ [some x]) (q : Nat) :
    h'.env q = if q = h.envs.length then some x else h.env q := by
  have : h'.env q = (h.push_env x).env q := by
    unfold Heap.env Heap.push_env; rw [hh]
  rw [this, Heap.env_push_env]

theorem Heap.conn_of_conns_push {h h' : Heap} {x : conn_t}
    (hh : h'.conns = h.conns ++ [some x]) (q : Nat) :
    h'.conn q = if q = h.conns.length then some x else h.conn q := by
  have : h'.conn q = (h.push_conn x).conn q := by
    unfold Heap.conn Heap.push_conn; rw [hh]
  rw [this, Heap.conn_push_conn]

theorem Heap.sql_of_sqls_push {h h' : Heap} {x : sql_t}
    (hh : h'.sqls = h.sqls ++ [some x]) (q : Nat) :
    h'.sql q = if q = h.sqls.length then some x else h.sql q := by
  have : h'.sql q = (h.push_sql x).sql q := by
    unfold Heap.sql Heap.push_sql; rw [hh]
  rw [this, Heap.sql_push_sql]

/-- Only the three stores matter to the invariant. -/
theorem Inv.frame {h h' : Heap} (hi : Inv h) (he : h'.envs = h.envs)
    (hc : h'.conns = h.conns) (hs : h'.sqls = h.sqls) : Inv h' := by
  have e1 := Heap.env_of_envs_eq he
  have c1 := Heap.conn_of_conns_eq hc
  have s1 := Heap.sql_of_sqls_eq hs
  constructor
  · intro e env hx; rw [e1] at hx; rw [live_conns_eq hc]; exact hi.env_count e env hx
  · intro e env hx; rw [e1] at hx; exact hi.env_bound e env hx
  · intro c conn hx; rw [c1] at hx; rw [live_sqls_eq hs]; exact hi.conn_count c conn hx
  · intro c conn hx; rw [c1] at hx; exact hi.conn_bound c conn hx
  · intro c conn hx; rw [c1] at hx
    obtain ⟨e, env, h1, h2⟩ := hi.conn_parent c conn hx
    exact ⟨e, env, h1, by rw [e1]; exact h2⟩
  · intro s sql hx; rw [s1] at hx; exact hi.sql_count s sql hx
  · intro s sql hx; rw [s1] at hx
    obtain ⟨c, conn, h1, h2⟩ := hi.sql_parent s sql hx
    exact ⟨c, conn, h1, by rw [c1]; exact h2⟩

/-- A statement may change anything but its count and its connection. -/
theorem Inv.frame_sql {h h' : Heap} {s : Nat} {sql sql' : sql_t} (hi : Inv h)
    (he : h'.envs = h.envs) (hc : h'.conns = h.conns)
    (hs : h.sql s = some sql) (hh : h'.sqls = h.sqls.set s (some sql'))
    (hr : sql'.refcount = sql.refcount) (hp : sql'.conn = sql.conn) : Inv h' := by
  have e1 := Heap.env_of_envs_eq he
  have c1 := Heap.conn_of_conns_eq hc
  have s1 := Heap.sql_of_sqls_set hh
  have slt := Heap.sql_lt hs
  constructor
  · intro e env hx; rw [e1] at hx; rw [live_conns_eq hc]; exact hi.env_count e env hx
  · intro e env hx; rw [e1] at hx; exact hi.env_bound e env hx
  · intro c conn hx; rw [c1] at hx
    have := live_sqls_set hs hh c
    rw [sql_in_some, hp] at this
    have h2 := hi.conn_count c conn hx
    simp only [decide_eq_true_eq] at this
    omega
  · intro c conn hx; rw [c1] at hx; exact hi.conn_bound c conn hx
  · intro c conn hx; rw [c1] at hx
    obtain ⟨e, env, h1, h2⟩ := hi.conn_parent c conn hx
    exact ⟨e, env, h1, by rw [e1]; exact h2⟩
  · intro q x hx; rw [s1] at hx
    split_ifs at hx with h1
    · simp only [Option.some.injEq] at hx; subst hx; rw [hr]; exact hi.sql_count s sql hs
    · exact hi.sql_count q x hx
  · intro q x hx; rw [s1] at hx
    split_ifs at hx with h1
    · simp only [Option.some.injEq] at hx; subst hx
      obtain ⟨c, conn, h3, h4⟩ := hi.sql_parent s sql hs
      exact ⟨c, conn, by rw [hp]; exact h3, by rw [c1]; exact h4⟩
    · obtain ⟨c, conn, h3, h4⟩ := hi.sql_parent q x hx
      exact ⟨c, conn, h3, by rw [c1]; exact h4⟩

/-- A connection may change anything but its count and its environment. -/
theorem Inv.frame_conn {h h' : Heap} {c : Nat} {conn : conn_t} (conn' : conn_t) (hi : Inv h)
    (he : h'.envs = h.envs) (hs : h'.sqls = h.sqls)
    (hc : h.conn c = some conn) (hh : h'.conns = h.conns.set c (some conn'))
    (hr : conn'.refcount = conn.refcount) (hp : conn'.env = conn.env) : Inv h' := by
  have e1 := Heap.env_of_envs_eq he
  have c1 := Heap.conn_of_conns_set hh
  have s1 := Heap.sql_of_sqls_eq hs
  have clt := Heap.conn_lt hc
  constructor
  · intro e env hx; rw [e1] at hx
    have := live_conns_set hc hh e
    rw [conn_in_some, hp] at this
    have h2 := hi.env_count e env hx
    simp only [decide_eq_true_eq] at this
    omega
  · intro e env hx; rw [e1] at hx; exact hi.env_bound e env hx
  · intro q x hx; rw [c1] at hx; rw [live_sqls_eq hs]
    split_ifs at hx with h1
    · simp only [Option.some.injEq] at hx; subst hx; subst h1; rw [hr]
      exact hi.conn_count c conn hc
    · exact hi.conn_count q x hx
  · intro q x hx; rw [c1] at hx
    split_ifs at hx with h1
    · simp only [Option.some.injEq] at hx; subst hx; rw [hr]; exact hi.conn_bound c conn hc
    · exact hi.conn_bound q x hx
  · intro q x hx; rw [c1] at hx
    split_ifs at hx with h1
    · simp only [Option.some.injEq] at hx; subst hx
      obtain ⟨e, env, h3, h4⟩ := hi.conn_parent c conn hc
      exact ⟨e, env, by rw [hp]; exact h3, by rw [e1]; exact h4⟩
    · obtain ⟨e, env, h3, h4⟩ := hi.conn_parent q x hx
      exact ⟨e, env, h3, by rw [e1]; exact h4⟩
  · intro s sql hx; rw [s1] at hx; exact hi.sql_count s sql hx
  · intro s sql hx; rw [s1] at hx
    obtain ⟨q, x, h1, h2⟩ := hi.sql_parent s sql hx
    by_cases hq : c = q
    · subst hq
      exact ⟨c, conn', h1, by rw [c1]; simp [clt]⟩
    · exact ⟨q, x, h1, by rw [c1, if_neg hq]; exact h2⟩

/-- An environment may change anything but its count. -/
theorem Inv.frame_env {h h' : Heap} {e : Nat} {env : env_t} (env' : env_t) (hi : Inv h)
    (hc : h'.conns = h.conns) (hs : h'.sqls = h.sqls)
    (he : h.env e = some env) (hh : h'.envs = h.envs.set e (some env'))
    (hr : env'.refcount = env.refcount) : Inv h' := by
  have e1 := Heap.env_of_envs_set hh
  have c1 := Heap.conn_of_conns_eq hc
  have s1 := Heap.sql_of_sqls_eq hs
  have elt := Heap.env_lt he
  constructor
  · intro q x hx; rw [e1] at hx; rw [live_conns_eq hc]
    split_ifs at hx with h1
    · simp only [Option.some.injEq] at hx; subst hx; subst h1; rw [hr]
      exact hi.env_count e env he
    · exact hi.env_count q x hx
  · intro q x hx; rw [e1] at hx
    split_ifs at hx with h1
    · simp only [Option.some.injEq] at hx; subst hx; rw [hr]; exact hi.env_bound e env he
    · exact hi.env_bound q x hx
  · intro c conn hx; rw [c1] at hx; rw [live_sqls_eq hs]; exact hi.conn_count c conn hx
  · intro c conn hx; rw [c1] at hx; exact hi.conn_bound c conn hx
  · intro c conn hx; rw [c1] at hx
    obtain ⟨q, x, h1, h2⟩ := hi.conn_parent c conn hx
    by_cases hq : e = q
    · subst hq
      exact ⟨e, env', h1, by rw [e1]; simp [elt]⟩
    · exact ⟨q, x, h1, by rw [e1, if_neg hq]; exact h2⟩
  · intro s sql hx; rw [s1] at hx; exact hi.sql_count s sql hx
  · intro s sql hx; rw [s1] at hx
    obtain ⟨c, conn, h1, h2⟩ := hi.sql_parent s sql hx
    exact ⟨c, conn, h1, by rw [c1]; exact h2⟩

end Todbc

namespace Todbc

theorem Inv.no_conn_of_fresh_env {h : Heap} (hi : Inv h) :
    live_conns_of h h.envs.length = 0 := by
  unfold live_conns_of
  rw [List.countP_eq_zero]
  intro a ha
  cases a with
  | none => simp [conn_in]
  | some conn =>
    obtain ⟨n, hn⟩ := List.mem_iff_getElem?.mp ha
    obtain ⟨e, env, h1, h2⟩ := hi.conn_parent n conn (Heap.conn_eq_some.mpr hn)
    have := Heap.env_lt h2
    rw [conn_in_some, h1]
    simp only [Option.some.injEq, decide_eq_true_eq]
    omega

theorem Inv.no_sql_of_fresh_conn {h : Heap} (hi : Inv h) :
    live_sqls_of h h.conns.length = 0 := by
  unfold live_sqls_of
  rw [List.countP_eq_zero]
  intro a ha
  cases a with
  | none => simp [sql_in]
  | some sql =>
    obtain ⟨n, hn⟩ := List.mem_iff_getElem?.mp ha
    obtain ⟨c, conn, h1, h2⟩ := hi.sql_parent n sql (Heap.sql_eq_some.mpr hn)
    have := Heap.conn_lt h2
    rw [sql_in_some, h1]
    simp only [Option.some.injEq, decide_eq_true_eq]
    omega

/-- A fresh environment with count 1. -/
theorem Inv.alloc_env {h h' : Heap} (env0 : env_t) (hi : Inv h)
    (he : h'.envs = h.envs ++ [some env0]) (hc : h'.conns = h.conns) (hs : h'.sqls = h.sqls)
    (h0 : env0.refcount = 1) : Inv h' := by
  have e1 := Heap.env_of_envs_push he
  have c1 := Heap.conn_of_conns_eq hc
  have s1 := Heap.sql_of_sqls_eq hs
  constructor
  · intro q x hx; rw [e1] at hx; rw [live_conns_eq hc]
    split_ifs at hx with h1
    · simp only [Option.some.injEq] at hx; subst hx; subst h1
      rw [hi.no_conn_of_fresh_env, h0]
    · exact hi.env_count q x hx
  · intro q x hx; rw [e1] at hx
    split_ifs at hx with h1
    · simp only [Option.some.injEq] at hx; subst hx; rw [h0]; norm_num
    · exact hi.env_bound q x hx
  · intro c conn hx; rw [c1] at hx; rw [live_sqls_eq hs]; exact hi.conn_count c conn hx
  · intro c conn hx; rw [c1] at hx; exact hi.conn_bound c conn hx
  · intro c conn hx; rw [c1] at hx
    obtain ⟨q, x, h1, h2⟩ := hi.conn_parent c conn hx
    have := Heap.env_lt h2
    exact ⟨q, x, h1, by rw [e1, if_neg (by omega)]; exact h2⟩
  · intro s sql hx; rw [s1] at hx; exact hi.sql_count s sql hx
  · intro s sql hx; rw [s1] at hx
    obtain ⟨c, conn, h1, h2⟩ := hi.sql_parent s sql hx
    exact ⟨c, conn, h1, by rw [c1]; exact h2⟩

/-- A fresh connection with count 1, its environment counting one more. -/
theorem Inv.alloc_conn {h h' : Heap} {e : Nat} {env : env_t} (env' : env_t) (conn0 : conn_t)
    (hi : Inv h) (he : h.env e = some env)
    (hh : h'.envs = h.envs.set e (some env')) (hr : env'.refcount = env.refcount + 1)
    (hb : env'.refcount < 2 ^ 64)
    (hc : h'.conns = h.conns ++ [some conn0]) (h0 : conn0.refcount = 1)
    (hp : conn0.env = some e) (hs : h'.sqls = h.sqls) : Inv h' := by
  have e1 := Heap.env_of_envs_set hh
  have c1 := Heap.conn_of_conns_push hc
  have s1 := Heap.sql_of_sqls_eq hs
  have elt := Heap.env_lt he
  constructor
  · intro q x hx; rw [e1] at hx; rw [live_conns_push hc, hp]
    split_ifs at hx with h1
    · simp only [Option.some.injEq] at hx; subst hx; subst h1
      have := hi.env_count e env he
      simp only [if_true]; omega
    · have := hi.env_count q x hx
      rw [if_neg (by simpa using h1)]; omega
  · intro q x hx; rw [e1] at hx
    split_ifs at hx with h1
    · simp only [Option.some.injEq] at hx; subst hx; exact hb
    · exact hi.env_bound q x hx
  · intro q x hx; rw [c1] at hx; rw [live_sqls_eq hs]
    split_ifs at hx with h1
    · simp only [Option.some.injEq] at hx; subst hx; subst h1
      rw [hi.no_sql_of_fresh_conn, h0]
    · exact hi.conn_count q x hx
  · intro q x hx; rw [c1] at hx
    split_ifs at hx with h1
    · simp only [Option.some.injEq] at hx; subst hx; rw [h0]; norm_num
    · exact hi.conn_bound q x hx
  · intro q x hx; rw [c1] at hx
    split_ifs at hx with h1
    · simp only [Option.some.injEq] at hx; subst hx
      exact ⟨e, env', hp, by rw [e1]; simp [elt]⟩
    · obtain ⟨e2, env2, h3, h4⟩ := hi.conn_parent q x hx
      by_cases hq : e = e2
      · subst hq; exact ⟨e, env', h3, by rw [e1]; simp [elt]⟩
      · exact ⟨e2, env2, h3, by rw [e1, if_neg hq]; exact h4⟩
  · intro s sql hx; rw [s1] at hx; exact hi.sql_count s sql hx
  · intro s sql hx; rw [s1] at hx
    obtain ⟨c, conn, h1, h2⟩ := hi.sql_parent s sql hx
    have := Heap.conn_lt h2
    exact ⟨c, conn, h1, by rw [c1, if_neg (by omega)]; exact h2⟩

/-- A fresh statement with count 1, its connection counting one more. -/
theorem Inv.alloc_sql {h h' : Heap} {c : Nat} {conn : conn_t} (conn' : conn_t) (sql0 : sql_t)
    (hi : Inv h) (hc : h.conn c = some conn)
    (hh : h'.conns = h.conns.set c (some conn')) (hr : conn'.refcount = conn.refcount + 1)
    (hb : conn'.refcount < 2 ^ 64) (hpe : conn'.env = conn.env)
    (hs : h'.sqls = h.sqls ++ [some sql0]) (h0 : sql0.refcount = 1)
    (hp : sql0.conn = some c) (he : h'.envs = h.envs) : Inv h' := by
  have e1 := Heap.env_of_envs_eq he
  have c1 := Heap.conn_of_conns_set hh
  have s1 := Heap.sql_of_sqls_push hs
  have clt := Heap.conn_lt hc
  constructor
  · intro q x hx; rw [e1] at hx
    have := live_conns_set hc hh q
    rw [conn_in_some, hpe] at this
    have h2 := hi.env_count q x hx
    simp only [decide_eq_true_eq] at this
    omega
  · intro q x hx; rw [e1] at hx; exact hi.env_bound q x hx
  · intro q x hx; rw [c1] at hx; rw [live_sqls_push hs, hp]
    split_ifs at hx with h1
    · simp only [Option.some.injEq] at hx; subst hx; subst h1
      have := hi.conn_count c conn hc
      simp only [if_true]; omega
    · have := hi.conn_count q x hx
      rw [if_neg (by simpa using h1)]; omega
  · intro q x hx; rw [c1] at hx
    split_ifs at hx with h1
    · simp only [Option.some.injEq] at hx; subst hx; exact hb
    · exact hi.conn_bound q x hx
  · intro q x hx; rw [c1] at hx
    split_ifs at hx with h1
    · simp only [Option.some.injEq] at hx; subst hx
      obtain ⟨e, env, h3, h4⟩ := hi.conn_parent c conn hc
      exact ⟨e, env, by rw [hpe]; exact h3, by rw [e1]; exact h4⟩
    · obtain ⟨e, env, h3, h4⟩ := hi.conn_parent q x hx
      exact ⟨e, env, h3, by rw [e1]; exact h4⟩
  · intro q x hx; rw [s1] at hx
    split_ifs at hx with h1
    · simp only [Option.some.injEq] at hx; subst hx; exact h0
    · exact hi.sql_count q x hx
  · intro q x hx; rw [s1] at hx
    split_ifs at hx with h1
    · simp only [Option.some.injEq] at hx; subst hx
      exact ⟨c, conn', hp, by rw [c1]; simp [clt]⟩
    · obtain ⟨c2, conn2, h3, h4⟩ := hi.sql_parent q x hx
      by_cases hq : c = c2
      · subst hq; exact ⟨c, conn', h3, by rw [c1]; simp [clt]⟩
      · exact ⟨c2, conn2, h3, by rw [c1, if_neg hq]; exact h4⟩

/-- An environment with count 1 is freed. -/
theorem Inv.free_env {h h' : Heap} {e : Nat} {env : env_t} (hi : Inv h)
    (he : h.env e = some env) (h1 : env.refcount = 1)
    (hh : h'.envs = h.envs.set e none) (hc : h'.conns = h.conns) (hs : h'.sqls = h.sqls) :
    Inv h' := by
  have e1 := Heap.env_of_envs_set hh
  have c1 := Heap.conn_of_conns_eq hc
  have s1 := Heap.sql_of_sqls_eq hs
  have hzero : live_conns_of h e = 0 := by
    have := hi.env_count e env he; omega
  constructor
  · intro q x hx; rw [e1] at hx; rw [live_conns_eq hc]
    split_ifs at hx with h2
    exact hi.env_count q x hx
  · intro q x hx; rw [e1] at hx
    split_ifs at hx with h2
    exact hi.env_bound q x hx
  · intro c conn hx; rw [c1] at hx; rw [live_sqls_eq hs]; exact hi.conn_count c conn hx
  · intro c conn hx; rw [c1] at hx; exact hi.conn_bound c conn hx
  · intro c conn hx; rw [c1] at hx
    obtain ⟨q, x, h3, h4⟩ := hi.conn_parent c conn hx
    have hne : e ≠ q := by
      rintro rfl
      have := live_conns_pos hx h3
      omega
    exact ⟨q, x, h3, by rw [e1, if_neg hne]; exact h4⟩
  · intro s sql hx; rw [s1] at hx; exact hi.sql_count s sql hx
  · intro s sql hx; rw [s1] at hx
    obtain ⟨c, conn, h3, h4⟩ := hi.sql_parent s sql hx
    exact ⟨c, conn, h3, by rw [c1]; exact h4⟩

/-- A connection with count 1 is freed, its environment counting one less. -/
theorem Inv.free_conn {h h' : Heap} {c e : Nat} {conn : conn_t} {env env' : env_t}
    (hi : Inv h) (hc : h.conn c = some conn) (h1 : conn.refcount = 1)
    (hp : conn.env = some e) (he : h.env e = some env)
    (hh : h'.envs = h.envs.set e (some env')) (hr : env'.refcount = env.refcount - 1)
    (hcs : h'.conns = h.conns.set c none) (hs : h'.sqls = h.sqls) : Inv h' := by
  have e1 := Heap.env_of_envs_set hh
  have c1 := Heap.conn_of_conns_set hcs
  have s1 := Heap.sql_of_sqls_eq hs
  have elt := Heap.env_lt he
  have hzero : live_sqls_of h c = 0 := by
    have := hi.conn_count c conn hc; omega
  constructor
  · intro q x hx; rw [e1] at hx
    have hset := live_conns_set hc hcs q
    simp only [conn_in, hp, Option.some.injEq, Bool.false_eq_true, if_false] at hset
    split_ifs at hx with h2
    · simp only [Option.some.injEq] at hx; subst hx; subst h2
      have := hi.env_count e env he
      simp only [if_true] at hset
      omega
    · have := hi.env_count q x hx
      rw [if_neg h2] at hset
      omega
  · intro q x hx; rw [e1] at hx
    split_ifs at hx with h2
    · simp only [Option.some.injEq] at hx; subst hx
      have := hi.env_bound e env he; omega
    · exact hi.env_bound q x hx
  · intro q x hx; rw [c1] at hx; rw [live_sqls_eq hs]
    split_ifs at hx with h2
    exact hi.conn_count q x hx
  · intro q x hx; rw [c1] at hx
    split_ifs at hx with h2
    exact hi.conn_bound q x hx
  · intro q x hx; rw [c1] at hx
    split_ifs at hx with h2
    obtain ⟨e2, env2, h3, h4⟩ := hi.conn_parent q x hx
    by_cases hq : e = e2
    · subst hq; exact ⟨e, env', h3, by rw [e1]; simp [elt]⟩
    · exact ⟨e2, env2, h3, by rw [e1, if_neg hq]; exact h4⟩
  · intro s sql hx; rw [s1] at hx; exact hi.sql_count s sql hx
  · intro s sql hx; rw [s1] at hx
    obtain ⟨q, x, h3, h4⟩ := hi.sql_parent s sql hx
    have hne : c ≠ q := by
      rintro rfl
      have := live_sqls_pos hx h3
      omega
    exact ⟨q, x, h3, by rw [c1, if_neg hne]; exact h4⟩

/-- A statement is freed, its connection counting one less. -/
theorem Inv.free_sql {h h' : Heap} {s c : Nat} {sql : sql_t} {conn conn' : conn_t}
    (hi : Inv h) (hs : h.sql s = some sql) (hp : sql.conn = some c)
    (hc : h.conn c = some conn)
    (hh : h'.conns = h.conns.set c (some conn')) (hr : conn'.refcount = conn.refcount - 1)
    (hpe : conn'.env = conn.env)
    (hss : h'.sqls = h.sqls.set s none) (he : h'.envs = h.envs) : Inv h' := by
  have e1 := Heap.env_of_envs_eq he
  have c1 := Heap.conn_of_conns_set hh
  have s1 := Heap.sql_of_sqls_set hss
  have clt := Heap.conn_lt hc
  constructor
  · intro q x hx; rw [e1] at hx
    have := live_conns_set hc hh q
    rw [conn_in_some, hpe] at this
    have h2 := hi.env_count q x hx
    simp only [decide_eq_true_eq] at this
    omega
  · intro q x hx; rw [e1] at hx; exact hi.env_bound q x hx
  · intro q x hx; rw [c1] at hx
    have hset := live_sqls_set hs hss q
    simp only [sql_in, hp, Option.some.injEq, Bool.false_eq_true, if_false] at hset
    split_ifs at hx with h2
    · simp only [Option.some.injEq] at hx; subst hx; subst h2
      have := hi.conn_count c conn hc
      simp only [if_true] at hset
      omega
    · have := hi.conn_count q x hx
      rw [if_neg h2] at hset
      omega
  · intro q x hx; rw [c1] at hx
    split_ifs at hx with h2
    · simp only [Option.some.injEq] at hx; subst hx
      have := hi.conn_bound c conn hc; omega
    · exact hi.conn_bound q x hx
  · intro q x hx; rw [c1] at hx
    split_ifs at hx with h2
    · simp only [Option.some.injEq] at hx; subst hx
      obtain ⟨e, env, h3, h4⟩ := hi.conn_parent c conn hc
      exact ⟨e, env, by rw [hpe]; exact h3, by rw [e1]; exact h4⟩
    · obtain ⟨e, env, h3, h4⟩ := hi.conn_parent q x hx
      exact ⟨e, env, h3, by rw [e1]; exact h4⟩
  · intro q x hx; rw [s1] at hx
    split_ifs at hx with h2
    exact hi.sql_count q x hx
  · intro q x hx; rw [s1] at hx
    split_ifs at hx with h2
    obtain ⟨c2, conn2, h3, h4⟩ := hi.sql_parent q x hx
    by_cases hq : c = c2
    · subst hq; exact ⟨c, conn', h3, by rw [c1]; simp [clt]⟩
    · exact ⟨c2, conn2, h3, by rw [c1, if_neg hq]; exact h4⟩

end Todbc

namespace Todbc

/-! ## A conversion changes nothing of the statement but its error context -/

section conv_frame

variable {D F : Type} (L : LibC D F)

theorem conv_framed_fault (sql : sql_t) : conv_framed sql Outcome.fault := by
  intro r s' t' h; cases h

theorem conv_framed_abort (sql : sql_t) (st : sql_t × c_target_t) :
    conv_framed sql (Outcome.abort st) := by
  intro r s' t' h; cases h

theorem conv_framed_ret (sql : sql_t) (r : SQLRETURN) (t : c_target_t) :
    conv_framed sql (Outcome.ret r (sql, t)) := by
  intro r s' t' h
  simp only [Outcome.ret.injEq, Prod.mk.injEq] at h
  obtain ⟨-, rfl, -⟩ := h
  exact ⟨_, rfl⟩

theorem conv_framed_err (sql : sql_t) (r : SQLRETURN) (t : c_target_t) (err : taos_error_t) :
    conv_framed sql (Outcome.ret r ({ sql with err := err }, t)) := by
  intro r s' t' h
  simp only [Outcome.ret.injEq, Prod.mk.injEq] at h
  obtain ⟨-, rfl, -⟩ := h
  exact ⟨_, rfl⟩

theorem conv_framed_info (sql : sql_t) (t : c_target_t) (st : String) (eno : TsdbCode)
    (msg : Option String) : conv_framed sql (conv_info sql t st eno msg) :=
  conv_framed_err sql _ t _

theorem conv_framed_not_support (sql : sql_t) (t : c_target_t) (msg : Option String) :
    conv_framed sql (conv_not_support sql t msg) :=
  conv_framed_err sql _ t _

theorem conv_framed_store_int (w : Nat) (sql : sql_t) (t : c_target_t) (x : Int) :
    conv_framed sql (store_int w sql t x) :=
  conv_framed_ret sql _ _

theorem conv_framed_store_bytes (sql : sql_t) (t : c_target_t) (x : Bytes) :
    conv_framed sql (store_bytes sql t x) :=
  conv_framed_ret sql _ _

theorem conv_framed_ite (sql : sql_t) (c : Prop) [Decidable c] (a b : Conv)
    (ha : conv_framed sql a) (hb : conv_framed sql b) :
    conv_framed sql (if c then a else b) := by
  split
  · exact ha
  · exact hb

theorem conv_framed_text_to_c_char (sql : sql_t) (t : c_target_t) (text : Bytes)
    (msg : Option String) : conv_framed sql (text_to_c_char sql t text msg) := by
  unfold text_to_c_char
  try dsimp only
  repeat (first
    | exact conv_framed_fault _
    | exact conv_framed_abort _ _
    | exact conv_framed_ret _ _ _
    | exact conv_framed_info _ _ _ _ _
    | apply conv_framed_ite
    | split)

theorem conv_framed_text_to_c_binary (sql : sql_t) (t : c_target_t) (text : Bytes)
    (msg : Option String) : conv_framed sql (text_to_c_binary sql t text msg) := by
  unfold text_to_c_binary
  try dsimp only
  repeat (first
    | exact conv_framed_fault _
    | exact conv_framed_abort _ _
    | exact conv_framed_ret _ _ _
    | exact conv_framed_info _ _ _ _ _
    | apply conv_framed_ite
    | split)

theorem conv_framed_bool_to_c_char (sql : sql_t) (t : c_target_t) (f : TAOS_FIELD) (b : Int) :
    conv_framed sql (conv_tsdb_bool_to_c_char sql t f b) := by
  unfold conv_tsdb_bool_to_c_char
  try dsimp only
  repeat (first
    | exact conv_framed_fault _
    | exact conv_framed_abort _ _
    | exact conv_framed_ret _ _ _
    | apply conv_framed_ite
    | split)

theorem conv_framed_bool_to_c_binary (sql : sql_t) (t : c_target_t) (f : TAOS_FIELD) (b : Int) :
    conv_framed sql (conv_tsdb_bool_to_c_binary sql t f b) := by
  unfold conv_tsdb_bool_to_c_binary
  try dsimp only
  repeat (first
    | exact conv_framed_fault _
    | exact conv_framed_abort _ _
    | exact conv_framed_ret _ _ _
    | apply conv_framed_ite
    | split)

theorem conv_framed_ts_to_c_v8 (sql : sql_t) (t : c_target_t) (f : TAOS_FIELD)
    (ts : TIMESTAMP_STRUCT) : conv_framed sql (conv_tsdb_ts_to_c_v8 L sql t f ts) :=
  conv_framed_ret sql _ _

theorem conv_framed_ts_to_c_ts (sql : sql_t) (t : c_target_t) (f : TAOS_FIELD)
    (ts : TIMESTAMP_STRUCT) : conv_framed sql (conv_tsdb_ts_to_c_ts sql t f ts) :=
  conv_framed_ret sql _ _

theorem conv_framed_ts_to_c_str (sql : sql_t) (t : c_target_t) (f : TAOS_FIELD)
    (ts : TIMESTAMP_STRUCT) (msg : Option String) :
    conv_framed sql (conv_tsdb_ts_to_c_str L sql t f ts msg) := by
  unfold conv_tsdb_ts_to_c_str
  try dsimp only
  repeat (first
    | exact conv_framed_fault _
    | exact conv_framed_abort _ _
    | exact conv_framed_ret _ _ _
    | exact conv_framed_info _ _ _ _ _
    | apply conv_framed_ite
    | split)

theorem conv_framed_ts_to_c_bin (sql : sql_t) (t : c_target_t) (f : TAOS_FIELD)
    (ts : TIMESTAMP_STRUCT) (msg : Option String) :
    conv_framed sql (conv_tsdb_ts_to_c_bin L sql t f ts msg) := by
  unfold conv_tsdb_ts_to_c_bin
  try dsimp only
  repeat (first
    | exact conv_framed_fault _
    | exact conv_framed_abort _ _
    | exact conv_framed_ret _ _ _
    | exact conv_framed_info _ _ _ _ _
    | apply conv_framed_ite
    | split)

theorem conv_framed_bin_to_c (sql : sql_t) (t : c_target_t) (f : TAOS_FIELD)
    (bin : Bytes) (msg : Option String) : conv_framed sql (bin_to_c sql t f bin msg) := by
  unfold bin_to_c
  try dsimp only
  repeat (first
    | exact conv_framed_fault _
    | exact conv_framed_abort _ _
    | exact conv_framed_ret _ _ _
    | exact conv_framed_info _ _ _ _ _
    | apply conv_framed_ite
    | split)

theorem conv_framed_str_to_c_bit (sql : sql_t) (t : c_target_t) (f : TAOS_FIELD)
    (str : Bytes) (msg : Option String) :
    conv_framed sql (conv_tsdb_str_to_c_bit L sql t f str msg) := by
  unfold conv_tsdb_str_to_c_bit
  try dsimp only
  repeat (first
    | exact conv_framed_fault _
    | exact conv_framed_abort _ _
    | exact conv_framed_ret _ _ _
    | exact conv_framed_info _ _ _ _ _
    | apply conv_framed_ite
    | split)

theorem conv_framed_str_to_c_int (w : Nat) (sql : sql_t) (t : c_target_t)
    (str : Bytes) (msg : Option String) :
    conv_framed sql (str_to_c_int L w sql t str msg) := by
  unfold str_to_c_int
  try dsimp only
  repeat (first
    | exact conv_framed_fault _
    | exact conv_framed_abort _ _
    | exact conv_framed_ret _ _ _
    | exact conv_framed_info _ _ _ _ _
    | apply conv_framed_ite
    | split)

theorem conv_framed_str_to_c_f4 (sql : sql_t) (t : c_target_t) (f : TAOS_FIELD)
    (str : Bytes) (msg : Option String) :
    conv_framed sql (conv_tsdb_str_to_c_f4 L sql t f str msg) := by
  unfold conv_tsdb_str_to_c_f4
  try dsimp only
  repeat (first
    | exact conv_framed_fault _
    | exact conv_framed_abort _ _
    | exact conv_framed_ret _ _ _
    | exact conv_framed_info _ _ _ _ _
    | apply conv_framed_ite
    | split)

theorem conv_framed_str_to_c_f8 (sql : sql_t) (t : c_target_t) (f : TAOS_FIELD)
    (str : Bytes) (msg : Option String) :
    conv_framed sql (conv_tsdb_str_to_c_f8 L sql t f str msg) := by
  unfold conv_tsdb_str_to_c_f8
  try dsimp only
  repeat (first
    | exact conv_framed_fault _
    | exact conv_framed_abort _ _
    | exact conv_framed_ret _ _ _
    | exact conv_framed_info _ _ _ _ _
    | apply conv_framed_ite
    | split)

theorem conv_framed_str_to_c_str (sql : sql_t) (t : c_target_t) (f : TAOS_FIELD)
    (str : Bytes) (msg : Option String) :
    conv_framed sql (conv_tsdb_str_to_c_str sql t f str msg) := by
  unfold conv_tsdb_str_to_c_str
  try dsimp only
  repeat (first
    | exact conv_framed_fault _
    | exact conv_framed_abort _ _
    | exact conv_framed_ret _ _ _
    | exact conv_framed_info _ _ _ _ _
    | apply conv_framed_ite
    | split)

theorem conv_framed_str_to_c_bin (sql : sql_t) (t : c_target_t) (f : TAOS_FIELD)
    (str : Bytes) (msg : Option String) :
    conv_framed sql (conv_tsdb_str_to_c_bin sql t f str msg) := by
  unfold conv_tsdb_str_to_c_bin
  try dsimp only
  repeat (first
    | exact conv_framed_fault _
    | exact conv_framed_abort _ _
    | exact conv_framed_ret _ _ _
    | exact conv_framed_info _ _ _ _ _
    | apply conv_framed_ite
    | split)

set_option maxRecDepth 8192 in
theorem conv_framed_dispatch (sql : sql_t) (t : c_target_t) (field : TAOS_FIELD)
    (row : Bytes) (msg : Option String) : conv_framed sql (dispatch L sql t field row msg) := by
  unfold dispatch
  simp only [conv_tsdb_bool_to_c_bit, conv_tsdb_bool_to_c_tinyint, conv_tsdb_bool_to_c_short,
    conv_tsdb_bool_to_c_long, conv_tsdb_bool_to_c_sbigint, conv_tsdb_bool_to_c_float,
    conv_tsdb_bool_to_c_double,
    conv_tsdb_v1_to_c_tinyint, conv_tsdb_v1_to_c_short, conv_tsdb_v1_to_c_long,
    conv_tsdb_v1_to_c_sbigint, conv_tsdb_v1_to_c_float, conv_tsdb_v1_to_c_double,
    conv_tsdb_v1_to_c_char, conv_tsdb_v1_to_c_binary, conv_tsdb_v2_to_c_short,
    conv_tsdb_v2_to_c_long, conv_tsdb_v2_to_c_sbigint, conv_tsdb_v2_to_c_float,
    conv_tsdb_v2_to_c_double, conv_tsdb_v2_to_c_char, conv_tsdb_v2_to_c_binary,
    conv_tsdb_v4_to_c_long, conv_tsdb_v4_to_c_sbigint, conv_tsdb_v4_to_c_float,
    conv_tsdb_v4_to_c_double, conv_tsdb_v4_to_c_char, conv_tsdb_v4_to_c_binary,
    conv_tsdb_v8_to_c_sbigint, conv_tsdb_v8_to_c_float, conv_tsdb_v8_to_c_double,
    conv_tsdb_v8_to_c_char, conv_tsdb_v8_to_c_binary, conv_tsdb_f4_to_c_float,
    conv_tsdb_f4_to_c_double, conv_tsdb_f4_to_c_char, conv_tsdb_f4_to_c_binary,
    conv_tsdb_f8_to_c_double, conv_tsdb_f8_to_c_char, conv_tsdb_f8_to_c_binary,
    conv_tsdb_bin_to_c_str, conv_tsdb_bin_to_c_bin,
    conv_tsdb_str_to_c_v1, conv_tsdb_str_to_c_v2, conv_tsdb_str_to_c_v4, conv_tsdb_str_to_c_v8]
  repeat' (with_reducible apply conv_framed_ite)
  all_goals (first
    | with_reducible exact conv_framed_not_support _ _ _
    | with_reducible exact conv_framed_store_int _ _ _ _
    | with_reducible exact conv_framed_store_bytes _ _ _
    | with_reducible exact conv_framed_text_to_c_char _ _ _ _
    | with_reducible exact conv_framed_text_to_c_binary _ _ _ _
    | with_reducible exact conv_framed_bool_to_c_char _ _ _ _
    | with_reducible exact conv_framed_bool_to_c_binary _ _ _ _
    | with_reducible exact conv_framed_ts_to_c_v8 L _ _ _ _
    | with_reducible exact conv_framed_ts_to_c_ts _ _ _ _
    | with_reducible exact conv_framed_ts_to_c_str L _ _ _ _ _
    | with_reducible exact conv_framed_ts_to_c_bin L _ _ _ _ _
    | with_reducible exact conv_framed_bin_to_c _ _ _ _ _
    | with_reducible exact conv_framed_str_to_c_bit L _ _ _ _ _
    | with_reducible exact conv_framed_str_to_c_int L _ _ _ _ _
    | with_reducible exact conv_framed_str_to_c_f4 L _ _ _ _ _
    | with_reducible exact conv_framed_str_to_c_f8 L _ _ _ _ _
    | with_reducible exact conv_framed_str_to_c_str _ _ _ _ _
    | with_reducible exact conv_framed_str_to_c_bin _ _ _ _ _)

end conv_frame

end Todbc

namespace Todbc

/-! ## Every operation preserves the invariant -/

theorem Inv.set_sql_same {h hX : Heap} {s : Nat} {sql sqlY : sql_t} (hi : Inv h)
    (hs : h.sql s = some sql) (he : hX.envs = h.envs) (hc : hX.conns = h.conns)
    (hq : hX.sqls = h.sqls) (hr : sqlY.refcount = sql.refcount) (hp : sqlY.conn = sql.conn) :
    Inv (hX.set_sql s (some sqlY)) := by
  refine Inv.frame_sql hi he hc hs ?_ hr hp
  show hX.sqls.set s (some sqlY) = _
  rw [hq]

theorem Inv.set_conn_same {h hX : Heap} {c : Nat} {conn connY : conn_t} (hi : Inv h)
    (hc : h.conn c = some conn) (he : hX.envs = h.envs) (hq : hX.conns = h.conns)
    (hs : hX.sqls = h.sqls) (hr : connY.refcount = conn.refcount) (hp : connY.env = conn.env) :
    Inv (hX.set_conn c (some connY)) := by
  refine Inv.frame_conn connY hi he hs hc ?_ hr hp
  show hX.conns.set c (some connY) = _
  rw [hq]

theorem check_connection_error {h : Heap} {sql sql' : sql_t} {msg : Option String}
    (hc : check_connection h sql msg = some (Except.error sql')) :
    sql'.refcount = sql.refcount ∧ sql'.conn = sql.conn := by
  unfold check_connection at hc
  repeat' split at hc
  all_goals first
    | (cases hc; exact ⟨rfl, rfl⟩)
    | cases hc

theorem release_result_stores (h : Heap) (sql : sql_t) :
    (release_result h sql).1.envs = h.envs ∧ (release_result h sql).1.conns = h.conns
      ∧ (release_result h sql).1.sqls = h.sqls
      ∧ (release_result h sql).2.refcount = sql.refcount
      ∧ (release_result h sql).2.conn = sql.conn := by
  unfold release_result
  split <;> exact ⟨rfl, rfl, rfl, rfl, rfl⟩

theorem release_stmt_params_stores (h : Heap) (sql : sql_t) :
    (release_stmt_params h sql).1.envs = h.envs ∧ (release_stmt_params h sql).1.conns = h.conns
      ∧ (release_stmt_params h sql).1.sqls = h.sqls
      ∧ (release_stmt_params h sql).2.refcount = sql.refcount
      ∧ (release_stmt_params h sql).2.conn = sql.conn := by
  unfold release_stmt_params
  split <;> exact ⟨rfl, rfl, rfl, rfl, rfl⟩

theorem CHK_RS_owner (sql : sql_t) (terrno : TsdbCode) (msg : Option String) :
    (CHK_RS sql terrno msg).2.refcount = sql.refcount
      ∧ (CHK_RS sql terrno msg).2.conn = sql.conn := by
  unfold CHK_RS
  dsimp only
  split <;> exact ⟨rfl, rfl⟩

theorem Inv.exec_direct {h h' : Heap} {s : Option Nat} {txt : Option Bytes} {n : Int}
    {a : Bool} {rs : Option TAOS_RES} {terrno : TsdbCode} {msg : Option String}
    {r : SQLRETURN} (hi : Inv h)
    (hrun : doSQLExecDirect h s txt n a rs terrno msg = Outcome.ret r h') : Inv h' := by
  unfold doSQLExecDirect at hrun
  cases s with
  | none => simp only [Outcome.ret.injEq] at hrun; rw [← hrun.2]; exact hi
  | some s =>
    simp only at hrun
    cases hs : h.sql s with
    | none => rw [hs] at hrun; cases hrun
    | some sql =>
      rw [hs] at hrun
      simp only at hrun
      cases hcc : check_connection h sql msg with
      | none => rw [hcc] at hrun; cases hrun
      | some res =>
        rw [hcc] at hrun
        cases res with
        | error sql' =>
          simp only [Outcome.ret.injEq] at hrun
          rw [← hrun.2]
          obtain ⟨h1, h2⟩ := check_connection_error hcc
          exact hi.set_sql_same hs rfl rfl rfl h1 h2
        | ok taos =>
          simp only at hrun
          obtain ⟨a1, a2, a3, a4, a5⟩ := release_result_stores h sql
          obtain ⟨b1, b2, b3, b4, b5⟩ :=
            release_stmt_params_stores (release_result h sql).1 (release_result h sql).2
          cases hd : SDUP txt n a with
          | none => rw [hd] at hrun; cases hrun
          | some x =>
            rw [hd] at hrun
            cases x with
            | none =>
              simp only [Outcome.ret.injEq] at hrun
              rw [← hrun.2]
              exact hi.set_sql_same hs (b1.trans a1) (b2.trans a2) (b3.trans a3)
                (b4.trans a4) (b5.trans a5)
            | some stxt =>
              simp only [Outcome.ret.injEq] at hrun
              rw [← hrun.2]
              obtain ⟨c1, c2⟩ := CHK_RS_owner
                { (release_stmt_params (release_result h sql).1 (release_result h sql).2).2
                    with rs := rs } terrno msg
              exact hi.set_sql_same hs (b1.trans a1) (b2.trans a2) (b3.trans a3)
                (c1.trans (b4.trans a4)) (c2.trans (b5.trans a5))

end Todbc

namespace Todbc

theorem Inv.fetch {h h' : Heap} {s : Option Nat} {msg : Option String} {r : SQLRETURN}
    (hi : Inv h) (hrun : doSQLFetch h s msg = Outcome.ret r h') : Inv h' := by
  unfold doSQLFetch at hrun
  repeat' split at hrun
  all_goals first
    | (cases hrun
       first
         | exact hi
         | (apply Inv.set_sql_same hi (by assumption) <;> rfl)
         | (apply Inv.set_sql_same hi (by assumption) rfl rfl rfl
             (check_connection_error (by assumption)).1 (check_connection_error (by assumption)).2))
    | cases hrun

theorem Inv.prepare {h h' : Heap} {s : Option Nat} {txt : Option Bytes} {n : Int}
    {stmt : Option Nat} {terrno prepared : TsdbCode} {msg : Option String}
    {r : SQLRETURN} (hi : Inv h)
    (hrun : doSQLPrepare h s txt n stmt terrno prepared msg = Outcome.ret r h') : Inv h' := by
  unfold doSQLPrepare at hrun
  cases s with
  | none => simp only [Outcome.ret.injEq] at hrun; rw [← hrun.2]; exact hi
  | some s =>
    simp only at hrun
    cases hs : h.sql s with
    | none => rw [hs] at hrun; cases hrun
    | some sql =>
      rw [hs] at hrun
      simp only at hrun
      cases hcc : check_connection h sql msg with
      | none => rw [hcc] at hrun; cases hrun
      | some res =>
        rw [hcc] at hrun
        cases res with
        | error sql' =>
          simp only [Outcome.ret.injEq] at hrun
          rw [← hrun.2]
          obtain ⟨h1, h2⟩ := check_connection_error hcc
          exact hi.set_sql_same hs rfl rfl rfl h1 h2
        | ok taos =>
          simp only at hrun
          obtain ⟨a1, a2, a3, a4, a5⟩ := release_result_stores h sql
          obtain ⟨b1, b2, b3, b4, b5⟩ :=
            release_stmt_params_stores (release_result h sql).1 (release_result h sql).2
          repeat' split at hrun
          all_goals
            simp only [Outcome.ret.injEq] at hrun
            rw [← hrun.2]
            exact hi.set_sql_same hs (b1.trans a1) (b2.trans a2) (b3.trans a3)
                (b4.trans a4) (b5.trans a5)

theorem Inv.connect {h h' : Heap} {c : Option Nat} {s1 s2 s3 : Option Bytes} {n1 n2 n3 : Int}
    {a1 a2 a3 : Bool} {taos : Option Nat} {terrno : TsdbCode} {msg : Option String}
    {r : SQLRETURN} (hi : Inv h)
    (hrun : doSQLConnect h c s1 n1 s2 n2 s3 n3 a1 a2 a3 taos terrno msg = Outcome.ret r h') :
    Inv h' := by
  unfold doSQLConnect at hrun
  repeat' split at hrun
  all_goals first
    | (cases hrun
       first
         | exact hi
         | (apply Inv.set_conn_same hi (by assumption) <;> rfl))
    | cases hrun

theorem Inv.disconnect {h h' : Heap} {c : Option Nat} {r : SQLRETURN}
    (hi : Inv h) (hrun : doSQLDisconnect h c = Outcome.ret r h') : Inv h' := by
  unfold doSQLDisconnect at hrun
  repeat' split at hrun
  all_goals first
    | (cases hrun
       first
         | exact hi
         | (apply Inv.set_conn_same hi (by assumption) <;> rfl))
    | cases hrun

theorem store_back_ret {h : Heap} {s : Nat} {o : Conv} {r : SQLRETURN} {st : GetDataState}
    (hrun : store_back h s o = Outcome.ret r st) :
    ∃ sql t, o = Outcome.ret r (sql, t) ∧ st = (h.set_sql s (some sql), t.ptr, t.soi) := by
  cases o with
  | ret r' x =>
    obtain ⟨sql, t⟩ := x
    simp only [store_back, Outcome.ret.injEq] at hrun
    exact ⟨sql, t, by rw [hrun.1], hrun.2.symm⟩
  | abort x => obtain ⟨sql, t⟩ := x; simp [store_back] at hrun
  | fault => simp [store_back] at hrun

theorem Inv.get_data {D F : Type} (L : LibC D F) {h : Heap} {s : Option Nat} {col : Nat}
    {ct : Int} {ptr : Option Bytes} {len : Int} {soi : Option Int} {msg : Option String}
    {r : SQLRETURN} {st : GetDataState} (hi : Inv h)
    (hrun : doSQLGetData L h s col ct ptr len soi msg = Outcome.ret r st) : Inv st.1 := by
  unfold doSQLGetData at hrun
  cases s with
  | none => simp only [Outcome.ret.injEq] at hrun; rw [← hrun.2]; exact hi
  | some s =>
    simp only at hrun
    cases hs : h.sql s with
    | none => rw [hs] at hrun; cases hrun
    | some sql =>
      rw [hs] at hrun
      simp only at hrun
      repeat' split at hrun
      all_goals first
        | (obtain ⟨sql', t', hd, rfl⟩ := store_back_ret hrun
           obtain ⟨err, rfl⟩ := conv_framed_dispatch L _ _ _ _ _ _ _ _ hd
           apply Inv.set_sql_same hi hs <;> rfl)
        | (cases hrun
           first
             | exact hi
             | (apply Inv.set_sql_same hi hs <;> rfl)
             | (apply Inv.set_sql_same hi hs rfl rfl rfl
                 (check_connection_error (by assumption)).1
                 (check_connection_error (by assumption)).2))
        | cases hrun

end Todbc

namespace Todbc

/-! ## Freeing a handle that still counts a child -/

theorem doSQLFreeEnv_abort {h : Heap} {e : Nat} {env : env_t}
    (he : h.env e = some env) (h1 : env.refcount ≠ 1) :
    doSQLFreeEnv h (some e) = Outcome.abort h := by
  unfold doSQLFreeEnv
  simp only [he, GET_REF]
  rw [if_pos h1]

theorem doSQLFreeConnect_abort {h : Heap} {c : Nat} {conn : conn_t}
    (hc : h.conn c = some conn) (h1 : conn.refcount ≠ 1) :
    doSQLFreeConnect h (some c) = Outcome.abort h := by
  unfold doSQLFreeConnect
  simp only [hc, GET_REF]
  rw [if_pos h1]

theorem doSQLFreeStmt_abort {h : Heap} {s : Nat} {sql : sql_t} (msg : Option String)
    (hs : h.sql s = some sql) (h1 : sql.refcount ≠ 1) :
    doSQLFreeStmt h (some s) SQL_DROP msg = Outcome.abort h := by
  have hne : SQL_DROP ≠ SQL_CLOSE := by decide
  unfold doSQLFreeStmt
  simp only [if_neg hne, hs, GET_REF, ne_eq, not_true_eq_false, if_false]
  rw [if_pos h1]

/-! ## The lifecycle operations preserve the invariant -/

theorem pthread_once_init_stores (h : Heap) :
    (pthread_once_init h).envs = h.envs ∧ (pthread_once_init h).conns = h.conns
      ∧ (pthread_once_init h).sqls = h.sqls := by
  unfold pthread_once_init
  split <;> exact ⟨rfl, rfl, rfl⟩

theorem set_length_append {α : Type} (l : List α) (a b : α) :
    (l ++ [a]).set l.length b = l ++ [b] := by
  induction l with
  | nil => rfl
  | cons x l ih => simp only [List.cons_append, List.length_cons, List.set_cons_succ, ih]

theorem Inv.alloc_env_op {h : Heap} {ok : Bool} {r : SQLRETURN} {st : Heap × Option Nat}
    (hi : Inv h) (hrun : doSQLAllocEnv h ok = Outcome.ret r st) : Inv st.1 := by
  obtain ⟨p1, p2, p3⟩ := pthread_once_init_stores h
  unfold doSQLAllocEnv at hrun
  have h3 : INC_REF 0 = 1 := by decide
  cases ok with
  | false =>
    simp only [Bool.not_false, if_true, Outcome.ret.injEq] at hrun
    rw [← hrun.2]
    exact hi.frame p1 p2 p3
  | true =>
    simp only [Bool.not_true, Bool.false_eq_true, if_false, h3, gt_iff_lt, Nat.lt_one_iff,
      Nat.zero_lt_one, not_true_eq_false, Outcome.ret.injEq] at hrun
    rw [← hrun.2]
    refine Inv.alloc_env { refcount := 1, err := CLR_ERROR {} } hi ?_ p2 p3 rfl
    show ((pthread_once_init h).envs ++ _).set _ _ = _
    rw [set_length_append, p1]

theorem Inv.free_env_op {h h' : Heap} {e : Option Nat} {r : SQLRETURN}
    (hi : Inv h) (hrun : doSQLFreeEnv h e = Outcome.ret r h') : Inv h' := by
  cases e with
  | none =>
    simp only [doSQLFreeEnv, Outcome.ret.injEq] at hrun
    rw [← hrun.2]; exact hi
  | some p =>
    cases he : h.env p with
    | none => simp only [doSQLFreeEnv, he] at hrun; cases hrun
    | some env =>
      by_cases h1 : env.refcount = 1
      · unfold doSQLFreeEnv at hrun
        simp only [he, GET_REF, h1, not_true_eq_false, if_false] at hrun
        repeat' split at hrun
        all_goals first
          | (cases hrun
             refine Inv.free_env hi he h1 ?_ rfl rfl
             simp [Heap.set_env])
          | cases hrun
      · rw [doSQLFreeEnv_abort he h1] at hrun; cases hrun

theorem DEC_INC_REF {r : Nat} (hr : r < 2 ^ 64) (h1 : INC_REF r > 1) :
    DEC_REF (INC_REF r) = r := by
  have := (INC_REF_gt_one hr).mp h1
  rw [INC_REF_eq this.2, DEC_REF_eq (by omega) this.2]
  omega

theorem Inv.alloc_connect_op {h : Heap} {e : Option Nat} {ok : Bool} {msg : Option String}
    {r : SQLRETURN} {st : Heap × Option Nat}
    (hi : Inv h) (hrun : doSQLAllocConnect h e ok msg = Outcome.ret r st) : Inv st.1 := by
  cases e with
  | none =>
    simp only [doSQLAllocConnect, Outcome.ret.injEq] at hrun
    rw [← hrun.2]; exact hi
  | some p =>
    cases he : h.env p with
    | none => simp only [doSQLAllocConnect, he] at hrun; cases hrun
    | some env =>
      have hb := hi.env_bound p env he
      cases ok with
      | true =>
        rw [doSQLAllocConnect_eq msg he hb] at hrun
        split at hrun
        · rename_i hc
          cases hrun
          exact Inv.alloc_conn { env with refcount := env.refcount + 1 }
            { refcount := 1, env := some p } hi he rfl rfl hc.2 rfl rfl rfl rfl
        · cases hrun
      | false =>
        unfold doSQLAllocConnect at hrun
        simp only [he, Bool.false_eq_true, if_false] at hrun
        by_cases hc : INC_REF env.refcount > 1
        · have hd := DEC_INC_REF hb hc
          simp only [hc, not_true_eq_false, if_false, hd] at hrun
          split at hrun
          · cases hrun
          · cases hrun
            refine Inv.frame_env { env with
                err := SET_ERROR env.err "HY000" TsdbCode.TSDB_CODE_ODBC_OOM msg }
              hi rfl rfl he ?_ rfl
            simp [Heap.set_env]
        · simp only [hc, not_false_eq_true, if_true] at hrun
          cases hrun

theorem Inv.alloc_stmt_op {h : Heap} {c : Option Nat} {ok : Bool} {msg : Option String}
    {r : SQLRETURN} {st : Heap × Option Nat}
    (hi : Inv h) (hrun : doSQLAllocStmt h c ok msg = Outcome.ret r st) : Inv st.1 := by
  cases c with
  | none =>
    simp only [doSQLAllocStmt, Outcome.ret.injEq] at hrun
    rw [← hrun.2]; exact hi
  | some p =>
    cases he : h.conn p with
    | none => simp only [doSQLAllocStmt, he] at hrun; cases hrun
    | some conn =>
      have hb := hi.conn_bound p conn he
      cases ok with
      | true =>
        rw [doSQLAllocStmt_eq msg he hb] at hrun
        split at hrun
        · rename_i hc
          cases hrun
          exact Inv.alloc_sql { conn with refcount := conn.refcount + 1 }
            { refcount := 1, conn := some p } hi he rfl rfl hc.2 rfl rfl rfl rfl rfl
        · cases hrun
      | false =>
        unfold doSQLAllocStmt at hrun
        simp only [he, Bool.false_eq_true, if_false] at hrun
        by_cases hc : INC_REF conn.refcount > 1
        · have hd := DEC_INC_REF hb hc
          simp only [hc, not_true_eq_false, if_false, hd] at hrun
          split at hrun
          · cases hrun
          · cases hrun
            refine Inv.frame_conn { conn with
                err := SET_ERROR conn.err "HY000" TsdbCode.TSDB_CODE_ODBC_OOM msg }
              hi rfl rfl he ?_ rfl rfl
            simp [Heap.set_conn]
        · simp only [hc, not_false_eq_true, if_true] at hrun
          cases hrun

theorem Inv.free_connect_op {h h' : Heap} {c : Option Nat} {r : SQLRETURN}
    (hi : Inv h) (hrun : doSQLFreeConnect h c = Outcome.ret r h') : Inv h' := by
  cases c with
  | none =>
    simp only [doSQLFreeConnect, Outcome.ret.injEq] at hrun
    rw [← hrun.2]; exact hi
  | some p =>
    cases hc : h.conn p with
    | none => simp only [doSQLFreeConnect, hc] at hrun; cases hrun
    | some conn =>
      by_cases h1 : conn.refcount = 1
      · obtain ⟨e, env, hp, he⟩ := hi.conn_parent p conn hc
        have hcount := hi.env_count e env he
        have hpos := live_conns_pos hc hp
        obtain ⟨h2, hrun2, henvs, hconns, hsqls, -, -⟩ :=
          doSQLFreeConnect_eq hc h1 hp he (by omega) (hi.env_bound e env he)
        rw [hrun2] at hrun
        cases hrun
        exact Inv.free_conn hi hc h1 hp he henvs rfl hconns hsqls
      · rw [doSQLFreeConnect_abort hc h1] at hrun; cases hrun

theorem Inv.free_stmt_op {h h' : Heap} {s : Option Nat} {o : Nat} {msg : Option String}
    {r : SQLRETURN} (hi : Inv h) (hrun : doSQLFreeStmt h s o msg = Outcome.ret r h') :
    Inv h' := by
  cases s with
  | none =>
    simp only [doSQLFreeStmt, Outcome.ret.injEq] at hrun
    rw [← hrun.2]; exact hi
  | some p =>
    by_cases ho : o = SQL_CLOSE
    · simp only [doSQLFreeStmt, ho, if_true, Outcome.ret.injEq] at hrun
      rw [← hrun.2]; exact hi
    · cases hs : h.sql p with
      | none => simp only [doSQLFreeStmt, hs, if_neg ho] at hrun; cases hrun
      | some sql =>
        by_cases hd : o = SQL_DROP
        · subst hd
          have h1 := hi.sql_count p sql hs
          obtain ⟨c, conn, hp, hc⟩ := hi.sql_parent p sql hs
          have hcount := hi.conn_count c conn hc
          have hpos := live_sqls_pos hs hp
          obtain ⟨h2, hrun2, henvs, hconns, hsqls, -⟩ :=
            doSQLFreeStmt_eq msg hs h1 hp hc (by omega) (hi.conn_bound c conn hc)
          rw [hrun2] at hrun
          cases hrun
          exact Inv.free_sql hi hs hp hc hconns rfl rfl hsqls henvs
        · unfold doSQLFreeStmt at hrun
          simp only [if_neg ho, hs, ne_eq, hd, not_false_eq_true, if_true] at hrun
          cases hrun
          apply Inv.set_sql_same hi hs <;> rfl

end Todbc
namespace Todbc

theorem execute_binds_owner {E : ExecuteEnv} {sql : sql_t} :
    (∀ eno sql2, execute_binds E sql = some (Except.error (eno, sql2)) →
      sql2.refcount = sql.refcount ∧ sql2.conn = sql.conn)
    ∧ (∀ sql2, execute_binds E sql = some (Except.ok sql2) →
      sql2.refcount = sql.refcount ∧ sql2.conn = sql.conn) := by
  unfold execute_binds
  constructor
  · intro eno sql2 he
    repeat' split at he
    all_goals first
      | (simp only [Option.some.injEq, Except.error.injEq, Prod.mk.injEq] at he
         obtain ⟨_, he2⟩ := he
         subst he2
         exact ⟨rfl, rfl⟩)
      | cases he
  · intro sql2 he
    repeat' split at he
    all_goals first
      | (simp only [Option.some.injEq, Except.ok.injEq] at he
         subst he
         exact ⟨rfl, rfl⟩)
      | cases he

theorem execute_send_stores (E : ExecuteEnv) (h : Heap) (st : Nat) (sql : sql_t) :
    (execute_send E h st sql).1.envs = h.envs ∧ (execute_send E h st sql).1.conns = h.conns
      ∧ (execute_send E h st sql).1.sqls = h.sqls := by
  unfold execute_send
  split_ifs <;> exact ⟨rfl, rfl, rfl⟩

theorem Inv.execute {h h' : Heap} {s : Option Nat} {E : ExecuteEnv} {msg : Option String}
    {r : SQLRETURN} (hi : Inv h)
    (hrun : doSQLExecute h s E msg = Outcome.ret r h') : Inv h' := by
  unfold doSQLExecute at hrun
  cases s with
  | none => simp only [Outcome.ret.injEq] at hrun; rw [← hrun.2]; exact hi
  | some s =>
    simp only at hrun
    cases hs : h.sql s with
    | none => rw [hs] at hrun; cases hrun
    | some sql =>
      rw [hs] at hrun
      simp only at hrun
      cases hcc : check_connection h sql msg with
      | none => rw [hcc] at hrun; cases hrun
      | some res =>
        rw [hcc] at hrun
        cases res with
        | error sql' =>
          simp only [Outcome.ret.injEq] at hrun
          rw [← hrun.2]
          obtain ⟨h1, h2⟩ := check_connection_error hcc
          exact hi.set_sql_same hs rfl rfl rfl h1 h2
        | ok taos =>
          simp only at hrun
          cases hst : sql.stmt with
          | none =>
            rw [hst] at hrun
            simp only [Outcome.ret.injEq] at hrun
            rw [← hrun.2]
            exact hi.set_sql_same hs rfl rfl rfl rfl rfl
          | some st =>
            rw [hst] at hrun
            simp only at hrun
            obtain ⟨a1, a2, a3, a4, a5⟩ := release_result_stores h sql
            generalize release_result h sql = p at a1 a2 a3 a4 a5 hrun
            obtain ⟨h0, sql0⟩ := p
            simp only at a1 a2 a3 a4 a5 hrun
            obtain ⟨hbe, hbo⟩ := @execute_binds_owner E sql0
            cases hb : execute_binds E sql0 with
            | none => rw [hb] at hrun; cases hrun
            | some res =>
              rw [hb] at hrun
              cases res with
              | error p =>
                obtain ⟨eno, sql2⟩ := p
                obtain ⟨e1, e2⟩ := hbe eno sql2 hb
                simp only [Outcome.ret.injEq] at hrun
                rw [← hrun.2]
                exact hi.set_sql_same hs a1 a2 a3 (e1.trans a4) (e2.trans a5)
              | ok sql2 =>
                obtain ⟨e1, e2⟩ := hbo sql2 hb
                simp only at hrun
                obtain ⟨s1, s2, s3⟩ := execute_send_stores E h0 st sql2
                generalize execute_send E h0 st sql2 = q at s1 s2 s3 hrun
                obtain ⟨h2, code⟩ := q
                simp only at s1 s2 s3 hrun
                obtain ⟨k1, k2⟩ := CHK_RS_owner { sql2 with rs := E.use_result } E.terrno msg
                cases code with
                | some eno =>
                  simp only [Outcome.ret.injEq] at hrun
                  rw [← hrun.2]
                  exact hi.set_sql_same hs (s1.trans a1) (s2.trans a2) (s3.trans a3)
                    (e1.trans a4) (e2.trans a5)
                | none =>
                  simp only at hrun
                  split_ifs at hrun with hx
                  · simp only [Outcome.ret.injEq] at hrun
                    rw [← hrun.2]
                    exact hi.set_sql_same hs (s1.trans a1) (s2.trans a2) (s3.trans a3)
                      (e1.trans a4) (e2.trans a5)
                  · simp only [Outcome.ret.injEq] at hrun
                    rw [← hrun.2]
                    exact hi.set_sql_same hs (s1.trans a1) (s2.trans a2) (s3.trans a3)
                      (k1.trans (e1.trans a4)) (k2.trans (e2.trans a5))

theorem Inv.store_parameter {h h' : Heap} {s : Nat} {sql : sql_t} {ty i : Nat}
    {vt pt : Int} {len : Nat} {scale : Int} {val soi : Option Nat}
    {ar : Option (List param_bind_t)} {binds : Option (List TAOS_BIND)} {msg : Option String}
    {r : SQLRETURN} (hi : Inv h) (hs : h.sql s = some sql)
    (hrun : bind_parameter_store h s sql ty i vt pt len scale val soi ar binds msg
      = Outcome.ret r h') : Inv h' := by
  unfold bind_parameter_store at hrun
  repeat' split at hrun
  all_goals first
    | (cases hrun
       first
         | exact hi
         | (apply Inv.set_sql_same hi hs <;> rfl))
    | cases hrun

theorem Inv.bind_parameter {h h' : Heap} {s : Option Nat} {i : Nat} {dir vt pt : Int}
    {len : Nat} {scale : Int} {val : Option Nat} (cb : Int) {soi : Option Nat}
    {pm : Option (Nat → param_bind_t)} {bm : Option (Nat → TAOS_BIND)} {msg : Option String}
    {r : SQLRETURN} (hi : Inv h)
    (hrun : doSQLBindParameter h s i dir vt pt len scale val cb soi pm bm msg
      = Outcome.ret r h') : Inv h' := by
  unfold doSQLBindParameter at hrun
  repeat' split at hrun
  all_goals first
    | exact Inv.store_parameter hi (by assumption) hrun
    | (cases hrun
       first
         | exact hi
         | (apply Inv.set_sql_same hi (by assumption) <;> rfl)
         | (apply Inv.set_sql_same hi (by assumption) rfl rfl rfl
             (check_connection_error (by assumption)).1 (check_connection_error (by assumption)).2))
    | cases hrun

end Todbc

namespace Todbc

/-! ## A conversion that returns `SQL_SUCCESS` leaves the statement as it was -/

section conv_clean_lemmas

variable {D F : Type} (L : LibC D F)

theorem conv_clean_fault (sql : sql_t) : conv_clean sql Outcome.fault := by
  intro s' t' h; cases h

theorem conv_clean_abort (sql : sql_t) (st : sql_t × c_target_t) :
    conv_clean sql (Outcome.abort st) := by
  intro s' t' h; cases h

theorem conv_clean_ret (sql : sql_t) (r : SQLRETURN) (t : c_target_t) :
    conv_clean sql (Outcome.ret r (sql, t)) := by
  intro s' t' h
  simp only [Outcome.ret.injEq, Prod.mk.injEq] at h
  obtain ⟨-, rfl, -⟩ := h
  rfl

theorem conv_clean_info (sql : sql_t) (t : c_target_t) (st : String) (eno : TsdbCode)
    (msg : Option String) : conv_clean sql (conv_info sql t st eno msg) := by
  intro s' t' h
  cases h

theorem conv_clean_not_support (sql : sql_t) (t : c_target_t) (msg : Option String) :
    conv_clean sql (conv_not_support sql t msg) := by
  intro s' t' h
  cases h

theorem conv_clean_store_int (w : Nat) (sql : sql_t) (t : c_target_t) (x : Int) :
    conv_clean sql (store_int w sql t x) :=
  conv_clean_ret sql _ _

theorem conv_clean_store_bytes (sql : sql_t) (t : c_target_t) (x : Bytes) :
    conv_clean sql (store_bytes sql t x) :=
  conv_clean_ret sql _ _

theorem conv_clean_ite (sql : sql_t) (c : Prop) [Decidable c] (a b : Conv)
    (ha : conv_clean sql a) (hb : conv_clean sql b) :
    conv_clean sql (if c then a else b) := by
  split
  · exact ha
  · exact hb

theorem conv_clean_text_to_c_char (sql : sql_t) (t : c_target_t) (text : Bytes)
    (msg : Option String) : conv_clean sql (text_to_c_char sql t text msg) := by
  unfold text_to_c_char
  try dsimp only
  repeat (first
    | exact conv_clean_fault _
    | exact conv_clean_abort _ _
    | exact conv_clean_ret _ _ _
    | exact conv_clean_info _ _ _ _ _
    | apply conv_clean_ite
    | split)

theorem conv_clean_text_to_c_binary (sql : sql_t) (t : c_target_t) (text : Bytes)
    (msg : Option String) : conv_clean sql (text_to_c_binary sql t text msg) := by
  unfold text_to_c_binary
  try dsimp only
  repeat (first
    | exact conv_clean_fault _
    | exact conv_clean_abort _ _
    | exact conv_clean_ret _ _ _
    | exact conv_clean_info _ _ _ _ _
    | apply conv_clean_ite
    | split)

theorem conv_clean_bool_to_c_char (sql : sql_t) (t : c_target_t) (f : TAOS_FIELD) (b : Int) :
    conv_clean sql (conv_tsdb_bool_to_c_char sql t f b) := by
  unfold conv_tsdb_bool_to_c_char
  try dsimp only
  repeat (first
    | exact conv_clean_fault _
    | exact conv_clean_abort _ _
    | exact conv_clean_ret _ _ _
    | apply conv_clean_ite
    | split)

theorem conv_clean_bool_to_c_binary (sql : sql_t) (t : c_target_t) (f : TAOS_FIELD) (b : Int) :
    conv_clean sql (conv_tsdb_bool_to_c_binary sql t f b) := by
  unfold conv_tsdb_bool_to_c_binary
  try dsimp only
  repeat (first
    | exact conv_clean_fault _
    | exact conv_clean_abort _ _
    | exact conv_clean_ret _ _ _
    | apply conv_clean_ite
    | split)

theorem conv_clean_ts_to_c_v8 (sql : sql_t) (t : c_target_t) (f : TAOS_FIELD)
    (ts : TIMESTAMP_STRUCT) : conv_clean sql (conv_tsdb_ts_to_c_v8 L sql t f ts) :=
  conv_clean_ret sql _ _

theorem conv_clean_ts_to_c_ts (sql : sql_t) (t : c_target_t) (f : TAOS_FIELD)
    (ts : TIMESTAMP_STRUCT) : conv_clean sql (conv_tsdb_ts_to_c_ts sql t f ts) :=
  conv_clean_ret sql _ _

theorem conv_clean_ts_to_c_str (sql : sql_t) (t : c_target_t) (f : TAOS_FIELD)
    (ts : TIMESTAMP_STRUCT) (msg : Option String) :
    conv_clean sql (conv_tsdb_ts_to_c_str L sql t f ts msg) := by
  unfold conv_tsdb_ts_to_c_str
  try dsimp only
  repeat (first
    | exact conv_clean_fault _
    | exact conv_clean_abort _ _
    | exact conv_clean_ret _ _ _
    | exact conv_clean_info _ _ _ _ _
    | apply conv_clean_ite
    | split)

theorem conv_clean_ts_to_c_bin (sql : sql_t) (t : c_target_t) (f : TAOS_FIELD)
    (ts : TIMESTAMP_STRUCT) (msg : Option String) :
    conv_clean sql (conv_tsdb_ts_to_c_bin L sql t f ts msg) := by
  unfold conv_tsdb_ts_to_c_bin
  try dsimp only
  repeat (first
    | exact conv_clean_fault _
    | exact conv_clean_abort _ _
    | exact conv_clean_ret _ _ _
    | exact conv_clean_info _ _ _ _ _
    | apply conv_clean_ite
    | split)

theorem conv_clean_bin_to_c (sql : sql_t) (t : c_target_t) (f : TAOS_FIELD)
    (bin : Bytes) (msg : Option String) : conv_clean sql (bin_to_c sql t f bin msg) := by
  unfold bin_to_c
  try dsimp only
  repeat (first
    | exact conv_clean_fault _
    | exact conv_clean_abort _ _
    | exact conv_clean_ret _ _ _
    | exact conv_clean_info _ _ _ _ _
    | apply conv_clean_ite
    | split)

theorem conv_clean_str_to_c_bit (sql : sql_t) (t : c_target_t) (f : TAOS_FIELD)
    (str : Bytes) (msg : Option String) :
    conv_clean sql (conv_tsdb_str_to_c_bit L sql t f str msg) := by
  unfold conv_tsdb_str_to_c_bit
  try dsimp only
  repeat (first
    | exact conv_clean_fault _
    | exact conv_clean_abort _ _
    | exact conv_clean_ret _ _ _
    | exact conv_clean_info _ _ _ _ _
    | apply conv_clean_ite
    | split)

theorem conv_clean_str_to_c_int (w : Nat) (sql : sql_t) (t : c_target_t)
    (str : Bytes) (msg : Option String) :
    conv_clean sql (str_to_c_int L w sql t str msg) := by
  unfold str_to_c_int
  try dsimp only
  repeat (first
    | exact conv_clean_fault _
    | exact conv_clean_abort _ _
    | exact conv_clean_ret _ _ _
    | exact conv_clean_info _ _ _ _ _
    | apply conv_clean_ite
    | split)

theorem conv_clean_str_to_c_f4 (sql : sql_t) (t : c_target_t) (f : TAOS_FIELD)
    (str : Bytes) (msg : Option String) :
    conv_clean sql (conv_tsdb_str_to_c_f4 L sql t f str msg) := by
  unfold conv_tsdb_str_to_c_f4
  try dsimp only
  repeat (first
    | exact conv_clean_fault _
    | exact conv_clean_abort _ _
    | exact conv_clean_ret _ _ _
    | exact conv_clean_info _ _ _ _ _
    | apply conv_clean_ite
    | split)

theorem conv_clean_str_to_c_f8 (sql : sql_t) (t : c_target_t) (f : TAOS_FIELD)
    (str : Bytes) (msg : Option String) :
    conv_clean sql (conv_tsdb_str_to_c_f8 L sql t f str msg) := by
  unfold conv_tsdb_str_to_c_f8
  try dsimp only
  repeat (first
    | exact conv_clean_fault _
    | exact conv_clean_abort _ _
    | exact conv_clean_ret _ _ _
    | exact conv_clean_info _ _ _ _ _
    | apply conv_clean_ite
    | split)

theorem conv_clean_str_to_c_str (sql : sql_t) (t : c_target_t) (f : TAOS_FIELD)
    (str : Bytes) (msg : Option String) :
    conv_clean sql (conv_tsdb_str_to_c_str sql t f str msg) := by
  unfold conv_tsdb_str_to_c_str
  try dsimp only
  repeat (first
    | exact conv_clean_fault _
    | exact conv_clean_abort _ _
    | exact conv_clean_ret _ _ _
    | exact conv_clean_info _ _ _ _ _
    | apply conv_clean_ite
    | split)

theorem conv_clean_str_to_c_bin (sql : sql_t) (t : c_target_t) (f : TAOS_FIELD)
    (str : Bytes) (msg : Option String) :
    conv_clean sql (conv_tsdb_str_to_c_bin sql t f str msg) := by
  unfold conv_tsdb_str_to_c_bin
  try dsimp only
  repeat (first
    | exact conv_clean_fault _
    | exact conv_clean_abort _ _
    | exact conv_clean_ret _ _ _
    | exact conv_clean_info _ _ _ _ _
    | apply conv_clean_ite
    | split)

set_option maxRecDepth 8192 in
theorem conv_clean_dispatch (sql : sql_t) (t : c_target_t) (field : TAOS_FIELD)
    (row : Bytes) (msg : Option String) : conv_clean sql (dispatch L sql t field row msg) := by
  unfold dispatch
  simp only [conv_tsdb_bool_to_c_bit, conv_tsdb_bool_to_c_tinyint, conv_tsdb_bool_to_c_short,
    conv_tsdb_bool_to_c_long, conv_tsdb_bool_to_c_sbigint, conv_tsdb_bool_to_c_float,
    conv_tsdb_bool_to_c_double,
    conv_tsdb_v1_to_c_tinyint, conv_tsdb_v1_to_c_short, conv_tsdb_v1_to_c_long,
    conv_tsdb_v1_to_c_sbigint, conv_tsdb_v1_to_c_float, conv_tsdb_v1_to_c_double,
    conv_tsdb_v1_to_c_char, conv_tsdb_v1_to_c_binary, conv_tsdb_v2_to_c_short,
    conv_tsdb_v2_to_c_long, conv_tsdb_v2_to_c_sbigint, conv_tsdb_v2_to_c_float,
    conv_tsdb_v2_to_c_double, conv_tsdb_v2_to_c_char, conv_tsdb_v2_to_c_binary,
    conv_tsdb_v4_to_c_long, conv_tsdb_v4_to_c_sbigint, conv_tsdb_v4_to_c_float,
    conv_tsdb_v4_to_c_double, conv_tsdb_v4_to_c_char, conv_tsdb_v4_to_c_binary,
    conv_tsdb_v8_to_c_sbigint, conv_tsdb_v8_to_c_float, conv_tsdb_v8_to_c_double,
    conv_tsdb_v8_to_c_char, conv_tsdb_v8_to_c_binary, conv_tsdb_f4_to_c_float,
    conv_tsdb_f4_to_c_double, conv_tsdb_f4_to_c_char, conv_tsdb_f4_to_c_binary,
    conv_tsdb_f8_to_c_double, conv_tsdb_f8_to_c_char, conv_tsdb_f8_to_c_binary,
    conv_tsdb_bin_to_c_str, conv_tsdb_bin_to_c_bin,
    conv_tsdb_str_to_c_v1, conv_tsdb_str_to_c_v2, conv_tsdb_str_to_c_v4, conv_tsdb_str_to_c_v8]
  repeat' (with_reducible apply conv_clean_ite)
  all_goals (first
    | with_reducible exact conv_clean_not_support _ _ _
    | with_reducible exact conv_clean_store_int _ _ _ _
    | with_reducible exact conv_clean_store_bytes _ _ _
    | with_reducible exact conv_clean_text_to_c_char _ _ _ _
    | with_reducible exact conv_clean_text_to_c_binary _ _ _ _
    | with_reducible exact conv_clean_bool_to_c_char _ _ _ _
    | with_reducible exact conv_clean_bool_to_c_binary _ _ _ _
    | with_reducible exact conv_clean_ts_to_c_v8 L _ _ _ _
    | with_reducible exact conv_clean_ts_to_c_ts _ _ _ _
    | with_reducible exact conv_clean_ts_to_c_str L _ _ _ _ _
    | with_reducible exact conv_clean_ts_to_c_bin L _ _ _ _ _
    | with_reducible exact conv_clean_bin_to_c _ _ _ _ _
    | with_reducible exact conv_clean_str_to_c_bit L _ _ _ _ _
    | with_reducible exact conv_clean_str_to_c_int L _ _ _ _ _
    | with_reducible exact conv_clean_str_to_c_f4 L _ _ _ _ _
    | with_reducible exact conv_clean_str_to_c_f8 L _ _ _ _ _
    | with_reducible exact conv_clean_str_to_c_str _ _ _ _ _
    | with_reducible exact conv_clean_str_to_c_bin _ _ _ _ _)

end conv_clean_lemmas

end Todbc

namespace Todbc

/-! ## Reachable states -/

theorem Outcome.map_eq_ret {σ τ : Type} {f : σ → τ} {o : Outcome σ} {r : SQLRETURN} {t : τ}
    (h : o.map f = Outcome.ret r t) : ∃ s, o = Outcome.ret r s ∧ f s = t := by
  cases o with
  | ret r' s =>
    simp only [Outcome.map, Outcome.ret.injEq] at h
    exact ⟨s, by rw [h.1], h.2⟩
  | abort s => simp [Outcome.map] at h
  | fault => simp [Outcome.map] at h

theorem Inv.init : Inv {} := by
  constructor <;> intro _ _ h <;> simp [Heap.env, Heap.conn, Heap.sql] at h

theorem Inv.step {D F : Type} (L : LibC D F) {h h' : Heap} {op : Op} {msg : Option String}
    {r : SQLRETURN} (hi : Inv h) (hrun : op.run L h msg = Outcome.ret r h') : Inv h' := by
  cases op with
  | alloc_env ok =>
    obtain ⟨st, h1, rfl⟩ := Outcome.map_eq_ret hrun
    exact hi.alloc_env_op h1
  | free_env e => exact hi.free_env_op hrun
  | alloc_connect e ok =>
    obtain ⟨st, h1, rfl⟩ := Outcome.map_eq_ret hrun
    exact hi.alloc_connect_op h1
  | free_connect c => exact hi.free_connect_op hrun
  | connect c s1 n1 s2 n2 s3 n3 a1 a2 a3 taos terrno => exact hi.connect hrun
  | disconnect c => exact hi.disconnect hrun
  | alloc_stmt c ok =>
    obtain ⟨st, h1, rfl⟩ := Outcome.map_eq_ret hrun
    exact hi.alloc_stmt_op h1
  | free_stmt s o => exact hi.free_stmt_op hrun
  | exec_direct s txt n a rs terrno => exact hi.exec_direct hrun
  | prepare s txt n stmt terrno prepared => exact hi.prepare hrun
  | fetch s => exact hi.fetch hrun
  | get_data s col ct ptr len soi =>
    obtain ⟨st, h1, rfl⟩ := Outcome.map_eq_ret hrun
    exact hi.get_data L h1
  | execute s E => exact hi.execute hrun
  | bind_parameter s i dir vt pt len scale val cb soi pm bm => exact hi.bind_parameter cb hrun

/-- Every reachable state satisfies the invariant of the handle graph. -/
theorem Reachable.inv {D F : Type} {L : LibC D F} {h : Heap} (hr : Reachable L h) : Inv h := by
  induction hr with
  | init => exact Inv.init
  | step op msg r _ hrun ih => exact ih.step L hrun

theorem reachable_demo_tree : Reachable dec_libc demo_tree := by
  have h1 : Reachable dec_libc _ :=
    Reachable.step (L := dec_libc) (h := {}) (Op.alloc_env true) none SQLRETURN.SQL_SUCCESS
      Reachable.init rfl
  have h2 : Reachable dec_libc _ :=
    Reachable.step (L := dec_libc) (Op.alloc_connect (some 0) true) none SQLRETURN.SQL_SUCCESS
      h1 rfl
  exact Reachable.step (L := dec_libc) (Op.alloc_stmt (some 0) true) none
    SQLRETURN.SQL_SUCCESS h2 rfl

/-- C2.  Freeing a parent that still counts a child stops the process at the
first assertion, in the very state of the call: nothing is released, no count
is changed and no status is returned.  This holds for an environment, a
connection and a statement (with `SQL_DROP`) whose count is not 1, and in
every reachable state for an environment that has a live connection and for a
connection that has a live statement. -/
theorem free_parent_with_child_aborts {D F : Type} (L : LibC D F) (h : Heap) :
    (∀ e env, h.env e = some env → env.refcount ≠ 1 →
      doSQLFreeEnv h (some e) = Outcome.abort h)
    ∧ (∀ c conn, h.conn c = some conn → conn.refcount ≠ 1 →
      doSQLFreeConnect h (some c) = Outcome.abort h)
    ∧ (∀ s sql msg, h.sql s = some sql → sql.refcount ≠ 1 →
      doSQLFreeStmt h (some s) SQL_DROP msg = Outcome.abort h)
    ∧ (Reachable L h → ∀ e env c conn, h.env e = some env → h.conn c = some conn →
      conn.env = some e → doSQLFreeEnv h (some e) = Outcome.abort h)
    ∧ (Reachable L h → ∀ c conn s sql, h.conn c = some conn → h.sql s = some sql →
      sql.conn = some c → doSQLFreeConnect h (some c) = Outcome.abort h) := by
  refine ⟨fun e env he h1 => doSQLFreeEnv_abort he h1,
    fun c conn hc h1 => doSQLFreeConnect_abort hc h1,
    fun s sql msg hs h1 => doSQLFreeStmt_abort msg hs h1, ?_, ?_⟩
  · intro hr e env c conn he hc hp
    have hi := hr.inv
    have h1 := hi.env_count e env he
    have h2 := live_conns_pos hc hp
    exact doSQLFreeEnv_abort he (by omega)
  · intro hr c conn s sql hc hs hp
    have hi := hr.inv
    have h1 := hi.conn_count c conn hc
    have h2 := live_sqls_pos hs hp
    exact doSQLFreeConnect_abort hc (by omega)

/-- Witness of C2 on `demo_tree`: its environment holds a connection and its
connection holds a statement, and both frees abort in that very state. -/
theorem free_parent_with_child_aborts_witness :
    Reachable dec_libc demo_tree
    ∧ doSQLFreeEnv demo_tree (some 0) = Outcome.abort demo_tree
    ∧ doSQLFreeConnect demo_tree (some 0) = Outcome.abort demo_tree := by
  obtain ⟨-, -, -, h4, h5⟩ := free_parent_with_child_aborts dec_libc demo_tree
  exact ⟨reachable_demo_tree,
    h4 reachable_demo_tree 0 _ 0 _ rfl rfl rfl,
    h5 reachable_demo_tree 0 _ 0 _ rfl rfl rfl⟩

/-- C3.  In every state reachable from the start of the process through calls
that all return, the count of a live environment is 1 plus the number of its
live connections, the count of a live connection is 1 plus the number of its
live statements, no live handle has the count 0, and the parent of a live
connection or statement is live. -/
theorem reachable_refcounts {D F : Type} (L : LibC D F) (h : Heap) (hr : Reachable L h) :
    (∀ e env, h.env e = some env →
      env.refcount = 1 + live_conns_of h e ∧ env.refcount ≠ 0)
    ∧ (∀ c conn, h.conn c = some conn →
      conn.refcount = 1 + live_sqls_of h c ∧ conn.refcount ≠ 0
        ∧ ∃ e env, conn.env = some e ∧ h.env e = some env)
    ∧ (∀ s sql, h.sql s = some sql →
      sql.refcount ≠ 0 ∧ ∃ c conn, sql.conn = some c ∧ h.conn c = some conn) := by
  have hi := hr.inv
  refine ⟨?_, ?_, ?_⟩
  · intro e env he
    have := hi.env_count e env he
    exact ⟨this, by omega⟩
  · intro c conn hc
    have := hi.conn_count c conn hc
    exact ⟨this, by omega, hi.conn_parent c conn hc⟩
  · intro s sql hs
    have := hi.sql_count s sql hs
    exact ⟨by omega, hi.sql_parent s sql hs⟩

/-- Witness of C3 on `demo_tree`. -/
theorem reachable_refcounts_witness :
    Reachable dec_libc demo_tree
    ∧ (∀ e env, demo_tree.env e = some env →
      env.refcount = 1 + live_conns_of demo_tree e ∧ env.refcount ≠ 0)
    ∧ (demo_tree.env 0).map (fun x => x.refcount) = some 2 :=
  ⟨reachable_demo_tree, (reachable_refcounts dec_libc demo_tree reachable_demo_tree).1, rfl⟩

end Todbc

namespace Todbc

/-! ## `doSQLGetData` on a valid column of the current row -/

theorem check_connection_ok {h : Heap} {sql : sql_t} {c t : Nat} {conn : conn_t}
    (msg : Option String) (h1 : sql.conn = some c) (h2 : h.conn c = some conn)
    (h3 : conn.taos = some t) : check_connection h sql msg = some (Except.ok t) := by
  unfold check_connection
  simp only [h1, h2, h3]

/-- Past its checks, `doSQLGetData` answers a null cell itself and hands a
non-null cell to the dispatch. -/
theorem doSQLGetData_cell {D F : Type} (L : LibC D F) {h : Heap} {s : Nat} {sql : sql_t}
    {rs : TAOS_RES} {row : TAOS_ROW} {col : Nat} {field : TAOS_FIELD} {cell : Option Bytes}
    (ct : Int) (buf : Bytes) (len : Int) (soi : Option Int) (msg : Option String)
    (hrow : HasCurrentRow h s sql rs row) (hcol : ValidColumn rs row col field cell) :
    doSQLGetData L h (some s) col ct (some buf) len soi msg =
      match cell with
      | none =>
        Outcome.ret SQLRETURN.SQL_SUCCESS (h, some buf, soi.map (fun _ => SQL_NULL_DATA))
      | some bytes =>
        store_back h s
          (dispatch L sql { col := col, ct := ct, ptr := some buf, len := len, soi := soi }
            field bytes msg) := by
  obtain ⟨c, conn, t, h1, h2, h3⟩ := hrow.connected
  have hcc := check_connection_ok msg h1 h2 h3
  have hpos := hcol.pos
  have hle := hcol.le
  have hdesc := hcol.described
  have hnf : ¬ (rs.field_count = 0 ∨ rs.fields.isNone = true) := by
    intro hx
    rcases hx with hx | hx
    · omega
    · cases hf : rs.fields with
      | none => rw [hf] at hdesc; simp at hdesc
      | some fs => rw [hf] at hx; simp at hx
  have hneg : ¬ ((col : Int) < 0) := by omega
  have hz : ¬ (col = 0) := by omega
  have hgt : ¬ ((col : Int) > rs.field_count) := by omega
  unfold doSQLGetData
  simp only [hrow.live, hcc, hrow.result, hrow.cursor, Option.isNone_some, Bool.false_eq_true,
    if_false, if_neg hnf, if_neg hneg, if_neg hz, if_neg hgt, hcol.fetched, hdesc]
  cases cell <;> rfl

/-- C4.  For a statement with a current row, a valid column whose cell is
null, every target type (supported for the wire type of the column or not),
every target buffer and every buffer length: `doSQLGetData` returns
`SQL_SUCCESS`, the indicator, when one is supplied, holds `SQL_NULL_DATA`, and
the target buffer (as the rest of the state) is unchanged. -/
theorem null_cell_sets_indicator {D F : Type} (L : LibC D F) (h : Heap) (s : Nat) (sql : sql_t)
    (rs : TAOS_RES) (row : TAOS_ROW) (col : Nat) (field : TAOS_FIELD)
    (ct : Int) (buf : Bytes) (len : Int) (soi : Option Int) (msg : Option String)
    (hrow : HasCurrentRow h s sql rs row) (hcol : ValidColumn rs row col field none) :
    doSQLGetData L h (some s) col ct (some buf) len soi msg
      = Outcome.ret SQLRETURN.SQL_SUCCESS (h, some buf, soi.map (fun _ => SQL_NULL_DATA)) := by
  rw [doSQLGetData_cell L ct buf len soi msg hrow hcol]

theorem demo_fetch_row : HasCurrentRow demo_fetch 0 demo_sql demo_rs demo_row :=
  ⟨rfl, ⟨0, _, 7, rfl, rfl, rfl⟩, rfl, rfl⟩

/-- Witness of C4: the null boolean cell of `demo_fetch` fetched into a
floating target of 8 bytes. -/
theorem null_cell_sets_indicator_witness :
    doSQLGetData dec_libc demo_fetch (some 0) 4 SQL_C_DOUBLE (some [1, 2, 3, 4, 5, 6, 7, 8]) 8
        (some 0) none
      = Outcome.ret SQLRETURN.SQL_SUCCESS
          (demo_fetch, some [1, 2, 3, 4, 5, 6, 7, 8], some SQL_NULL_DATA) :=
  null_cell_sets_indicator dec_libc demo_fetch 0 demo_sql demo_rs demo_row 4
    { name := ascii "b", type := TSDB_DATA_TYPE_BOOL, bytes := 1 } SQL_C_DOUBLE _ 8 (some 0) none
    demo_fetch_row ⟨by decide, by decide, rfl, rfl⟩

end Todbc

namespace Todbc

/-! ## Pairs outside the dispatch table -/

set_option maxRecDepth 8192 in
set_option maxHeartbeats 1000000 in
theorem dispatch_unsupported {D F : Type} (L : LibC D F) (sql : sql_t) (t : c_target_t)
    (field : TAOS_FIELD) (cell : Bytes) (msg : Option String)
    (hnot : (field.type, t.ct) ∉ conv_table) :
    dispatch L sql t field cell msg = conv_not_support sql t msg := by
  unfold dispatch
  dsimp only
  by_cases h0 : field.type = TSDB_DATA_TYPE_BOOL
  · rw [if_pos h0]
    split_ifs <;> first
      | rfl
      | (exfalso; apply hnot; clear hnot; rw [h0]; simp only [*]; decide)
  rw [if_neg h0]
  by_cases h1 : field.type = TSDB_DATA_TYPE_TINYINT
  · rw [if_pos h1]
    split_ifs <;> first
      | rfl
      | (exfalso; apply hnot; clear hnot; rw [h1]; simp only [*]; decide)
  rw [if_neg h1]
  by_cases h2 : field.type = TSDB_DATA_TYPE_SMALLINT
  · rw [if_pos h2]
    split_ifs <;> first
      | rfl
      | (exfalso; apply hnot; clear hnot; rw [h2]; simp only [*]; decide)
  rw [if_neg h2]
  by_cases h3 : field.type = TSDB_DATA_TYPE_INT
  · rw [if_pos h3]
    split_ifs <;> first
      | rfl
      | (exfalso; apply hnot; clear hnot; rw [h3]; simp only [*]; decide)
  rw [if_neg h3]
  by_cases h4 : field.type = TSDB_DATA_TYPE_BIGINT
  · rw [if_pos h4]
    split_ifs <;> first
      | rfl
      | (exfalso; apply hnot; clear hnot; rw [h4]; simp only [*]; decide)
  rw [if_neg h4]
  by_cases h5 : field.type = TSDB_DATA_TYPE_FLOAT
  · rw [if_pos h5]
    split_ifs <;> first
      | rfl
      | (exfalso; apply hnot; clear hnot; rw [h5]; simp only [*]; decide)
  rw [if_neg h5]
  by_cases h6 : field.type = TSDB_DATA_TYPE_DOUBLE
  · rw [if_pos h6]
    split_ifs <;> first
      | rfl
      | (exfalso; apply hnot; clear hnot; rw [h6]; simp only [*]; decide)
  rw [if_neg h6]
  by_cases h7 : field.type = TSDB_DATA_TYPE_TIMESTAMP
  · rw [if_pos h7]
    split_ifs <;> first
      | rfl
      | (exfalso; apply hnot; clear hnot; rw [h7]; simp only [*]; decide)
  rw [if_neg h7]
  by_cases h8 : field.type = TSDB_DATA_TYPE_BINARY
  · rw [if_pos h8]
    split_ifs <;> first
      | rfl
      | (exfalso; apply hnot; clear hnot; rw [h8]; simp only [*]; decide)
  rw [if_neg h8]
  by_cases h9 : field.type = TSDB_DATA_TYPE_NCHAR
  · rw [if_pos h9]
    split_ifs <;> first
      | rfl
      | (exfalso; apply hnot; clear hnot; rw [h9]; simp only [*]; decide)
  rw [if_neg h9]

end Todbc
namespace Todbc

/-! ## Integers in memory -/

theorem le_bytes_length (w x : Nat) : (le_bytes w x).length = w := by
  induction w generalizing x with
  | zero => rfl
  | succ w ih => simp [le_bytes, ih]

theorem le_val_le_bytes (w x : Nat) : le_val (le_bytes w x) = x % 256 ^ w := by
  induction w generalizing x with
  | zero => simp [le_bytes, le_val, Nat.mod_one]
  | succ w ih =>
    simp only [le_bytes, le_val, ih, Nat.mod_mod]
    rw [pow_succ', Nat.mod_mul]

theorem mem_write_take (buf data : Bytes) : (mem_write buf data).take data.length = data := by
  unfold mem_write
  simp

theorem int_cast_of_in_range {w : Nat} (hw : w = 1 ∨ w = 2 ∨ w = 4 ∨ w = 8) {v : Int}
    (hv : in_range w v) : int_cast w v = v := by
  unfold in_range at hv
  unfold int_cast to_signed to_unsigned
  rcases hw with rfl | rfl | rfl | rfl <;>
  · norm_num at hv ⊢
    split_ifs <;> omega

theorem to_signed_in_range {w : Nat} (hw : w = 1 ∨ w = 2 ∨ w = 4 ∨ w = 8) (u : Nat) :
    in_range w (to_signed w u) := by
  unfold in_range to_signed
  rcases hw with rfl | rfl | rfl | rfl <;>
  · norm_num
    split_ifs <;> omega

theorem in_range_mono {sw tw : Nat} (hs : sw = 1 ∨ sw = 2 ∨ sw = 4 ∨ sw = 8)
    (ht : tw = 1 ∨ tw = 2 ∨ tw = 4 ∨ tw = 8) (hle : sw ≤ tw) {v : Int} (hv : in_range sw v) :
    in_range tw v := by
  unfold in_range at hv ⊢
  rcases hs with rfl | rfl | rfl | rfl <;> rcases ht with rfl | rfl | rfl | rfl <;>
    omega

theorem read_int_mem_write {w : Nat} (hw : w = 1 ∨ w = 2 ∨ w = 4 ∨ w = 8) (buf : Bytes)
    {v : Int} (hv : in_range w v) : read_int w (mem_write buf (int_bytes w v)) = v := by
  have hlen : (int_bytes w v).length = w := le_bytes_length _ _
  have htake : (mem_write buf (int_bytes w v)).take w = int_bytes w v := by
    have := mem_write_take buf (int_bytes w v)
    rwa [hlen] at this
  unfold read_int
  rw [htake]
  unfold int_bytes
  rw [le_val_le_bytes]
  have h256 : 256 ^ w = 2 ^ (8 * w) := by
    rw [show (256 : Nat) = 2 ^ 8 by norm_num, ← pow_mul]
  have : to_signed w (to_unsigned w v % 256 ^ w) = to_signed w (to_unsigned w v) := by
    unfold to_signed
    simp only [h256, Nat.mod_mod]
  rw [this]
  exact int_cast_of_in_range hw hv

end Todbc
namespace Todbc

theorem Heap.set_sql_self {h : Heap} {s : Nat} {sql : sql_t} (hs : h.sql s = some sql) :
    h.set_sql s (some sql) = h := by
  have h1 : h.sqls.set s (some sql) = h.sqls := by
    apply List.ext_getElem?
    intro n
    rw [List.getElem?_set]
    split_ifs with h2 h3
    · subst h2; exact (Heap.sql_eq_some.mp hs).symm
    · subst h2; exact absurd (Heap.sql_lt hs) h3
    · rfl
  unfold Heap.set_sql
  rw [h1]

set_option maxHeartbeats 1000000 in
theorem dispatch_int {D F : Type} (L : LibC D F) (sql : sql_t) (t : c_target_t)
    (field : TAOS_FIELD) (cell : Bytes) (msg : Option String) (sw tw : Nat)
    (hs : int_wire_width field.type = some sw) (ht : int_target_width t.ct = some tw) :
    dispatch L sql t field cell msg
      = if sw ≤ tw then store_int tw sql t (cell_int_value field.type sw cell)
        else conv_not_support sql t msg := by
  unfold int_wire_width at hs
  unfold int_target_width at ht
  split_ifs at hs with a1 a2 a3 a4 a5 <;> split_ifs at ht with b1 b2 b3 b4 <;>
    simp only [Option.some.injEq] at hs ht <;> subst hs <;> subst ht <;>
    unfold dispatch cell_int_value <;>
    simp [*, TSDB_DATA_TYPE_BOOL, TSDB_DATA_TYPE_TINYINT, TSDB_DATA_TYPE_SMALLINT,
      TSDB_DATA_TYPE_INT, TSDB_DATA_TYPE_BIGINT, SQL_C_BIT, SQL_C_TINYINT, SQL_C_SHORT,
      SQL_C_LONG, SQL_C_SBIGINT, SQL_C_FLOAT, SQL_C_DOUBLE, SQL_C_CHAR, SQL_C_BINARY,
      conv_tsdb_bool_to_c_tinyint, conv_tsdb_bool_to_c_short, conv_tsdb_bool_to_c_long,
      conv_tsdb_bool_to_c_sbigint, conv_tsdb_v1_to_c_tinyint, conv_tsdb_v1_to_c_short,
      conv_tsdb_v1_to_c_long, conv_tsdb_v1_to_c_sbigint, conv_tsdb_v2_to_c_short,
      conv_tsdb_v2_to_c_long, conv_tsdb_v2_to_c_sbigint, conv_tsdb_v4_to_c_long,
      conv_tsdb_v4_to_c_sbigint, conv_tsdb_v8_to_c_sbigint] <;>
    (congr 1; split_ifs with h0 <;> first | rfl | exact h0)

end Todbc

namespace Todbc

theorem cell_int_value_in_range {ty sw : Nat} (cell : Bytes)
    (hs : int_wire_width ty = some sw) :
    (sw = 1 ∨ sw = 2 ∨ sw = 4 ∨ sw = 8) ∧ in_range sw (cell_int_value ty sw cell) := by
  unfold int_wire_width at hs
  unfold cell_int_value
  split_ifs at hs with a1 a2 a3 a4 a5 <;> simp only [Option.some.injEq] at hs <;> subst hs
  · refine ⟨Or.inl rfl, ?_⟩
    rw [if_pos a1]
    unfold in_range
    split_ifs <;> norm_num
  · have hne : ¬ ty = TSDB_DATA_TYPE_BOOL := a1
    rw [if_neg hne]
    exact ⟨Or.inl rfl, to_signed_in_range (Or.inl rfl) _⟩
  · have hne : ¬ ty = TSDB_DATA_TYPE_BOOL := a1
    rw [if_neg hne]
    exact ⟨Or.inr (Or.inl rfl), to_signed_in_range (Or.inr (Or.inl rfl)) _⟩
  · have hne : ¬ ty = TSDB_DATA_TYPE_BOOL := a1
    rw [if_neg hne]
    exact ⟨Or.inr (Or.inr (Or.inl rfl)), to_signed_in_range (Or.inr (Or.inr (Or.inl rfl))) _⟩
  · have hne : ¬ ty = TSDB_DATA_TYPE_BOOL := a1
    rw [if_neg hne]
    exact ⟨Or.inr (Or.inr (Or.inr rfl)), to_signed_in_range (Or.inr (Or.inr (Or.inr rfl))) _⟩

theorem int_target_width_cases {ct : Int} {tw : Nat} (ht : int_target_width ct = some tw) :
    tw = 1 ∨ tw = 2 ∨ tw = 4 ∨ tw = 8 := by
  unfold int_target_width at ht
  split_ifs at ht <;> simp only [Option.some.injEq] at ht <;> omega

/-- C5, as amended.  For a non-null cell of a fixed-width integer wire type and
an integer target type: when the target is at least as wide as the source,
`doSQLGetData` returns `SQL_SUCCESS`, records nothing and writes the value of
the cell (0 or 1 for a boolean cell) in the `tw` bytes of the target type, so
that the target reads back as that very value; when the target is narrower,
the pair has no entry in the dispatch and the call returns `SQL_ERROR` with
the conversion-not-supported code, the buffer and the indicator untouched. -/
theorem integer_cell_to_integer_target {D F : Type} (L : LibC D F) (h : Heap) (s : Nat)
    (sql : sql_t) (rs : TAOS_RES) (row : TAOS_ROW) (col : Nat) (field : TAOS_FIELD)
    (cell : Bytes) (ct : Int) (buf : Bytes) (len : Int) (soi : Option Int)
    (msg : Option String) (sw tw : Nat)
    (hrow : HasCurrentRow h s sql rs row) (hcol : ValidColumn rs row col field (some cell))
    (hs : int_wire_width field.type = some sw) (ht : int_target_width ct = some tw) :
    (sw ≤ tw →
      doSQLGetData L h (some s) col ct (some buf) len soi msg
        = Outcome.ret SQLRETURN.SQL_SUCCESS
            (h, some (mem_write buf (int_bytes tw (cell_int_value field.type sw cell))), soi)
      ∧ read_int tw (mem_write buf (int_bytes tw (cell_int_value field.type sw cell)))
          = cell_int_value field.type sw cell)
    ∧ (tw < sw →
      doSQLGetData L h (some s) col ct (some buf) len soi msg
        = Outcome.ret SQLRETURN.SQL_ERROR
            (h.set_sql s (some { sql with
                err := SET_ERROR sql.err "HY000" TsdbCode.TSDB_CODE_ODBC_CONV_NOT_SUPPORT msg }),
              some buf, soi)) := by
  have hd := dispatch_int L sql
    { col := col, ct := ct, ptr := some buf, len := len, soi := soi } field cell msg sw tw hs ht
  obtain ⟨hsw, hv⟩ := cell_int_value_in_range cell hs
  have htw := int_target_width_cases ht
  rw [doSQLGetData_cell L ct buf len soi msg hrow hcol]
  simp only
  rw [hd]
  constructor
  · intro hle
    have hv' := in_range_mono hsw htw hle hv
    rw [if_pos hle]
    refine ⟨?_, read_int_mem_write htw buf hv'⟩
    simp only [store_int, store_back, c_target_t.memcpy, int_cast_of_in_range htw hv',
      Heap.set_sql_self hrow.live]
  · intro hlt
    rw [if_neg (by omega)]
    rfl

/-- The failure of C5 as stated: the int64 cell of `demo_fetch` (the value 5)
fetched into the 32-bit target `SQL_C_LONG` is not narrowed; the call returns
`SQL_ERROR`, records the conversion-not-supported code and leaves the target
buffer as it was. -/
theorem int64_into_long_not_converted :
    doSQLGetData dec_libc demo_fetch (some 0) 1 SQL_C_LONG (some [170, 170, 170, 170]) 4
        (some 0) none
      = Outcome.ret SQLRETURN.SQL_ERROR
          (demo_fetch.set_sql 0 (some { demo_sql with
              err := { err_no := TsdbCode.TSDB_CODE_ODBC_CONV_NOT_SUPPORT } }),
            some [170, 170, 170, 170], some 0) := by
  rfl

/-- Witness of the amended C5: the int32 cell of `demo_fetch` (the value 12)
fetched into the 64-bit target. -/
theorem integer_cell_to_integer_target_witness :
    doSQLGetData dec_libc demo_fetch (some 0) 3 SQL_C_SBIGINT (some [0, 0, 0, 0, 0, 0, 0, 0, 9]) 8
        (some 0) none
      = Outcome.ret SQLRETURN.SQL_SUCCESS (demo_fetch, some [12, 0, 0, 0, 0, 0, 0, 0, 9], some 0)
    ∧ read_int 8 [12, 0, 0, 0, 0, 0, 0, 0, 9] = 12 :=
  (integer_cell_to_integer_target dec_libc demo_fetch 0 demo_sql demo_rs demo_row 3
    { name := ascii "n", type := TSDB_DATA_TYPE_INT, bytes := 4 } (int_bytes 4 12)
    SQL_C_SBIGINT [0, 0, 0, 0, 0, 0, 0, 0, 9] 8 (some 0) none 4 8
    demo_fetch_row ⟨by decide, by decide, rfl, rfl⟩ rfl rfl).1 (by decide)

/-- C6.  For a non-null cell and a pair (source wire type, target type) that
is not in the dispatch table (an unknown wire type included), `doSQLGetData`
returns `SQL_ERROR`, the statement records the conversion-not-supported code,
and neither the target buffer nor the indicator is written. -/
theorem unsupported_pair_is_error {D F : Type} (L : LibC D F) (h : Heap) (s : Nat)
    (sql : sql_t) (rs : TAOS_RES) (row : TAOS_ROW) (col : Nat) (field : TAOS_FIELD)
    (cell : Bytes) (ct : Int) (buf : Bytes) (len : Int) (soi : Option Int)
    (msg : Option String)
    (hrow : HasCurrentRow h s sql rs row) (hcol : ValidColumn rs row col field (some cell))
    (hnot : (field.type, ct) ∉ conv_table) :
    doSQLGetData L h (some s) col ct (some buf) len soi msg
      = Outcome.ret SQLRETURN.SQL_ERROR
          (h.set_sql s (some { sql with
              err := SET_ERROR sql.err "HY000" TsdbCode.TSDB_CODE_ODBC_CONV_NOT_SUPPORT msg }),
            some buf, soi)
    ∧ (SET_ERROR sql.err "HY000" TsdbCode.TSDB_CODE_ODBC_CONV_NOT_SUPPORT msg).err_no
        = TsdbCode.TSDB_CODE_ODBC_CONV_NOT_SUPPORT := by
  constructor
  · rw [doSQLGetData_cell L ct buf len soi msg hrow hcol]
    simp only
    rw [dispatch_unsupported L sql _ field cell msg hnot]
    rfl
  · cases msg <;> rfl

/-- Witness of C6: the int64 cell of `demo_fetch` fetched into a structured
timestamp target. -/
theorem unsupported_pair_is_error_witness :
    doSQLGetData dec_libc demo_fetch (some 0) 1 SQL_C_TIMESTAMP (some [1, 2, 3]) 16 (some 0)
        (some "not supported")
      = Outcome.ret SQLRETURN.SQL_ERROR
          (demo_fetch.set_sql 0 (some { demo_sql with
              err := { err_str := some "not supported",
                       err_no := TsdbCode.TSDB_CODE_ODBC_CONV_NOT_SUPPORT,
                       sql_state := "HY000" } }),
            some [1, 2, 3], some 0) :=
  (unsupported_pair_is_error dec_libc demo_fetch 0 demo_sql demo_rs demo_row 1
    { name := ascii "ts", type := TSDB_DATA_TYPE_BIGINT, bytes := 8 } (int_bytes 8 5)
    SQL_C_TIMESTAMP [1, 2, 3] 16 (some 0) (some "not supported")
    demo_fetch_row ⟨by decide, by decide, rfl, rfl⟩ (by decide)).1

end Todbc
namespace Todbc

theorem dispatch_nchar_char {D F : Type} (L : LibC D F) (sql : sql_t) (t : c_target_t)
    (field : TAOS_FIELD) (cell : Bytes) (msg : Option String)
    (hty : field.type = TSDB_DATA_TYPE_NCHAR) (hct : t.ct = SQL_C_CHAR) :
    dispatch L sql t field cell msg = conv_tsdb_str_to_c_str sql t field (c_str cell) msg := by
  unfold dispatch
  simp [hty, hct, TSDB_DATA_TYPE_BOOL, TSDB_DATA_TYPE_TINYINT, TSDB_DATA_TYPE_SMALLINT,
    TSDB_DATA_TYPE_INT, TSDB_DATA_TYPE_BIGINT, TSDB_DATA_TYPE_FLOAT, TSDB_DATA_TYPE_DOUBLE,
    TSDB_DATA_TYPE_TIMESTAMP, TSDB_DATA_TYPE_BINARY, TSDB_DATA_TYPE_NCHAR,
    SQL_C_BIT, SQL_C_TINYINT, SQL_C_SHORT, SQL_C_LONG, SQL_C_SBIGINT, SQL_C_FLOAT, SQL_C_DOUBLE,
    SQL_C_CHAR, SQL_C_BINARY, SQL_C_TIMESTAMP]

theorem to_size_t_of_nonneg {v : Int} (h0 : 0 ≤ v) (h1 : v < 2 ^ 63) :
    to_size_t v = v.toNat := by
  unfold to_size_t
  rw [Int.emod_eq_of_lt h0 (by omega)]

theorem to_signed_length {n : Nat} (h : (n : Int) < 2 ^ 63) : to_signed 8 n = n := by
  have h2 : n < 2 ^ 63 := by exact_mod_cast h
  unfold to_signed
  have : n % 2 ^ (8 * 8) = n := Nat.mod_eq_of_lt (by norm_num at h2 ⊢; omega)
  simp only [this]
  rw [if_pos (by norm_num at h2 ⊢; omega)]

theorem strncpy_data_whole (src : Bytes) : strncpy_data src (src.length + 1) = src ++ [0] := by
  unfold strncpy_data
  rw [List.take_of_length_le (by omega)]
  simp

theorem strncpy_data_take (src : Bytes) {k : Nat} (h : k ≤ src.length) :
    strncpy_data src k = src.take k := by
  unfold strncpy_data
  rw [Nat.sub_eq_zero_of_le h]
  simp

theorem c_str_no_zero (cell : Bytes) : ∀ b ∈ c_str cell, b ≠ 0 := by
  intro b hb
  have := List.mem_takeWhile_imp hb
  simpa using this

theorem getdata_nchar_char_trunc {D F : Type} (L : LibC D F) {h : Heap} {s : Nat}
    {sql : sql_t} {rs : TAOS_RES} {row : TAOS_ROW} {col : Nat} {field : TAOS_FIELD}
    {cell : Bytes} (buf : Bytes) {len : Int} (ind : Int) (msg : Option String)
    (hrow : HasCurrentRow h s sql rs row) (hcol : ValidColumn rs row col field (some cell))
    (hty : field.type = TSDB_DATA_TYPE_NCHAR)
    (hL : ((c_str cell).length : Int) < 2 ^ 63)
    (h1 : 1 ≤ len) (h2 : len ≤ (c_str cell).length) :
    doSQLGetData L h (some s) col SQL_C_CHAR (some buf) len (some ind) msg
      = Outcome.ret SQLRETURN.SQL_SUCCESS_WITH_INFO
          (h.set_sql s (some { sql with
              err := SET_ERROR sql.err "01004" TsdbCode.TSDB_CODE_ODBC_CONV_TRUNC msg }),
            some (mem_write buf ((c_str cell).take len.toNat)),
            some ((c_str cell).length : Int)) := by
  rw [doSQLGetData_cell L SQL_C_CHAR buf len (some ind) msg hrow hcol]
  simp only
  rw [dispatch_nchar_char L sql _ field cell msg hty rfl]
  have hsz : to_size_t len = len.toNat := to_size_t_of_nonneg (by omega) (by omega)
  have hnot : ¬ (c_str cell).length < len.toNat := by omega
  simp only [conv_tsdb_str_to_c_str, c_target_t.set_soi, c_target_t.strncpy, hsz,
    to_signed_length hL, if_neg hnot]
  rw [if_neg (by norm_num; omega)]
  simp only [if_neg hnot, conv_info, store_back]
  rw [strncpy_data_take _ (by omega), hsz, if_neg hnot]

theorem getdata_nchar_char_fits {D F : Type} (L : LibC D F) {h : Heap} {s : Nat}
    {sql : sql_t} {rs : TAOS_RES} {row : TAOS_ROW} {col : Nat} {field : TAOS_FIELD}
    {cell : Bytes} (buf : Bytes) {len : Int} (ind : Int) (msg : Option String)
    (hrow : HasCurrentRow h s sql rs row) (hcol : ValidColumn rs row col field (some cell))
    (hty : field.type = TSDB_DATA_TYPE_NCHAR)
    (hlen : len < 2 ^ 63) (h1 : ((c_str cell).length : Int) < len) :
    doSQLGetData L h (some s) col SQL_C_CHAR (some buf) len (some ind) msg
      = Outcome.ret SQLRETURN.SQL_SUCCESS
          (h, some (mem_write buf (c_str cell ++ [0])), some ((c_str cell).length : Int)) := by
  rw [doSQLGetData_cell L SQL_C_CHAR buf len (some ind) msg hrow hcol]
  simp only
  rw [dispatch_nchar_char L sql _ field cell msg hty rfl]
  have hL : ((c_str cell).length : Int) < 2 ^ 63 := by omega
  have hsz : to_size_t len = len.toNat := to_size_t_of_nonneg (by omega) hlen
  have hlt : (c_str cell).length < len.toNat := by omega
  simp only [conv_tsdb_str_to_c_str, c_target_t.set_soi, c_target_t.strncpy, hsz,
    to_signed_length hL, if_pos hlt]
  rw [if_neg (by norm_num at hL ⊢; omega)]
  simp only [if_pos hlt, store_back, strncpy_data_whole]
  rw [hsz, if_pos hlt]
  simp only [Heap.set_sql_self hrow.live]

/-- C7.  For a wide-text (NCHAR) cell whose text has length `L`, fetched into
a character target with a non-null indicator: when `1 ≤ BufferLength ≤ L`,
`doSQLGetData` returns `SQL_SUCCESS_WITH_INFO`, records the truncation and sets
the indicator to `L` (the full length, not the number of bytes copied); when
`L < BufferLength` it returns `SQL_SUCCESS`, records nothing, writes the whole
text with its terminator and sets the indicator to `L` as well.  The two
bounds `2 ^ 63` are those of the C types `SQLLEN` and of a string in memory. -/
theorem wide_text_truncation_law {D F : Type} (L : LibC D F) (h : Heap) (s : Nat)
    (sql : sql_t) (rs : TAOS_RES) (row : TAOS_ROW) (col : Nat) (field : TAOS_FIELD)
    (cell : Bytes) (buf : Bytes) (len : Int) (ind : Int) (msg : Option String)
    (hrow : HasCurrentRow h s sql rs row) (hcol : ValidColumn rs row col field (some cell))
    (hty : field.type = TSDB_DATA_TYPE_NCHAR)
    (hlen : len < 2 ^ 63) (hL : ((c_str cell).length : Int) < 2 ^ 63) :
    (1 ≤ len → len ≤ (c_str cell).length →
      doSQLGetData L h (some s) col SQL_C_CHAR (some buf) len (some ind) msg
        = Outcome.ret SQLRETURN.SQL_SUCCESS_WITH_INFO
            (h.set_sql s (some { sql with
                err := SET_ERROR sql.err "01004" TsdbCode.TSDB_CODE_ODBC_CONV_TRUNC msg }),
              some (mem_write buf ((c_str cell).take len.toNat)),
              some ((c_str cell).length : Int)))
    ∧ (((c_str cell).length : Int) < len →
      doSQLGetData L h (some s) col SQL_C_CHAR (some buf) len (some ind) msg
        = Outcome.ret SQLRETURN.SQL_SUCCESS
            (h, some (mem_write buf (c_str cell ++ [0])), some ((c_str cell).length : Int))) :=
  ⟨fun h1 h2 => getdata_nchar_char_trunc L buf ind msg hrow hcol hty hL h1 h2,
   fun h1 => getdata_nchar_char_fits L buf ind msg hrow hcol hty hlen h1⟩

/-- Witness of C7: the text "hello" of `demo_fetch` fetched into a buffer of
three bytes. -/
theorem wide_text_truncation_law_witness :
    doSQLGetData dec_libc demo_fetch (some 0) 2 SQL_C_CHAR (some [1, 2, 3, 4, 5, 6, 7]) 3
        (some 0) (some "truncated")
      = Outcome.ret SQLRETURN.SQL_SUCCESS_WITH_INFO
          (demo_fetch.set_sql 0 (some { demo_sql with
              err := { err_str := some "truncated",
                       err_no := TsdbCode.TSDB_CODE_ODBC_CONV_TRUNC,
                       sql_state := "01004" } }),
            some [104, 101, 108, 4, 5, 6, 7], some 5) :=
  (wide_text_truncation_law dec_libc demo_fetch 0 demo_sql demo_rs demo_row 2
    { name := ascii "txt", type := TSDB_DATA_TYPE_NCHAR, bytes := 22 } (ascii "hello" ++ [0])
    [1, 2, 3, 4, 5, 6, 7] 3 0 (some "truncated")
    demo_fetch_row ⟨by decide, by decide, rfl, rfl⟩ rfl (by decide) (by decide)).1
    (by decide) (by decide)

theorem mem_write_take_drop (buf data : Bytes) :
    (mem_write buf data).take data.length = data
      ∧ (mem_write buf data).drop data.length = buf.drop data.length := by
  unfold mem_write
  simp

/-- C8, as the code behaves.  In the truncating case (`1 ≤ BufferLength ≤ L`)
of a wide-text cell fetched into a character target, `doSQLGetData` writes
exactly `BufferLength` bytes, so the write stays within the buffer, but these
bytes are the first `BufferLength` characters of the text and none of them is
a zero byte: the buffer is left without a terminator. -/
theorem truncated_text_not_terminated {D F : Type} (L : LibC D F) (h : Heap) (s : Nat)
    (sql : sql_t) (rs : TAOS_RES) (row : TAOS_ROW) (col : Nat) (field : TAOS_FIELD)
    (cell : Bytes) (buf : Bytes) (len : Int) (ind : Int) (msg : Option String)
    (hrow : HasCurrentRow h s sql rs row) (hcol : ValidColumn rs row col field (some cell))
    (hty : field.type = TSDB_DATA_TYPE_NCHAR)
    (hL : ((c_str cell).length : Int) < 2 ^ 63)
    (h1 : 1 ≤ len) (h2 : len ≤ (c_str cell).length) :
    ∃ st out, doSQLGetData L h (some s) col SQL_C_CHAR (some buf) len (some ind) msg
        = Outcome.ret SQLRETURN.SQL_SUCCESS_WITH_INFO (st, some out, some ((c_str cell).length : Int))
      ∧ out.take len.toNat = (c_str cell).take len.toNat
      ∧ out.drop len.toNat = buf.drop len.toNat
      ∧ (out.take len.toNat).length = len.toNat
      ∧ ∀ b ∈ out.take len.toNat, b ≠ 0 := by
  have hlen : ((c_str cell).take len.toNat).length = len.toNat := by
    rw [List.length_take]; omega
  have hw := mem_write_take_drop buf ((c_str cell).take len.toNat)
  rw [hlen] at hw
  refine ⟨_, _, getdata_nchar_char_trunc L buf ind msg hrow hcol hty hL h1 h2,
    hw.1, hw.2, ?_, ?_⟩
  · rw [hw.1, hlen]
  · rw [hw.1]
    intro b hb
    exact c_str_no_zero cell b (List.mem_of_mem_take hb)

/-- The failing input of C8: the text "hello" of `demo_fetch` fetched into a
buffer of five bytes (followed by other memory of the caller) leaves the five
letters in the buffer and no terminator. -/
theorem truncated_text_not_terminated_witness :
    doSQLGetData dec_libc demo_fetch (some 0) 2 SQL_C_CHAR
        (some [170, 170, 170, 170, 170, 187, 187]) 5 (some 0) none
      = Outcome.ret SQLRETURN.SQL_SUCCESS_WITH_INFO
          (demo_fetch.set_sql 0 (some { demo_sql with
              err := { err_no := TsdbCode.TSDB_CODE_ODBC_CONV_TRUNC } }),
            some [104, 101, 108, 108, 111, 187, 187], some 5)
    ∧ ∃ st out, doSQLGetData dec_libc demo_fetch (some 0) 2 SQL_C_CHAR
          (some [170, 170, 170, 170, 170, 187, 187]) 5 (some 0) none
        = Outcome.ret SQLRETURN.SQL_SUCCESS_WITH_INFO (st, some out, some 5)
      ∧ out.take 5 = [104, 101, 108, 108, 111]
      ∧ out.drop 5 = [187, 187]
      ∧ (out.take 5).length = 5
      ∧ ∀ b ∈ out.take 5, b ≠ 0 :=
  ⟨rfl, truncated_text_not_terminated dec_libc demo_fetch 0 demo_sql demo_rs demo_row 2
    { name := ascii "txt", type := TSDB_DATA_TYPE_NCHAR, bytes := 22 } (ascii "hello" ++ [0])
    [170, 170, 170, 170, 170, 187, 187] 5 0 none
    demo_fetch_row ⟨by decide, by decide, rfl, rfl⟩ rfl (by decide) (by decide) (by decide)⟩

end Todbc
namespace Todbc

theorem dec_digits_spec (fuel : Nat) : ∀ (n : Nat) (acc : Bytes),
    (dec_digits fuel n acc).length ≤ fuel + acc.length
      ∧ ((∀ b ∈ acc, b ≠ 0) → ∀ b ∈ dec_digits fuel n acc, b ≠ 0) := by
  induction fuel with
  | zero => intro n acc; exact ⟨by simp [dec_digits], fun h => by simpa [dec_digits] using h⟩
  | succ f ih =>
    intro n acc
    unfold dec_digits
    split_ifs with hn
    · refine ⟨by simp; omega, fun h b hb => ?_⟩
      rcases List.mem_cons.mp hb with hb | hb
      · omega
      · exact h b hb
    · obtain ⟨h1, h2⟩ := ih (n / 10) ((48 + n % 10) :: acc)
      refine ⟨by simp at h1 ⊢; omega, fun h => h2 ?_⟩
      intro b hb
      rcases List.mem_cons.mp hb with hb | hb
      · omega
      · exact h b hb

theorem fmt_d_spec (v : Int) : (fmt_d v).length ≤ 21 ∧ ∀ b ∈ fmt_d v, b ≠ 0 := by
  unfold fmt_d fmt_u
  split_ifs
  · obtain ⟨h1, h2⟩ := dec_digits_spec 20 v.natAbs []
    refine ⟨by simp at h1 ⊢; omega, fun b hb => ?_⟩
    rcases List.mem_cons.mp hb with hb | hb
    · omega
    · exact h2 (by simp) b hb
  · obtain ⟨h1, h2⟩ := dec_digits_spec 20 v.toNat []
    exact ⟨by simp at h1 ⊢; omega, h2 (by simp)⟩

set_option maxHeartbeats 1000000 in
theorem dispatch_int_char {D F : Type} (L : LibC D F) (sql : sql_t) (t : c_target_t)
    (field : TAOS_FIELD) (cell : Bytes) (msg : Option String) (sw : Nat)
    (hs : int_wire_width field.type = some sw) (ht : t.ct = SQL_C_CHAR) :
    dispatch L sql t field cell msg
      = if field.type = TSDB_DATA_TYPE_BOOL then
          conv_tsdb_bool_to_c_char sql t field (cell_int_value field.type sw cell)
        else text_to_c_char sql t (fmt_d (cell_int_value field.type sw cell)) msg := by
  unfold int_wire_width at hs
  split_ifs at hs with a1 a2 a3 a4 a5 <;>
    simp only [Option.some.injEq] at hs <;> subst hs <;>
    unfold dispatch cell_int_value <;>
    simp [*, TSDB_DATA_TYPE_BOOL, TSDB_DATA_TYPE_TINYINT, TSDB_DATA_TYPE_SMALLINT,
      TSDB_DATA_TYPE_INT, TSDB_DATA_TYPE_BIGINT, TSDB_DATA_TYPE_FLOAT, TSDB_DATA_TYPE_DOUBLE,
      TSDB_DATA_TYPE_TIMESTAMP, TSDB_DATA_TYPE_BINARY, TSDB_DATA_TYPE_NCHAR,
      SQL_C_BIT, SQL_C_TINYINT, SQL_C_SHORT, SQL_C_LONG, SQL_C_SBIGINT, SQL_C_FLOAT,
      SQL_C_DOUBLE, SQL_C_CHAR, SQL_C_BINARY, SQL_C_TIMESTAMP,
      conv_tsdb_v1_to_c_char, conv_tsdb_v2_to_c_char, conv_tsdb_v4_to_c_char,
      conv_tsdb_v8_to_c_char]
  congr 1
  split_ifs with h0 <;> first | rfl | exact h0

theorem text_to_c_char_full (sql : sql_t) (col : Nat) (ct : Int) (buf : Bytes) (len : Int)
    (ind : Int) (text : Bytes) (msg : Option String)
    (hn : text.length ≤ 21) (h1 : 1 ≤ len) (h2 : len ≤ text.length) :
    text_to_c_char sql { col := col, ct := ct, ptr := some buf, len := len, soi := some ind }
        text msg
      = if (text.length : Int) ≤ len then
          Outcome.ret SQLRETURN.SQL_SUCCESS
            (sql, { col := col, ct := ct, ptr := some (mem_write buf (text.take len.toNat)),
                    len := len, soi := some (text.length : Int) })
        else
          conv_info sql
            { col := col, ct := ct, ptr := some (mem_write buf (text.take len.toNat)),
              len := len, soi := some (text.length : Int) }
            "22003" TsdbCode.TSDB_CODE_ODBC_CONV_UNDEF msg := by
  have hsz : to_size_t len = len.toNat := to_size_t_of_nonneg (by omega) (by omega)
  have h64 : ¬ ¬ ((text.length : Int) < 64) := by omega
  have hge : (text.length : Int) ≥ len := h2
  simp only [text_to_c_char, if_neg h64, c_target_t.set_soi, if_pos hge, hsz,
    c_target_t.strncpy]
  rw [if_neg (by norm_num; omega), strncpy_data_take _ (by omega)]

/-- C9, as the code behaves.  For a non-null cell of an integer wire type
fetched into a character target, with `n` the length of the decimal rendering
of its value.  An int8 to int64 cell with `1 ≤ BufferLength ≤ n`: the call
writes exactly `BufferLength` characters of the rendering and no terminator,
and its status is `SQL_SUCCESS` when `n = BufferLength` (where
`n > BufferLength - 1`), `SQL_SUCCESS_WITH_INFO` only when `n > BufferLength`.
A boolean cell with `BufferLength = 1`: the call writes the one digit, no
terminator, and returns `SQL_SUCCESS`. -/
theorem integer_text_not_terminated {D F : Type} (L : LibC D F) (h : Heap) (s : Nat)
    (sql : sql_t) (rs : TAOS_RES) (row : TAOS_ROW) (col : Nat) (field : TAOS_FIELD)
    (cell : Bytes) (buf : Bytes) (len : Int) (ind : Int) (msg : Option String) (sw : Nat)
    (hrow : HasCurrentRow h s sql rs row) (hcol : ValidColumn rs row col field (some cell))
    (hs : int_wire_width field.type = some sw) :
    (field.type ≠ TSDB_DATA_TYPE_BOOL → 1 ≤ len →
      len ≤ (fmt_d (cell_int_value field.type sw cell)).length →
      ∃ st out, doSQLGetData L h (some s) col SQL_C_CHAR (some buf) len (some ind) msg
          = Outcome.ret
              (if ((fmt_d (cell_int_value field.type sw cell)).length : Int) ≤ len
                then SQLRETURN.SQL_SUCCESS else SQLRETURN.SQL_SUCCESS_WITH_INFO)
              (st, some out, some ((fmt_d (cell_int_value field.type sw cell)).length : Int))
        ∧ out.take len.toNat = (fmt_d (cell_int_value field.type sw cell)).take len.toNat
        ∧ out.drop len.toNat = buf.drop len.toNat
        ∧ (out.take len.toNat).length = len.toNat
        ∧ ∀ b ∈ out.take len.toNat, b ≠ 0)
    ∧ (field.type = TSDB_DATA_TYPE_BOOL → len = 1 →
      doSQLGetData L h (some s) col SQL_C_CHAR (some buf) len (some ind) msg
        = Outcome.ret SQLRETURN.SQL_SUCCESS
            (h, some (mem_write buf [48 + (cell_int_value field.type sw cell).toNat]), some 1)) := by
  rw [doSQLGetData_cell L SQL_C_CHAR buf len (some ind) msg hrow hcol]
  simp only
  rw [dispatch_int_char L sql _ field cell msg sw hs rfl]
  constructor
  · intro hnb h1 h2
    obtain ⟨hn, hz⟩ := fmt_d_spec (cell_int_value field.type sw cell)
    have hlen : ((fmt_d (cell_int_value field.type sw cell)).take len.toNat).length
        = len.toNat := by
      rw [List.length_take]; omega
    have hw := mem_write_take_drop buf ((fmt_d (cell_int_value field.type sw cell)).take len.toNat)
    rw [hlen] at hw
    rw [if_neg hnb, text_to_c_char_full sql col SQL_C_CHAR buf len ind _ msg hn h1 h2]
    have hnz : ∀ b ∈ (mem_write buf
        ((fmt_d (cell_int_value field.type sw cell)).take len.toNat)).take len.toNat,
        b ≠ 0 := by
      rw [hw.1]
      intro b hb
      exact hz b (List.mem_of_mem_take hb)
    by_cases hc : ((fmt_d (cell_int_value field.type sw cell)).length : Int) ≤ len
    · rw [if_pos hc, if_pos hc]
      exact ⟨_, _, rfl, hw.1, hw.2, by rw [hw.1, hlen], hnz⟩
    · rw [if_neg hc, if_neg hc]
      exact ⟨_, _, rfl, hw.1, hw.2, by rw [hw.1, hlen], hnz⟩
  · intro hb hl
    subst hl
    rw [if_pos hb]
    unfold cell_int_value
    rw [if_pos hb]
    simp only [conv_tsdb_bool_to_c_char, c_target_t.set_soi, c_target_t.memcpy, store_back,
      Heap.set_sql_self hrow.live]
    split_ifs <;> first | (exfalso; omega) | (simp only [Heap.set_sql_self hrow.live]; rfl)

/-- The failing input of C9: the int32 cell of `demo_fetch` (the value 12)
fetched into a character buffer of two bytes returns `SQL_SUCCESS` and leaves
the two digits in the buffer with no terminator. -/
theorem integer_text_not_terminated_witness :
    doSQLGetData dec_libc demo_fetch (some 0) 3 SQL_C_CHAR (some [170, 170, 187]) 2 (some 0) none
      = Outcome.ret SQLRETURN.SQL_SUCCESS (demo_fetch, some [49, 50, 187], some 2)
    ∧ ∃ st out,
        doSQLGetData dec_libc demo_fetch (some 0) 3 SQL_C_CHAR (some [170, 170, 187]) 2
            (some 0) none
          = Outcome.ret SQLRETURN.SQL_SUCCESS (st, some out, some 2)
        ∧ out.take 2 = [49, 50]
        ∧ out.drop 2 = [187]
        ∧ (out.take 2).length = 2
        ∧ ∀ b ∈ out.take 2, b ≠ 0 :=
  ⟨rfl, (integer_text_not_terminated dec_libc demo_fetch 0 demo_sql demo_rs demo_row 3
    { name := ascii "n", type := TSDB_DATA_TYPE_INT, bytes := 4 } (int_bytes 4 12)
    [170, 170, 187] 2 0 none 4
    demo_fetch_row ⟨by decide, by decide, rfl, rfl⟩ rfl).1 (by decide) (by decide) (by decide)⟩

end Todbc
namespace Todbc

theorem dispatch_nchar_int {D F : Type} (L : LibC D F) (sql : sql_t) (t : c_target_t)
    (field : TAOS_FIELD) (cell : Bytes) (msg : Option String) (w : Nat)
    (hty : field.type = TSDB_DATA_TYPE_NCHAR) (ht : int_target_width t.ct = some w) :
    dispatch L sql t field cell msg = str_to_c_int L w sql t (c_str cell) msg := by
  unfold int_target_width at ht
  split_ifs at ht with b1 b2 b3 b4 <;>
    simp only [Option.some.injEq] at ht <;> subst ht <;>
    unfold dispatch <;>
    simp [*, TSDB_DATA_TYPE_BOOL, TSDB_DATA_TYPE_TINYINT, TSDB_DATA_TYPE_SMALLINT,
      TSDB_DATA_TYPE_INT, TSDB_DATA_TYPE_BIGINT, TSDB_DATA_TYPE_FLOAT, TSDB_DATA_TYPE_DOUBLE,
      TSDB_DATA_TYPE_TIMESTAMP, TSDB_DATA_TYPE_BINARY, TSDB_DATA_TYPE_NCHAR,
      SQL_C_BIT, SQL_C_TINYINT, SQL_C_SHORT, SQL_C_LONG, SQL_C_SBIGINT, SQL_C_FLOAT,
      SQL_C_DOUBLE, SQL_C_CHAR, SQL_C_BINARY, SQL_C_TIMESTAMP,
      conv_tsdb_str_to_c_v1, conv_tsdb_str_to_c_v2, conv_tsdb_str_to_c_v4,
      conv_tsdb_str_to_c_v8]

theorem str_to_c_int_exact {D F : Type} (L : LibC D F) (w : Nat) (sql : sql_t) (col : Nat)
    (ct : Int) (buf : Bytes) (len ind : Int) (str : Bytes) (msg : Option String)
    (hc : scan_incomplete L str = false)
    (hf : fmt_d (int_cast w (L.f8_to_int w (scanned_f8 L str))) = str) :
    str_to_c_int L w sql { col := col, ct := ct, ptr := some buf, len := len, soi := some ind }
        str msg
      = Outcome.ret SQLRETURN.SQL_SUCCESS
          (sql, { col := col, ct := ct,
                  ptr := some (mem_write buf
                    (int_bytes w (int_cast w (L.f8_to_int w (scanned_f8 L str))))),
                  len := len, soi := some (w : Int) }) := by
  simp only [str_to_c_int, c_target_t.memcpy, c_target_t.set_soi, hc, hf]
  simp

theorem str_to_c_int_inexact {D F : Type} (L : LibC D F) (w : Nat) (sql : sql_t) (col : Nat)
    (ct : Int) (buf : Bytes) (len ind : Int) (str : Bytes) (msg : Option String)
    (hn : ¬ (scan_incomplete L str = false
      ∧ fmt_d (int_cast w (L.f8_to_int w (scanned_f8 L str))) = str)) :
    ∃ st, str_to_c_int L w sql
        { col := col, ct := ct, ptr := some buf, len := len, soi := some ind } str msg
      = Outcome.ret SQLRETURN.SQL_SUCCESS_WITH_INFO st := by
  simp only [str_to_c_int, c_target_t.memcpy, c_target_t.set_soi, conv_info]
  split_ifs with h1 h2 h3
  · exact ⟨_, rfl⟩
  · exact absurd ⟨by simpa using h1, h2⟩ hn
  · exact ⟨_, rfl⟩
  · exact ⟨_, rfl⟩

theorem scan_of_exact {D F : Type} {L : LibC D F} {w : Nat} (hL : L.exact_on_integers w)
    {k : Int} (hk : in_range w k) :
    scan_incomplete L (fmt_d k) = false ∧ L.f8_to_int w (scanned_f8 L (fmt_d k)) = k := by
  obtain ⟨f, h1, h2⟩ := hL k hk
  have hlen := (fmt_d_spec k).1
  have hsz : to_size_t ((fmt_d k).length : Int) = (fmt_d k).length := by
    rw [to_size_t_of_nonneg (by omega) (by omega)]
    simp
  simp only [scan_incomplete, scanned_f8, h1, hsz, h2]
  simp

theorem dec_libc_exact_int8 : dec_libc.exact_on_integers 1 := by
  intro k hk
  obtain ⟨h1, h2⟩ := hk
  norm_num at h1 h2
  interval_cases k <;> exact ⟨_, rfl, rfl⟩

/-- C10.  For an integer target of 8, 16 or 32 bits (`w` = 1, 2 or 4 bytes)
and a wide-text cell, with a C library that reads the decimal rendering of
the integers of that width back exactly: `doSQLGetData` returns `SQL_SUCCESS`
if and only if the text of the cell is the canonical decimal rendering
(that of `printf("%d")`) of an integer in the range of the target, and then
the target holds that integer and the indicator the width. -/
theorem text_to_integer_exact {D F : Type} (L : LibC D F) (h : Heap) (s : Nat)
    (sql : sql_t) (rs : TAOS_RES) (row : TAOS_ROW) (col : Nat) (field : TAOS_FIELD)
    (cell : Bytes) (ct : Int) (buf : Bytes) (len ind : Int) (msg : Option String) (w : Nat)
    (hrow : HasCurrentRow h s sql rs row) (hcol : ValidColumn rs row col field (some cell))
    (hty : field.type = TSDB_DATA_TYPE_NCHAR)
    (hct : (ct, w) ∈ [(SQL_C_TINYINT, 1), (SQL_C_SHORT, 2), (SQL_C_LONG, 4)])
    (hL : L.exact_on_integers w) :
    ((∃ st, doSQLGetData L h (some s) col ct (some buf) len (some ind) msg
          = Outcome.ret SQLRETURN.SQL_SUCCESS st)
        ↔ ∃ k, in_range w k ∧ c_str cell = fmt_d k)
    ∧ ∀ k, in_range w k → c_str cell = fmt_d k →
        doSQLGetData L h (some s) col ct (some buf) len (some ind) msg
          = Outcome.ret SQLRETURN.SQL_SUCCESS
              (h, some (mem_write buf (int_bytes w k)), some (w : Int))
        ∧ read_int w (mem_write buf (int_bytes w k)) = k := by
  have hw : w = 1 ∨ w = 2 ∨ w = 4 ∨ w = 8 := by
    simp only [List.mem_cons, Prod.mk.injEq, List.mem_singleton, List.not_mem_nil,
      or_false] at hct
    omega
  have ht : int_target_width ct = some w := by
    simp only [List.mem_cons, Prod.mk.injEq, List.mem_singleton, List.not_mem_nil,
      or_false] at hct
    rcases hct with ⟨rfl, rfl⟩ | ⟨rfl, rfl⟩ | ⟨rfl, rfl⟩ <;> rfl
  rw [doSQLGetData_cell L ct buf len (some ind) msg hrow hcol]
  simp only
  rw [dispatch_nchar_int L sql _ field cell msg w hty ht]
  have hyes : ∀ k, in_range w k → c_str cell = fmt_d k →
      store_back h s (str_to_c_int L w sql
          { col := col, ct := ct, ptr := some buf, len := len, soi := some ind }
          (c_str cell) msg)
        = Outcome.ret SQLRETURN.SQL_SUCCESS
            (h, some (mem_write buf (int_bytes w k)), some (w : Int)) := by
    intro k hk hstr
    obtain ⟨hc, hv⟩ := scan_of_exact hL hk
    rw [← hstr] at hc hv
    have hv2 : int_cast w (L.f8_to_int w (scanned_f8 L (c_str cell))) = k := by
      rw [hv, int_cast_of_in_range hw hk]
    rw [str_to_c_int_exact L w sql col ct buf len ind (c_str cell) msg hc
      (by rw [hv2, hstr]), hv2]
    simp only [store_back, Heap.set_sql_self hrow.live]
  refine ⟨⟨?_, ?_⟩, fun k hk hstr => ⟨hyes k hk hstr, read_int_mem_write hw buf hk⟩⟩
  · rintro ⟨st, hst⟩
    by_cases hcond : scan_incomplete L (c_str cell) = false
      ∧ fmt_d (int_cast w (L.f8_to_int w (scanned_f8 L (c_str cell)))) = c_str cell
    · exact ⟨_, to_signed_in_range hw _, hcond.2.symm⟩
    · obtain ⟨st2, h2⟩ := str_to_c_int_inexact L w sql col ct buf len ind (c_str cell) msg hcond
      rw [h2] at hst
      obtain ⟨sq, t⟩ := st2
      simp only [store_back] at hst
      cases hst
  · rintro ⟨k, hk, hstr⟩
    exact ⟨_, hyes k hk hstr⟩

/-- Witness of C10: the text "127" of `demo_fetch` fetched into an 8-bit
target writes 127 and succeeds. -/
theorem text_to_integer_exact_witness :
    doSQLGetData dec_libc demo_fetch (some 0) 5 SQL_C_TINYINT (some [0, 9]) 1 (some 0) none
        = Outcome.ret SQLRETURN.SQL_SUCCESS (demo_fetch, some [127, 9], some 1)
      ∧ read_int 1 [127, 9] = 127 :=
  (text_to_integer_exact dec_libc demo_fetch 0 demo_sql demo_rs demo_row 5
    { name := ascii "num", type := TSDB_DATA_TYPE_NCHAR, bytes := 22 } (ascii "127" ++ [0])
    SQL_C_TINYINT [0, 9] 1 0 none 1
    demo_fetch_row ⟨by decide, by decide, rfl, rfl⟩ rfl (by decide) dec_libc_exact_int8).2
    127 ⟨by decide, by decide⟩ (by decide)

end Todbc
namespace Todbc

theorem q_trunc_div (a : Int) (b : Nat) (hb : 0 < b) :
    q_trunc ((a : ℚ) / (b : ℚ)) = Int.tdiv a b := by
  have hbq : (0 : ℚ) < (b : ℚ) := by exact_mod_cast hb
  unfold q_trunc
  by_cases ha : 0 ≤ a
  · have hx : (0 : ℚ) ≤ (a : ℚ) / (b : ℚ) := div_nonneg (by exact_mod_cast ha) hbq.le
    rw [if_pos hx, Rat.floor_intCast_div_natCast, Int.tdiv_eq_ediv ha (by omega)]
  · have hneg : (a : ℚ) < 0 := by exact_mod_cast (not_le.mp ha)
    have hx : ¬ (0 : ℚ) ≤ (a : ℚ) / (b : ℚ) := not_le.mpr (div_neg_of_neg_of_pos hneg hbq)
    rw [if_neg hx]
    have h1 : ((a : ℚ) / (b : ℚ)) = - (((-a : Int) : ℚ) / (b : ℚ)) := by push_cast; ring
    rw [h1, Int.ceil_neg, Rat.floor_intCast_div_natCast]
    have h2 : a = - (-a) := by omega
    conv_rhs => rw [h2, Int.neg_tdiv, Int.tdiv_eq_ediv (by omega) (by omega)]

theorem dec_trunc_eq (d : Dec) (x : ℚ) (h : dec_val d = some x) : d.trunc = q_trunc x := by
  unfold dec_val at h
  cases h
  unfold Dec.trunc
  have := q_trunc_div d.num (10 ^ d.scale) (by positivity)
  push_cast at this
  exact this.symm

theorem dec_lt_iff (a b : Dec) (x y : ℚ) (ha : dec_val a = some x) (hb : dec_val b = some y) :
    (a.lt b = true ↔ x < y) := by
  unfold dec_val at ha hb
  cases ha
  cases hb
  unfold Dec.lt
  rw [decide_eq_true_iff, div_lt_div_iff₀ (by positivity) (by positivity)]
  constructor
  · intro h; exact_mod_cast h
  · intro h; exact_mod_cast h

theorem dec_digits_eq (fuel : Nat) : ∀ (n : Nat) (acc : Bytes), n < 10 ^ fuel → 0 < fuel →
    ∃ ds : Bytes, dec_digits fuel n acc = ds ++ acc ∧ ds ≠ []
      ∧ (∀ c ∈ ds, is_digit c = true)
      ∧ ∀ a0 : Nat, ds.foldl (fun a c => 10 * a + (c - 48)) a0 = a0 * 10 ^ ds.length + n := by
  induction fuel with
  | zero => intro n acc _ h0; omega
  | succ f ih =>
    intro n acc hn _
    unfold dec_digits
    split_ifs with h10
    · refine ⟨[48 + n], rfl, by simp, ?_, ?_⟩
      · intro c hc
        simp only [List.mem_singleton] at hc
        subst hc
        simp only [is_digit, Bool.and_eq_true, decide_eq_true_eq]
        omega
      · intro a0
        simp only [List.foldl_cons, List.foldl_nil, List.length_singleton, pow_one]
        omega
    · have hf : 0 < f := by
        rcases Nat.eq_zero_or_pos f with h0 | h0
        · subst h0; simp at hn; omega
        · exact h0
      have hdiv : n / 10 < 10 ^ f := by
        rw [pow_succ] at hn
        exact Nat.div_lt_of_lt_mul (by omega)
      obtain ⟨ds, h1, _, h3, h4⟩ := ih (n / 10) ((48 + n % 10) :: acc) hdiv hf
      refine ⟨ds ++ [48 + n % 10], by rw [h1]; simp, by simp, ?_, ?_⟩
      · intro c hc
        rcases List.mem_append.mp hc with hc | hc
        · exact h3 c hc
        · simp only [List.mem_singleton] at hc
          subst hc
          simp only [is_digit, Bool.and_eq_true, decide_eq_true_eq]
          omega
      · intro a0
        rw [List.foldl_append, h4 a0]
        simp only [List.foldl_cons, List.foldl_nil, List.length_append, List.length_singleton,
          pow_succ]
        have h5 := Nat.div_add_mod n 10
        have h6 : 48 + n % 10 - 48 = n % 10 := by omega
        rw [h6]
        have h7 : a0 * (10 ^ ds.length * 10) = 10 * (a0 * 10 ^ ds.length) := by ring
        rw [h7]
        generalize a0 * 10 ^ ds.length = q
        omega

theorem scan_decimal_digits (ds : Bytes) (n : Nat) (hne : ds ≠ [])
    (hd : ∀ c ∈ ds, is_digit c = true)
    (hv : ds.foldl (fun a c => 10 * a + (c - 48)) 0 = n) :
    scan_decimal ds = some ({ num := (n : Int), scale := 0 }, (ds.length : Int))
    ∧ scan_decimal (45 :: ds)
        = some ({ num := - (n : Int), scale := 0 }, ((45 :: ds).length : Int)) := by
  obtain ⟨c, cs, rfl⟩ := List.exists_cons_of_ne_nil hne
  have hc := hd c (List.mem_cons_self _ _)
  have hc2 : 48 ≤ c ∧ c ≤ 57 := by
    simpa only [is_digit, Bool.and_eq_true, decide_eq_true_eq] using hc
  have hsp : is_space c = false := by
    simp only [is_space, Bool.or_eq_false_iff, Bool.and_eq_false_iff, beq_eq_false_iff_ne,
      decide_eq_false_iff_not]
    omega
  have htw : (c :: cs).takeWhile is_digit = c :: cs := List.takeWhile_eq_self_iff.mpr hd
  have h45 : ¬ c = 45 := by omega
  have h43 : ¬ c = 43 := by omega
  constructor
  · simp [scan_decimal, hsp, htw, h45, h43, digits_val, hv]
  · have hsp45 : is_space 45 = false := by decide
    simp [scan_decimal, hsp45, htw, digits_val, hv]
    omega

theorem scan_decimal_fmt_d (k : Int) (hk : k.natAbs < 10 ^ 20) :
    scan_decimal (fmt_d k) = some ({ num := k, scale := 0 }, ((fmt_d k).length : Int)) := by
  unfold fmt_d fmt_u
  split_ifs with hneg
  · obtain ⟨ds, h1, h2, h3, h4⟩ := dec_digits_eq 20 k.natAbs [] hk (by norm_num)
    rw [h1, List.append_nil]
    have h5 := (scan_decimal_digits ds k.natAbs h2 h3 (by rw [h4 0]; simp)).2
    rw [h5]
    have : - ((k.natAbs : Nat) : Int) = k := by omega
    rw [this]
  · have hk2 : k.toNat < 10 ^ 20 := by omega
    obtain ⟨ds, h1, h2, h3, h4⟩ := dec_digits_eq 20 k.toNat [] hk2 (by norm_num)
    rw [h1, List.append_nil]
    have h5 := (scan_decimal_digits ds k.toNat h2 h3 (by rw [h4 0]; simp)).1
    rw [h5]
    have : ((k.toNat : Nat) : Int) = k := by omega
    rw [this]

theorem in_range_8_bounds {k : Int} (hk : in_range 8 k) :
    - 2 ^ 63 ≤ k ∧ k < 2 ^ 63 ∧ k.natAbs < 10 ^ 20 := by
  unfold in_range at hk
  norm_num at hk ⊢
  omega

theorem dec_libc_laws : dec_libc.Laws dec_val where
  lt := dec_lt_iff
  of_int := by
    intro k _
    simp [dec_val, dec_libc]
  of_int64_max := ⟨2 ^ 63 - 1, by simp [dec_val, dec_libc]; norm_num, le_refl _, by norm_num⟩
  of_int64_min := by simp [dec_val, dec_libc]; norm_num
  to_int := by
    intro w f x hx _
    exact dec_trunc_eq f x hx
  scan_int := by
    intro k hk
    obtain ⟨h1, h2, h3⟩ := in_range_8_bounds hk
    refine ⟨{ num := k, scale := 0 }, k, scan_decimal_fmt_d k h3, by simp [dec_val],
      fun _ => rfl, ?_, ?_⟩
    · exact h1
    · omega

end Todbc

namespace Todbc

theorem scan_complete {D F : Type} (L : LibC D F) {str : Bytes} {f : D}
    (hlen : (str.length : Int) < 2 ^ 63)
    (hscan : L.sscanf_lf str = some (f, (str.length : Int))) :
    scanned_f8 L str = f ∧ scan_incomplete L str = false := by
  have hsz : to_size_t (str.length : Int) = str.length := by
    rw [to_size_t_of_nonneg (by omega) hlen]
    simp
  simp only [scanned_f8, scan_incomplete, hscan, hsz]
  simp

theorem scan_partial {D F : Type} (L : LibC D F) {str : Bytes}
    (hlen : (str.length : Int) < 2 ^ 63)
    (hpart : ∀ f b, L.sscanf_lf str = some (f, b) → 0 ≤ b ∧ b < str.length) :
    scan_incomplete L str = true := by
  unfold scan_incomplete
  cases hs : L.sscanf_lf str with
  | none => rfl
  | some p =>
    obtain ⟨f, b⟩ := p
    obtain ⟨h0, h1⟩ := hpart f b hs
    have hsz : to_size_t b = b.toNat := to_size_t_of_nonneg h0 (by omega)
    simp only [hsz, bne_iff_ne, ne_eq]
    omega

theorem str_to_c_int_partial {D F : Type} (L : LibC D F) (w : Nat) (sql : sql_t) (col : Nat)
    (ct : Int) (buf : Bytes) (len ind : Int) (str : Bytes) (msg : Option String)
    (hc : scan_incomplete L str = true) :
    str_to_c_int L w sql { col := col, ct := ct, ptr := some buf, len := len, soi := some ind }
        str msg
      = conv_info sql
          { col := col, ct := ct,
            ptr := some (mem_write buf
              (int_bytes w (int_cast w (L.f8_to_int w (scanned_f8 L str))))),
            len := len, soi := some (w : Int) }
          "22018" TsdbCode.TSDB_CODE_ODBC_CONV_UNDEF msg := by
  simp only [str_to_c_int, c_target_t.memcpy, c_target_t.set_soi, hc]
  simp

theorem str_to_c_int_classified {D F : Type} (L : LibC D F) (w : Nat) (sql : sql_t) (col : Nat)
    (ct : Int) (buf : Bytes) (len ind : Int) (str : Bytes) (msg : Option String)
    (hc : scan_incomplete L str = false)
    (hf : fmt_d (int_cast w (L.f8_to_int w (scanned_f8 L str))) ≠ str) :
    str_to_c_int L w sql { col := col, ct := ct, ptr := some buf, len := len, soi := some ind }
        str msg
      = if (L.f8_lt (L.f8_of_int ((2 : Int) ^ (8 * w - 1) - 1)) (scanned_f8 L str)
            || L.f8_lt (scanned_f8 L str) (L.f8_of_int (- (2 : Int) ^ (8 * w - 1)))) = true then
          conv_info sql
            { col := col, ct := ct,
              ptr := some (mem_write buf
                (int_bytes w (int_cast w (L.f8_to_int w (scanned_f8 L str))))),
              len := len, soi := some (w : Int) }
            "22003" TsdbCode.TSDB_CODE_ODBC_CONV_UNDEF msg
        else
          conv_info sql
            { col := col, ct := ct,
              ptr := some (mem_write buf
                (int_bytes w (int_cast w (L.f8_to_int w (scanned_f8 L str))))),
              len := len, soi := some (w : Int) }
            "01S07" TsdbCode.TSDB_CODE_ODBC_CONV_TRUNC msg := by
  simp only [str_to_c_int, c_target_t.memcpy, c_target_t.set_soi, hc, if_neg hf]
  simp

/-- The bounds of the signed type of `w` bytes, converted to `double`, under
the laws of the C library. -/
theorem bounds_of_laws {D F : Type} {L : LibC D F} {val : D → Option ℚ} (hlaw : L.Laws val)
    {w : Nat} (hw : w = 1 ∨ w = 2 ∨ w = 4 ∨ w = 8) :
    ∃ ymax : ℚ, val (L.f8_of_int ((2 : Int) ^ (8 * w - 1) - 1)) = some ymax
      ∧ val (L.f8_of_int (- (2 : Int) ^ (8 * w - 1))) = some (- (2 : ℚ) ^ (8 * w - 1))
      ∧ (2 : ℚ) ^ (8 * w - 1) - 1 ≤ ymax ∧ ymax ≤ (2 : ℚ) ^ (8 * w - 1)
      ∧ (w ≠ 8 → ymax = (2 : ℚ) ^ (8 * w - 1) - 1) := by
  rcases hw with rfl | rfl | rfl | rfl
  · refine ⟨2 ^ 7 - 1, ?_, ?_, by norm_num, by norm_num, fun _ => by norm_num⟩
    · have := hlaw.of_int (2 ^ (8 * 1 - 1) - 1) (by norm_num [abs_le])
      rw [this]; norm_num
    · have := hlaw.of_int (- 2 ^ (8 * 1 - 1)) (by norm_num [abs_le])
      rw [this]; norm_num
  · refine ⟨2 ^ 15 - 1, ?_, ?_, by norm_num, by norm_num, fun _ => by norm_num⟩
    · have := hlaw.of_int (2 ^ (8 * 2 - 1) - 1) (by norm_num [abs_le])
      rw [this]; norm_num
    · have := hlaw.of_int (- 2 ^ (8 * 2 - 1)) (by norm_num [abs_le])
      rw [this]; norm_num
  · refine ⟨2 ^ 31 - 1, ?_, ?_, by norm_num, by norm_num, fun _ => by norm_num⟩
    · have := hlaw.of_int (2 ^ (8 * 4 - 1) - 1) (by norm_num [abs_le])
      rw [this]; norm_num
    · have := hlaw.of_int (- 2 ^ (8 * 4 - 1)) (by norm_num [abs_le])
      rw [this]; norm_num
  · obtain ⟨y, h1, h2, h3⟩ := hlaw.of_int64_max
    refine ⟨y, h1, ?_, ?_, ?_, fun h => absurd rfl h⟩
    · have := hlaw.of_int64_min
      rw [show (- (2 : Int) ^ (8 * 8 - 1)) = - 2 ^ 63 by norm_num, this]
    · norm_num at h2 ⊢; exact h2
    · norm_num at h3 ⊢; exact h3

theorem scan_canonical {D F : Type} {L : LibC D F} {val : D → Option ℚ} (hlaw : L.Laws val)
    {str : Bytes} {f : D} {b : Int} {x : ℚ}
    (hscan : L.sscanf_lf str = some (f, b)) (hval : val f = some x)
    {v : Int} (hv : in_range 8 v) (heq : fmt_d v = str) :
    ∃ y : Int, x = (y : ℚ) ∧ (|v| ≤ 2 ^ 53 → y = v) ∧ - 2 ^ 63 ≤ y ∧ y ≤ 2 ^ 63 := by
  obtain ⟨f2, y, h1, h2, h3, h4, h5⟩ := hlaw.scan_int v hv
  rw [heq, hscan] at h1
  simp only [Option.some.injEq, Prod.mk.injEq] at h1
  rw [← h1.1, hval] at h2
  simp only [Option.some.injEq] at h2
  exact ⟨y, h2, h3, h4, h5⟩

theorem q_trunc_in_range {w : Nat} (hw : w = 1 ∨ w = 2 ∨ w = 4 ∨ w = 8) {x : ℚ}
    (hlo : - (2 : ℚ) ^ (8 * w - 1) ≤ x) (hhi : x ≤ (2 : ℚ) ^ (8 * w - 1) - 1) :
    in_range w (q_trunc x) := by
  have key : ∀ m : Int, (0 : Int) < m → - (m : ℚ) ≤ x → x ≤ (m : ℚ) - 1 →
      - m ≤ q_trunc x ∧ q_trunc x < m := by
    intro m hm h1 h2
    unfold q_trunc
    split_ifs with h0
    · constructor
      · have : (0 : Int) ≤ ⌊x⌋ := Int.floor_nonneg.mpr h0
        omega
      · have h3 : ((⌊x⌋ : Int) : ℚ) ≤ x := Int.floor_le x
        have h4 : ((⌊x⌋ : Int) : ℚ) < (m : ℚ) := by linarith
        exact_mod_cast h4
    · constructor
      · have h3 : ((- m : Int) : ℚ) ≤ x := by push_cast; exact h1
        exact Int.le_ceil_iff.mpr (by push_cast; linarith)
      · have h3 : ⌈x⌉ ≤ 0 := Int.ceil_le.mpr (by push_cast; linarith [not_le.mp h0])
        omega
  unfold in_range
  rcases hw with rfl | rfl | rfl | rfl
  · exact key (2 ^ (8 * 1 - 1)) (by norm_num) (by push_cast; exact hlo) (by push_cast; exact hhi)
  · exact key (2 ^ (8 * 2 - 1)) (by norm_num) (by push_cast; exact hlo) (by push_cast; exact hhi)
  · exact key (2 ^ (8 * 4 - 1)) (by norm_num) (by push_cast; exact hlo) (by push_cast; exact hhi)
  · exact key (2 ^ (8 * 8 - 1)) (by norm_num) (by push_cast; exact hlo) (by push_cast; exact hhi)

theorem demo_fetch1_row (field : TAOS_FIELD) (cell : Option Bytes) :
    HasCurrentRow (demo_fetch1 field cell) 0 (demo_sql1 field cell) (demo_rs1 field) [cell] :=
  ⟨rfl, ⟨0, _, 7, rfl, rfl, rfl⟩, rfl, rfl⟩

theorem demo_fetch1_col (field : TAOS_FIELD) (cell : Option Bytes) :
    ValidColumn (demo_rs1 field) [cell] 1 field cell :=
  ⟨le_refl 1, by simp [demo_rs1], rfl, rfl⟩

/-- C11, as amended.  For an integer target of `w` bytes and a wide-text cell
that `sscanf` parses entirely, to a finite value `x` that is not an integer
and lies within the bounds of the target, `INTw_MIN ≤ x ≤ INTw_MAX`:
`doSQLGetData` returns `SQL_SUCCESS_WITH_INFO`, records the fractional
truncation (SQLSTATE 01S07), writes `x` truncated toward zero and sets the
indicator to `w`. -/
theorem fractional_text_within_bounds {D F : Type} (L : LibC D F) (val : D → Option ℚ)
    (h : Heap) (s : Nat) (sql : sql_t) (rs : TAOS_RES) (row : TAOS_ROW) (col : Nat)
    (field : TAOS_FIELD) (cell : Bytes) (ct : Int) (buf : Bytes) (len ind : Int)
    (msg : Option String) (w : Nat) (f : D) (x : ℚ)
    (hlaw : L.Laws val)
    (hrow : HasCurrentRow h s sql rs row) (hcol : ValidColumn rs row col field (some cell))
    (hty : field.type = TSDB_DATA_TYPE_NCHAR) (ht : int_target_width ct = some w)
    (hlen : ((c_str cell).length : Int) < 2 ^ 63)
    (hscan : L.sscanf_lf (c_str cell) = some (f, ((c_str cell).length : Int)))
    (hval : val f = some x) (hfrac : ∀ k : Int, x ≠ (k : ℚ))
    (hlo : - (2 : ℚ) ^ (8 * w - 1) ≤ x) (hhi : x ≤ (2 : ℚ) ^ (8 * w - 1) - 1) :
    doSQLGetData L h (some s) col ct (some buf) len (some ind) msg
      = Outcome.ret SQLRETURN.SQL_SUCCESS_WITH_INFO
          (h.set_sql s (some { sql with
              err := SET_ERROR sql.err "01S07" TsdbCode.TSDB_CODE_ODBC_CONV_TRUNC msg }),
            some (mem_write buf (int_bytes w (q_trunc x))), some (w : Int)) := by
  have hw := int_target_width_cases ht
  obtain ⟨hf8, hc⟩ := scan_complete L hlen hscan
  have htr := q_trunc_in_range hw hlo hhi
  have hv : int_cast w (L.f8_to_int w (scanned_f8 L (c_str cell))) = q_trunc x := by
    rw [hf8, hlaw.to_int w f x hval htr, int_cast_of_in_range hw htr]
  have hne : fmt_d (int_cast w (L.f8_to_int w (scanned_f8 L (c_str cell)))) ≠ c_str cell := by
    intro heq
    rw [hv] at heq
    obtain ⟨y, hy, _⟩ := scan_canonical hlaw hscan hval
      (in_range_mono hw (Or.inr (Or.inr (Or.inr rfl))) (by omega) htr) heq
    exact hfrac y hy
  obtain ⟨ymax, h1, h2, h3, _, _⟩ := bounds_of_laws hlaw hw
  have hcmp : ¬ ((L.f8_lt (L.f8_of_int ((2 : Int) ^ (8 * w - 1) - 1)) (scanned_f8 L (c_str cell))
      || L.f8_lt (scanned_f8 L (c_str cell)) (L.f8_of_int (- (2 : Int) ^ (8 * w - 1)))) = true) := by
    rw [hf8, Bool.or_eq_true, hlaw.lt _ _ _ _ h1 hval, hlaw.lt _ _ _ _ hval h2]
    intro hx
    rcases hx with hx | hx <;> linarith
  rw [doSQLGetData_cell L ct buf len (some ind) msg hrow hcol]
  simp only
  rw [dispatch_nchar_int L sql _ field cell msg w hty ht,
    str_to_c_int_classified L w sql col ct buf len ind (c_str cell) msg hc hne, if_neg hcmp, hv]
  rfl

/-- The failure of C11 as stated: the text "127.5" fetched into an 8-bit
target truncates to 127, inside the range, and is yet classified as a numeric
range condition (SQLSTATE 22003), not as a fractional truncation. -/
theorem text_127_5_is_range_condition :
    doSQLGetData dec_libc (demo_text "127.5") (some 0) 1 SQL_C_TINYINT (some [0, 9]) 1 (some 0)
        (some "out of range")
      = Outcome.ret SQLRETURN.SQL_SUCCESS_WITH_INFO
          ((demo_text "127.5").set_sql 0 (some { demo_sql1 demo_nchar (some (ascii "127.5" ++ [0])) with
              err := { err_str := some "out of range",
                       err_no := TsdbCode.TSDB_CODE_ODBC_CONV_UNDEF,
                       sql_state := "22003" } }),
            some [127, 9], some 1) := by
  rfl

theorem three_halves_not_int : ∀ k : Int, ((15 : Int) : ℚ) / (10 : ℚ) ^ 1 ≠ (k : ℚ) := by
  intro k hk
  have h2 : (15 : ℚ) = 10 * (k : ℚ) := by
    norm_num at hk
    linarith
  have h3 : (15 : Int) = 10 * k := by exact_mod_cast h2
  omega

theorem q_trunc_three_halves : q_trunc (((15 : Int) : ℚ) / (10 : ℚ) ^ 1) = 1 := by
  unfold q_trunc
  norm_num

/-- Witness of the amended C11: the text "1.5" fetched into an 8-bit target
writes 1 and reports the fractional truncation. -/
theorem fractional_text_within_bounds_witness :
    doSQLGetData dec_libc (demo_text "1.5") (some 0) 1 SQL_C_TINYINT (some [0, 9]) 1 (some 0)
        (some "truncated")
      = Outcome.ret SQLRETURN.SQL_SUCCESS_WITH_INFO
          ((demo_text "1.5").set_sql 0 (some { demo_sql1 demo_nchar (some (ascii "1.5" ++ [0])) with
              err := { err_str := some "truncated",
                       err_no := TsdbCode.TSDB_CODE_ODBC_CONV_TRUNC,
                       sql_state := "01S07" } }),
            some [1, 9], some 1) :=
  (fractional_text_within_bounds dec_libc dec_val (demo_text "1.5") 0
    (demo_sql1 demo_nchar (some (ascii "1.5" ++ [0]))) (demo_rs1 demo_nchar)
    [some (ascii "1.5" ++ [0])] 1 demo_nchar (ascii "1.5" ++ [0]) SQL_C_TINYINT [0, 9] 1 0
    (some "truncated") 1 { num := 15, scale := 1 } (((15 : Int) : ℚ) / (10 : ℚ) ^ 1)
    dec_libc_laws (demo_fetch1_row _ _) (demo_fetch1_col _ _) rfl rfl (by decide) (by decide)
    rfl three_halves_not_int (by norm_num) (by norm_num)).trans
    (by rw [q_trunc_three_halves]; rfl)

/-- C12, as amended.  For an integer target of `w` bytes and a wide-text cell
that `sscanf` parses entirely, to a finite value `x` beyond the bounds of the
target (`x < INTw_MIN` or `x > INTw_MAX`; for the 64-bit target `x > 2 ^ 63`,
the bound as a `double`): `doSQLGetData` returns `SQL_SUCCESS_WITH_INFO`, not
`SQL_ERROR`, with the numeric-range state 22003 recorded on the statement; the
target holds what the C conversion of the value gives and the indicator `w`. -/
theorem out_of_range_text_is_info {D F : Type} (L : LibC D F) (val : D → Option ℚ)
    (h : Heap) (s : Nat) (sql : sql_t) (rs : TAOS_RES) (row : TAOS_ROW) (col : Nat)
    (field : TAOS_FIELD) (cell : Bytes) (ct : Int) (buf : Bytes) (len ind : Int)
    (msg : Option String) (w : Nat) (f : D) (x : ℚ)
    (hlaw : L.Laws val)
    (hrow : HasCurrentRow h s sql rs row) (hcol : ValidColumn rs row col field (some cell))
    (hty : field.type = TSDB_DATA_TYPE_NCHAR) (ht : int_target_width ct = some w)
    (hlen : ((c_str cell).length : Int) < 2 ^ 63)
    (hscan : L.sscanf_lf (c_str cell) = some (f, ((c_str cell).length : Int)))
    (hval : val f = some x)
    (hout : x < - (2 : ℚ) ^ (8 * w - 1)
      ∨ ((2 : ℚ) ^ (8 * w - 1) - 1 < x ∧ (w = 8 → (2 : ℚ) ^ 63 < x))) :
    doSQLGetData L h (some s) col ct (some buf) len (some ind) msg
      = Outcome.ret SQLRETURN.SQL_SUCCESS_WITH_INFO
          (h.set_sql s (some { sql with
              err := SET_ERROR sql.err "22003" TsdbCode.TSDB_CODE_ODBC_CONV_UNDEF msg }),
            some (mem_write buf (int_bytes w (int_cast w (L.f8_to_int w f)))),
            some (w : Int)) := by
  have hw := int_target_width_cases ht
  obtain ⟨hf8, hc⟩ := scan_complete L hlen hscan
  obtain ⟨ymax, h1, h2, h3, h4, h5⟩ := bounds_of_laws hlaw hw
  have hne : fmt_d (int_cast w (L.f8_to_int w (scanned_f8 L (c_str cell)))) ≠ c_str cell := by
    intro heq
    have hv : in_range w (int_cast w (L.f8_to_int w (scanned_f8 L (c_str cell)))) :=
      to_signed_in_range hw _
    obtain ⟨y, hy, hy1, hy2, hy3⟩ := scan_canonical hlaw hscan hval
      (in_range_mono hw (Or.inr (Or.inr (Or.inr rfl))) (by omega) hv) heq
    generalize int_cast w (L.f8_to_int w (scanned_f8 L (c_str cell))) = v at hv hy1
    have hy2q : - (2 : ℚ) ^ 63 ≤ (y : ℚ) := by exact_mod_cast hy2
    have hy3q : (y : ℚ) ≤ (2 : ℚ) ^ 63 := by exact_mod_cast hy3
    unfold in_range at hv
    rcases hw with rfl | rfl | rfl | rfl
    · have hyv : y = v := hy1 (by rw [abs_le]; norm_num at hv ⊢; omega)
      have hv1 : - (2 : ℚ) ^ (8 * 1 - 1) ≤ (v : ℚ) := by exact_mod_cast hv.1
      have hv2 : (v : ℚ) ≤ (2 : ℚ) ^ (8 * 1 - 1) - 1 := by
        have : v ≤ (2 : Int) ^ (8 * 1 - 1) - 1 := by omega
        exact_mod_cast this
      rw [hy, hyv] at hout
      rcases hout with hx | ⟨hx, _⟩ <;> linarith
    · have hyv : y = v := hy1 (by rw [abs_le]; norm_num at hv ⊢; omega)
      have hv1 : - (2 : ℚ) ^ (8 * 2 - 1) ≤ (v : ℚ) := by exact_mod_cast hv.1
      have hv2 : (v : ℚ) ≤ (2 : ℚ) ^ (8 * 2 - 1) - 1 := by
        have : v ≤ (2 : Int) ^ (8 * 2 - 1) - 1 := by omega
        exact_mod_cast this
      rw [hy, hyv] at hout
      rcases hout with hx | ⟨hx, _⟩ <;> linarith
    · have hyv : y = v := hy1 (by rw [abs_le]; norm_num at hv ⊢; omega)
      have hv1 : - (2 : ℚ) ^ (8 * 4 - 1) ≤ (v : ℚ) := by exact_mod_cast hv.1
      have hv2 : (v : ℚ) ≤ (2 : ℚ) ^ (8 * 4 - 1) - 1 := by
        have : v ≤ (2 : Int) ^ (8 * 4 - 1) - 1 := by omega
        exact_mod_cast this
      rw [hy, hyv] at hout
      rcases hout with hx | ⟨hx, _⟩ <;> linarith
    · rw [hy] at hout
      rcases hout with hx | ⟨_, hx⟩
      · norm_num at hx hy2q
        linarith
      · have := hx rfl
        linarith
  have hcmp : (L.f8_lt (L.f8_of_int ((2 : Int) ^ (8 * w - 1) - 1)) (scanned_f8 L (c_str cell))
      || L.f8_lt (scanned_f8 L (c_str cell)) (L.f8_of_int (- (2 : Int) ^ (8 * w - 1)))) = true := by
    rw [hf8, Bool.or_eq_true, hlaw.lt _ _ _ _ h1 hval, hlaw.lt _ _ _ _ hval h2]
    rcases hout with hx | ⟨hx, hx8⟩
    · exact Or.inr hx
    · left
      by_cases h8 : w = 8
      · subst h8
        have := hx8 rfl
        norm_num at h4 this ⊢
        linarith
      · rw [h5 h8]
        exact hx
  rw [doSQLGetData_cell L ct buf len (some ind) msg hrow hcol]
  simp only
  rw [dispatch_nchar_int L sql _ field cell msg w hty ht,
    str_to_c_int_classified L w sql col ct buf len ind (c_str cell) msg hc hne, if_pos hcmp, hf8]
  rfl

/-- The failure of C12 as stated: the text "999" fetched into an 8-bit target
returns `SQL_SUCCESS_WITH_INFO`, not `SQL_ERROR`. -/
theorem text_999_is_not_an_error :
    doSQLGetData dec_libc (demo_text "999") (some 0) 1 SQL_C_TINYINT (some [0, 9]) 1 (some 0)
        (some "out of range")
      = Outcome.ret SQLRETURN.SQL_SUCCESS_WITH_INFO
          ((demo_text "999").set_sql 0 (some { demo_sql1 demo_nchar (some (ascii "999" ++ [0])) with
              err := { err_str := some "out of range",
                       err_no := TsdbCode.TSDB_CODE_ODBC_CONV_UNDEF,
                       sql_state := "22003" } }),
            some [231, 9], some 1) := by
  rfl

/-- Witness of the amended C12: the text "-40000" fetched into a 16-bit
target. -/
theorem out_of_range_text_is_info_witness :
    doSQLGetData dec_libc (demo_text "-40000") (some 0) 1 SQL_C_SHORT (some [0, 0, 9]) 2 (some 0)
        (some "out of range")
      = Outcome.ret SQLRETURN.SQL_SUCCESS_WITH_INFO
          ((demo_text "-40000").set_sql 0
            (some { demo_sql1 demo_nchar (some (ascii "-40000" ++ [0])) with
              err := { err_str := some "out of range",
                       err_no := TsdbCode.TSDB_CODE_ODBC_CONV_UNDEF,
                       sql_state := "22003" } }),
            some [192, 99, 9], some 2) :=
  (out_of_range_text_is_info dec_libc dec_val (demo_text "-40000") 0
    (demo_sql1 demo_nchar (some (ascii "-40000" ++ [0]))) (demo_rs1 demo_nchar)
    [some (ascii "-40000" ++ [0])] 1 demo_nchar (ascii "-40000" ++ [0]) SQL_C_SHORT [0, 0, 9] 2 0
    (some "out of range") 2 { num := -40000, scale := 0 } (((-40000 : Int) : ℚ) / (10 : ℚ) ^ 0)
    dec_libc_laws (demo_fetch1_row _ _) (demo_fetch1_col _ _) rfl rfl (by decide) (by decide)
    rfl (Or.inl (by norm_num))).trans (by rfl)

end Todbc
namespace Todbc

theorem dispatch_nchar_numeric {D F : Type} (L : LibC D F) (sql : sql_t) (t : c_target_t)
    (field : TAOS_FIELD) (cell : Bytes) (msg : Option String)
    (hty : field.type = TSDB_DATA_TYPE_NCHAR) :
    (t.ct = SQL_C_BIT →
      dispatch L sql t field cell msg = conv_tsdb_str_to_c_bit L sql t field (c_str cell) msg)
    ∧ (t.ct = SQL_C_FLOAT →
      dispatch L sql t field cell msg = conv_tsdb_str_to_c_f4 L sql t field (c_str cell) msg)
    ∧ (t.ct = SQL_C_DOUBLE →
      dispatch L sql t field cell msg = conv_tsdb_str_to_c_f8 L sql t field (c_str cell) msg) := by
  refine ⟨fun hct => ?_, fun hct => ?_, fun hct => ?_⟩ <;>
    unfold dispatch <;>
    simp [hty, hct, TSDB_DATA_TYPE_BOOL, TSDB_DATA_TYPE_TINYINT, TSDB_DATA_TYPE_SMALLINT,
      TSDB_DATA_TYPE_INT, TSDB_DATA_TYPE_BIGINT, TSDB_DATA_TYPE_FLOAT, TSDB_DATA_TYPE_DOUBLE,
      TSDB_DATA_TYPE_TIMESTAMP, TSDB_DATA_TYPE_BINARY, TSDB_DATA_TYPE_NCHAR,
      SQL_C_BIT, SQL_C_TINYINT, SQL_C_SHORT, SQL_C_LONG, SQL_C_SBIGINT, SQL_C_FLOAT,
      SQL_C_DOUBLE, SQL_C_CHAR, SQL_C_BINARY, SQL_C_TIMESTAMP]

/-- C13, as amended.  For a numeric target (bit, integer or floating) and a
wide-text cell that `sscanf` does not parse, or parses only up to some point
before its end: `doSQLGetData` returns `SQL_SUCCESS_WITH_INFO`, not
`SQL_ERROR`, with the invalid-character-value state 22018 recorded on the
statement. -/
theorem unparsed_text_is_info {D F : Type} (L : LibC D F)
    (h : Heap) (s : Nat) (sql : sql_t) (rs : TAOS_RES) (row : TAOS_ROW) (col : Nat)
    (field : TAOS_FIELD) (cell : Bytes) (ct : Int) (buf : Bytes) (len ind : Int)
    (msg : Option String)
    (hrow : HasCurrentRow h s sql rs row) (hcol : ValidColumn rs row col field (some cell))
    (hty : field.type = TSDB_DATA_TYPE_NCHAR)
    (hct : ct ∈ [SQL_C_BIT, SQL_C_TINYINT, SQL_C_SHORT, SQL_C_LONG, SQL_C_SBIGINT,
      SQL_C_FLOAT, SQL_C_DOUBLE])
    (hlen : ((c_str cell).length : Int) < 2 ^ 63)
    (hpart : ∀ f b, L.sscanf_lf (c_str cell) = some (f, b) → 0 ≤ b ∧ b < (c_str cell).length) :
    ∃ out written,
      doSQLGetData L h (some s) col ct (some buf) len (some ind) msg
        = Outcome.ret SQLRETURN.SQL_SUCCESS_WITH_INFO
            (h.set_sql s (some { sql with
                err := SET_ERROR sql.err "22018" TsdbCode.TSDB_CODE_ODBC_CONV_UNDEF msg }),
              some out, some written) := by
  have hc := scan_partial L hlen hpart
  rw [doSQLGetData_cell L ct buf len (some ind) msg hrow hcol]
  simp only
  obtain ⟨hbit, hf4, hf8⟩ := dispatch_nchar_numeric L sql
    { col := col, ct := ct, ptr := some buf, len := len, soi := some ind } field cell msg hty
  simp only [List.mem_cons, List.mem_singleton, List.not_mem_nil, or_false] at hct
  rcases hct with rfl | rfl | rfl | rfl | rfl | rfl | rfl
  · rw [hbit rfl]
    simp only [conv_tsdb_str_to_c_bit, c_target_t.memcpy, c_target_t.set_soi, hc, if_true,
      conv_info, store_back]
    exact ⟨_, _, rfl⟩
  · rw [dispatch_nchar_int L sql
      { col := col, ct := SQL_C_TINYINT, ptr := some buf, len := len, soi := some ind }
      field cell msg 1 hty rfl, str_to_c_int_partial _ _ _ _ _ _ _ _ _ _ hc]
    exact ⟨_, _, rfl⟩
  · rw [dispatch_nchar_int L sql
      { col := col, ct := SQL_C_SHORT, ptr := some buf, len := len, soi := some ind }
      field cell msg 2 hty rfl, str_to_c_int_partial _ _ _ _ _ _ _ _ _ _ hc]
    exact ⟨_, _, rfl⟩
  · rw [dispatch_nchar_int L sql
      { col := col, ct := SQL_C_LONG, ptr := some buf, len := len, soi := some ind }
      field cell msg 4 hty rfl, str_to_c_int_partial _ _ _ _ _ _ _ _ _ _ hc]
    exact ⟨_, _, rfl⟩
  · rw [dispatch_nchar_int L sql
      { col := col, ct := SQL_C_SBIGINT, ptr := some buf, len := len, soi := some ind }
      field cell msg 8 hty rfl, str_to_c_int_partial _ _ _ _ _ _ _ _ _ _ hc]
    exact ⟨_, _, rfl⟩
  · rw [hf4 rfl]
    simp only [conv_tsdb_str_to_c_f4, c_target_t.memcpy, c_target_t.set_soi, hc, if_true,
      conv_info, store_back]
    exact ⟨_, _, rfl⟩
  · rw [hf8 rfl]
    simp only [conv_tsdb_str_to_c_f8, c_target_t.memcpy, c_target_t.set_soi, hc, if_true,
      conv_info, store_back]
    exact ⟨_, _, rfl⟩

/-- The failure of C13 as stated: the text "12abc" fetched into a 32-bit
target returns `SQL_SUCCESS_WITH_INFO`, not `SQL_ERROR`; the target holds the
12 of the part that was parsed. -/
theorem text_12abc_is_not_an_error :
    doSQLGetData dec_libc (demo_text "12abc") (some 0) 1 SQL_C_LONG (some [0, 0, 0, 0, 9]) 4
        (some 0) (some "invalid character value")
      = Outcome.ret SQLRETURN.SQL_SUCCESS_WITH_INFO
          ((demo_text "12abc").set_sql 0
            (some { demo_sql1 demo_nchar (some (ascii "12abc" ++ [0])) with
              err := { err_str := some "invalid character value",
                       err_no := TsdbCode.TSDB_CODE_ODBC_CONV_UNDEF,
                       sql_state := "22018" } }),
            some [12, 0, 0, 0, 9], some 4) := by
  rfl

/-- Witness of the amended C13: the text "abc" fetched into the floating
target of 8 bytes. -/
theorem unparsed_text_is_info_witness :
    ∃ out written,
      doSQLGetData dec_libc (demo_text "abc") (some 0) 1 SQL_C_DOUBLE
          (some [1, 2, 3, 4, 5, 6, 7, 8]) 8 (some 0) (some "invalid character value")
        = Outcome.ret SQLRETURN.SQL_SUCCESS_WITH_INFO
            ((demo_text "abc").set_sql 0
              (some { demo_sql1 demo_nchar (some (ascii "abc" ++ [0])) with
                err := SET_ERROR (demo_sql1 demo_nchar (some (ascii "abc" ++ [0]))).err "22018"
                  TsdbCode.TSDB_CODE_ODBC_CONV_UNDEF (some "invalid character value") }),
              some out, some written) :=
  unparsed_text_is_info dec_libc (demo_text "abc") 0
    (demo_sql1 demo_nchar (some (ascii "abc" ++ [0]))) (demo_rs1 demo_nchar)
    [some (ascii "abc" ++ [0])] 1 demo_nchar (ascii "abc" ++ [0]) SQL_C_DOUBLE
    [1, 2, 3, 4, 5, 6, 7, 8] 8 0 (some "invalid character value")
    (demo_fetch1_row _ _) (demo_fetch1_col _ _) rfl (by decide) (by decide)
    (fun f b hs => by cases hs)

/-- C14, as the code behaves.  For the bit target and a wide-text cell that
`sscanf` parses entirely, to a finite value `x` that is not an integer:
`doSQLGetData` reports a fractional truncation (SQLSTATE 01S07) whatever the
magnitude of `x`, also when `x` lies outside `[0, 2)`, because the test
`f8>0 || f8<2` holds of every number. -/
theorem bit_fraction_always_truncation {D F : Type} (L : LibC D F) (val : D → Option ℚ)
    (h : Heap) (s : Nat) (sql : sql_t) (rs : TAOS_RES) (row : TAOS_ROW) (col : Nat)
    (field : TAOS_FIELD) (cell : Bytes) (buf : Bytes) (len ind : Int)
    (msg : Option String) (f : D) (x : ℚ)
    (hlaw : L.Laws val)
    (hrow : HasCurrentRow h s sql rs row) (hcol : ValidColumn rs row col field (some cell))
    (hty : field.type = TSDB_DATA_TYPE_NCHAR)
    (hlen : ((c_str cell).length : Int) < 2 ^ 63)
    (hscan : L.sscanf_lf (c_str cell) = some (f, ((c_str cell).length : Int)))
    (hval : val f = some x) (hfrac : ∀ k : Int, x ≠ (k : ℚ)) :
    doSQLGetData L h (some s) col SQL_C_BIT (some buf) len (some ind) msg
      = Outcome.ret SQLRETURN.SQL_SUCCESS_WITH_INFO
          (h.set_sql s (some { sql with
              err := SET_ERROR sql.err "01S07" TsdbCode.TSDB_CODE_ODBC_CONV_TRUNC msg }),
            some (mem_write buf (int_bytes 1 (int_cast 1 (L.f8_to_int 1 f)))), some 1) := by
  obtain ⟨hf8, hc⟩ := scan_complete L hlen hscan
  have hne : fmt_d (int_cast 1 (L.f8_to_int 1 f)) ≠ c_str cell := by
    intro heq
    have hv : in_range 1 (int_cast 1 (L.f8_to_int 1 f)) := to_signed_in_range (Or.inl rfl) _
    obtain ⟨y, hy, _⟩ := scan_canonical hlaw hscan hval
      (in_range_mono (Or.inl rfl) (Or.inr (Or.inr (Or.inr rfl))) (by omega) hv) heq
    exact hfrac y hy
  have h0 := hlaw.of_int 0 (by norm_num)
  have h2 := hlaw.of_int 2 (by norm_num [abs_le])
  have hcmp : (L.f8_lt (L.f8_of_int 0) f || L.f8_lt f (L.f8_of_int 2)) = true := by
    rw [Bool.or_eq_true, hlaw.lt _ _ _ _ h0 hval, hlaw.lt _ _ _ _ hval h2]
    by_cases hx : (0 : ℚ) < x
    · left; exact_mod_cast hx
    · right
      push_cast
      linarith
  rw [doSQLGetData_cell L SQL_C_BIT buf len (some ind) msg hrow hcol]
  simp only
  rw [(dispatch_nchar_numeric L sql _ field cell msg hty).1 rfl]
  simp only [conv_tsdb_str_to_c_bit, c_target_t.memcpy, c_target_t.set_soi, hc, hf8, if_neg hne,
    hcmp, if_true, conv_info, store_back]
  simp

/-- The failing input of C14: the text "5.5", whose value lies outside
`[0, 2)`, fetched into the bit target is reported as a fractional truncation
(SQLSTATE 01S07), not as a range error. -/
theorem bit_fraction_always_truncation_witness :
    doSQLGetData dec_libc (demo_text "5.5") (some 0) 1 SQL_C_BIT (some [0, 9]) 1 (some 0)
        (some "truncated")
      = Outcome.ret SQLRETURN.SQL_SUCCESS_WITH_INFO
          ((demo_text "5.5").set_sql 0 (some { demo_sql1 demo_nchar (some (ascii "5.5" ++ [0])) with
              err := { err_str := some "truncated",
                       err_no := TsdbCode.TSDB_CODE_ODBC_CONV_TRUNC,
                       sql_state := "01S07" } }),
            some [5, 9], some 1) :=
  (bit_fraction_always_truncation dec_libc dec_val (demo_text "5.5") 0
    (demo_sql1 demo_nchar (some (ascii "5.5" ++ [0]))) (demo_rs1 demo_nchar)
    [some (ascii "5.5" ++ [0])] 1 demo_nchar (ascii "5.5" ++ [0]) [0, 9] 1 0
    (some "truncated") { num := 55, scale := 1 } (((55 : Int) : ℚ) / (10 : ℚ) ^ 1)
    dec_libc_laws (demo_fetch1_row _ _) (demo_fetch1_col _ _) rfl (by decide)
    rfl rfl (fun k hk => by
      have h2 : (55 : ℚ) = 10 * (k : ℚ) := by
        norm_num at hk
        linarith
      have h3 : (55 : Int) = 10 * k := by exact_mod_cast h2
      omega)).trans (by rfl)

end Todbc
namespace Todbc

theorem dispatch_timestamp {D F : Type} (L : LibC D F) (sql : sql_t) (t : c_target_t)
    (field : TAOS_FIELD) (cell : Bytes) (msg : Option String)
    (hty : field.type = TSDB_DATA_TYPE_TIMESTAMP) :
    (t.ct = SQL_C_SBIGINT →
      dispatch L sql t field cell msg = conv_tsdb_ts_to_c_v8 L sql t field (ts_of_cell L cell))
    ∧ (t.ct = SQL_C_CHAR →
      dispatch L sql t field cell msg
        = conv_tsdb_ts_to_c_str L sql t field (ts_of_cell L cell) msg)
    ∧ (t.ct = SQL_C_BINARY →
      dispatch L sql t field cell msg
        = conv_tsdb_ts_to_c_bin L sql t field (ts_of_cell L cell) msg) := by
  refine ⟨fun hct => ?_, fun hct => ?_, fun hct => ?_⟩ <;>
    unfold dispatch <;>
    simp [hty, hct, TSDB_DATA_TYPE_BOOL, TSDB_DATA_TYPE_TINYINT, TSDB_DATA_TYPE_SMALLINT,
      TSDB_DATA_TYPE_INT, TSDB_DATA_TYPE_BIGINT, TSDB_DATA_TYPE_FLOAT, TSDB_DATA_TYPE_DOUBLE,
      TSDB_DATA_TYPE_TIMESTAMP, TSDB_DATA_TYPE_BINARY, TSDB_DATA_TYPE_NCHAR,
      SQL_C_BIT, SQL_C_TINYINT, SQL_C_SHORT, SQL_C_LONG, SQL_C_SBIGINT, SQL_C_FLOAT,
      SQL_C_DOUBLE, SQL_C_CHAR, SQL_C_BINARY, SQL_C_TIMESTAMP]

theorem tdiv_tmod_neg (v : Int) (hv : v < 0) :
    Int.tdiv v 1000 = - ((- v) / 1000) ∧ Int.tmod v 1000 = - ((- v) % 1000) := by
  have h1 : Int.tdiv v 1000 = - ((- v) / 1000) := by
    have h : v = - (- v) := by omega
    conv_lhs => rw [h, Int.neg_tdiv, Int.tdiv_eq_ediv (by omega) (by norm_num)]
  refine ⟨h1, ?_⟩
  rw [Int.tmod_def, h1]
  omega

theorem read_int_in_range {w : Nat} (hw : w = 1 ∨ w = 2 ∨ w = 4 ∨ w = 8) (b : Bytes) :
    in_range w (read_int w b) := to_signed_in_range hw _

/-- C15, as the code behaves.  For a timestamp cell holding a negative
millisecond count `v` that is not a multiple of 1000, fetched into the 64-bit
integer target, with a C library whose `mktime` gives back the second count
`v / 1000` that `localtime_r` was given: `doSQLGetData` returns `SQL_SUCCESS`
and writes `v + 296` or `v + 1296`, not `v` (the remainder `v % 1000` is
negative, it is stored in the unsigned 32-bit `fraction` and reduced modulo
1000 again). -/
theorem negative_timestamp_not_passed_through {D F : Type} (L : LibC D F)
    (h : Heap) (s : Nat) (sql : sql_t) (rs : TAOS_RES) (row : TAOS_ROW) (col : Nat)
    (field : TAOS_FIELD) (cell : Bytes) (buf : Bytes) (len : Int) (soi : Option Int)
    (msg : Option String)
    (hrow : HasCurrentRow h s sql rs row) (hcol : ValidColumn rs row col field (some cell))
    (hty : field.type = TSDB_DATA_TYPE_TIMESTAMP)
    (hneg : read_int 8 cell < 0) (hfrac : Int.tmod (read_int 8 cell) 1000 ≠ 0)
    (hrt : L.mktime (tm_of_ts (ts_of_cell L cell)) = Int.tdiv (read_int 8 cell) 1000) :
    doSQLGetData L h (some s) col SQL_C_SBIGINT (some buf) len soi msg
      = Outcome.ret SQLRETURN.SQL_SUCCESS
          (h, some (mem_write buf (int_bytes 8
            (read_int 8 cell + (if - 296 ≤ Int.tmod (read_int 8 cell) 1000 then 296 else 1296)))),
            soi)
    ∧ read_int 8 (mem_write buf (int_bytes 8
        (read_int 8 cell + (if - 296 ≤ Int.tmod (read_int 8 cell) 1000 then 296 else 1296))))
      ≠ read_int 8 cell := by
  have hr := read_int_in_range (Or.inr (Or.inr (Or.inr rfl))) cell
  obtain ⟨hdiv, hmod⟩ := tdiv_tmod_neg _ hneg
  have h8 : (8 : Nat) = 1 ∨ (8 : Nat) = 2 ∨ (8 : Nat) = 4 ∨ (8 : Nat) = 8 :=
    Or.inr (Or.inr (Or.inr rfl))
  generalize hv : read_int 8 cell = v at *
  have hfr : (ts_of_cell L cell).fraction = to_unsigned 4 (Int.tmod v 1000) := by
    simp only [ts_of_cell, hv]
  have hu : ((to_unsigned 4 (Int.tmod v 1000) % 1000 : Nat) : Int)
      = Int.tmod v 1000 + (if - 296 ≤ Int.tmod v 1000 then 296 else 1296) := by
    have hnz : (- v) % 1000 ≠ 0 := by
      intro h0
      rw [hmod, h0] at hfrac
      exact hfrac rfl
    rw [hmod]
    unfold to_unsigned
    have hb : 0 ≤ (- v) % 1000 ∧ (- v) % 1000 < 1000 :=
      ⟨Int.emod_nonneg _ (by norm_num), Int.emod_lt_of_pos _ (by norm_num)⟩
    generalize (- v) % 1000 = r at hb hnz
    have h1 : (- r) % (2 : Int) ^ (8 * 4) = if r = 0 then 0 else 4294967296 - r := by
      norm_num
      split_ifs <;> omega
    rw [h1]
    split_ifs <;> omega
  unfold in_range at hr
  norm_num at hr
  have hin : ∀ k : Int, - 9223372036854775808 ≤ k → k < 9223372036854775808 →
      int_cast 8 k = k := by
    intro k h1 h2
    exact int_cast_of_in_range h8 (by unfold in_range; norm_num; exact ⟨h1, h2⟩)
  have hval : int_cast 8 (int_cast 8 (int_cast 8 (Int.tdiv v 1000) * 1000)
      + ((to_unsigned 4 (Int.tmod v 1000) % 1000 : Nat) : Int))
      = v + (if - 296 ≤ Int.tmod v 1000 then 296 else 1296) := by
    have e := Int.tdiv_add_tmod' v 1000
    rw [hu, hin (Int.tdiv v 1000) (by omega) (by omega),
      hin (Int.tdiv v 1000 * 1000) (by omega) (by omega), hin _ (by split_ifs <;> omega)
        (by split_ifs <;> omega)]
    omega
  constructor
  · rw [doSQLGetData_cell L SQL_C_SBIGINT buf len soi msg hrow hcol]
    simp only
    rw [(dispatch_timestamp L sql _ field cell msg hty).1 rfl]
    simp only [conv_tsdb_ts_to_c_v8, hrt, hfr, hv, hval, c_target_t.memcpy, store_back,
      Heap.set_sql_self hrow.live]
  · rw [read_int_mem_write h8 buf (by unfold in_range; norm_num; split_ifs <;> omega)]
    split_ifs <;> omega

/-- The failing input of C15: the timestamp cell holding -1 (one millisecond
before the epoch) fetched into the 64-bit integer target writes 295. -/
theorem negative_timestamp_not_passed_through_witness :
    doSQLGetData dec_libc
        (demo_fetch1 { name := ascii "ts", type := TSDB_DATA_TYPE_TIMESTAMP, bytes := 8 }
          (some (int_bytes 8 (-1))))
        (some 0) 1 SQL_C_SBIGINT (some [0, 0, 0, 0, 0, 0, 0, 0, 9]) 8 (some 0) none
      = Outcome.ret SQLRETURN.SQL_SUCCESS
          (demo_fetch1 { name := ascii "ts", type := TSDB_DATA_TYPE_TIMESTAMP, bytes := 8 }
            (some (int_bytes 8 (-1))),
            some [39, 1, 0, 0, 0, 0, 0, 0, 9], some 0)
    ∧ read_int 8 [39, 1, 0, 0, 0, 0, 0, 0, 9] = 295
    ∧ read_int 8 (int_bytes 8 (-1)) = -1 :=
  ⟨(negative_timestamp_not_passed_through dec_libc _ 0 _ _ _ 1
      { name := ascii "ts", type := TSDB_DATA_TYPE_TIMESTAMP, bytes := 8 } (int_bytes 8 (-1))
      [0, 0, 0, 0, 0, 0, 0, 0, 9] 8 (some 0) none
      (demo_fetch1_row _ _) (demo_fetch1_col _ _) rfl (by decide) (by decide) (by decide)).1.trans
      (by rfl),
    by decide, by decide⟩

theorem fmt_03d_length (v : Int) : 3 ≤ (fmt_03d v).length := by
  unfold fmt_03d
  split_ifs <;> simp <;> omega

theorem snprintf_data_whole (text : Bytes) (size : Nat) (h : text.length < size) :
    snprintf_data text size = text ++ [0] := by
  unfold snprintf_data
  rw [if_neg (by omega), List.take_of_length_le (by omega)]

/-- C16, as the code behaves.  For a timestamp cell fetched into a character
target that is large enough for the whole text and its terminator:
`doSQLGetData` returns `SQL_SUCCESS` and writes the text of `strftime`
(`YYYY-MM-DD HH:MM:SS`) followed by `.` and the fraction printed with `%03d`,
but the indicator is the length of the `strftime` part alone, at least 4 less
than the length of the text written (19, not 23). -/
theorem timestamp_text_indicator_short {D F : Type} (L : LibC D F)
    (h : Heap) (s : Nat) (sql : sql_t) (rs : TAOS_RES) (row : TAOS_ROW) (col : Nat)
    (field : TAOS_FIELD) (cell : Bytes) (buf : Bytes) (len ind : Int)
    (msg : Option String)
    (hrow : HasCurrentRow h s sql rs row) (hcol : ValidColumn rs row col field (some cell))
    (hty : field.type = TSDB_DATA_TYPE_TIMESTAMP)
    (hS : (L.strftime (tm_of_ts (ts_of_cell L cell))).length < 64)
    (hfit : (((L.strftime (tm_of_ts (ts_of_cell L cell)) ++ [46]
      ++ fmt_03d (to_signed 4 (ts_of_cell L cell).fraction)).length : Nat) : Int) < len) :
    doSQLGetData L h (some s) col SQL_C_CHAR (some buf) len (some ind) msg
      = Outcome.ret SQLRETURN.SQL_SUCCESS
          (h, some (mem_write buf (L.strftime (tm_of_ts (ts_of_cell L cell)) ++ [46]
              ++ fmt_03d (to_signed 4 (ts_of_cell L cell).fraction) ++ [0])),
            some ((L.strftime (tm_of_ts (ts_of_cell L cell))).length : Int))
    ∧ (L.strftime (tm_of_ts (ts_of_cell L cell))).length + 4
        ≤ (L.strftime (tm_of_ts (ts_of_cell L cell)) ++ [46]
            ++ fmt_03d (to_signed 4 (ts_of_cell L cell).fraction)).length := by
  have h3 := fmt_03d_length (to_signed 4 (ts_of_cell L cell).fraction)
  constructor
  · rw [doSQLGetData_cell L SQL_C_CHAR buf len (some ind) msg hrow hcol]
    simp only
    rw [(dispatch_timestamp L sql _ field cell msg hty).2.1 rfl]
    simp only [conv_tsdb_ts_to_c_str, strftime_buf, if_pos hS]
    generalize L.strftime (tm_of_ts (ts_of_cell L cell)) = S at *
    generalize fmt_03d (to_signed 4 (ts_of_cell L cell).fraction) = frac at *
    have hn : ¬ ¬ ((S.length : Int) < 64) := by omega
    have hl : ¬ len < 0 := by omega
    have hle : (S.length : Int) ≤ len := by
      simp only [List.length_append, List.length_singleton] at hfit
      omega
    simp only [if_neg hn, c_target_t.set_soi,
      if_neg hl, if_pos hle, store_back, Heap.set_sql_self hrow.live]
    rw [snprintf_data_whole _ _ (by omega)]
  · simp only [List.length_append, List.length_singleton]
    omega

set_option maxRecDepth 65536 in
/-- The failing input of C16: the timestamp cell 1577836800123 fetched into a
character buffer of 24 bytes yields the 23 characters
`2020-01-01 00:00:00.123` and the indicator 19. -/
theorem timestamp_text_indicator_short_witness :
    doSQLGetData dec_libc
        (demo_fetch1 { name := ascii "ts", type := TSDB_DATA_TYPE_TIMESTAMP, bytes := 8 }
          (some (int_bytes 8 1577836800123)))
        (some 0) 1 SQL_C_CHAR (some (List.replicate 25 170)) 24 (some 0) none
      = Outcome.ret SQLRETURN.SQL_SUCCESS
          (demo_fetch1 { name := ascii "ts", type := TSDB_DATA_TYPE_TIMESTAMP, bytes := 8 }
            (some (int_bytes 8 1577836800123)),
            some (ascii "2020-01-01 00:00:00.123" ++ [0, 170]), some 19)
    ∧ (ascii "2020-01-01 00:00:00.123").length = 23 :=
  ⟨(timestamp_text_indicator_short dec_libc _ 0 _ _ _ 1
      { name := ascii "ts", type := TSDB_DATA_TYPE_TIMESTAMP, bytes := 8 }
      (int_bytes 8 1577836800123) (List.replicate 25 170) 24 0 none
      (demo_fetch1_row _ _) (demo_fetch1_col _ _) rfl (by decide) (by decide)).1.trans (by rfl),
    by decide⟩

/-- C17, as the code behaves.  For a timestamp cell fetched into a binary
target that holds the text of `strftime`: `doSQLGetData` returns
`SQL_SUCCESS` and delivers the text of `strftime` (`YYYY-MM-DD HH:MM:SS`)
only, which is the text delivered to a character target cut before its
millisecond part: at least 4 characters are missing. -/
theorem timestamp_binary_lacks_fraction {D F : Type} (L : LibC D F)
    (h : Heap) (s : Nat) (sql : sql_t) (rs : TAOS_RES) (row : TAOS_ROW) (col : Nat)
    (field : TAOS_FIELD) (cell : Bytes) (buf : Bytes) (len ind : Int)
    (msg : Option String)
    (hrow : HasCurrentRow h s sql rs row) (hcol : ValidColumn rs row col field (some cell))
    (hty : field.type = TSDB_DATA_TYPE_TIMESTAMP)
    (hS : (L.strftime (tm_of_ts (ts_of_cell L cell))).length < 64)
    (hfit : ((L.strftime (tm_of_ts (ts_of_cell L cell))).length : Int) ≤ len) :
    doSQLGetData L h (some s) col SQL_C_BINARY (some buf) len (some ind) msg
      = Outcome.ret SQLRETURN.SQL_SUCCESS
          (h, some (mem_write buf (L.strftime (tm_of_ts (ts_of_cell L cell)))),
            some ((L.strftime (tm_of_ts (ts_of_cell L cell))).length : Int))
    ∧ L.strftime (tm_of_ts (ts_of_cell L cell))
        = (L.strftime (tm_of_ts (ts_of_cell L cell)) ++ [46]
            ++ fmt_03d (to_signed 4 (ts_of_cell L cell).fraction)).take
            (L.strftime (tm_of_ts (ts_of_cell L cell))).length
    ∧ (L.strftime (tm_of_ts (ts_of_cell L cell))).length + 4
        ≤ (L.strftime (tm_of_ts (ts_of_cell L cell)) ++ [46]
            ++ fmt_03d (to_signed 4 (ts_of_cell L cell).fraction)).length := by
  have h3 := fmt_03d_length (to_signed 4 (ts_of_cell L cell).fraction)
  refine ⟨?_, ?_, ?_⟩
  · rw [doSQLGetData_cell L SQL_C_BINARY buf len (some ind) msg hrow hcol]
    simp only
    rw [(dispatch_timestamp L sql _ field cell msg hty).2.2 rfl]
    simp only [conv_tsdb_ts_to_c_bin, strftime_buf, if_pos hS]
    generalize L.strftime (tm_of_ts (ts_of_cell L cell)) = S at *
    have hn : ¬ ¬ ((S.length : Int) < 64) := by omega
    have hgt : ¬ ((S.length : Int) > len) := by omega
    have hsz : to_size_t (S.length : Int) = S.length := by
      rw [to_size_t_of_nonneg (by omega) (by omega)]
      simp
    simp only [if_neg hn, c_target_t.set_soi, if_neg hgt, hsz, c_target_t.memcpy_n]
    rw [if_neg (by norm_num; omega)]
    simp only [if_pos hfit, store_back, Heap.set_sql_self hrow.live, List.take_length]
  · simp
  · simp only [List.length_append, List.length_singleton]
    omega

set_option maxRecDepth 65536 in
/-- The failing input of C17: the timestamp cell 1577836800123 fetched into a
binary buffer of 24 bytes yields the 19 characters `2020-01-01 00:00:00`; the
millisecond part `.123` of the character form is not delivered. -/
theorem timestamp_binary_lacks_fraction_witness :
    doSQLGetData dec_libc
        (demo_fetch1 { name := ascii "ts", type := TSDB_DATA_TYPE_TIMESTAMP, bytes := 8 }
          (some (int_bytes 8 1577836800123)))
        (some 0) 1 SQL_C_BINARY (some (List.replicate 24 170)) 24 (some 0) none
      = Outcome.ret SQLRETURN.SQL_SUCCESS
          (demo_fetch1 { name := ascii "ts", type := TSDB_DATA_TYPE_TIMESTAMP, bytes := 8 }
            (some (int_bytes 8 1577836800123)),
            some (ascii "2020-01-01 00:00:00" ++ [170, 170, 170, 170, 170]), some 19) :=
  (timestamp_binary_lacks_fraction dec_libc _ 0 _ _ _ 1
      { name := ascii "ts", type := TSDB_DATA_TYPE_TIMESTAMP, bytes := 8 }
      (int_bytes 8 1577836800123) (List.replicate 24 170) 24 0 none
      (demo_fetch1_row _ _) (demo_fetch1_col _ _) rfl (by decide) (by decide)).1.trans (by rfl)

end Todbc
namespace Todbc

theorem dispatch_binary {D F : Type} (L : LibC D F) (sql : sql_t) (t : c_target_t)
    (field : TAOS_FIELD) (cell : Bytes) (msg : Option String)
    (hty : field.type = TSDB_DATA_TYPE_BINARY) (hct : t.ct = SQL_C_CHAR ∨ t.ct = SQL_C_BINARY) :
    dispatch L sql t field cell msg = bin_to_c sql t field cell msg := by
  rcases hct with hct | hct <;>
    unfold dispatch <;>
    simp [hty, hct, TSDB_DATA_TYPE_BOOL, TSDB_DATA_TYPE_TINYINT, TSDB_DATA_TYPE_SMALLINT,
      TSDB_DATA_TYPE_INT, TSDB_DATA_TYPE_BIGINT, TSDB_DATA_TYPE_FLOAT, TSDB_DATA_TYPE_DOUBLE,
      TSDB_DATA_TYPE_TIMESTAMP, TSDB_DATA_TYPE_BINARY, TSDB_DATA_TYPE_NCHAR,
      SQL_C_BIT, SQL_C_TINYINT, SQL_C_SHORT, SQL_C_LONG, SQL_C_SBIGINT, SQL_C_FLOAT,
      SQL_C_DOUBLE, SQL_C_CHAR, SQL_C_BINARY, SQL_C_TIMESTAMP,
      conv_tsdb_bin_to_c_str, conv_tsdb_bin_to_c_bin]

/-- C18.  For a non-null fixed binary cell of `L = field.bytes` bytes and a
character or binary target with `0 ≤ BufferLength`: `doSQLGetData` copies the
first `min L BufferLength` bytes of the cell, sets the indicator to `L`, and
returns `SQL_SUCCESS_WITH_INFO` with SQLSTATE 01004 recorded when
`L > BufferLength`, `SQL_SUCCESS` with nothing recorded otherwise. -/
theorem binary_cell_copy {D F : Type} (L : LibC D F)
    (h : Heap) (s : Nat) (sql : sql_t) (rs : TAOS_RES) (row : TAOS_ROW) (col : Nat)
    (field : TAOS_FIELD) (cell : Bytes) (ct : Int) (buf : Bytes) (len ind : Int)
    (msg : Option String)
    (hrow : HasCurrentRow h s sql rs row) (hcol : ValidColumn rs row col field (some cell))
    (hty : field.type = TSDB_DATA_TYPE_BINARY) (hct : ct = SQL_C_CHAR ∨ ct = SQL_C_BINARY)
    (hL : (cell.length : Int) = field.bytes) (hL63 : field.bytes < 2 ^ 63)
    (hlen0 : 0 ≤ len) (hlen : len < 2 ^ 63) :
    doSQLGetData L h (some s) col ct (some buf) len (some ind) msg
      = Outcome.ret
          (if field.bytes > len then SQLRETURN.SQL_SUCCESS_WITH_INFO else SQLRETURN.SQL_SUCCESS)
          (if field.bytes > len then
              h.set_sql s (some { sql with
                err := SET_ERROR sql.err "01004" TsdbCode.TSDB_CODE_ODBC_CONV_UNDEF msg })
            else h,
            some (mem_write buf (cell.take (min cell.length len.toNat))),
            some field.bytes)
    ∧ (cell.take (min cell.length len.toNat)).length = min cell.length len.toNat := by
  constructor
  · rw [doSQLGetData_cell L ct buf len (some ind) msg hrow hcol]
    simp only
    rw [dispatch_binary L sql _ field cell msg hty hct]
    have hb0 : 0 ≤ field.bytes := by omega
    have hsz1 : to_size_t field.bytes = cell.length := by
      rw [to_size_t_of_nonneg hb0 hL63]; omega
    have hsz2 : to_size_t len = len.toNat := to_size_t_of_nonneg hlen0 hlen
    have hsg : to_signed 8 cell.length = field.bytes := by
      rw [to_signed_length (by omega)]; exact hL
    simp only [bin_to_c, hsz1, hsz2, hsg, c_target_t.set_soi, c_target_t.memcpy_n]
    by_cases hgt : field.bytes > len
    · have h1 : cell.length > len.toNat := by omega
      have h2 : ¬ cell.length ≤ len.toNat := by omega
      rw [if_pos h1, if_neg (by norm_num; omega)]
      simp only [if_neg h2, if_pos hgt, conv_info, store_back]
      rw [Nat.min_eq_right (by omega), hsz2, if_neg h2]
    · have h1 : ¬ cell.length > len.toNat := by omega
      have h2 : cell.length ≤ len.toNat := by omega
      rw [if_neg h1, if_neg (by norm_num; omega)]
      simp only [if_pos h2, if_neg hgt, store_back, Heap.set_sql_self hrow.live]
      rw [Nat.min_eq_left h2, hsz2, if_pos h2]
      simp only [Heap.set_sql_self hrow.live]
  · rw [List.length_take]
    omega

/-- Witness of C18: a binary cell of 5 bytes fetched into a character buffer
of 3 bytes. -/
theorem binary_cell_copy_witness :
    doSQLGetData dec_libc
        (demo_fetch1 { name := ascii "bin", type := TSDB_DATA_TYPE_BINARY, bytes := 5 }
          (some [1, 0, 2, 0, 3]))
        (some 0) 1 SQL_C_CHAR (some [170, 170, 170, 187]) 3 (some 0) (some "truncated")
      = Outcome.ret SQLRETURN.SQL_SUCCESS_WITH_INFO
          ((demo_fetch1 { name := ascii "bin", type := TSDB_DATA_TYPE_BINARY, bytes := 5 }
              (some [1, 0, 2, 0, 3])).set_sql 0
            (some { demo_sql1 { name := ascii "bin", type := TSDB_DATA_TYPE_BINARY, bytes := 5 }
                (some [1, 0, 2, 0, 3]) with
              err := { err_str := some "truncated",
                       err_no := TsdbCode.TSDB_CODE_ODBC_CONV_UNDEF,
                       sql_state := "01004" } }),
            some [1, 0, 2, 187], some 5) :=
  (binary_cell_copy dec_libc _ 0 _ _ _ 1
    { name := ascii "bin", type := TSDB_DATA_TYPE_BINARY, bytes := 5 } [1, 0, 2, 0, 3]
    SQL_C_CHAR [170, 170, 170, 187] 3 0 (some "truncated")
    (demo_fetch1_row _ _) (demo_fetch1_col _ _) rfl (Or.inl rfl) (by decide) (by decide)
    (by decide) (by decide)).1.trans (by rfl)

end Todbc
namespace Todbc

theorem Connected.set_sql_err {h : Heap} {s : Nat} {sql : sql_t} (hc : Connected h s sql)
    (e : taos_error_t) :
    Connected (h.set_sql s (some { sql with err := e })) s { sql with err := e } := by
  obtain ⟨c, conn, t, h1, h2, h3⟩ := hc.connected
  have hlt : s < h.sqls.length := Heap.sql_lt hc.live
  refine ⟨?_, c, conn, t, h1, ?_, h3⟩
  · simp [Heap.sql, Heap.set_sql, hlt]
  · simpa [Heap.conn, Heap.set_sql] using h2

theorem doSQLGetData_no_row {D F : Type} (L : LibC D F) {h : Heap} {s : Nat} {sql : sql_t}
    (hc : Connected h s sql) (hrs : sql.rs.isSome = true) (hrow : sql.row = none)
    (col : Nat) (ct : Int) (buf : Option Bytes) (len : Int) (soi : Option Int)
    (msg : Option String) :
    doSQLGetData L h (some s) col ct buf len soi msg
      = Outcome.ret SQLRETURN.SQL_ERROR
          (h.set_sql s (some { sql with
              err := SET_ERROR sql.err "HY000" TsdbCode.TSDB_CODE_TSC_QUERY_CACHE_ERASED msg }),
            buf, soi) := by
  obtain ⟨c, conn, t, h1, h2, h3⟩ := hc.connected
  have hcc := check_connection_ok msg h1 h2 h3
  obtain ⟨rs, hrs2⟩ := Option.isSome_iff_exists.mp hrs
  simp only [doSQLGetData, hc.live, hcc, hrs2, hrow]

theorem SET_ERROR_err_no (e : taos_error_t) (st : String) (eno : TsdbCode) (msg : Option String) :
    (SET_ERROR e st eno msg).err_no = eno := by
  cases msg <;> rfl

theorem get_data_calls_no_row {D F : Type} (L : LibC D F) (s : Nat) (calls : List GetDataCall) :
    ∀ (h : Heap) (sql : sql_t), Connected h s sql → sql.rs.isSome = true → sql.row = none →
      List.Forall₂
        (fun c o => ∃ h1 sql1,
          o = Outcome.ret SQLRETURN.SQL_ERROR (h1, c.TargetValue, c.StrLen_or_Ind)
            ∧ h1.sql s = some sql1
            ∧ sql1.err.err_no = TsdbCode.TSDB_CODE_TSC_QUERY_CACHE_ERASED
            ∧ sql1.row = none)
        calls (get_data_calls L h s calls) := by
  induction calls with
  | nil => intro h sql _ _ _; exact List.Forall₂.nil
  | cons c cs ih =>
    intro h sql hc hrs hrow
    have hstep := doSQLGetData_no_row L hc hrs hrow c.ColumnNumber c.TargetType c.TargetValue
      c.BufferLength c.StrLen_or_Ind c.msg
    have hc2 := hc.set_sql_err
      (SET_ERROR sql.err "HY000" TsdbCode.TSDB_CODE_TSC_QUERY_CACHE_ERASED c.msg)
    unfold get_data_calls
    rw [hstep]
    exact List.Forall₂.cons ⟨_, _, rfl, hc2.live, SET_ERROR_err_no _ _ _ _, hrow⟩
      (ih _ _ hc2 hrs hrow)

/-- C19.  For a connected statement that holds a result set whose rows are
exhausted: `doSQLFetch` returns `SQL_NO_DATA` and clears the row cursor; in
any run of calls of `doSQLGetData` that follows, whatever their column
numbers, target types, buffers and indicators, every call returns
`SQL_ERROR` with the 'no rows cached' code recorded on the statement, hands
the target buffer and the indicator back as they were, and leaves the cursor
cleared. -/
theorem no_data_then_no_rows_cached {D F : Type} (L : LibC D F) (h : Heap) (s : Nat)
    (sql : sql_t) (rs : TAOS_RES) (msg : Option String)
    (hc : Connected h s sql) (hrs : sql.rs = some rs) (hex : rs.rows = []) :
    doSQLFetch h (some s) msg
      = Outcome.ret SQLRETURN.SQL_NO_DATA
          ((h.call (EngineCall.taos_fetch_row rs.id)).set_sql s (some { sql with row := none }))
    ∧ ∀ calls : List GetDataCall,
        List.Forall₂
          (fun c o => ∃ h1 sql1,
            o = Outcome.ret SQLRETURN.SQL_ERROR (h1, c.TargetValue, c.StrLen_or_Ind)
              ∧ h1.sql s = some sql1
              ∧ sql1.err.err_no = TsdbCode.TSDB_CODE_TSC_QUERY_CACHE_ERASED
              ∧ sql1.row = none)
          calls
          (get_data_calls L
            ((h.call (EngineCall.taos_fetch_row rs.id)).set_sql s (some { sql with row := none }))
            s calls) := by
  obtain ⟨c, conn, t, h1, h2, h3⟩ := hc.connected
  have hcc := check_connection_ok msg h1 h2 h3
  have hlt : s < h.sqls.length := Heap.sql_lt hc.live
  constructor
  · obtain ⟨id, errno, fc, fields, rows, ar⟩ := rs
    simp only at hex
    subst hex
    obtain ⟨rc, cn, st, bi, pa, np, rs0, row0, er⟩ := sql
    simp only at hrs
    subst hrs
    simp only [doSQLFetch, hc.live, hcc, List.head?_nil, List.tail_nil, Option.isSome_none]
    rfl
  · intro calls
    refine get_data_calls_no_row L s calls _ { sql with row := none } ⟨?_, c, conn, t, h1, ?_, h3⟩
      (by simp [hrs]) rfl
    · simp [Heap.sql, Heap.set_sql, Heap.call, hlt]
    · simpa [Heap.conn, Heap.set_sql, Heap.call] using h2

theorem demo_fetch1_connected (field : TAOS_FIELD) (cell : Option Bytes) :
    Connected (demo_fetch1 field cell) 0 (demo_sql1 field cell) :=
  ⟨rfl, 0, _, 7, rfl, rfl, rfl⟩

/-- Witness of C19: a statement whose result set has no row left; after the
fetch, a call for column 1 and a call for column 7 with a null buffer both
fail with the 'no rows cached' code. -/
theorem no_data_then_no_rows_cached_witness :
    doSQLFetch (demo_fetch1 demo_nchar (some [49, 0])) (some 0) none
      = Outcome.ret SQLRETURN.SQL_NO_DATA
          (((demo_fetch1 demo_nchar (some [49, 0])).call (EngineCall.taos_fetch_row 1)).set_sql 0
            (some { demo_sql1 demo_nchar (some [49, 0]) with row := none }))
    ∧ get_data_calls dec_libc
        (((demo_fetch1 demo_nchar (some [49, 0])).call (EngineCall.taos_fetch_row 1)).set_sql 0
          (some { demo_sql1 demo_nchar (some [49, 0]) with row := none }))
        0
        [{ ColumnNumber := 1, TargetType := SQL_C_CHAR, TargetValue := some [170, 170],
           BufferLength := 2, StrLen_or_Ind := some 5, msg := none },
         { ColumnNumber := 7, TargetType := SQL_C_LONG, TargetValue := none,
           BufferLength := 0, StrLen_or_Ind := none, msg := none }]
      = [Outcome.ret SQLRETURN.SQL_ERROR
          (((demo_fetch1 demo_nchar (some [49, 0])).call (EngineCall.taos_fetch_row 1)).set_sql 0
            (some { demo_sql1 demo_nchar (some [49, 0]) with
              row := none,
              err := { err_no := TsdbCode.TSDB_CODE_TSC_QUERY_CACHE_ERASED } }),
            some [170, 170], some 5),
         Outcome.ret SQLRETURN.SQL_ERROR
          (((demo_fetch1 demo_nchar (some [49, 0])).call (EngineCall.taos_fetch_row 1)).set_sql 0
            (some { demo_sql1 demo_nchar (some [49, 0]) with
              row := none,
              err := { err_no := TsdbCode.TSDB_CODE_TSC_QUERY_CACHE_ERASED } }),
            none, none)] :=
  ⟨(no_data_then_no_rows_cached dec_libc (demo_fetch1 demo_nchar (some [49, 0])) 0
      (demo_sql1 demo_nchar (some [49, 0])) (demo_rs1 demo_nchar) none
      (demo_fetch1_connected _ _) rfl rfl).1, by rfl⟩

end Todbc
namespace Todbc

theorem release_result_cleared (h : Heap) (sql : sql_t) (hinv : sql.rs = none → sql.row = none) :
    (release_result h sql).2.rs = none ∧ (release_result h sql).2.row = none
      ∧ (release_result h sql).2.stmt = sql.stmt
      ∧ (release_result h sql).1.sqls = h.sqls := by
  unfold release_result
  cases hrs : sql.rs with
  | none => exact ⟨hrs, hinv hrs, rfl, rfl⟩
  | some rs => exact ⟨rfl, rfl, rfl, rfl⟩

theorem release_stmt_params_result (h : Heap) (sql : sql_t) :
    (release_stmt_params h sql).2.rs = sql.rs ∧ (release_stmt_params h sql).2.row = sql.row
      ∧ (release_stmt_params h sql).1.sqls = h.sqls := by
  unfold release_stmt_params
  split <;> exact ⟨rfl, rfl, rfl⟩

theorem CHK_RS_spec (sql : sql_t) (terrno : TsdbCode) (msg : Option String) :
    (CHK_RS sql terrno msg).2.rs = sql.rs ∧ (CHK_RS sql terrno msg).2.row = sql.row
      ∧ (((CHK_RS sql terrno msg).1 = SQLRETURN.SQL_SUCCESS
            ∧ answer_code sql.rs terrno
                = TsdbCode.TSDB_CODE_SUCCESS)
          ∨ ((CHK_RS sql terrno msg).1 = SQLRETURN.SQL_ERROR
            ∧ answer_code sql.rs terrno
                ≠ TsdbCode.TSDB_CODE_SUCCESS)) := by
  unfold CHK_RS answer_code
  dsimp only
  split_ifs with he
  · exact ⟨rfl, rfl, Or.inr ⟨rfl, he⟩⟩
  · exact ⟨rfl, rfl, Or.inl ⟨rfl, not_not.mp he⟩⟩

theorem Heap.sql_set_sql_same {h : Heap} {s : Nat} (hlt : s < h.sqls.length) (x : sql_t) :
    (h.set_sql s (some x)).sql s = some x := by
  rw [Heap.sql_set_sql, if_pos rfl, if_pos hlt]

/-- What `CHK_RS` leaves on a statement without a current row whose result
set has just been set to the answer `rs` of the engine. -/
theorem CHK_RS_result_state (sql : sql_t) (rs : Option TAOS_RES) (terrno : TsdbCode)
    (msg : Option String) (hrow : sql.row = none) :
    (CHK_RS { sql with rs := rs } terrno msg).2.row = none
      ∧ (CHK_RS { sql with rs := rs } terrno msg).2.rs = rs
      ∧ (((CHK_RS { sql with rs := rs } terrno msg).1 = SQLRETURN.SQL_SUCCESS
            ∧ answer_code rs terrno
                = TsdbCode.TSDB_CODE_SUCCESS)
          ∨ ((CHK_RS { sql with rs := rs } terrno msg).1 = SQLRETURN.SQL_ERROR
            ∧ answer_code rs terrno
                ≠ TsdbCode.TSDB_CODE_SUCCESS)) := by
  obtain ⟨h1, h2, h3⟩ := CHK_RS_spec { sql with rs := rs } terrno msg
  exact ⟨h2.trans hrow, h1, h3⟩

theorem exec_direct_result {h h1 : Heap} {s : Nat} {sql : sql_t} (hc : Connected h s sql)
    (hinv : sql.rs = none → sql.row = none)
    {text : Option Bytes} {len : Int} {alloc_ok : Bool} {rs : Option TAOS_RES}
    {terrno : TsdbCode} {msg : Option String} {r : SQLRETURN}
    (hrun : doSQLExecDirect h (some s) text len alloc_ok rs terrno msg = Outcome.ret r h1) :
    ∃ sql1, h1.sql s = some sql1 ∧ sql1.row = none
      ∧ ((r = SQLRETURN.SQL_SUCCESS ∧ sql1.rs = rs
            ∧ answer_code rs terrno
                = TsdbCode.TSDB_CODE_SUCCESS)
          ∨ (r = SQLRETURN.SQL_ERROR
            ∧ (sql1.rs = none
              ∨ (sql1.rs = rs ∧ ∃ x, rs = some x ∧ x.errno ≠ TsdbCode.TSDB_CODE_SUCCESS)))) := by
  obtain ⟨c, conn, t, c1, c2, c3⟩ := hc.connected
  have hcc := check_connection_ok msg c1 c2 c3
  have hlt : s < h.sqls.length := Heap.sql_lt hc.live
  obtain ⟨a1, a2, _, a4⟩ := release_result_cleared h sql hinv
  obtain ⟨b1, b2, b3⟩ :=
    release_stmt_params_result (release_result h sql).1 (release_result h sql).2
  have hlt2 : s < (release_stmt_params (release_result h sql).1
      (release_result h sql).2).1.sqls.length := by rw [b3, a4]; exact hlt
  unfold doSQLExecDirect at hrun
  simp only [hc.live, hcc] at hrun
  cases hd : SDUP text len alloc_ok with
  | none => rw [hd] at hrun; cases hrun
  | some x =>
    rw [hd] at hrun
    cases x with
    | none =>
      simp only [Outcome.ret.injEq] at hrun
      obtain ⟨hr, hh⟩ := hrun
      subst hh
      refine ⟨_, Heap.sql_set_sql_same hlt2 _, b2.trans a2, Or.inr ⟨hr.symm, Or.inl ?_⟩⟩
      exact b1.trans a1
    | some stxt =>
      simp only [Outcome.ret.injEq] at hrun
      obtain ⟨hr, hh⟩ := hrun
      subst hh
      obtain ⟨d1, d2, d3⟩ := CHK_RS_result_state
        (release_stmt_params (release_result h sql).1 (release_result h sql).2).2 rs terrno msg
        (b2.trans a2)
      refine ⟨_, Heap.sql_set_sql_same (by simpa [Heap.call] using hlt2) _, d1, ?_⟩
      rcases d3 with ⟨e1, e2⟩ | ⟨e1, e2⟩
      · exact Or.inl ⟨hr ▸ e1, d2, e2⟩
      · refine Or.inr ⟨hr ▸ e1, ?_⟩
        cases rs with
        | none => left; exact d2
        | some x => right; exact ⟨d2, x, rfl, e2⟩

theorem execute_binds_result {E : ExecuteEnv} {sql : sql_t} :
    (∀ eno sql2, execute_binds E sql = some (Except.error (eno, sql2)) →
      sql2.rs = sql.rs ∧ sql2.row = sql.row)
    ∧ (∀ sql2, execute_binds E sql = some (Except.ok sql2) →
      sql2.rs = sql.rs ∧ sql2.row = sql.row) := by
  unfold execute_binds
  constructor
  · intro eno sql2 he
    repeat' split at he
    all_goals first
      | (simp only [Option.some.injEq, Except.error.injEq, Prod.mk.injEq] at he
         obtain ⟨_, he2⟩ := he
         subst he2
         exact ⟨rfl, rfl⟩)
      | cases he
  · intro sql2 he
    repeat' split at he
    all_goals first
      | (simp only [Option.some.injEq, Except.ok.injEq] at he
         subst he
         exact ⟨rfl, rfl⟩)
      | cases he

theorem execute_send_sqls (E : ExecuteEnv) (h : Heap) (st : Nat) (sql : sql_t) :
    (execute_send E h st sql).1.sqls = h.sqls := by
  unfold execute_send
  split_ifs <;> rfl

theorem execute_result {h h1 : Heap} {s : Nat} {sql : sql_t} (hc : Connected h s sql)
    (hinv : sql.rs = none → sql.row = none) {st : Nat} (hst : sql.stmt = some st)
    {E : ExecuteEnv} {msg : Option String} {r : SQLRETURN}
    (hrun : doSQLExecute h (some s) E msg = Outcome.ret r h1) :
    ∃ sql1, h1.sql s = some sql1 ∧ sql1.row = none
      ∧ ((r = SQLRETURN.SQL_SUCCESS ∧ sql1.rs = E.use_result
            ∧ answer_code E.use_result E.terrno = TsdbCode.TSDB_CODE_SUCCESS)
          ∨ (r = SQLRETURN.SQL_ERROR
            ∧ (sql1.rs = none
              ∨ (sql1.rs = E.use_result
                ∧ ∃ x, E.use_result = some x ∧ x.errno ≠ TsdbCode.TSDB_CODE_SUCCESS)))) := by
  obtain ⟨c, conn, t, c1, c2, c3⟩ := hc.connected
  have hcc := check_connection_ok msg c1 c2 c3
  have hlt : s < h.sqls.length := Heap.sql_lt hc.live
  obtain ⟨a1, a2, _, a4⟩ := release_result_cleared h sql hinv
  have hlt2 : s < (release_result h sql).1.sqls.length := by rw [a4]; exact hlt
  unfold doSQLExecute at hrun
  simp only [hc.live, hcc, hst] at hrun
  generalize release_result h sql = p at a1 a2 a4 hlt2 hrun
  obtain ⟨h0, sql0⟩ := p
  simp only at a1 a2 a4 hlt2 hrun
  obtain ⟨hbe, hbo⟩ := @execute_binds_result E sql0
  cases hb : execute_binds E sql0 with
  | none => rw [hb] at hrun; cases hrun
  | some res =>
    rw [hb] at hrun
    cases res with
    | error p =>
      obtain ⟨eno, sql2⟩ := p
      obtain ⟨e1, e2⟩ := hbe eno sql2 hb
      simp only [Outcome.ret.injEq] at hrun
      obtain ⟨hr, hh⟩ := hrun
      subst hh
      exact ⟨_, Heap.sql_set_sql_same hlt2 _, e2.trans a2,
        Or.inr ⟨hr.symm, Or.inl (e1.trans a1)⟩⟩
    | ok sql2 =>
      obtain ⟨e1, e2⟩ := hbo sql2 hb
      simp only at hrun
      have hs := execute_send_sqls E h0 st sql2
      generalize execute_send E h0 st sql2 = q at hs hrun
      obtain ⟨h2, code⟩ := q
      simp only at hs
      have hlt3 : s < h2.sqls.length := by rw [hs]; exact hlt2
      cases code with
      | some eno =>
        simp only [Outcome.ret.injEq] at hrun
        obtain ⟨hr, hh⟩ := hrun
        subst hh
        exact ⟨_, Heap.sql_set_sql_same hlt3 _, e2.trans a2,
          Or.inr ⟨hr.symm, Or.inl (e1.trans a1)⟩⟩
      | none =>
        simp only at hrun
        split_ifs at hrun with hx
        · simp only [Outcome.ret.injEq] at hrun
          obtain ⟨hr, hh⟩ := hrun
          subst hh
          exact ⟨_, Heap.sql_set_sql_same (by simpa [Heap.call] using hlt3) _, e2.trans a2,
            Or.inr ⟨hr.symm, Or.inl (e1.trans a1)⟩⟩
        · simp only [Outcome.ret.injEq] at hrun
          obtain ⟨hr, hh⟩ := hrun
          subst hh
          obtain ⟨d1, d2, d3⟩ := CHK_RS_result_state sql2 E.use_result E.terrno msg
            (e2.trans a2)
          refine ⟨_, Heap.sql_set_sql_same (by simpa [Heap.call] using hlt3) _, d1, ?_⟩
          rcases d3 with ⟨f1, f2⟩ | ⟨f1, f2⟩
          · exact Or.inl ⟨hr ▸ f1, d2, f2⟩
          · refine Or.inr ⟨hr ▸ f1, ?_⟩
            cases hu : E.use_result with
            | none =>
              left
              rw [hu] at d2
              exact d2
            | some x =>
              right
              rw [hu] at d2 f2
              exact ⟨d2, x, rfl, f2⟩

/-- C20, as amended.  For a connected statement (whose row cursor, if set,
came from a result set) and every answer of the engine.  When
`doSQLExecDirect`, or `doSQLExecute` on a prepared statement, returns, the
statement has no current row and the status is `SQL_SUCCESS` or `SQL_ERROR`;
on `SQL_SUCCESS` the statement holds what the engine returned (a result
object without error code, or nothing when the engine returned null without
error code); on `SQL_ERROR` the statement holds no result set, unless the
engine returned a result object that carries an error code, which stays
attached to the statement.  `doSQLExecute` on a statement that is not
prepared returns `SQL_ERROR` and leaves result set and row as they were. -/
theorem exec_result_state (h : Heap) (s : Nat) (sql : sql_t)
    (hc : Connected h s sql) (hinv : sql.rs = none → sql.row = none) :
    (∀ text len alloc_ok rs terrno msg r h1,
      doSQLExecDirect h (some s) text len alloc_ok rs terrno msg = Outcome.ret r h1 →
      ∃ sql1, h1.sql s = some sql1 ∧ sql1.row = none
        ∧ ((r = SQLRETURN.SQL_SUCCESS ∧ sql1.rs = rs
              ∧ answer_code rs terrno = TsdbCode.TSDB_CODE_SUCCESS)
            ∨ (r = SQLRETURN.SQL_ERROR
              ∧ (sql1.rs = none
                ∨ (sql1.rs = rs
                  ∧ ∃ x, rs = some x ∧ x.errno ≠ TsdbCode.TSDB_CODE_SUCCESS)))))
    ∧ (∀ st E msg r h1, sql.stmt = some st →
      doSQLExecute h (some s) E msg = Outcome.ret r h1 →
      ∃ sql1, h1.sql s = some sql1 ∧ sql1.row = none
        ∧ ((r = SQLRETURN.SQL_SUCCESS ∧ sql1.rs = E.use_result
              ∧ answer_code E.use_result E.terrno = TsdbCode.TSDB_CODE_SUCCESS)
            ∨ (r = SQLRETURN.SQL_ERROR
              ∧ (sql1.rs = none
                ∨ (sql1.rs = E.use_result
                  ∧ ∃ x, E.use_result = some x ∧ x.errno ≠ TsdbCode.TSDB_CODE_SUCCESS)))))
    ∧ (∀ E msg, sql.stmt = none →
      doSQLExecute h (some s) E msg
        = Outcome.ret SQLRETURN.SQL_ERROR (h.set_sql s (some { sql with
            err := SET_ERROR sql.err "HY000" TsdbCode.TSDB_CODE_TSC_INVALID_SQL msg }))) := by
  refine ⟨?_, ?_, ?_⟩
  · intro text len alloc_ok rs terrno msg r h1 hrun
    exact exec_direct_result hc hinv hrun
  · intro st E msg r h1 hst hrun
    exact execute_result hc hinv hst hrun
  · intro E msg hst
    obtain ⟨c, conn, t, c1, c2, c3⟩ := hc.connected
    have hcc := check_connection_ok msg c1 c2 c3
    unfold doSQLExecute
    simp only [hc.live, hcc, hst]

/-- The failure of C20 as stated.  `doSQLExecDirect` on a fresh connected
statement: when the engine answers with a result object that carries an error
code, the call returns `SQL_ERROR` and the statement holds that object; when
the engine answers null without an error code, the call returns `SQL_SUCCESS`
and the statement holds no result set. -/
theorem exec_direct_error_keeps_result :
    doSQLExecDirect (demo_heap1 { refcount := 1, conn := some 0 }) (some 0)
        (some (ascii "select 1" ++ [0])) 8 true
        (some { id := 3, errno := TsdbCode.TSDB_CODE_TSC_INVALID_SQL })
        TsdbCode.TSDB_CODE_SUCCESS none
      = Outcome.ret SQLRETURN.SQL_ERROR
          (((demo_heap1 { refcount := 1, conn := some 0 }).call
              (EngineCall.taos_query 7 (some (ascii "select 1")))).set_sql 0
            (some { refcount := 1, conn := some 0,
                    rs := some { id := 3, errno := TsdbCode.TSDB_CODE_TSC_INVALID_SQL },
                    err := { err_no := TsdbCode.TSDB_CODE_TSC_INVALID_SQL } }))
    ∧ doSQLExecDirect (demo_heap1 { refcount := 1, conn := some 0 }) (some 0)
        (some (ascii "select 1" ++ [0])) 8 true none TsdbCode.TSDB_CODE_SUCCESS none
      = Outcome.ret SQLRETURN.SQL_SUCCESS
          (((demo_heap1 { refcount := 1, conn := some 0 }).call
              (EngineCall.taos_query 7 (some (ascii "select 1")))).set_sql 0
            (some { refcount := 1, conn := some 0, rs := none })) := by
  constructor <;> rfl

/-- Witness of the amended C20: `doSQLExecDirect` on the statement of
`demo_fetch1` (it holds a result set and a row), answered by a fresh result
object, leaves the statement with that object and no row. -/
theorem exec_result_state_witness :
    ∃ sql1,
      Heap.sql
          ((((demo_fetch1 demo_nchar (some [49, 0])).call (EngineCall.taos_free_result 1)).call
            (EngineCall.taos_query 7 (some (ascii "select 1")))).set_sql 0
            (some { refcount := 1, conn := some 0, rs := some { id := 4 } })) 0 = some sql1
        ∧ sql1.row = none ∧ sql1.rs = some { id := 4 } := by
  obtain ⟨sql1, h1, h2, h3⟩ :=
    (exec_result_state (demo_fetch1 demo_nchar (some [49, 0])) 0
        (demo_sql1 demo_nchar (some [49, 0])) (demo_fetch1_connected _ _)
        (fun hn => by cases hn)).1
      (some (ascii "select 1" ++ [0])) 8 true (some { id := 4 }) TsdbCode.TSDB_CODE_SUCCESS none
      SQLRETURN.SQL_SUCCESS
      ((((demo_fetch1 demo_nchar (some [49, 0])).call (EngineCall.taos_free_result 1)).call
        (EngineCall.taos_query 7 (some (ascii "select 1")))).set_sql 0
        (some { refcount := 1, conn := some 0, rs := some { id := 4 } })) (by rfl)
  refine ⟨sql1, h1, h2, ?_⟩
  rcases h3 with ⟨_, h, _⟩ | ⟨h, _⟩
  · exact h
  · cases h

end Todbc
namespace Todbc

/-! ## What the calls on a statement leave -/

theorem Heap.set_sql_set_sql (h : Heap) (s : Nat) (x y : Option sql_t) :
    (h.set_sql s x).set_sql s y = h.set_sql s y := by
  simp [Heap.set_sql, List.set_set]

theorem Heap.call_set_sql (h : Heap) (s : Nat) (x : Option sql_t) (c : EngineCall) :
    (h.set_sql s x).call c = (h.call c).set_sql s x := rfl

theorem reset_statement_spec (h : Heap) (sql : sql_t) (hinv : sql.rs = none → sql.row = none) :
    (reset_statement h sql).2
        = { sql with rs := none, row := none, stmt := none, binds := none, params := none,
                     n_params := 0 }
      ∧ (reset_statement h sql).1
        = { h with log := h.log
              ++ (sql.rs.map (fun x => EngineCall.taos_free_result x.id)).toList
              ++ (sql.stmt.map EngineCall.taos_stmt_close).toList } := by
  unfold reset_statement release_result release_stmt_params
  cases hrs : sql.rs with
  | none =>
    have hrow := hinv hrs
    cases hst : sql.stmt <;> simp [Heap.call, hrs, hst, hrow]
  | some rs =>
    cases hst : sql.stmt <;> simp [Heap.call, hrs, hst]

theorem reset_statement_idem (h : Heap) (sql : sql_t) :
    reset_statement (reset_statement h sql).1 (reset_statement h sql).2
      = reset_statement h sql := by
  unfold reset_statement release_result release_stmt_params
  cases hrs : sql.rs <;> cases hst : sql.stmt <;> simp [hrs, hst]

theorem reset_statement_fields (h : Heap) (sql : sql_t) :
    (reset_statement h sql).1.envs = h.envs ∧ (reset_statement h sql).1.conns = h.conns
      ∧ (reset_statement h sql).1.sqls = h.sqls
      ∧ (reset_statement h sql).2.conn = sql.conn
      ∧ (reset_statement h sql).2.refcount = sql.refcount
      ∧ (reset_statement h sql).2.err = sql.err
      ∧ (reset_statement h sql).2.rs = none
      ∧ (reset_statement h sql).2.stmt = none ∧ (reset_statement h sql).2.binds = none
      ∧ (reset_statement h sql).2.params = none ∧ (reset_statement h sql).2.n_params = 0 := by
  unfold reset_statement release_result release_stmt_params
  cases hrs : sql.rs <;> cases hst : sql.stmt <;> simp [Heap.call, hrs, hst]

theorem reset_statement_fixed (h : Heap) (sql : sql_t) (h1 : sql.rs = none)
    (h2 : sql.stmt = none) (h3 : sql.binds = none) (h4 : sql.params = none)
    (h5 : sql.n_params = 0) : reset_statement h sql = (h, sql) := by
  unfold reset_statement release_result release_stmt_params
  cases sql
  simp only at h1 h2 h3 h4 h5
  subst h1 h2 h3 h4 h5
  rfl

theorem exec_direct_factors {h : Heap} {s : Nat} {sql : sql_t} (hc : Connected h s sql)
    (text : Option Bytes) (len : Int) (alloc_ok : Bool) (rs : Option TAOS_RES)
    (terrno : TsdbCode) (msg : Option String) :
    doSQLExecDirect h (some s) text len alloc_ok rs terrno msg
      = doSQLExecDirect ((reset_statement h sql).1.set_sql s (some (reset_statement h sql).2))
          (some s) text len alloc_ok rs terrno msg := by
  obtain ⟨c, conn, t, c1, c2, c3⟩ := hc.connected
  have hcc := check_connection_ok msg c1 c2 c3
  have hlt : s < h.sqls.length := Heap.sql_lt hc.live
  have hR : release_stmt_params (release_result h sql).1 (release_result h sql).2
      = reset_statement h sql := rfl
  obtain ⟨_, r1, r2, r3, _, _, r4, r5, r6, r7, r8⟩ := reset_statement_fields h sql
  have hlive : ((reset_statement h sql).1.set_sql s (some (reset_statement h sql).2)).sql s
      = some (reset_statement h sql).2 :=
    Heap.sql_set_sql_same (by rw [r2]; exact hlt) _
  have hcc2 : check_connection ((reset_statement h sql).1.set_sql s
      (some (reset_statement h sql).2)) (reset_statement h sql).2 msg = some (Except.ok t) :=
    check_connection_ok msg (r3.trans c1)
      (by rw [Heap.conn_set_sql, Heap.conn_of_conns_eq r1]; exact c2) c3
  have hR2 : release_stmt_params
      (release_result ((reset_statement h sql).1.set_sql s (some (reset_statement h sql).2))
        (reset_statement h sql).2).1
      (release_result ((reset_statement h sql).1.set_sql s (some (reset_statement h sql).2))
        (reset_statement h sql).2).2
      = ((reset_statement h sql).1.set_sql s (some (reset_statement h sql).2),
          (reset_statement h sql).2) :=
    reset_statement_fixed _ _ r4 r5 r6 r7 r8
  unfold doSQLExecDirect
  simp only [hc.live, hcc, hlive, hcc2, hR, hR2, Heap.set_sql_set_sql,
    ← Heap.call_set_sql]

theorem prepare_bind_type {E : ExecuteEnv} {i : Nat} {pb : param_bind_t} {b : TAOS_BIND} :
    (∀ b', prepare_bind E i pb b = some (Except.ok b') → b'.buffer_type = b.buffer_type)
    ∧ (∀ eno b', prepare_bind E i pb b = some (Except.error (eno, b')) →
        b'.buffer_type = b.buffer_type) := by
  constructor
  · intro b' he
    unfold prepare_bind at he
    dsimp only at he
    split_ifs at he
    all_goals try (repeat' split at he)
    all_goals first
      | (simp only [Option.some.injEq, Except.ok.injEq] at he
         subst he
         rfl)
      | cases he
  · intro eno b' he
    unfold prepare_bind at he
    dsimp only at he
    split_ifs at he
    all_goals try (repeat' split at he)
    all_goals first
      | (simp only [Option.some.injEq, Except.error.injEq, Prod.mk.injEq] at he
         obtain ⟨_, he2⟩ := he
         subst he2
         rfl)
      | cases he

theorem map_set_same {α β : Type} (f : α → β) (l : List α) (i : Nat) (a b : α)
    (hi : l[i]? = some a) (hf : f b = f a) : (l.set i b).map f = l.map f := by
  apply List.ext_getElem?
  intro j
  simp only [List.getElem?_map, List.getElem?_set]
  by_cases hij : i = j
  · subst hij
    have hlt : i < l.length := by
      rcases Nat.lt_or_ge i l.length with h | h
      · exact h
      · rw [List.getElem?_eq_none h] at hi; cases hi
    simp [hlt, hi, hf]
  · simp [hij]

theorem prepare_binds_types (E : ExecuteEnv) (params : List param_bind_t) :
    ∀ (k i : Nat) (binds : List TAOS_BIND),
      (∀ binds', prepare_binds E params k i binds = some (Except.ok binds') →
        binds'.map (fun b => b.buffer_type) = binds.map (fun b => b.buffer_type))
      ∧ (∀ eno binds', prepare_binds E params k i binds = some (Except.error (eno, binds')) →
        binds'.map (fun b => b.buffer_type) = binds.map (fun b => b.buffer_type)) := by
  intro k
  induction k with
  | zero =>
    intro i binds
    constructor
    · intro binds' he
      simp only [prepare_binds, Option.some.injEq, Except.ok.injEq] at he
      rw [← he]
    · intro eno binds' he
      simp only [prepare_binds, Option.some.injEq] at he
      cases he
  | succ k ih =>
    intro i binds
    constructor
    · intro binds' he
      unfold prepare_binds at he
      cases hp : params[i]? with
      | none => rw [hp] at he; cases he
      | some pb =>
        rw [hp] at he
        simp only at he
        split_ifs at he with hv
        · simp only [Option.some.injEq] at he
          cases he
        · cases hb : binds[i]? with
          | none => rw [hb] at he; cases he
          | some b =>
            rw [hb] at he
            simp only at he
            obtain ⟨t1, t2⟩ := @prepare_bind_type E i pb b
            cases hq : prepare_bind E i pb b with
            | none => rw [hq] at he; cases he
            | some res =>
              rw [hq] at he
              cases res with
              | error p => simp only [Option.some.injEq] at he; cases he
              | ok b1 =>
                simp only at he
                rw [(ih (i + 1) (binds.set i b1)).1 binds' he]
                exact map_set_same _ _ _ _ _ hb (t1 b1 hq)
    · intro eno binds' he
      unfold prepare_binds at he
      cases hp : params[i]? with
      | none => rw [hp] at he; cases he
      | some pb =>
        rw [hp] at he
        simp only at he
        split_ifs at he with hv
        · simp only [Option.some.injEq, Except.error.injEq, Prod.mk.injEq] at he
          rw [← he.2]
        · cases hb : binds[i]? with
          | none => rw [hb] at he; cases he
          | some b =>
            rw [hb] at he
            simp only at he
            obtain ⟨t1, t2⟩ := @prepare_bind_type E i pb b
            cases hq : prepare_bind E i pb b with
            | none => rw [hq] at he; cases he
            | some res =>
              rw [hq] at he
              cases res with
              | error p =>
                obtain ⟨eno1, b1⟩ := p
                simp only [Option.some.injEq, Except.error.injEq, Prod.mk.injEq] at he
                rw [← he.2]
                exact map_set_same _ _ _ _ _ hb (t2 eno1 b1 hq)
              | ok b1 =>
                simp only at he
                rw [(ih (i + 1) (binds.set i b1)).2 eno binds' he]
                exact map_set_same _ _ _ _ _ hb (t1 b1 hq)

theorem execute_binds_keeps {E : ExecuteEnv} {sql : sql_t} :
    (∀ sql2, execute_binds E sql = some (Except.ok sql2) →
      sql2 = { sql with binds := sql2.binds } ∧ wire_types sql2.binds = wire_types sql.binds)
    ∧ (∀ eno sql2, execute_binds E sql = some (Except.error (eno, sql2)) →
      sql2 = { sql with binds := sql2.binds } ∧ wire_types sql2.binds = wire_types sql.binds) := by
  unfold execute_binds wire_types
  constructor
  · intro sql2 he
    split_ifs at he with hn
    · simp only [Option.some.injEq, Except.ok.injEq] at he
      subst he
      exact ⟨rfl, rfl⟩
    · cases hp : sql.params with
      | none => rw [hp] at he; cases he
      | some params =>
        rw [hp] at he
        simp only at he
        obtain ⟨t1, t2⟩ := prepare_binds_types E params sql.n_params.toNat 0 (sql.binds.getD [])
        cases hq : prepare_binds E params sql.n_params.toNat 0 (sql.binds.getD []) with
        | none => rw [hq] at he; cases he
        | some res =>
          rw [hq] at he
          cases res with
          | error p => simp only [Option.some.injEq] at he; cases he
          | ok b1 =>
            simp only [Option.some.injEq, Except.ok.injEq] at he
            subst he
            refine ⟨rfl, ?_⟩
            cases hb : sql.binds with
            | none => rfl
            | some b0 =>
              rw [hb] at t1 hq
              exact t1 b1 hq
  · intro eno sql2 he
    split_ifs at he with hn
    · simp only [Option.some.injEq] at he
      cases he
    · cases hp : sql.params with
      | none => rw [hp] at he; cases he
      | some params =>
        rw [hp] at he
        simp only at he
        obtain ⟨t1, t2⟩ := prepare_binds_types E params sql.n_params.toNat 0 (sql.binds.getD [])
        cases hq : prepare_binds E params sql.n_params.toNat 0 (sql.binds.getD []) with
        | none => rw [hq] at he; cases he
        | some res =>
          rw [hq] at he
          cases res with
          | ok p => simp only [Option.some.injEq] at he; cases he
          | error p =>
            obtain ⟨eno1, b1⟩ := p
            simp only [Option.some.injEq, Except.error.injEq, Prod.mk.injEq] at he
            obtain ⟨_, he⟩ := he
            subst he
            refine ⟨rfl, ?_⟩
            cases hb : sql.binds with
            | none => rfl
            | some b0 =>
              rw [hb] at t2 hq
              exact t2 eno1 b1 hq

theorem Heap.after_intro (h hX : Heap) (s : Nat) (sql : sql_t) (cs : List EngineCall)
    (he : hX.envs = h.envs) (hc : hX.conns = h.conns) (hq : hX.sqls = h.sqls)
    (hi : hX.inited = h.inited) (hl : hX.log = h.log ++ cs) :
    hX.set_sql s (some sql) = h.after s sql cs := by
  cases hX
  cases h
  simp only at he hc hq hi hl
  subst he hc hq hi hl
  rfl

theorem Heap.after_nil (h : Heap) (s : Nat) (sql : sql_t) :
    h.set_sql s (some sql) = h.after s sql [] :=
  Heap.after_intro h h s sql [] rfl rfl rfl rfl (List.append_nil _).symm

theorem check_connection_err {h : Heap} {sql sql1 : sql_t} {msg : Option String}
    (hcc : check_connection h sql msg = some (Except.error sql1)) :
    ∃ err, sql1 = { sql with err := err } := by
  unfold check_connection at hcc
  repeat' split at hcc
  all_goals first
    | (cases hcc; exact ⟨_, rfl⟩)
    | cases hcc

theorem release_result_eq (h : Heap) (sql : sql_t) :
    release_result h sql
      = ({ h with log := h.log
            ++ (sql.rs.map (fun x => EngineCall.taos_free_result x.id)).toList },
         { sql with rs := none, row := (release_result h sql).2.row }) := by
  unfold release_result
  cases hrs : sql.rs with
  | none =>
    simp only [Option.map_none', Option.toList_none, List.append_nil]
    cases sql
    simp only at hrs
    subst hrs
    rfl
  | some rs => rfl

theorem freed_release (rs : Option TAOS_RES) :
    freed_results (rs.map (fun x => EngineCall.taos_free_result x.id)).toList = held_result rs
      ∧ closed_handles (rs.map (fun x => EngineCall.taos_free_result x.id)).toList = []
      ∧ (rs.map (fun x => EngineCall.taos_free_result x.id)).toList.any hands_result = false := by
  cases rs <;> exact ⟨rfl, rfl, rfl⟩

theorem CHK_RS_cases (sql : sql_t) (terrno : TsdbCode) (msg : Option String) :
    (∃ eno, CHK_RS sql terrno msg
        = (SQLRETURN.SQL_ERROR, { sql with err := SET_ERROR sql.err "HY000" eno msg }))
      ∨ CHK_RS sql terrno msg = (SQLRETURN.SQL_SUCCESS, sql) := by
  unfold CHK_RS
  dsimp only
  split_ifs
  · exact Or.inl ⟨_, rfl⟩
  · exact Or.inr rfl

theorem closed_handles_append (a b : List EngineCall) :
    closed_handles (a ++ b) = closed_handles a ++ closed_handles b :=
  List.filterMap_append _ _ _

theorem freed_results_append (a b : List EngineCall) :
    freed_results (a ++ b) = freed_results a ++ freed_results b :=
  List.filterMap_append _ _ _

theorem release_stmt_params_eq (h : Heap) (sql : sql_t) :
    release_stmt_params h sql
      = ({ h with log := h.log ++ (sql.stmt.map EngineCall.taos_stmt_close).toList },
         { sql with stmt := none, binds := none, params := none, n_params := 0 }) := by
  unfold release_stmt_params
  cases hst : sql.stmt with
  | none => simp only [Option.map_none', Option.toList_none, List.append_nil]
  | some st => rfl

theorem closed_release (st : Option Nat) :
    freed_results (st.map EngineCall.taos_stmt_close).toList = []
      ∧ closed_handles (st.map EngineCall.taos_stmt_close).toList = []
      ∧ (st.map EngineCall.taos_stmt_close).toList.any hands_result = false := by
  cases st <;> exact ⟨rfl, rfl, rfl⟩

/-- What a call of `doSQLExecute` on a live statement leaves. -/
theorem execute_effect {h h' : Heap} {s : Nat} {sql : sql_t} {E : ExecuteEnv}
    {msg : Option String} {r : SQLRETURN} (hs : h.sql s = some sql)
    (hrun : doSQLExecute h (some s) E msg = Outcome.ret r h') :
    ∃ sql' cs, h' = h.after s sql' cs
      ∧ sql'.refcount = sql.refcount ∧ sql'.conn = sql.conn ∧ sql'.stmt = sql.stmt
      ∧ sql'.params = sql.params ∧ sql'.n_params = sql.n_params
      ∧ wire_types sql'.binds = wire_types sql.binds
      ∧ (r = SQLRETURN.SQL_SUCCESS → sql'.err = sql.err)
      ∧ closed_handles cs = []
      ∧ freed_results cs ++ held_result sql'.rs
          = held_result sql.rs ++ (if cs.any hands_result then held_result E.use_result else []) := by
  unfold doSQLExecute at hrun
  simp only [hs] at hrun
  cases hcc : check_connection h sql msg with
  | none => rw [hcc] at hrun; cases hrun
  | some res =>
    rw [hcc] at hrun
    cases res with
    | error sql1 =>
      simp only [Outcome.ret.injEq] at hrun
      obtain ⟨hr, hh⟩ := hrun
      subst hh hr
      obtain ⟨err, rfl⟩ := check_connection_err hcc
      exact ⟨_, [], Heap.after_nil _ _ _, rfl, rfl, rfl, rfl, rfl, rfl,
        (fun hx => by cases hx), rfl, by simp [freed_results]⟩
    | ok taos =>
      simp only at hrun
      cases hst : sql.stmt with
      | none =>
        rw [hst] at hrun
        simp only [Outcome.ret.injEq] at hrun
        obtain ⟨hr, hh⟩ := hrun
        subst hh hr
        exact ⟨_, [], Heap.after_nil _ _ _, rfl, rfl, rfl, rfl, rfl, rfl,
          (fun hx => by cases hx), rfl, by simp [freed_results]⟩
      | some st =>
        rw [hst] at hrun
        simp only at hrun
        rw [release_result_eq] at hrun
        simp only at hrun
        obtain ⟨f1, f2, f3⟩ := freed_release sql.rs
        generalize (release_result h sql).2.row = row0 at hrun
        generalize (sql.rs.map (fun x => EngineCall.taos_free_result x.id)).toList = F
          at hrun f1 f2 f3
        obtain ⟨kb_ok, kb_err⟩ := @execute_binds_keeps E { sql with rs := none, row := row0 }
        cases hb : execute_binds E { sql with rs := none, row := row0 } with
        | none => rw [hb] at hrun; cases hrun
        | some res =>
          rw [hb] at hrun
          cases res with
          | error p =>
            obtain ⟨eno, sql2⟩ := p
            obtain ⟨k1, k2⟩ := kb_err eno sql2 hb
            simp only [Outcome.ret.injEq] at hrun
            obtain ⟨hr, hh⟩ := hrun
            subst hh hr
            refine ⟨_, F, Heap.after_intro _ _ _ _ _ rfl rfl rfl rfl rfl, ?_, ?_, ?_, ?_, ?_,
              k2, (fun hx => by cases hx), f2, ?_⟩
            · rw [k1]
            · rw [k1]
            · rw [k1, hst]
            · rw [k1]
            · rw [k1]
            · rw [k1]
              simp [f1, f3, held_result]
          | ok sql2 =>
            obtain ⟨k1, k2⟩ := kb_ok sql2 hb
            simp only at hrun
            unfold execute_send at hrun
            split_ifs at hrun
            all_goals try
              rcases CHK_RS_cases { sql2 with rs := E.use_result } E.terrno msg
                with ⟨eno, hk⟩ | hk <;> rw [hk] at hrun
            all_goals
              simp only [Outcome.ret.injEq] at hrun
              obtain ⟨hr, hh⟩ := hrun
              subst hh hr
              refine ⟨_, _, Heap.after_intro h _ _ _ _ rfl rfl rfl rfl
                (by simp only [Heap.call, List.append_assoc]; rfl), ?_, ?_, ?_, ?_, ?_,
                k2, ?_, ?_, ?_⟩
              · rw [k1]
              · rw [k1]
              · rw [k1, hst]
              · rw [k1]
              · rw [k1]
              · first
                  | (intro hx; cases hx; done)
                  | (intro _; rw [k1])
              · simp only [closed_handles_append, f2]
                rfl
              · rw [k1]
                simp only [freed_results_append, List.any_append, f1, f3]
                simp [freed_results, hands_result, held_result]

/-- What a call of `doSQLExecDirect` on a live statement leaves. -/
theorem exec_direct_effect {h h' : Heap} {s : Nat} {sql : sql_t} {text : Option Bytes}
    {len : Int} {alloc_ok : Bool} {rs : Option TAOS_RES} {terrno : TsdbCode}
    {msg : Option String} {r : SQLRETURN} (hs : h.sql s = some sql)
    (hrun : doSQLExecDirect h (some s) text len alloc_ok rs terrno msg = Outcome.ret r h') :
    ∃ sql' cs, h' = h.after s sql' cs
      ∧ sql'.refcount = sql.refcount ∧ sql'.conn = sql.conn
      ∧ (r = SQLRETURN.SQL_SUCCESS → sql'.err = sql.err)
      ∧ closed_handles cs = []
      ∧ freed_results cs ++ held_result sql'.rs
          = held_result sql.rs ++ (if cs.any hands_result then held_result rs else [])
      ∧ ((sql'.stmt = sql.stmt ∧ sql'.params = sql.params ∧ sql'.binds = sql.binds
            ∧ sql'.n_params = sql.n_params)
          ∨ (sql'.stmt = none ∧ sql'.params = none ∧ sql'.binds = none
            ∧ sql'.n_params = 0)) := by
  unfold doSQLExecDirect at hrun
  simp only [hs] at hrun
  cases hcc : check_connection h sql msg with
  | none => rw [hcc] at hrun; cases hrun
  | some res =>
    rw [hcc] at hrun
    cases res with
    | error sql1 =>
      simp only [Outcome.ret.injEq] at hrun
      obtain ⟨hr, hh⟩ := hrun
      subst hh hr
      obtain ⟨err, rfl⟩ := check_connection_err hcc
      exact ⟨_, [], Heap.after_nil _ _ _, rfl, rfl, (fun hx => by cases hx), rfl,
        by simp [freed_results], Or.inl ⟨rfl, rfl, rfl, rfl⟩⟩
    | ok taos =>
      simp only at hrun
      rw [release_result_eq] at hrun
      simp only at hrun
      rw [release_stmt_params_eq] at hrun
      simp only at hrun
      obtain ⟨f1, f2, f3⟩ := freed_release sql.rs
      obtain ⟨g1, g2, g3⟩ := closed_release sql.stmt
      generalize (release_result h sql).2.row = row0 at hrun
      generalize (sql.rs.map (fun x => EngineCall.taos_free_result x.id)).toList = F
        at hrun f1 f2 f3
      generalize (sql.stmt.map EngineCall.taos_stmt_close).toList = G at hrun g1 g2 g3
      cases hd : SDUP text len alloc_ok with
      | none => rw [hd] at hrun; cases hrun
      | some x =>
        rw [hd] at hrun
        cases x with
        | none =>
          simp only [Outcome.ret.injEq] at hrun
          obtain ⟨hr, hh⟩ := hrun
          subst hh hr
          refine ⟨_, _, Heap.after_intro h _ _ _ _ rfl rfl rfl rfl
            (by simp only [Heap.call, List.append_assoc]; rfl), rfl, rfl,
            (fun hx => by cases hx), ?_, ?_, Or.inr ⟨rfl, rfl, rfl, rfl⟩⟩
          · simp only [closed_handles_append, f2, g2]
            rfl
          · simp only [freed_results_append, List.any_append, f1, f3, g1, g3]
            simp [held_result]
        | some stxt =>
          simp only at hrun
          rcases CHK_RS_cases (sql_t.mk sql.refcount sql.conn none none none 0 rs row0 sql.err)
            terrno msg with ⟨eno, hk⟩ | hk <;> rw [hk] at hrun
          all_goals
            simp only [Outcome.ret.injEq] at hrun
            obtain ⟨hr, hh⟩ := hrun
            subst hh hr
            refine ⟨_, _, Heap.after_intro h _ _ _ _ rfl rfl rfl rfl
              (by simp only [Heap.call, List.append_assoc]; rfl), rfl, rfl,
              ?_, ?_, ?_, Or.inr ⟨rfl, rfl, rfl, rfl⟩⟩
            · first
                | (intro hx; cases hx; done)
                | (intro _; rfl)
            · simp only [closed_handles_append, f2, g2]
              rfl
            · simp only [freed_results_append, List.any_append, f1, f3, g1, g3]
              simp [freed_results, hands_result, held_result]

/-- What a call of `doSQLPrepare` on a live statement leaves. -/
theorem prepare_effect {h h' : Heap} {s : Nat} {sql : sql_t} {text : Option Bytes}
    {len : Int} {stmt : Option Nat} {terrno prepared : TsdbCode}
    {msg : Option String} {r : SQLRETURN} (hs : h.sql s = some sql)
    (hrun : doSQLPrepare h (some s) text len stmt terrno prepared msg = Outcome.ret r h') :
    ∃ sql' cs, h' = h.after s sql' cs
      ∧ sql'.refcount = sql.refcount ∧ sql'.conn = sql.conn
      ∧ (r = SQLRETURN.SQL_SUCCESS → sql'.err = sql.err)
      ∧ closed_handles cs = []
      ∧ freed_results cs ++ held_result sql'.rs = held_result sql.rs
      ∧ cs.any hands_result = false
      ∧ ((sql'.stmt = sql.stmt ∧ sql'.params = sql.params ∧ sql'.binds = sql.binds
            ∧ sql'.n_params = sql.n_params)
          ∨ (sql'.params = none ∧ sql'.binds = none ∧ sql'.n_params = 0)) := by
  unfold doSQLPrepare at hrun
  simp only [hs] at hrun
  cases hcc : check_connection h sql msg with
  | none => rw [hcc] at hrun; cases hrun
  | some res =>
    rw [hcc] at hrun
    cases res with
    | error sql1 =>
      simp only [Outcome.ret.injEq] at hrun
      obtain ⟨hr, hh⟩ := hrun
      subst hh hr
      obtain ⟨err, rfl⟩ := check_connection_err hcc
      exact ⟨_, [], Heap.after_nil _ _ _, rfl, rfl, (fun hx => by cases hx), rfl,
        by simp [freed_results], rfl, Or.inl ⟨rfl, rfl, rfl, rfl⟩⟩
    | ok taos =>
      simp only at hrun
      rw [release_result_eq] at hrun
      simp only at hrun
      rw [release_stmt_params_eq] at hrun
      simp only at hrun
      obtain ⟨f1, f2, f3⟩ := freed_release sql.rs
      obtain ⟨g1, g2, g3⟩ := closed_release sql.stmt
      generalize (release_result h sql).2.row = row0 at hrun
      generalize (sql.rs.map (fun x => EngineCall.taos_free_result x.id)).toList = F
        at hrun f1 f2 f3
      generalize (sql.stmt.map EngineCall.taos_stmt_close).toList = G at hrun g1 g2 g3
      repeat' split at hrun
      all_goals
        simp only [Outcome.ret.injEq] at hrun
        obtain ⟨hr, hh⟩ := hrun
        subst hh hr
        refine ⟨_, _, Heap.after_intro h _ _ _ _ rfl rfl rfl rfl
          (by simp only [Heap.call, List.append_assoc]; rfl), rfl, rfl,
          ?_, ?_, ?_, ?_, Or.inr ⟨rfl, rfl, rfl⟩⟩
        · first
            | (intro hx; cases hx; done)
            | (intro _; rfl)
        · simp only [closed_handles_append, f2, g2]
          rfl
        · simp only [freed_results_append, f1, g1]
          simp [freed_results, held_result]
        · simp only [List.any_append, f3, g3]
          rfl

theorem Heap.after_set_sql (h : Heap) (s : Nat) (x : Option sql_t) (y : sql_t)
    (cs : List EngineCall) : (h.set_sql s x).after s y cs = h.after s y cs := by
  simp [Heap.after, Heap.set_sql, List.set_set]

theorem Heap.sql_after {h : Heap} {s : Nat} (hlt : s < h.sqls.length) (y : sql_t)
    (cs : List EngineCall) : (h.after s y cs).sql s = some y := by
  simp [Heap.after, Heap.sql, hlt]

theorem Heap.after_log (h : Heap) (s : Nat) (y : sql_t) (cs : List EngineCall) :
    calls_between h (h.after s y cs) = cs := by
  simp [Heap.after, calls_between]

/-! ## `doSQLBindParameter` -/

theorem grown_array_get {α : Type} {n : Int} {i : Nat} {old : Option (List α)}
    {mem : Option (Nat → α)} {ar : List α} (hg : grown_array n i old mem = some ar)
    {j : Nat} {x : α} (hj : (j : Int) < n) (hx : (old.getD [])[j]? = some x) :
    ar[j]? = some x := by
  unfold grown_array at hg
  split_ifs at hg with hn
  · rw [hg] at hx
    exact hx
  · cases mem with
    | none => cases hg
    | some m =>
      simp only [Option.map_some', Option.some.injEq] at hg
      subst hg
      have hji : j < i := by omega
      simp [realloc_array, hji, hx]

theorem grown_array_length {α : Type} {n : Int} {i : Nat} {old : Option (List α)}
    {mem : Option (Nat → α)} {ar : List α} (hg : grown_array n i old mem = some ar) :
    (n ≥ i ∧ old = some ar) ∨ (n < i ∧ ar.length = i) := by
  unfold grown_array at hg
  split_ifs at hg with hn
  · exact Or.inl ⟨hn, hg⟩
  · cases mem with
    | none => cases hg
    | some m =>
      simp only [Option.map_some', Option.some.injEq] at hg
      subst hg
      right
      exact ⟨by omega, by simp [realloc_array]⟩

/-- What a call of `doSQLBindParameter` on a live statement leaves. -/
theorem bind_parameter_effect {h h' : Heap} {s : Nat} {sql : sql_t} {i : Nat}
    {dir vt pt : Int} {len : Nat} {scale : Int} {val : Option Nat} {cb : Int}
    {soi : Option Nat} {pm : Option (Nat → param_bind_t)} {bm : Option (Nat → TAOS_BIND)}
    {msg : Option String} {r : SQLRETURN} (hs : h.sql s = some sql)
    (hrun : doSQLBindParameter h (some s) i dir vt pt len scale val cb soi pm bm msg
      = Outcome.ret r h') :
    ∃ sql', h' = h.after s sql' []
      ∧ sql' = { sql with params := sql'.params, binds := sql'.binds,
                          n_params := sql'.n_params, err := sql'.err }
      ∧ ((r = SQLRETURN.SQL_ERROR ∧ sql'.n_params = sql.n_params
            ∧ (sql'.params = sql.params
                ∨ ∃ ar, grown_array sql.n_params i sql.params pm = some ar
                    ∧ sql'.params = some ar)
            ∧ (sql'.binds = sql.binds
                ∨ ∃ binds, grown_array sql.n_params i sql.binds bm = some binds
                    ∧ sql'.binds = some binds))
          ∨ (r = SQLRETURN.SQL_SUCCESS ∧ sql'.err = sql.err ∧ 1 ≤ i
              ∧ sql.stmt ≠ none ∧ dir = SQL_PARAM_INPUT
              ∧ ∃ ty ar binds, bind_buffer_type vt pt = some ty
                ∧ grown_array sql.n_params i sql.params pm = some ar
                ∧ grown_array sql.n_params i sql.binds bm = some binds
                ∧ i ≤ ar.length ∧ i ≤ binds.length
                ∧ sql'.n_params = max sql.n_params i
                ∧ sql'.params = some (ar.set (i - 1)
                    { ParameterNumber := i, ValueType := vt, ParameterType := pt,
                      LengthPrecision := len, ParameterScale := scale, ParameterValue := val,
                      StrLen_or_Ind := soi, valid := 1 })
                ∧ sql'.binds = some (binds.set (i - 1)
                    { buffer_type := ty, buffer_length := len, buffer := none, length := none,
                      is_null := none, is_unsigned := 0, error := none }))) := by
  unfold doSQLBindParameter at hrun
  simp only [hs] at hrun
  cases hcc : check_connection h sql msg with
  | none => rw [hcc] at hrun; cases hrun
  | some res =>
    rw [hcc] at hrun
    cases res with
    | error sql1 =>
      simp only [Outcome.ret.injEq] at hrun
      obtain ⟨hr, hh⟩ := hrun
      subst hh hr
      obtain ⟨err, rfl⟩ := check_connection_err hcc
      exact ⟨_, Heap.after_nil _ _ _, rfl, Or.inl ⟨rfl, rfl, Or.inl rfl, Or.inl rfl⟩⟩
    | ok taos =>
      simp only at hrun
      split_ifs at hrun with h1 h2
      · simp only [Outcome.ret.injEq] at hrun
        obtain ⟨hr, hh⟩ := hrun
        subst hh hr
        exact ⟨_, Heap.after_nil _ _ _, rfl, Or.inl ⟨rfl, rfl, Or.inl rfl, Or.inl rfl⟩⟩
      · simp only [Outcome.ret.injEq] at hrun
        obtain ⟨hr, hh⟩ := hrun
        subst hh hr
        exact ⟨_, Heap.after_nil _ _ _, rfl, Or.inl ⟨rfl, rfl, Or.inl rfl, Or.inl rfl⟩⟩
      · cases hty : bind_buffer_type vt pt with
        | none =>
          rw [hty] at hrun
          simp only [Outcome.ret.injEq] at hrun
          obtain ⟨hr, hh⟩ := hrun
          subst hh hr
          exact ⟨_, Heap.after_nil _ _ _, rfl, Or.inl ⟨rfl, rfl, Or.inl rfl, Or.inl rfl⟩⟩
        | some ty =>
          rw [hty] at hrun
          simp only at hrun
          unfold bind_parameter_store at hrun
          cases hga : grown_array sql.n_params i sql.params pm with
          | none =>
            rw [hga] at hrun
            simp only [Outcome.ret.injEq] at hrun
            obtain ⟨hr, hh⟩ := hrun
            subst hh hr
            refine ⟨_, Heap.after_nil _ _ _, rfl, Or.inl ⟨rfl, rfl, Or.inl ?_, ?_⟩⟩
            · simp
            · cases hgb : grown_array sql.n_params i sql.binds bm with
              | none => left; simp
              | some b => right; exact ⟨b, rfl, by simp⟩
          | some ar =>
            rw [hga] at hrun
            cases hgb : grown_array sql.n_params i sql.binds bm with
            | none =>
              rw [hgb] at hrun
              simp only [Outcome.ret.injEq] at hrun
              obtain ⟨hr, hh⟩ := hrun
              subst hh hr
              refine ⟨_, Heap.after_nil _ _ _, rfl,
                Or.inl ⟨rfl, rfl, Or.inr ⟨ar, rfl, ?_⟩, Or.inl ?_⟩⟩
              · simp
              · simp
            | some binds =>
              rw [hgb] at hrun
              simp only at hrun
              split_ifs at hrun with h3 h4
              all_goals
                simp only [Outcome.ret.injEq] at hrun
                obtain ⟨hr, hh⟩ := hrun
                subst hh hr
                refine ⟨_, Heap.after_nil _ _ _, rfl, Or.inr ⟨rfl, rfl, by omega, ?_,
                  not_not.mp h2, ty, ar, binds, rfl, rfl, rfl, by omega, by omega, ?_, rfl,
                  rfl⟩⟩
                · intro hn
                  rw [hn] at h1
                  exact h1 rfl
                · simp only
                  omega

/-! ## Release of a statement and of a connection -/

/-- What `doSQLFreeStmt` with `SQL_DROP` on a live statement leaves. -/
theorem drop_effect {h h' : Heap} {s : Nat} {sql : sql_t} {msg : Option String}
    {r : SQLRETURN} (hs : h.sql s = some sql)
    (hrun : doSQLFreeStmt h (some s) SQL_DROP msg = Outcome.ret r h') :
    r = SQLRETURN.SQL_SUCCESS ∧ h'.sql s = none ∧ h'.envs = h.envs
      ∧ h'.sqls = h.sqls.set s none
      ∧ (∃ c conn, sql.conn = some c ∧ h.conn c = some conn
          ∧ h'.conns = h.conns.set c (some { conn with refcount := DEC_REF conn.refcount }))
      ∧ ∃ cs, h'.log = h.log ++ cs ∧ freed_results cs = held_result sql.rs
          ∧ closed_handles cs = [] ∧ cs.any hands_result = false := by
  have hlt : s < h.sqls.length := Heap.sql_lt hs
  unfold doSQLFreeStmt at hrun
  have hne : ¬ (SQL_DROP = SQL_CLOSE) := by decide
  simp only [hs, if_neg hne, ne_eq, not_true_eq_false, if_false] at hrun
  rw [release_stmt_params_eq] at hrun
  simp only at hrun
  obtain ⟨g1, g2, g3⟩ := closed_release sql.stmt
  generalize (sql.stmt.map EngineCall.taos_stmt_close).toList = G at hrun g1 g2 g3
  cases hc : sql.conn with
  | none =>
    rw [hc] at hrun
    split_ifs at hrun
  | some c =>
    rw [hc] at hrun
    simp only [Heap.conn_set_sql] at hrun
    cases hrs : sql.rs with
    | none =>
      rw [hrs] at hrun
      simp only at hrun
      cases hcn : h.conn c with
      | none =>
        have : Heap.conn { h with log := h.log ++ G } c = none := hcn
        rw [this] at hrun
        split_ifs at hrun
      | some conn =>
        have : Heap.conn { h with log := h.log ++ G } c = some conn := hcn
        rw [this] at hrun
        simp only at hrun
        split_ifs at hrun
        simp only [Outcome.ret.injEq] at hrun
        obtain ⟨hr, hh⟩ := hrun
        subst hh
        refine ⟨hr.symm, ?_, rfl, ?_, ⟨c, conn, rfl, hcn, rfl⟩, G, rfl, ?_, g2, g3⟩
        · simp [Heap.sql, Heap.set_sql, Heap.set_conn, hlt]
        · simp [Heap.set_sql, Heap.set_conn, List.set_set]
        · rw [g1]; rfl
    | some rs =>
      rw [hrs] at hrun
      simp only at hrun
      cases hcn : h.conn c with
      | none =>
        have : Heap.conn { h.call (EngineCall.taos_free_result rs.id) with
            log := (h.call (EngineCall.taos_free_result rs.id)).log ++ G } c = none := hcn
        rw [this] at hrun
        split_ifs at hrun
      | some conn =>
        have : Heap.conn { h.call (EngineCall.taos_free_result rs.id) with
            log := (h.call (EngineCall.taos_free_result rs.id)).log ++ G } c = some conn := hcn
        rw [this] at hrun
        simp only at hrun
        split_ifs at hrun
        simp only [Outcome.ret.injEq] at hrun
        obtain ⟨hr, hh⟩ := hrun
        subst hh
        refine ⟨hr.symm, ?_, rfl, ?_, ⟨c, conn, rfl, hcn, rfl⟩,
          [EngineCall.taos_free_result rs.id] ++ G, ?_, ?_, ?_, ?_⟩
        · simp [Heap.sql, Heap.set_sql, Heap.set_conn, Heap.call, hlt]
        · simp [Heap.set_sql, Heap.set_conn, Heap.call, List.set_set]
        · simp [Heap.set_sql, Heap.set_conn, Heap.call]
        · rw [freed_results_append, g1]; rfl
        · rw [closed_handles_append, g2]; rfl
        · rw [List.any_append, g3]; rfl

/-- What `doSQLDisconnect` on a live connection leaves. -/
theorem disconnect_effect {h h' : Heap} {c : Nat} {conn : conn_t} {r : SQLRETURN}
    (hc : h.conn c = some conn) (hrun : doSQLDisconnect h (some c) = Outcome.ret r h') :
    r = SQLRETURN.SQL_SUCCESS ∧ h'.conn c = some { conn with taos := none }
      ∧ h'.envs = h.envs ∧ h'.sqls = h.sqls
      ∧ (∀ q, q ≠ c → h'.conn q = h.conn q)
      ∧ h'.log = h.log ++ conn.taos.toList.map EngineCall.taos_close := by
  have hlt : c < h.conns.length := Heap.conn_lt hc
  unfold doSQLDisconnect at hrun
  simp only [hc] at hrun
  cases ht : conn.taos with
  | none =>
    rw [ht] at hrun
    simp only [Outcome.ret.injEq] at hrun
    obtain ⟨hr, hh⟩ := hrun
    subst hh
    refine ⟨hr.symm, ?_, rfl, rfl, fun _ _ => rfl, by simp⟩
    rw [hc]
    cases conn
    simp only at ht
    subst ht
    rfl
  | some t =>
    rw [ht] at hrun
    simp only [Outcome.ret.injEq] at hrun
    obtain ⟨hr, hh⟩ := hrun
    subst hh
    refine ⟨hr.symm, ?_, rfl, rfl, ?_, by simp [Heap.call, Heap.set_conn]⟩
    · rw [Heap.conn_set_conn, if_pos rfl, if_pos (by simpa [Heap.call] using hlt)]
    · intro q hq
      rw [Heap.conn_set_conn, if_neg (fun hx => hq hx.symm)]
      rfl

/-- What `doSQLFreeConnect` on a live connection leaves. -/
theorem free_connect_effect {h h' : Heap} {c : Nat} {conn : conn_t} {r : SQLRETURN}
    (hc : h.conn c = some conn) (hrun : doSQLFreeConnect h (some c) = Outcome.ret r h') :
    r = SQLRETURN.SQL_SUCCESS ∧ h'.conn c = none ∧ h'.sqls = h.sqls
      ∧ (∀ q, q ≠ c → h'.conn q = h.conn q)
      ∧ h'.log = h.log ++ conn.taos.toList.map EngineCall.taos_close := by
  have hlt : c < h.conns.length := Heap.conn_lt hc
  unfold doSQLFreeConnect at hrun
  simp only [hc] at hrun
  cases he : conn.env with
  | none =>
    rw [he] at hrun
    split_ifs at hrun
  | some e =>
    rw [he] at hrun
    simp only [Heap.env_set_conn] at hrun
    cases ht : conn.taos with
    | none =>
      rw [ht] at hrun
      simp only at hrun
      cases hen : h.env e with
      | none =>
        rw [hen] at hrun
        split_ifs at hrun
      | some env =>
        rw [hen] at hrun
        simp only at hrun
        split_ifs at hrun
        simp only [Outcome.ret.injEq] at hrun
        obtain ⟨hr, hh⟩ := hrun
        subst hh
        refine ⟨hr.symm, ?_, rfl, ?_, by simp [Heap.set_conn, Heap.set_env]⟩
        · simp [Heap.conn, Heap.set_conn, Heap.set_env, hlt]
        · intro q hq
          simp [Heap.conn, Heap.set_conn, Heap.set_env, List.getElem?_set, Ne.symm hq]
    | some t =>
      rw [ht] at hrun
      simp only at hrun
      cases hen : h.env e with
      | none =>
        have : (h.call (EngineCall.taos_close t)).env e = none := hen
        rw [this] at hrun
        split_ifs at hrun
      | some env =>
        have : (h.call (EngineCall.taos_close t)).env e = some env := hen
        rw [this] at hrun
        simp only at hrun
        split_ifs at hrun
        simp only [Outcome.ret.injEq] at hrun
        obtain ⟨hr, hh⟩ := hrun
        subst hh
        refine ⟨hr.symm, ?_, rfl, ?_, by simp [Heap.set_conn, Heap.set_env, Heap.call]⟩
        · simp [Heap.conn, Heap.set_conn, Heap.set_env, Heap.call, hlt]
        · intro q hq
          simp [Heap.conn, Heap.set_conn, Heap.set_env, Heap.call, List.getElem?_set,
            Ne.symm hq]

theorem demo_heap1_connected (sql : sql_t) (hc : sql.conn = some 0) :
    Connected (demo_heap1 sql) 0 sql :=
  ⟨rfl, ⟨0, _, 7, hc, rfl, rfl⟩⟩

end Todbc
namespace Todbc

/-! ## The teardown that opens the execution calls -/

theorem prepare_factors {h : Heap} {s : Nat} {sql : sql_t} (hc : Connected h s sql)
    (text : Option Bytes) (len : Int) (stmt : Option Nat) (terrno prepared : TsdbCode)
    (msg : Option String) :
    doSQLPrepare h (some s) text len stmt terrno prepared msg
      = doSQLPrepare ((reset_statement h sql).1.set_sql s (some (reset_statement h sql).2))
          (some s) text len stmt terrno prepared msg := by
  obtain ⟨c, conn, t, c1, c2, c3⟩ := hc.connected
  have hcc := check_connection_ok msg c1 c2 c3
  have hlt : s < h.sqls.length := Heap.sql_lt hc.live
  have hR : release_stmt_params (release_result h sql).1 (release_result h sql).2
      = reset_statement h sql := rfl
  obtain ⟨_, r1, r2, r3, _, _, r4, r5, r6, r7, r8⟩ := reset_statement_fields h sql
  have hlive : ((reset_statement h sql).1.set_sql s (some (reset_statement h sql).2)).sql s
      = some (reset_statement h sql).2 :=
    Heap.sql_set_sql_same (by rw [r2]; exact hlt) _
  have hcc2 : check_connection ((reset_statement h sql).1.set_sql s
      (some (reset_statement h sql).2)) (reset_statement h sql).2 msg = some (Except.ok t) :=
    check_connection_ok msg (r3.trans c1)
      (by rw [Heap.conn_set_sql, Heap.conn_of_conns_eq r1]; exact c2) c3
  have hR2 : release_stmt_params
      (release_result ((reset_statement h sql).1.set_sql s (some (reset_statement h sql).2))
        (reset_statement h sql).2).1
      (release_result ((reset_statement h sql).1.set_sql s (some (reset_statement h sql).2))
        (reset_statement h sql).2).2
      = ((reset_statement h sql).1.set_sql s (some (reset_statement h sql).2),
          (reset_statement h sql).2) :=
    reset_statement_fixed _ _ r4 r5 r6 r7 r8
  unfold doSQLPrepare
  simp only [hc.live, hcc, hlive, hcc2, hR, hR2, Heap.set_sql_set_sql,
    ← Heap.call_set_sql]

theorem release_result_fixed (h : Heap) (sql : sql_t) (h1 : sql.rs = none) :
    release_result h sql = (h, sql) := by
  unfold release_result
  rw [h1]

theorem release_result_fields (h : Heap) (sql : sql_t) :
    (release_result h sql).1.conns = h.conns ∧ (release_result h sql).1.sqls = h.sqls
      ∧ (release_result h sql).2.conn = sql.conn ∧ (release_result h sql).2.rs = none
      ∧ (release_result h sql).2.stmt = sql.stmt := by
  unfold release_result
  cases hrs : sql.rs <;> simp [Heap.call, hrs]

theorem execute_factors {h : Heap} {s : Nat} {sql : sql_t} (hc : Connected h s sql)
    {st : Nat} (hst : sql.stmt = some st) (E : ExecuteEnv) (msg : Option String) :
    doSQLExecute h (some s) E msg
      = doSQLExecute ((release_result h sql).1.set_sql s (some (release_result h sql).2))
          (some s) E msg := by
  obtain ⟨c, conn, t, c1, c2, c3⟩ := hc.connected
  have hcc := check_connection_ok msg c1 c2 c3
  have hlt : s < h.sqls.length := Heap.sql_lt hc.live
  obtain ⟨r1, r2, r3, r4, r5⟩ := release_result_fields h sql
  have hlive : ((release_result h sql).1.set_sql s (some (release_result h sql).2)).sql s
      = some (release_result h sql).2 :=
    Heap.sql_set_sql_same (by rw [r2]; exact hlt) _
  have hcc2 : check_connection ((release_result h sql).1.set_sql s
      (some (release_result h sql).2)) (release_result h sql).2 msg = some (Except.ok t) :=
    check_connection_ok msg (r3.trans c1)
      (by rw [Heap.conn_set_sql, Heap.conn_of_conns_eq r1]; exact c2) c3
  have hR2 := release_result_fixed
    ((release_result h sql).1.set_sql s (some (release_result h sql).2))
    (release_result h sql).2 r4
  unfold doSQLExecute
  simp only [hc.live, hcc, hst, hlive, hcc2, r5, hR2]
  cases execute_binds E (release_result h sql).2 with
  | none => rfl
  | some res =>
    cases res with
    | error p => simp only [Heap.set_sql_set_sql]
    | ok sql2 =>
      simp only
      unfold execute_send
      split_ifs <;> simp only [Heap.set_sql_set_sql, ← Heap.call_set_sql]

/-- C21, as amended.  For a connected statement (whose row cursor, if set,
came from a result set).  The reset frees the result set and drops the row
cursor, closes the prepared handle and releases both parameter arrays with
`n_params` 0, in this order, and applied to a statement already reset it
changes nothing and calls nothing.  `doSQLExecDirect` and `doSQLPrepare` begin
with the reset: each gives what it gives on the statement already reset, and
whatever they return the objects are those of the reset with further engine
calls and a statement without parameter arrays.  `doSQLExecute` on a prepared
statement begins with the release of the result set and of the row cursor
only: it gives what it gives after that release, and whatever it returns the
statement keeps its prepared handle, its descriptor array, `n_params` and the
wire types of its bind structures. -/
theorem execution_resets_first (h : Heap) (s : Nat) (sql : sql_t) (hc : Connected h s sql)
    (hinv : sql.rs = none → sql.row = none) :
    ((reset_statement h sql).2
        = { sql with rs := none, row := none, stmt := none, binds := none, params := none,
                     n_params := 0 }
      ∧ (reset_statement h sql).1
        = { h with log := h.log
              ++ (sql.rs.map (fun x => EngineCall.taos_free_result x.id)).toList
              ++ (sql.stmt.map EngineCall.taos_stmt_close).toList }
      ∧ reset_statement (reset_statement h sql).1 (reset_statement h sql).2
        = reset_statement h sql)
    ∧ (∀ text len alloc_ok rs terrno msg,
        doSQLExecDirect h (some s) text len alloc_ok rs terrno msg
          = doSQLExecDirect
              ((reset_statement h sql).1.set_sql s (some (reset_statement h sql).2))
              (some s) text len alloc_ok rs terrno msg
        ∧ ∀ r h', doSQLExecDirect h (some s) text len alloc_ok rs terrno msg = Outcome.ret r h' →
          ∃ sql' cs, h' = (reset_statement h sql).1.after s sql' cs ∧ sql'.stmt = none
            ∧ sql'.params = none ∧ sql'.binds = none ∧ sql'.n_params = 0)
    ∧ (∀ text len stmt terrno prepared msg,
        doSQLPrepare h (some s) text len stmt terrno prepared msg
          = doSQLPrepare
              ((reset_statement h sql).1.set_sql s (some (reset_statement h sql).2))
              (some s) text len stmt terrno prepared msg
        ∧ ∀ r h', doSQLPrepare h (some s) text len stmt terrno prepared msg = Outcome.ret r h' →
          ∃ sql' cs, h' = (reset_statement h sql).1.after s sql' cs
            ∧ sql'.params = none ∧ sql'.binds = none ∧ sql'.n_params = 0)
    ∧ (∀ st E msg, sql.stmt = some st →
        doSQLExecute h (some s) E msg
          = doSQLExecute
              ((release_result h sql).1.set_sql s (some (release_result h sql).2))
              (some s) E msg
        ∧ ∀ r h', doSQLExecute h (some s) E msg = Outcome.ret r h' →
          ∃ sql' cs, h' = (release_result h sql).1.after s sql' cs ∧ sql'.stmt = some st
            ∧ sql'.params = sql.params ∧ sql'.n_params = sql.n_params
            ∧ wire_types sql'.binds = wire_types sql.binds) := by
  have hlt : s < h.sqls.length := Heap.sql_lt hc.live
  obtain ⟨_, _, r2, _, _, _, _, r5, r6, r7, r8⟩ := reset_statement_fields h sql
  have hlive : ((reset_statement h sql).1.set_sql s (some (reset_statement h sql).2)).sql s
      = some (reset_statement h sql).2 :=
    Heap.sql_set_sql_same (by rw [r2]; exact hlt) _
  refine ⟨⟨(reset_statement_spec h sql hinv).1, (reset_statement_spec h sql hinv).2,
    reset_statement_idem h sql⟩, ?_, ?_, ?_⟩
  · intro text len alloc_ok rs terrno msg
    refine ⟨exec_direct_factors hc _ _ _ _ _ _, ?_⟩
    intro r h' hrun
    rw [exec_direct_factors hc] at hrun
    obtain ⟨sql', cs, e1, _, _, _, _, _, e7⟩ := exec_direct_effect hlive hrun
    rw [Heap.after_set_sql] at e1
    refine ⟨sql', cs, e1, ?_⟩
    rcases e7 with ⟨a1, a2, a3, a4⟩ | ⟨a1, a2, a3, a4⟩
    · exact ⟨a1.trans r5, a2.trans r7, a3.trans r6, a4.trans r8⟩
    · exact ⟨a1, a2, a3, a4⟩
  · intro text len stmt terrno prepared msg
    refine ⟨prepare_factors hc _ _ _ _ _ _, ?_⟩
    intro r h' hrun
    rw [prepare_factors hc] at hrun
    obtain ⟨sql', cs, e1, _, _, _, _, _, _, e8⟩ := prepare_effect hlive hrun
    rw [Heap.after_set_sql] at e1
    refine ⟨sql', cs, e1, ?_⟩
    rcases e8 with ⟨_, a2, a3, a4⟩ | ⟨a2, a3, a4⟩
    · exact ⟨a2.trans r7, a3.trans r6, a4.trans r8⟩
    · exact ⟨a2, a3, a4⟩
  · intro st E msg hst
    refine ⟨execute_factors hc hst E msg, ?_⟩
    intro r h' hrun
    rw [execute_factors hc hst] at hrun
    obtain ⟨q1, q2, q3, q4, q5⟩ := release_result_fields h sql
    have hlive2 : ((release_result h sql).1.set_sql s (some (release_result h sql).2)).sql s
        = some (release_result h sql).2 :=
      Heap.sql_set_sql_same (by rw [q2]; exact hlt) _
    obtain ⟨sql', cs, e1, _, _, e4, e5, e6, e7, _⟩ := execute_effect hlive2 hrun
    rw [Heap.after_set_sql] at e1
    have hk := release_result_eq h sql
    refine ⟨sql', cs, e1, e4.trans (q5.trans hst), ?_, ?_, ?_⟩
    · rw [e5, hk]
    · rw [e6, hk]
    · rw [e7, hk]

/-- The failure of C21 as stated.  `doSQLExecute` on a prepared statement with
one bound parameter, accepted by the engine: the statement still holds its
prepared handle, both parameter arrays and `n_params` 1 afterwards. -/
theorem execute_keeps_prepared_state :
    doSQLExecute (demo_heap1 demo_bound) (some 0) demo_env none
      = Outcome.ret SQLRETURN.SQL_SUCCESS
          ((demo_heap1 demo_bound).after 0
            { refcount := 1, conn := some 0, stmt := some 3,
              binds := some [{ buffer_type := 4, buffer := some 100, buffer_length := 4,
                               length := some 16, is_null := some 2 }],
              params := some [demo_param], n_params := 1 }
            [EngineCall.taos_stmt_bind_param 3
                (some [{ buffer_type := 4, buffer := some 100, buffer_length := 4,
                         length := some 16, is_null := some 2 }]),
              EngineCall.taos_stmt_add_batch 3, EngineCall.taos_stmt_execute 3,
              EngineCall.taos_stmt_use_result 3]) := by
  rfl

/-- Witness of the amended C21: the reset of the prepared statement
`demo_bound`. -/
theorem execution_resets_first_witness :
    (reset_statement (demo_heap1 demo_bound) demo_bound).2
      = { demo_bound with rs := none, row := none, stmt := none, binds := none, params := none,
                          n_params := 0 } :=
  (execution_resets_first (demo_heap1 demo_bound) 0 demo_bound
    (demo_heap1_connected demo_bound (by rfl)) (fun _ => by rfl)).1.1

end Todbc
namespace Todbc

/-! ## Validation of the column number -/

/-- C22.  For a statement with a current row, every target type, buffer,
buffer length and indicator: without field metadata (no column, or no field
array) `doSQLGetData` fails with `TSDB_CODE_MND_FIELD_NOT_EXIST` for every
column number; with `c >= 1` columns it fails with
`TSDB_CODE_COM_OPS_NOT_SUPPORT` for column 0 and with `TSDB_CODE_TSC_APP_ERROR`
for every column number above `c`, and for `1 <= col <= c` it passes the
validation and reads the cell `col - 1` of the row (a null cell is answered
with the indicator, any other goes to the conversion with the field
descriptor `col - 1`).  Each failure returns `SQL_ERROR`, records the code on
the statement and leaves the target buffer and the indicator as they were. -/
theorem column_number_validation {D F : Type} (L : LibC D F) (h : Heap) (s : Nat) (sql : sql_t)
    (rs : TAOS_RES) (row : TAOS_ROW) (ct : Int) (buf : Bytes) (len : Int) (soi : Option Int)
    (msg : Option String) (hrow : HasCurrentRow h s sql rs row) :
    (∀ col, rs.field_count = 0 ∨ rs.fields = none →
      doSQLGetData L h (some s) col ct (some buf) len soi msg
        = Outcome.ret SQLRETURN.SQL_ERROR
            (h.set_sql s (some { sql with
              err := SET_ERROR sql.err "HY000" TsdbCode.TSDB_CODE_MND_FIELD_NOT_EXIST msg }),
              some buf, soi))
    ∧ (1 ≤ rs.field_count → rs.fields ≠ none →
        doSQLGetData L h (some s) 0 ct (some buf) len soi msg
          = Outcome.ret SQLRETURN.SQL_ERROR
              (h.set_sql s (some { sql with
                err := SET_ERROR sql.err "HY000" TsdbCode.TSDB_CODE_COM_OPS_NOT_SUPPORT msg }),
                some buf, soi)
        ∧ (∀ col : Nat, rs.field_count < col →
            doSQLGetData L h (some s) col ct (some buf) len soi msg
              = Outcome.ret SQLRETURN.SQL_ERROR
                  (h.set_sql s (some { sql with
                    err := SET_ERROR sql.err "HY000" TsdbCode.TSDB_CODE_TSC_APP_ERROR msg }),
                    some buf, soi))
        ∧ (∀ col field cell, ValidColumn rs row col field cell →
            doSQLGetData L h (some s) col ct (some buf) len soi msg
              = match cell with
                | none =>
                  Outcome.ret SQLRETURN.SQL_SUCCESS
                    (h, some buf, soi.map (fun _ => SQL_NULL_DATA))
                | some bytes =>
                  store_back h s
                    (dispatch L sql
                      { col := col, ct := ct, ptr := some buf, len := len, soi := soi }
                      field bytes msg))) := by
  obtain ⟨c, conn, t, h1, h2, h3⟩ := hrow.connected
  have hcc := check_connection_ok msg h1 h2 h3
  refine ⟨?_, ?_⟩
  · intro col hno
    have hnf : rs.field_count = 0 ∨ rs.fields.isNone = true := by
      rcases hno with hx | hx
      · exact Or.inl hx
      · right; rw [hx]; rfl
    unfold doSQLGetData
    simp only [hrow.live, hcc, hrow.result, hrow.cursor, Option.isNone_some,
      Bool.false_eq_true, if_false, if_pos hnf]
  · intro hc hf
    have hnf : ¬ (rs.field_count = 0 ∨ rs.fields.isNone = true) := by
      intro hx
      rcases hx with hx | hx
      · omega
      · cases hfs : rs.fields with
        | none => exact hf hfs
        | some fs => rw [hfs] at hx; simp at hx
    refine ⟨?_, ?_, ?_⟩
    · unfold doSQLGetData
      simp only [hrow.live, hcc, hrow.result, hrow.cursor, Option.isNone_some,
        Bool.false_eq_true, if_false, if_neg hnf]
      simp
    · intro col hgt
      have hneg : ¬ ((col : Int) < 0) := by omega
      have hz : ¬ (col = 0) := by omega
      have hgt2 : (col : Int) > rs.field_count := hgt
      unfold doSQLGetData
      simp only [hrow.live, hcc, hrow.result, hrow.cursor, Option.isNone_some,
        Bool.false_eq_true, if_false, if_neg hnf, if_neg hneg, if_neg hz, if_pos hgt2]
    · intro col field cell hcol
      rw [doSQLGetData_cell L ct buf len soi msg hrow hcol]
      cases cell <;> rfl

/-- Witness of C22: on `demo_fetch` (five columns) column 0 is refused as
unsupported and column 6 as an overflow, the buffer and the indicator kept. -/
theorem column_number_validation_witness :
    doSQLGetData dec_libc demo_fetch (some 0) 0 SQL_C_LONG (some [9, 9, 9, 9]) 4 (some 77) none
        = Outcome.ret SQLRETURN.SQL_ERROR
            (demo_fetch.set_sql 0 (some { demo_sql with
              err := SET_ERROR demo_sql.err "HY000" TsdbCode.TSDB_CODE_COM_OPS_NOT_SUPPORT none }),
              some [9, 9, 9, 9], some 77)
      ∧ doSQLGetData dec_libc demo_fetch (some 0) 6 SQL_C_LONG (some [9, 9, 9, 9]) 4 (some 77)
          none
        = Outcome.ret SQLRETURN.SQL_ERROR
            (demo_fetch.set_sql 0 (some { demo_sql with
              err := SET_ERROR demo_sql.err "HY000" TsdbCode.TSDB_CODE_TSC_APP_ERROR none }),
              some [9, 9, 9, 9], some 77) :=
  ⟨((column_number_validation dec_libc demo_fetch 0 demo_sql demo_rs demo_row SQL_C_LONG
      [9, 9, 9, 9] 4 (some 77) none demo_fetch_row).2 (by decide) (by decide)).1,
   ((column_number_validation dec_libc demo_fetch 0 demo_sql demo_rs demo_row SQL_C_LONG
      [9, 9, 9, 9] 4 (some 77) none demo_fetch_row).2 (by decide) (by decide)).2.1 6
      (by decide)⟩

end Todbc
namespace Todbc

/-! ## A call that returns `SQL_SUCCESS` leaves the error contexts alone -/

theorem errs_step_same {E E' : List (Option taos_error_t)} (h : E' = E) : errs_step E E' :=
  Or.inl h

theorem errs_step_push {E E' : List (Option taos_error_t)}
    (h : E' = E ++ [some ({} : taos_error_t)]) : errs_step E E' :=
  Or.inr (Or.inl h)

theorem errs_step_free {E E' : List (Option taos_error_t)} (p : Nat) (h : E' = E.set p none) :
    errs_step E E' :=
  Or.inr (Or.inr ⟨p, h⟩)

theorem errs_of_set_same {α : Type} (err : α → taos_error_t) {xs : List (Option α)} {p : Nat}
    {a : α} (b : α) (hx : xs[p]? = some (some a)) (hb : err b = err a) :
    errs_of err (xs.set p (some b)) = errs_of err xs :=
  map_set_same (Option.map err) xs p (some a) (some b) hx (by simp only [Option.map_some', hb])

theorem errs_of_get {α : Type} (err : α → taos_error_t) (xs : List (Option α)) (p : Nat) :
    ((errs_of err xs)[p]?).join = ((xs[p]?).join).map err := by
  unfold errs_of
  rw [List.getElem?_map]
  cases xs[p]? with
  | none => rfl
  | some x => cases x <;> rfl

theorem errs_step_get {α : Type} (err : α → taos_error_t) {xs ys : List (Option α)}
    (hstep : errs_step (errs_of err xs) (errs_of err ys)) (p : Nat) (b : α)
    (hb : (ys[p]?).join = some b) :
    match (xs[p]?).join with
    | some a => err b = err a
    | none => err b = ({} : taos_error_t) := by
  have hy := errs_of_get err ys p
  have hx := errs_of_get err xs p
  have hlen : (errs_of err xs).length = xs.length := by simp only [errs_of, List.length_map]
  rw [hb] at hy
  simp only [Option.map_some'] at hy
  cases hxa : (xs[p]?).join with
  | none =>
    rw [hxa] at hx
    simp only [Option.map_none'] at hx
    show err b = _
    rcases hstep with he | he | ⟨q, he⟩
    · rw [he, hx] at hy; cases hy
    · rw [he, List.getElem?_append] at hy
      split_ifs at hy with hlt
      · rw [hx] at hy; cases hy
      · by_cases hp : p - (errs_of err xs).length = 0
        · rw [hp] at hy
          simp only [List.getElem?_cons_zero, Option.join, Option.some_bind, id,
            Option.some.injEq] at hy
          exact hy.symm
        · obtain ⟨k, hk⟩ := Nat.exists_eq_succ_of_ne_zero hp
          rw [hk] at hy
          simp at hy
    · rw [he, List.getElem?_set] at hy
      split_ifs at hy
      · cases hy
      · cases hy
      · rw [hx] at hy; cases hy
  | some a =>
    rw [hxa] at hx
    simp only [Option.map_some'] at hx
    show err b = err a
    rcases hstep with he | he | ⟨q, he⟩
    · rw [he, hx] at hy
      exact (Option.some.inj hy).symm
    · rw [he, List.getElem?_append] at hy
      split_ifs at hy with hlt
      · rw [hx] at hy
        exact (Option.some.inj hy).symm
      · have hn : xs[p]? = none := List.getElem?_eq_none (by omega)
        rw [hn] at hxa
        cases hxa
    · rw [he, List.getElem?_set] at hy
      split_ifs at hy
      · cases hy
      · cases hy
      · rw [hx] at hy
        exact (Option.some.inj hy).symm

theorem Heap.errs_step_refl (h : Heap) : h.errs_step h := ⟨errs_step_same rfl, errs_step_same rfl, errs_step_same rfl⟩

theorem Heap.errs_step_after {h : Heap} {s : Nat} {sql sql' : sql_t} (cs : List EngineCall)
    (hs : h.sql s = some sql) (he : sql'.err = sql.err) : h.errs_step (h.after s sql' cs) :=
  ⟨errs_step_same rfl, errs_step_same rfl, errs_step_same (errs_of_set_same sql_t.err sql' (Heap.sql_eq_some.mp hs) he)⟩

theorem Heap.errs_step_set_sql {h : Heap} {s : Nat} {sql sql' : sql_t}
    (hs : h.sql s = some sql) (he : sql'.err = sql.err) :
    h.errs_step (h.set_sql s (some sql')) :=
  ⟨errs_step_same rfl, errs_step_same rfl, errs_step_same (errs_of_set_same sql_t.err sql' (Heap.sql_eq_some.mp hs) he)⟩

theorem alloc_env_errs {h h' : Heap} {calloc_ok : Bool} {p : Option Nat}
    (hrun : doSQLAllocEnv h calloc_ok = Outcome.ret SQLRETURN.SQL_SUCCESS (h', p)) :
    h.errs_step h' := by
  unfold doSQLAllocEnv at hrun
  obtain ⟨p1, p2, p3⟩ := pthread_once_init_stores h
  simp only at hrun
  split_ifs at hrun
  all_goals first | (cases hrun; done) | skip
  simp only [Outcome.ret.injEq, Prod.mk.injEq, true_and] at hrun
  obtain ⟨rfl, -⟩ := hrun
  refine ⟨errs_step_push ?_, errs_step_same ?_, errs_step_same ?_⟩
  · simp only [Heap.set_env, Heap.push_env, p1, set_length_append]
    simp only [errs_of, List.map_append, List.map_cons, List.map_nil, Option.map_some']
    rfl
  · simp only [Heap.set_env, Heap.push_env, p2]
  · simp only [Heap.set_env, Heap.push_env, p3]

theorem free_env_errs {h h' : Heap} {e : Option Nat}
    (hrun : doSQLFreeEnv h e = Outcome.ret SQLRETURN.SQL_SUCCESS h') : h.errs_step h' := by
  unfold doSQLFreeEnv at hrun
  cases e with
  | none => cases hrun
  | some p =>
    simp only at hrun
    cases he : h.env p with
    | none => rw [he] at hrun; cases hrun
    | some env =>
      rw [he] at hrun
      simp only at hrun
      split_ifs at hrun
      simp only [Outcome.ret.injEq, true_and] at hrun
      subst hrun
      refine ⟨errs_step_free p ?_, errs_step_same rfl, errs_step_same rfl⟩
      simp only [Heap.set_env, List.set_set, errs_of, List.map_set, Option.map_none']

theorem alloc_connect_errs {h h' : Heap} {e : Option Nat} {calloc_ok : Bool}
    {msg : Option String} {p : Option Nat}
    (hrun : doSQLAllocConnect h e calloc_ok msg = Outcome.ret SQLRETURN.SQL_SUCCESS (h', p)) :
    h.errs_step h' := by
  unfold doSQLAllocConnect at hrun
  cases e with
  | none => cases hrun
  | some e =>
    simp only at hrun
    cases he : h.env e with
    | none => rw [he] at hrun; cases hrun
    | some env =>
      rw [he] at hrun
      simp only at hrun
      split_ifs at hrun
      all_goals first | (cases hrun; done) | skip
      simp only [Outcome.ret.injEq, Prod.mk.injEq, true_and] at hrun
      obtain ⟨rfl, -⟩ := hrun
      refine ⟨errs_step_same ?_, errs_step_push ?_, errs_step_same rfl⟩
      · exact errs_of_set_same env_t.err _ (Heap.env_eq_some.mp he) rfl
      · simp only [Heap.set_env, Heap.push_conn, errs_of, List.map_append, List.map_cons,
          List.map_nil, Option.map_some']

theorem free_connect_errs {h h' : Heap} {c : Option Nat}
    (hrun : doSQLFreeConnect h c = Outcome.ret SQLRETURN.SQL_SUCCESS h') : h.errs_step h' := by
  unfold doSQLFreeConnect at hrun
  cases c with
  | none => cases hrun
  | some c =>
    simp only at hrun
    cases hc : h.conn c with
    | none => rw [hc] at hrun; cases hrun
    | some conn =>
      rw [hc] at hrun
      simp only at hrun
      cases hce : conn.env with
      | none => rw [hce] at hrun; split_ifs at hrun
      | some e =>
        rw [hce] at hrun
        simp only [Heap.env_set_conn] at hrun
        cases ht : conn.taos with
        | none =>
          rw [ht] at hrun
          simp only at hrun
          cases he : h.env e with
          | none => rw [he] at hrun; split_ifs at hrun
          | some env =>
            rw [he] at hrun
            simp only at hrun
            split_ifs at hrun
            simp only [Outcome.ret.injEq, true_and] at hrun
            subst hrun
            refine ⟨errs_step_same ?_, errs_step_free c ?_, errs_step_same rfl⟩
            · exact errs_of_set_same env_t.err _ (Heap.env_eq_some.mp he) rfl
            · simp only [Heap.set_env, Heap.set_conn, List.set_set, errs_of, List.map_set,
                Option.map_none']
        | some t =>
          rw [ht] at hrun
          simp only [Heap.env_call] at hrun
          cases he : h.env e with
          | none => rw [he] at hrun; split_ifs at hrun
          | some env =>
            rw [he] at hrun
            simp only at hrun
            split_ifs at hrun
            simp only [Outcome.ret.injEq, true_and] at hrun
            subst hrun
            refine ⟨errs_step_same ?_, errs_step_free c ?_, errs_step_same rfl⟩
            · exact errs_of_set_same env_t.err _ (Heap.env_eq_some.mp he) rfl
            · simp only [Heap.set_env, Heap.set_conn, Heap.call, List.set_set, errs_of,
                List.map_set, Option.map_none']

theorem connect_errs {h h' : Heap} {c : Option Nat} {s1 s2 s3 : Option Bytes} {n1 n2 n3 : Int}
    {a1 a2 a3 : Bool} {taos : Option Nat} {terrno : TsdbCode} {msg : Option String}
    (hrun : doSQLConnect h c s1 n1 s2 n2 s3 n3 a1 a2 a3 taos terrno msg
      = Outcome.ret SQLRETURN.SQL_SUCCESS h') : h.errs_step h' := by
  unfold doSQLConnect at hrun
  cases c with
  | none => cases hrun
  | some c =>
    simp only at hrun
    cases hc : h.conn c with
    | none => rw [hc] at hrun; cases hrun
    | some conn =>
      rw [hc] at hrun
      simp only at hrun
      repeat' split at hrun
      all_goals first | (cases hrun; done) | skip
      simp only [Outcome.ret.injEq, true_and] at hrun
      subst hrun
      exact ⟨errs_step_same rfl,
        errs_step_same (errs_of_set_same conn_t.err _ (Heap.conn_eq_some.mp hc) rfl),
        errs_step_same rfl⟩

theorem disconnect_errs {h h' : Heap} {c : Option Nat}
    (hrun : doSQLDisconnect h c = Outcome.ret SQLRETURN.SQL_SUCCESS h') : h.errs_step h' := by
  unfold doSQLDisconnect at hrun
  cases c with
  | none => cases hrun
  | some c =>
    simp only at hrun
    cases hc : h.conn c with
    | none => rw [hc] at hrun; cases hrun
    | some conn =>
      rw [hc] at hrun
      simp only at hrun
      cases ht : conn.taos with
      | none =>
        rw [ht] at hrun
        simp only [Outcome.ret.injEq, true_and] at hrun
        subst hrun
        exact h.errs_step_refl
      | some t =>
        rw [ht] at hrun
        simp only [Outcome.ret.injEq, true_and] at hrun
        subst hrun
        exact ⟨errs_step_same rfl,
          errs_step_same (errs_of_set_same conn_t.err _ (Heap.conn_eq_some.mp hc) rfl),
          errs_step_same rfl⟩

theorem alloc_stmt_errs {h h' : Heap} {c : Option Nat} {calloc_ok : Bool}
    {msg : Option String} {p : Option Nat}
    (hrun : doSQLAllocStmt h c calloc_ok msg = Outcome.ret SQLRETURN.SQL_SUCCESS (h', p)) :
    h.errs_step h' := by
  unfold doSQLAllocStmt at hrun
  cases c with
  | none => cases hrun
  | some c =>
    simp only at hrun
    cases hc : h.conn c with
    | none => rw [hc] at hrun; cases hrun
    | some conn =>
      rw [hc] at hrun
      simp only at hrun
      split_ifs at hrun
      all_goals first | (cases hrun; done) | skip
      simp only [Outcome.ret.injEq, Prod.mk.injEq, true_and] at hrun
      obtain ⟨rfl, -⟩ := hrun
      refine ⟨errs_step_same rfl, errs_step_same ?_, errs_step_push ?_⟩
      · exact errs_of_set_same conn_t.err _ (Heap.conn_eq_some.mp hc) rfl
      · simp only [Heap.set_conn, Heap.push_sql, errs_of, List.map_append, List.map_cons,
          List.map_nil, Option.map_some']

theorem free_stmt_errs {h h' : Heap} {s : Option Nat} {o : Nat} {msg : Option String}
    (hrun : doSQLFreeStmt h s o msg = Outcome.ret SQLRETURN.SQL_SUCCESS h') :
    h.errs_step h' := by
  cases s with
  | none => unfold doSQLFreeStmt at hrun; cases hrun
  | some s =>
    by_cases hclose : o = SQL_CLOSE
    · unfold doSQLFreeStmt at hrun
      simp only [if_pos hclose, Outcome.ret.injEq, true_and] at hrun
      subst hrun
      exact h.errs_step_refl
    · cases hs : h.sql s with
      | none =>
        unfold doSQLFreeStmt at hrun
        simp only [if_neg hclose, hs] at hrun
        cases hrun
      | some sql =>
        by_cases hdrop : o = SQL_DROP
        · subst hdrop
          obtain ⟨-, -, he, hq, ⟨c, conn, -, hc, hcs⟩, -⟩ := drop_effect hs hrun
          refine ⟨errs_step_same (by rw [he]), errs_step_same ?_, errs_step_free s ?_⟩
          · rw [hcs]
            exact errs_of_set_same conn_t.err _ (Heap.conn_eq_some.mp hc) rfl
          · rw [hq]
            simp only [errs_of, List.map_set, Option.map_none']
        · unfold doSQLFreeStmt at hrun
          simp only [if_neg hclose, hs, ne_eq, hdrop, not_false_eq_true, if_true] at hrun
          cases hrun

theorem exec_direct_errs {h h' : Heap} {s : Option Nat} {text : Option Bytes} {len : Int}
    {alloc_ok : Bool} {rs : Option TAOS_RES} {terrno : TsdbCode} {msg : Option String}
    (hrun : doSQLExecDirect h s text len alloc_ok rs terrno msg
      = Outcome.ret SQLRETURN.SQL_SUCCESS h') : h.errs_step h' := by
  cases s with
  | none => unfold doSQLExecDirect at hrun; cases hrun
  | some s =>
    cases hs : h.sql s with
    | none => unfold doSQLExecDirect at hrun; simp only [hs] at hrun; cases hrun
    | some sql =>
      obtain ⟨sql', cs, rfl, -, -, he, -⟩ := exec_direct_effect hs hrun
      exact Heap.errs_step_after cs hs (he rfl)

theorem prepare_errs {h h' : Heap} {s : Option Nat} {text : Option Bytes} {len : Int}
    {stmt : Option Nat} {terrno prepared : TsdbCode} {msg : Option String}
    (hrun : doSQLPrepare h s text len stmt terrno prepared msg
      = Outcome.ret SQLRETURN.SQL_SUCCESS h') : h.errs_step h' := by
  cases s with
  | none => unfold doSQLPrepare at hrun; cases hrun
  | some s =>
    cases hs : h.sql s with
    | none => unfold doSQLPrepare at hrun; simp only [hs] at hrun; cases hrun
    | some sql =>
      obtain ⟨sql', cs, rfl, -, -, he, -⟩ := prepare_effect hs hrun
      exact Heap.errs_step_after cs hs (he rfl)

theorem execute_errs {h h' : Heap} {s : Option Nat} {E : ExecuteEnv} {msg : Option String}
    (hrun : doSQLExecute h s E msg = Outcome.ret SQLRETURN.SQL_SUCCESS h') :
    h.errs_step h' := by
  cases s with
  | none => unfold doSQLExecute at hrun; cases hrun
  | some s =>
    cases hs : h.sql s with
    | none => unfold doSQLExecute at hrun; simp only [hs] at hrun; cases hrun
    | some sql =>
      obtain ⟨sql', cs, rfl, -, -, -, -, -, -, he, -⟩ := execute_effect hs hrun
      exact Heap.errs_step_after cs hs (he rfl)

theorem bind_parameter_errs {h h' : Heap} {s : Option Nat} {i : Nat} {dir vt pt : Int}
    {len : Nat} {scale : Int} {val : Option Nat} (cb : Int) {soi : Option Nat}
    {pm : Option (Nat → param_bind_t)} {bm : Option (Nat → TAOS_BIND)} {msg : Option String}
    (hrun : doSQLBindParameter h s i dir vt pt len scale val cb soi pm bm msg
      = Outcome.ret SQLRETURN.SQL_SUCCESS h') : h.errs_step h' := by
  cases s with
  | none => unfold doSQLBindParameter at hrun; cases hrun
  | some s =>
    cases hs : h.sql s with
    | none => unfold doSQLBindParameter at hrun; simp only [hs] at hrun; cases hrun
    | some sql =>
      obtain ⟨sql', rfl, -, hd⟩ := bind_parameter_effect hs hrun
      rcases hd with ⟨hr, -⟩ | ⟨-, he, -⟩
      · cases hr
      · exact Heap.errs_step_after [] hs he

theorem fetch_errs {h h' : Heap} {s : Option Nat} {msg : Option String}
    (hrun : doSQLFetch h s msg = Outcome.ret SQLRETURN.SQL_SUCCESS h') : h.errs_step h' := by
  unfold doSQLFetch at hrun
  cases s with
  | none => cases hrun
  | some s =>
    simp only at hrun
    cases hs : h.sql s with
    | none => rw [hs] at hrun; cases hrun
    | some sql =>
      rw [hs] at hrun
      simp only at hrun
      repeat' split at hrun
      all_goals first | (cases hrun; done) | skip
      simp only [Outcome.ret.injEq] at hrun
      obtain ⟨-, rfl⟩ := hrun
      exact ⟨errs_step_same rfl, errs_step_same rfl,
        errs_step_same (errs_of_set_same sql_t.err _ (Heap.sql_eq_some.mp hs) rfl)⟩

theorem get_data_errs {D F : Type} (L : LibC D F) {h : Heap} {s : Option Nat} {col : Nat}
    {ct : Int} {ptr : Option Bytes} {len : Int} {soi : Option Int} {msg : Option String}
    {st : GetDataState}
    (hrun : doSQLGetData L h s col ct ptr len soi msg = Outcome.ret SQLRETURN.SQL_SUCCESS st) :
    h.errs_step st.1 := by
  unfold doSQLGetData at hrun
  cases s with
  | none => cases hrun
  | some s =>
    simp only at hrun
    cases hs : h.sql s with
    | none => rw [hs] at hrun; cases hrun
    | some sql =>
      rw [hs] at hrun
      simp only at hrun
      repeat' split at hrun
      all_goals first
        | (cases hrun; done)
        | (obtain ⟨sql', t', hd, rfl⟩ := store_back_ret hrun
           have hq := conv_clean_dispatch L _ _ _ _ _ _ _ hd
           subst hq
           exact Heap.errs_step_set_sql hs rfl)
        | (simp only [Outcome.ret.injEq, true_and] at hrun
           subst hrun
           exact h.errs_step_refl)

theorem run_errs {D F : Type} (L : LibC D F) {h h' : Heap} {op : Op} {msg : Option String}
    (hrun : op.run L h msg = Outcome.ret SQLRETURN.SQL_SUCCESS h') : h.errs_step h' := by
  cases op with
  | alloc_env calloc_ok =>
    simp only [Op.run] at hrun
    cases ho : doSQLAllocEnv h calloc_ok with
    | ret r st =>
      rw [ho] at hrun
      simp only [Outcome.map, Outcome.ret.injEq] at hrun
      obtain ⟨rfl, rfl⟩ := hrun
      exact alloc_env_errs ho
    | abort st => rw [ho] at hrun; cases hrun
    | fault => rw [ho] at hrun; cases hrun
  | free_env e => exact free_env_errs hrun
  | alloc_connect e calloc_ok =>
    simp only [Op.run] at hrun
    cases ho : doSQLAllocConnect h e calloc_ok msg with
    | ret r st =>
      rw [ho] at hrun
      simp only [Outcome.map, Outcome.ret.injEq] at hrun
      obtain ⟨rfl, rfl⟩ := hrun
      exact alloc_connect_errs ho
    | abort st => rw [ho] at hrun; cases hrun
    | fault => rw [ho] at hrun; cases hrun
  | free_connect c => exact free_connect_errs hrun
  | connect c s1 n1 s2 n2 s3 n3 a1 a2 a3 taos terrno => exact connect_errs hrun
  | disconnect c => exact disconnect_errs hrun
  | alloc_stmt c calloc_ok =>
    simp only [Op.run] at hrun
    cases ho : doSQLAllocStmt h c calloc_ok msg with
    | ret r st =>
      rw [ho] at hrun
      simp only [Outcome.map, Outcome.ret.injEq] at hrun
      obtain ⟨rfl, rfl⟩ := hrun
      exact alloc_stmt_errs ho
    | abort st => rw [ho] at hrun; cases hrun
    | fault => rw [ho] at hrun; cases hrun
  | free_stmt s o => exact free_stmt_errs hrun
  | exec_direct s txt n a rs terrno => exact exec_direct_errs hrun
  | prepare s txt n stmt terrno prepared => exact prepare_errs hrun
  | fetch s => exact fetch_errs hrun
  | get_data s col ct ptr len soi =>
    simp only [Op.run] at hrun
    cases ho : doSQLGetData L h s col ct ptr len soi msg with
    | ret r st =>
      rw [ho] at hrun
      simp only [Outcome.map, Outcome.ret.injEq] at hrun
      obtain ⟨rfl, rfl⟩ := hrun
      exact get_data_errs L ho
    | abort st => rw [ho] at hrun; cases hrun
    | fault => rw [ho] at hrun; cases hrun
  | execute s E => exact execute_errs hrun
  | bind_parameter s i dir vt pt len scale val cb soi pm bm =>
    exact bind_parameter_errs cb hrun

/-- C23, as amended.  No call clears an error context on success.  When a call
returns `SQL_SUCCESS`, every environment, connection and statement that is live
before and after it has the error context it had before the call, whatever an
earlier failed call has recorded there; and a handle that is live after the
call without having been live before it (the call has allocated it) has the
clear context: success code, no message, empty state code. -/
theorem success_keeps_error_context {D F : Type} (L : LibC D F) (h h' : Heap) (op : Op)
    (msg : Option String) (hrun : op.run L h msg = Outcome.ret SQLRETURN.SQL_SUCCESS h') :
    (∀ p env env1, h.env p = some env → h'.env p = some env1 → env1.err = env.err)
      ∧ (∀ p conn conn1, h.conn p = some conn → h'.conn p = some conn1 → conn1.err = conn.err)
      ∧ (∀ p sql sql1, h.sql p = some sql → h'.sql p = some sql1 → sql1.err = sql.err)
      ∧ (∀ p env1, h.env p = none → h'.env p = some env1 → env1.err = {})
      ∧ (∀ p conn1, h.conn p = none → h'.conn p = some conn1 → conn1.err = {})
      ∧ (∀ p sql1, h.sql p = none → h'.sql p = some sql1 → sql1.err = {}) := by
  obtain ⟨k1, k2, k3⟩ := run_errs L hrun
  refine ⟨?_, ?_, ?_, ?_, ?_, ?_⟩
  · intro p x y hx hy
    have k := errs_step_get env_t.err k1 p y hy
    rw [show (h.envs[p]?).join = some x from hx] at k
    exact k
  · intro p x y hx hy
    have k := errs_step_get conn_t.err k2 p y hy
    rw [show (h.conns[p]?).join = some x from hx] at k
    exact k
  · intro p x y hx hy
    have k := errs_step_get sql_t.err k3 p y hy
    rw [show (h.sqls[p]?).join = some x from hx] at k
    exact k
  · intro p y hx hy
    have k := errs_step_get env_t.err k1 p y hy
    rw [show (h.envs[p]?).join = none from hx] at k
    exact k
  · intro p y hx hy
    have k := errs_step_get conn_t.err k2 p y hy
    rw [show (h.conns[p]?).join = none from hx] at k
    exact k
  · intro p y hx hy
    have k := errs_step_get sql_t.err k3 p y hy
    rw [show (h.sqls[p]?).join = none from hx] at k
    exact k

/-- The failure of C23 as stated.  In a process that has allocated an
environment, a connection (then connected) and a statement, `doSQLFetch` fails
for want of a result set and records its error on the statement; the
`doSQLExecDirect` that follows returns `SQL_SUCCESS`, and the error context of
the statement still holds the code, the state code and the message of the
failed fetch. -/
theorem failure_record_survives_success :
    ∃ h0 h1 h2, Reachable dec_libc h0
      ∧ doSQLFetch h0 (some 0) (some "no result set") = Outcome.ret SQLRETURN.SQL_ERROR h1
      ∧ doSQLExecDirect h1 (some 0) (some [115, 101, 108, 101, 99, 116, 32, 49, 0]) 8 true
          (some { id := 9 }) TsdbCode.TSDB_CODE_SUCCESS none
          = Outcome.ret SQLRETURN.SQL_SUCCESS h2
      ∧ (h2.sql 0).map (fun sql => sql.err)
          = some { err_str := some "no result set",
                   err_no := TsdbCode.TSDB_CODE_TSC_QUERY_CACHE_ERASED, sql_state := "HY000" } := by
  have r1 : Reachable dec_libc _ :=
    Reachable.step (L := dec_libc) (h := {}) (Op.alloc_env true) none SQLRETURN.SQL_SUCCESS
      Reachable.init rfl
  have r2 : Reachable dec_libc _ :=
    Reachable.step (L := dec_libc) (Op.alloc_connect (some 0) true) none SQLRETURN.SQL_SUCCESS
      r1 rfl
  have r3 : Reachable dec_libc _ :=
    Reachable.step (L := dec_libc)
      (Op.connect (some 0) none 0 none 0 none 0 true true true (some 7)
        TsdbCode.TSDB_CODE_SUCCESS) none SQLRETURN.SQL_SUCCESS r2 rfl
  have r4 : Reachable dec_libc _ :=
    Reachable.step (L := dec_libc) (Op.alloc_stmt (some 0) true) none SQLRETURN.SQL_SUCCESS
      r3 rfl
  exact ⟨_, _, _, r4, rfl, rfl, rfl⟩

/-- Witness of the amended C23: `doSQLExecDirect` returns `SQL_SUCCESS` on the
statement `demo_failed`, whose error context still is the one of the failed
fetch afterwards. -/
theorem success_keeps_error_context_witness :
    Op.run dec_libc (demo_heap1 demo_failed) none
        (Op.exec_direct (some 0) (some [115, 101, 108, 101, 99, 116, 32, 49, 0]) 8 true
          (some { id := 9 }) TsdbCode.TSDB_CODE_SUCCESS)
        = Outcome.ret SQLRETURN.SQL_SUCCESS
            ((demo_heap1 demo_failed).after 0 { demo_failed with rs := some { id := 9 } }
              [EngineCall.taos_query 7 (some [115, 101, 108, 101, 99, 116, 32, 49])])
      ∧ sql_t.err { demo_failed with rs := some { id := 9 } } = demo_failed.err :=
  ⟨rfl, (success_keeps_error_context dec_libc (demo_heap1 demo_failed) _
    (Op.exec_direct (some 0) (some [115, 101, 108, 101, 99, 116, 32, 49, 0]) 8 true
      (some { id := 9 }) TsdbCode.TSDB_CODE_SUCCESS) none rfl).2.2.1 0 demo_failed
    { demo_failed with rs := some { id := 9 } } rfl rfl⟩

end Todbc
namespace Todbc

/-! ## Native resources are released once -/

theorem calls_between_append (h h' : Heap) (cs : List EngineCall) (hl : h'.log = h.log ++ cs) :
    calls_between h h' = cs := by
  unfold calls_between
  rw [hl, List.drop_left]

theorem run_calls_cons {D F : Type} (L : LibC D F) {h h' : Heap} {op : Op}
    {msg : Option String} {ops : List (Op × Option String)} {handed : List Nat}
    (hrun : run_calls L h ((op, msg) :: ops) = some (h', handed)) :
    ∃ r h1 rest, op.run L h msg = Outcome.ret r h1 ∧ run_calls L h1 ops = some (h', rest)
      ∧ handed = op.handed h h1 ++ rest := by
  unfold run_calls at hrun
  cases ho : op.run L h msg with
  | fault => rw [ho] at hrun; cases hrun
  | abort x => rw [ho] at hrun; cases hrun
  | ret r h1 =>
    rw [ho] at hrun
    simp only at hrun
    cases hr : run_calls L h1 ops with
    | none => rw [hr] at hrun; cases hrun
    | some p =>
      rw [hr] at hrun
      simp only [Option.map_some', Option.some.injEq, Prod.mk.injEq] at hrun
      exact ⟨r, h1, p.2, rfl, (by rw [← hrun.1]; exact hr), hrun.2.symm⟩

theorem run_calls_dead_connection {D F : Type} (L : LibC D F) {h : Heap} {c : Nat}
    (hd : h.conn c = none) {ops : List (Op × Option String)} (hne : ops ≠ [])
    (hon : ∀ x ∈ ops, x.1.on_connection c = true) : run_calls L h ops = none := by
  cases ops with
  | nil => exact absurd rfl hne
  | cons x rest =>
    obtain ⟨op, msg⟩ := x
    have h1 := hon (op, msg) (List.mem_cons_self _ _)
    unfold run_calls
    cases op with
    | disconnect c1 =>
      cases c1 with
      | none => simp [Op.on_connection] at h1
      | some c1 =>
        simp only [Op.on_connection, decide_eq_true_eq] at h1
        subst h1
        simp [Op.run, doSQLDisconnect, hd]
    | free_connect c1 =>
      cases c1 with
      | none => simp [Op.on_connection] at h1
      | some c1 =>
        simp only [Op.on_connection, decide_eq_true_eq] at h1
        subst h1
        simp [Op.run, doSQLFreeConnect, hd]
    | _ => simp [Op.on_connection] at h1

theorem closes_once {D F : Type} (L : LibC D F) (c : Nat) (m : Option String) :
    ∀ (pre : List (Op × Option String)) (h h' : Heap) (conn : conn_t) (handed : List Nat),
      h.conn c = some conn → (∀ x ∈ pre, x.1.on_connection c = true) →
      run_calls L h (pre ++ [(Op.free_connect (some c), m)]) = some (h', handed) →
      ∃ cs, h'.log = h.log ++ cs ∧ closed_handles cs = conn.taos.toList := by
  intro pre
  induction pre with
  | nil =>
    intro h h' conn handed hc _ hrun
    obtain ⟨r, h1, rest, ho, hr, _⟩ := run_calls_cons L hrun
    simp only [run_calls, Option.some.injEq, Prod.mk.injEq] at hr
    obtain ⟨rfl, _⟩ := hr
    obtain ⟨_, _, _, _, e5⟩ := free_connect_effect hc ho
    refine ⟨_, e5, ?_⟩
    cases conn.taos <;> rfl
  | cons x pre ih =>
    intro h h' conn handed hc hon hrun
    obtain ⟨op, msg⟩ := x
    obtain ⟨r, h1, rest, ho, hr, _⟩ := run_calls_cons L hrun
    have h1on := hon (op, msg) (List.mem_cons_self _ _)
    have hrest : ∀ x ∈ pre ++ [(Op.free_connect (some c), m)], x.1.on_connection c = true := by
      intro x hx
      rcases List.mem_append.mp hx with hx | hx
      · exact hon x (List.mem_cons_of_mem _ hx)
      · simp only [List.mem_singleton] at hx
        subst hx
        simp [Op.on_connection]
    cases op with
    | free_connect c1 =>
      cases c1 with
      | none => simp [Op.on_connection] at h1on
      | some c1 =>
        simp only [Op.on_connection, decide_eq_true_eq] at h1on
        subst h1on
        obtain ⟨_, e2, _⟩ := free_connect_effect hc ho
        have hr2 : run_calls L h1 (pre ++ [(Op.free_connect (some c1), m)])
            = some (h', rest) := hr
        rw [run_calls_dead_connection L e2 (by simp) hrest] at hr2
        cases hr2
    | disconnect c1 =>
      cases c1 with
      | none => simp [Op.on_connection] at h1on
      | some c1 =>
        simp only [Op.on_connection, decide_eq_true_eq] at h1on
        subst h1on
        obtain ⟨_, e2, _, _, _, e6⟩ := disconnect_effect hc ho
        obtain ⟨cs, k1, k2⟩ := ih h1 h' _ rest e2
          (fun x hx => hon x (List.mem_cons_of_mem _ hx)) hr
        refine ⟨conn.taos.toList.map EngineCall.taos_close ++ cs, ?_, ?_⟩
        · rw [k1, e6, List.append_assoc]
        · rw [closed_handles_append, k2]
          cases conn.taos <;> rfl
    | _ => simp [Op.on_connection] at h1on

theorem run_calls_dead_statement {D F : Type} (L : LibC D F) {h : Heap} {s : Nat}
    (hd : h.sql s = none) {ops : List (Op × Option String)} (hne : ops ≠ [])
    (hon : ∀ x ∈ ops, x.1.on_statement s = true) : run_calls L h ops = none := by
  cases ops with
  | nil => exact absurd rfl hne
  | cons x rest =>
    obtain ⟨op, msg⟩ := x
    have h1 := hon (op, msg) (List.mem_cons_self _ _)
    unfold run_calls
    cases op with
    | exec_direct s1 a b c d e =>
      cases s1 with
      | none => simp [Op.on_statement] at h1
      | some s1 =>
        simp only [Op.on_statement, decide_eq_true_eq] at h1
        subst h1
        simp [Op.run, doSQLExecDirect, hd]
    | prepare s1 a b c d e =>
      cases s1 with
      | none => simp [Op.on_statement] at h1
      | some s1 =>
        simp only [Op.on_statement, decide_eq_true_eq] at h1
        subst h1
        simp [Op.run, doSQLPrepare, hd]
    | execute s1 E =>
      cases s1 with
      | none => simp [Op.on_statement] at h1
      | some s1 =>
        simp only [Op.on_statement, decide_eq_true_eq] at h1
        subst h1
        simp [Op.run, doSQLExecute, hd]
    | free_stmt s1 o =>
      cases s1 with
      | none => simp [Op.on_statement] at h1
      | some s1 =>
        simp only [Op.on_statement, Bool.and_eq_true, decide_eq_true_eq] at h1
        obtain ⟨h1, h2⟩ := h1
        subst h1 h2
        simp [Op.run, doSQLFreeStmt, hd, SQL_DROP, SQL_CLOSE]
    | _ => simp [Op.on_statement] at h1

theorem statement_step {D F : Type} (L : LibC D F) {h h1 : Heap} {s : Nat} {sql : sql_t}
    {op : Op} {msg : Option String} {r : SQLRETURN} (hs : h.sql s = some sql)
    (hon : op.on_statement s = true) (ho : op.run L h msg = Outcome.ret r h1) :
    ∃ cs, h1.log = h.log ++ cs
      ∧ ((h1.sql s = none ∧ freed_results cs = held_result sql.rs ∧ op.handed h h1 = [])
        ∨ ∃ sql1, h1.sql s = some sql1
            ∧ freed_results cs ++ held_result sql1.rs
                = held_result sql.rs ++ op.handed h h1) := by
  have hlt : s < h.sqls.length := Heap.sql_lt hs
  cases op with
  | exec_direct s1 a b c rs e =>
    cases s1 with
    | none => simp [Op.on_statement] at hon
    | some s1 =>
      simp only [Op.on_statement, decide_eq_true_eq] at hon
      subst hon
      obtain ⟨sql1, cs, e1, _, _, _, _, e6, _⟩ := exec_direct_effect hs ho
      subst e1
      refine ⟨cs, rfl, Or.inr ⟨sql1, Heap.sql_after hlt _ _, ?_⟩⟩
      simp only [Op.handed, Heap.after_log]
      exact e6
  | prepare s1 a b c d e =>
    cases s1 with
    | none => simp [Op.on_statement] at hon
    | some s1 =>
      simp only [Op.on_statement, decide_eq_true_eq] at hon
      subst hon
      obtain ⟨sql1, cs, e1, _, _, _, _, e6, _⟩ := prepare_effect hs ho
      subst e1
      refine ⟨cs, rfl, Or.inr ⟨sql1, Heap.sql_after hlt _ _, ?_⟩⟩
      simp only [Op.handed, ite_self, List.append_nil]
      exact e6
  | execute s1 E =>
    cases s1 with
    | none => simp [Op.on_statement] at hon
    | some s1 =>
      simp only [Op.on_statement, decide_eq_true_eq] at hon
      subst hon
      obtain ⟨sql1, cs, e1, _, _, _, _, _, _, _, _, e10⟩ := execute_effect hs ho
      subst e1
      refine ⟨cs, rfl, Or.inr ⟨sql1, Heap.sql_after hlt _ _, ?_⟩⟩
      simp only [Op.handed, Heap.after_log]
      exact e10
  | free_stmt s1 o =>
    cases s1 with
    | none => simp [Op.on_statement] at hon
    | some s1 =>
      simp only [Op.on_statement, Bool.and_eq_true, decide_eq_true_eq] at hon
      obtain ⟨hon, h2⟩ := hon
      subst hon h2
      obtain ⟨_, e2, _, _, _, cs, e6, e7, _⟩ := drop_effect hs ho
      refine ⟨cs, e6, Or.inl ⟨e2, e7, ?_⟩⟩
      simp only [Op.handed, ite_self]
  | _ => simp [Op.on_statement] at hon

theorem frees_once {D F : Type} (L : LibC D F) (s : Nat) (m : Option String) :
    ∀ (pre : List (Op × Option String)) (h h' : Heap) (sql : sql_t) (handed : List Nat),
      h.sql s = some sql → (∀ x ∈ pre, x.1.on_statement s = true) →
      run_calls L h (pre ++ [(Op.free_stmt (some s) SQL_DROP, m)]) = some (h', handed) →
      ∃ cs, h'.log = h.log ++ cs ∧ freed_results cs = held_result sql.rs ++ handed := by
  intro pre
  induction pre with
  | nil =>
    intro h h' sql handed hs _ hrun
    obtain ⟨r, h1, rest, ho, hr, hh⟩ := run_calls_cons L hrun
    simp only [run_calls, Option.some.injEq, Prod.mk.injEq] at hr
    obtain ⟨rfl, rfl⟩ := hr
    obtain ⟨cs, k1, k2⟩ := statement_step L hs (by simp [Op.on_statement]) ho
    obtain ⟨_, e2, _⟩ := drop_effect hs ho
    refine ⟨cs, k1, ?_⟩
    rcases k2 with ⟨_, k3, k4⟩ | ⟨sql1, k3, _⟩
    · rw [hh, k4, k3]
      simp
    · rw [e2] at k3; cases k3
  | cons x pre ih =>
    intro h h' sql handed hs hon hrun
    obtain ⟨op, msg⟩ := x
    obtain ⟨r, h1, rest, ho, hr, hh⟩ := run_calls_cons L hrun
    have hr2 : run_calls L h1 (pre ++ [(Op.free_stmt (some s) SQL_DROP, m)])
        = some (h', rest) := hr
    have h1on := hon (op, msg) (List.mem_cons_self _ _)
    have hrest : ∀ x ∈ pre ++ [(Op.free_stmt (some s) SQL_DROP, m)],
        x.1.on_statement s = true := by
      intro x hx
      rcases List.mem_append.mp hx with hx | hx
      · exact hon x (List.mem_cons_of_mem _ hx)
      · simp only [List.mem_singleton] at hx
        subst hx
        simp [Op.on_statement]
    obtain ⟨cs, k1, k2⟩ := statement_step L hs h1on ho
    rcases k2 with ⟨k3, _, _⟩ | ⟨sql1, k3, k4⟩
    · rw [run_calls_dead_statement L k3 (by simp) hrest] at hr2
      cases hr2
    · obtain ⟨cs2, j1, j2⟩ := ih h1 h' sql1 rest k3
        (fun x hx => hon x (List.mem_cons_of_mem _ hx)) hr2
      refine ⟨cs ++ cs2, ?_, ?_⟩
      · rw [j1, k1, List.append_assoc]
      · rw [freed_results_append, j2, hh, ← List.append_assoc, k4, List.append_assoc]

/-- C24.  Over calls that all return.  For a live connection and every
sequence of `doSQLDisconnect` and `doSQLFreeConnect` calls on it that ends with
`doSQLFreeConnect`, the calls of `taos_close` made on the way are exactly one
call on the native handle when the connection held one, and none when it held
none.  For a live statement and every sequence of `doSQLExecDirect`,
`doSQLPrepare`, `doSQLExecute` and `doSQLFreeStmt` with `SQL_DROP` calls on it
that ends with the drop, the calls of `taos_free_result` made on the way are,
in order, one for the result set held at the start and one for each result
object that the engine handed over on the way, and no other. -/
theorem native_resources_released_once {D F : Type} (L : LibC D F) (h h' : Heap)
    (pre : List (Op × Option String)) (m : Option String) (handed : List Nat) :
    (∀ c conn, h.conn c = some conn → (∀ x ∈ pre, x.1.on_connection c = true) →
      run_calls L h (pre ++ [(Op.free_connect (some c), m)]) = some (h', handed) →
      closed_handles (calls_between h h') = conn.taos.toList)
    ∧ (∀ s sql, h.sql s = some sql → (∀ x ∈ pre, x.1.on_statement s = true) →
      run_calls L h (pre ++ [(Op.free_stmt (some s) SQL_DROP, m)]) = some (h', handed) →
      freed_results (calls_between h h') = held_result sql.rs ++ handed) := by
  constructor
  · intro c conn hc hon hrun
    obtain ⟨cs, k1, k2⟩ := closes_once L c m pre h h' conn handed hc hon hrun
    rw [calls_between_append h h' cs k1]
    exact k2
  · intro s sql hs hon hrun
    obtain ⟨cs, k1, k2⟩ := frees_once L s m pre h h' sql handed hs hon hrun
    rw [calls_between_append h h' cs k1]
    exact k2

/-- Witness of C24: two disconnects and the free of the connection of
`demo_connected` close its native handle 7 once; an execution, a preparation
and the drop of the statement of `demo_fetch1`, which holds the result set 1,
free that result set and the result object 4 of the execution once each. -/
theorem native_resources_released_once_witness :
    (∃ h' handed,
      run_calls dec_libc demo_connected
          ([(Op.disconnect (some 0), none), (Op.disconnect (some 0), none)]
            ++ [(Op.free_connect (some 0), none)]) = some (h', handed)
        ∧ closed_handles (calls_between demo_connected h') = [7])
    ∧ (∃ h' handed,
      run_calls dec_libc (demo_fetch1 demo_nchar (some [49, 0]))
          ([(Op.exec_direct (some 0) (some (ascii "select 1" ++ [0])) 8 true (some { id := 4 })
                TsdbCode.TSDB_CODE_SUCCESS, none),
            (Op.prepare (some 0) (some (ascii "insert" ++ [0])) 6 (some 3)
                TsdbCode.TSDB_CODE_SUCCESS TsdbCode.TSDB_CODE_SUCCESS, none)]
            ++ [(Op.free_stmt (some 0) SQL_DROP, none)]) = some (h', handed)
        ∧ freed_results (calls_between (demo_fetch1 demo_nchar (some [49, 0])) h')
            = [1] ++ handed ∧ handed = [4]) := by
  refine ⟨⟨_, _, by rfl, ?_⟩, ⟨_, _, by rfl, ?_, by rfl⟩⟩
  · exact (native_resources_released_once dec_libc demo_connected _
      [(Op.disconnect (some 0), none), (Op.disconnect (some 0), none)] none _).1 0
      { refcount := 1, env := some 0, taos := some 7 } (by rfl) (by decide) (by rfl)
  · exact (native_resources_released_once dec_libc (demo_fetch1 demo_nchar (some [49, 0])) _
      [(Op.exec_direct (some 0) (some (ascii "select 1" ++ [0])) 8 true (some { id := 4 })
          TsdbCode.TSDB_CODE_SUCCESS, none),
        (Op.prepare (some 0) (some (ascii "insert" ++ [0])) 6 (some 3)
          TsdbCode.TSDB_CODE_SUCCESS TsdbCode.TSDB_CODE_SUCCESS, none)] none _).2 0 (demo_sql1 demo_nchar (some [49, 0])) (by rfl) (by decide) (by rfl)

end Todbc
namespace Todbc

/-! ## Connecting a connection that is in use -/

/-- C25.  `doSQLConnect` on a connection that holds a native handle returns
`SQL_ERROR` and changes nothing but the error context of the connection, where
it records `TSDB_CODE_TSC_APP_ERROR`: no call is made to the engine, the native
handle stays and every reference count is as before, whatever the names given
and whatever the engine would answer.  `doSQLDisconnect` then closes the
handle and leaves the connection without one, and a later `doSQLConnect` whose
names can be copied and that the engine accepts succeeds and stores the new
handle. -/
theorem connect_in_use_is_refused (h : Heap) (c : Nat) (conn : conn_t) (t : Nat)
    (s1 s2 s3 : Option Bytes) (n1 n2 n3 : Int) (a1 a2 a3 : Bool) (taos : Option Nat)
    (terrno : TsdbCode) (msg : Option String)
    (hc : h.conn c = some conn) (ht : conn.taos = some t) :
    doSQLConnect h (some c) s1 n1 s2 n2 s3 n3 a1 a2 a3 taos terrno msg
        = Outcome.ret SQLRETURN.SQL_ERROR
            (h.set_conn c (some { conn with
              err := SET_ERROR conn.err "HY000" TsdbCode.TSDB_CODE_TSC_APP_ERROR msg }))
      ∧ (h.set_conn c (some { conn with
              err := SET_ERROR conn.err "HY000" TsdbCode.TSDB_CODE_TSC_APP_ERROR msg })).log
          = h.log
      ∧ doSQLDisconnect h (some c)
          = Outcome.ret SQLRETURN.SQL_SUCCESS
              ((h.call (EngineCall.taos_close t)).set_conn c (some { conn with taos := none }))
      ∧ ∀ (server user auth : Bytes) (t2 : Nat),
          SDUP s1 n1 a1 = some (some server) → SDUP s2 n2 a2 = some (some user) →
          SDUP s3 n3 a3 = some (some auth) →
          doSQLConnect
              ((h.call (EngineCall.taos_close t)).set_conn c (some { conn with taos := none }))
              (some c) s1 n1 s2 n2 s3 n3 a1 a2 a3 (some t2) terrno msg
            = Outcome.ret SQLRETURN.SQL_SUCCESS
                ((((h.call (EngineCall.taos_close t)).set_conn c
                    (some { conn with taos := none })).call
                  (EngineCall.taos_connect "localhost" (some user) (some auth))).set_conn c
                    (some { conn with taos := some t2 })) := by
  have hlt : c < h.conns.length := Heap.conn_lt hc
  refine ⟨?_, rfl, ?_, ?_⟩
  · unfold doSQLConnect
    simp only [hc, ht, Option.isSome_some, if_true]
  · unfold doSQLDisconnect
    simp only [hc, ht]
  · intro server user auth t2 e1 e2 e3
    have hc1 : ((h.call (EngineCall.taos_close t)).set_conn c
        (some { conn with taos := none })).conn c = some { conn with taos := none } := by
      rw [Heap.conn_set_conn, if_pos rfl, if_pos (by simpa [Heap.call] using hlt)]
    unfold doSQLConnect
    simp only [hc1, e1, e2, e3, Option.isSome_none, Bool.false_eq_true, if_false,
      Option.isNone_some, Bool.and_false, Bool.or_self]

/-- Witness of C25: the connected connection of `demo_heap1` refuses a second
connect. -/
theorem connect_in_use_is_refused_witness :
    doSQLConnect (demo_heap1 {}) (some 0) none 0 (some (ascii "root" ++ [0])) 4
        (some (ascii "taosdata" ++ [0])) 8 true true true (some 9)
        TsdbCode.TSDB_CODE_SUCCESS none
      = Outcome.ret SQLRETURN.SQL_ERROR
          ((demo_heap1 {}).set_conn 0 (some
            { refcount := 2, env := some 0, taos := some 7,
              err := SET_ERROR {} "HY000" TsdbCode.TSDB_CODE_TSC_APP_ERROR none })) :=
  (connect_in_use_is_refused (demo_heap1 {}) 0 { refcount := 2, env := some 0, taos := some 7 } 7
    none (some (ascii "root" ++ [0])) (some (ascii "taosdata" ++ [0])) 0 4 8 true true true
    (some 9) TsdbCode.TSDB_CODE_SUCCESS none (by rfl) (by rfl)).1

end Todbc
namespace Todbc

/-! ## The frame of `doSQLBindParameter` -/

/-- C26.  A call of `doSQLBindParameter` at index `i` that returns
`SQL_SUCCESS` (the statement is then prepared and `i >= 1`) leaves `n_params`
at the larger of its old value and `i`, stores at position `i - 1` of the
descriptor array the descriptor with the value type, SQL type,
length/precision, scale, value pointer and indicator pointer given, marked
valid, and keeps every other entry below the old `n_params` of the descriptor
array and of the bind array.  Nothing else changes: no call is made to the
engine and the statement keeps its other fields. -/
theorem bind_parameter_frame (h h' : Heap) (s : Nat) (sql : sql_t) (i : Nat)
    (dir vt pt : Int) (len : Nat) (scale : Int) (val : Option Nat) (cb : Int)
    (soi : Option Nat) (pm : Option (Nat → param_bind_t)) (bm : Option (Nat → TAOS_BIND))
    (msg : Option String) (hs : h.sql s = some sql)
    (hrun : doSQLBindParameter h (some s) i dir vt pt len scale val cb soi pm bm msg
      = Outcome.ret SQLRETURN.SQL_SUCCESS h') :
    ∃ sql', h' = h.after s sql' [] ∧ h'.sql s = some sql'
      ∧ sql' = { sql with params := sql'.params, binds := sql'.binds,
                          n_params := sql'.n_params }
      ∧ sql.stmt ≠ none ∧ 1 ≤ i
      ∧ sql'.n_params = max sql.n_params i
      ∧ (sql'.params.getD [])[i - 1]?
          = some { ParameterNumber := i, ValueType := vt, ParameterType := pt,
                   LengthPrecision := len, ParameterScale := scale, ParameterValue := val,
                   StrLen_or_Ind := soi, valid := 1 }
      ∧ (∀ j pb, j ≠ i - 1 → (j : Int) < sql.n_params → (sql.params.getD [])[j]? = some pb →
          (sql'.params.getD [])[j]? = some pb)
      ∧ (∀ j b, j ≠ i - 1 → (j : Int) < sql.n_params → (sql.binds.getD [])[j]? = some b →
          (sql'.binds.getD [])[j]? = some b) := by
  obtain ⟨sql', e1, e2, e3⟩ := bind_parameter_effect hs hrun
  rcases e3 with ⟨hr, _⟩ | ⟨_, herr, hi, hst, _, ty, ar, binds, _, ga, gb, la, lb, hn, hp, hb⟩
  · cases hr
  · refine ⟨sql', e1, ?_, ?_, hst, hi, hn, ?_, ?_, ?_⟩
    · rw [e1]
      exact Heap.sql_after (Heap.sql_lt hs) _ _
    · rw [← herr]
      exact e2
    · rw [hp]
      simp only [Option.getD_some]
      rw [List.getElem?_set_self (by omega)]
    · intro j pb hj hlt hx
      rw [hp]
      simp only [Option.getD_some]
      rw [List.getElem?_set_ne (fun hc => hj hc.symm)]
      exact grown_array_get ga hlt hx
    · intro j b hj hlt hx
      rw [hb]
      simp only [Option.getD_some]
      rw [List.getElem?_set_ne (fun hc => hj hc.symm)]
      exact grown_array_get gb hlt hx

/-- Witness of C26: binding index 2 on the statement `demo_bound`, whose
index 1 is bound, with fresh memory that holds something else. -/
theorem bind_parameter_frame_witness :
    ∃ sql', Heap.sql ((demo_heap1 demo_bound).after 0
        { demo_bound with
            binds := some [demo_bind, { buffer_type := 5, buffer_length := 8 }],
            params := some [demo_param,
              { ParameterNumber := 2, ValueType := SQL_C_SBIGINT, ParameterType := SQL_BIGINT,
                LengthPrecision := 8, ParameterValue := some 200, valid := 1 }],
            n_params := 2 } []) 0 = some sql'
      ∧ sql'.n_params = 2 ∧ (sql'.params.getD [])[0]? = some demo_param := by
  obtain ⟨sql', _, e2, _, _, _, e6, _, e8, _⟩ :=
    bind_parameter_frame (demo_heap1 demo_bound) _ 0 demo_bound 2 SQL_PARAM_INPUT
      SQL_C_SBIGINT SQL_BIGINT 8 0 (some 200) 0 none (some (fun _ => { valid := 7 }))
      (some (fun _ => { buffer_type := 99 })) none (by rfl) (by rfl)
  exact ⟨sql', e2, e6, e8 0 demo_param (by decide) (by decide) (by rfl)⟩

end Todbc
namespace Todbc

/-! ## The parameter arrays of a statement -/

theorem alloc_stmt_fresh {h h' : Heap} {c : Option Nat} {ok : Bool} {msg : Option String}
    {s : Nat} (hrun : doSQLAllocStmt h c ok msg = Outcome.ret SQLRETURN.SQL_SUCCESS (h', some s)) :
    ∃ sql0, h'.sql s = some sql0 ∧ sql0.n_params = 0 ∧ sql0.params = none
      ∧ sql0.binds = none := by
  unfold doSQLAllocStmt at hrun
  cases c with
  | none => simp at hrun
  | some c =>
    simp only at hrun
    cases hc : h.conn c with
    | none => rw [hc] at hrun; cases hrun
    | some conn =>
      rw [hc] at hrun
      simp only at hrun
      split_ifs at hrun
      all_goals
        simp only [Outcome.ret.injEq, Prod.mk.injEq, Option.some.injEq, true_and,
          reduceCtorEq, false_and] at hrun
      obtain ⟨hh, hs⟩ := hrun
      subst hh hs
      have key : ∀ (hX : Heap) (x : sql_t), (hX.push_sql x).sql hX.sqls.length = some x :=
        fun hX x => by rw [Heap.sql_push_sql, if_pos rfl]
      exact ⟨_, key _ _, rfl, rfl, rfl⟩

theorem wire_types_length {x y : Option (List TAOS_BIND)} (hw : wire_types x = wire_types y) :
    (x.getD []).length = (y.getD []).length := by
  have := congrArg List.length hw
  simpa [wire_types] using this

theorem wire_types_get {x y : Option (List TAOS_BIND)} (hw : wire_types x = wire_types y)
    {j : Nat} {b : TAOS_BIND} (hb : (y.getD [])[j]? = some b) :
    ∃ b', (x.getD [])[j]? = some b' ∧ b'.buffer_type = b.buffer_type := by
  have h1 : (wire_types x)[j]? = (wire_types y)[j]? := by rw [hw]
  simp only [wire_types, List.getElem?_map, hb, Option.map_some'] at h1
  cases hx : (x.getD [])[j]? with
  | none => rw [hx] at h1; cases h1
  | some b' =>
    rw [hx] at h1
    simp only [Option.map_some', Option.some.injEq] at h1
    exact ⟨b', rfl, h1⟩

theorem params_ok_of_eq {sql sql' : sql_t} {B : List Nat} (hk : params_ok sql B)
    (h1 : sql'.params = sql.params) (h2 : sql'.binds = sql.binds)
    (h3 : sql'.n_params = sql.n_params) :
    params_ok sql' (B.filter (fun j => decide ((j : Int) < sql'.n_params))) := by
  obtain ⟨k1, k2, k3, k4⟩ := hk
  refine ⟨by rw [h3]; exact k1, by rw [h1, h3]; exact k2, by rw [h2, h3]; exact k3, ?_⟩
  intro j hj
  obtain ⟨hjB, _⟩ := List.mem_filter.mp hj
  obtain ⟨hlt, pb, b, ty, e1, e2, e3, e4, e5⟩ := k4 j hjB
  exact ⟨by rw [h3]; exact hlt, pb, b, ty, by rw [h1]; exact e1, by rw [h2]; exact e2, e3, e4,
    e5⟩

theorem params_ok_reset {sql' : sql_t} {B : List Nat} (h3 : sql'.n_params = 0) :
    params_ok sql' (B.filter (fun j => decide ((j : Int) < sql'.n_params))) := by
  refine ⟨by rw [h3], by rw [h3]; simp, by rw [h3]; simp, ?_⟩
  intro j hj
  obtain ⟨_, hlt⟩ := List.mem_filter.mp hj
  rw [h3] at hlt
  simp only [decide_eq_true_eq] at hlt
  omega

theorem params_ok_execute {sql sql' : sql_t} {B : List Nat} (hk : params_ok sql B)
    (h1 : sql'.params = sql.params) (h2 : wire_types sql'.binds = wire_types sql.binds)
    (h3 : sql'.n_params = sql.n_params) :
    params_ok sql' (B.filter (fun j => decide ((j : Int) < sql'.n_params))) := by
  obtain ⟨k1, k2, k3, k4⟩ := hk
  refine ⟨by rw [h3]; exact k1, by rw [h1, h3]; exact k2,
    by rw [wire_types_length h2, h3]; exact k3, ?_⟩
  intro j hj
  obtain ⟨hjB, _⟩ := List.mem_filter.mp hj
  obtain ⟨hlt, pb, b, ty, e1, e2, e3, e4, e5⟩ := k4 j hjB
  obtain ⟨b', f1, f2⟩ := wire_types_get h2 e2
  exact ⟨by rw [h3]; exact hlt, pb, b', ty, by rw [h1]; exact e1, f1, e3, e4, f2.trans e5⟩

theorem grown_array_keeps_length {α : Type} {n : Int} {i : Nat} {old : Option (List α)}
    {mem : Option (Nat → α)} {ar : List α} (hg : grown_array n i old mem = some ar)
    (hn : n ≤ ((old.getD []).length : Int)) : n ≤ (ar.length : Int) := by
  rcases grown_array_length hg with ⟨_, h2⟩ | ⟨h1, h2⟩
  · rw [h2] at hn
    exact hn
  · rw [h2]
    omega

theorem params_ok_bind_failed {sql sql' : sql_t} {B : List Nat} {i : Nat}
    {pm : Option (Nat → param_bind_t)} {bm : Option (Nat → TAOS_BIND)}
    (hk : params_ok sql B) (h3 : sql'.n_params = sql.n_params)
    (h1 : sql'.params = sql.params
      ∨ ∃ ar, grown_array sql.n_params i sql.params pm = some ar ∧ sql'.params = some ar)
    (h2 : sql'.binds = sql.binds
      ∨ ∃ binds, grown_array sql.n_params i sql.binds bm = some binds
          ∧ sql'.binds = some binds) :
    params_ok sql' (B.filter (fun j => decide ((j : Int) < sql'.n_params))) := by
  obtain ⟨k1, k2, k3, k4⟩ := hk
  refine ⟨by rw [h3]; exact k1, ?_, ?_, ?_⟩
  · rcases h1 with h1 | ⟨ar, g, h1⟩
    · rw [h1, h3]; exact k2
    · rw [h1, h3]; exact grown_array_keeps_length g k2
  · rcases h2 with h2 | ⟨binds, g, h2⟩
    · rw [h2, h3]; exact k3
    · rw [h2, h3]; exact grown_array_keeps_length g k3
  · intro j hj
    obtain ⟨hjB, _⟩ := List.mem_filter.mp hj
    obtain ⟨hlt, pb, b, ty, e1, e2, e3, e4, e5⟩ := k4 j hjB
    refine ⟨by rw [h3]; exact hlt, pb, b, ty, ?_, ?_, e3, e4, e5⟩
    · rcases h1 with h1 | ⟨ar, g, h1⟩
      · rw [h1]; exact e1
      · rw [h1]; exact grown_array_get g hlt e1
    · rcases h2 with h2 | ⟨binds, g, h2⟩
      · rw [h2]; exact e2
      · rw [h2]; exact grown_array_get g hlt e2

theorem params_ok_bind {sql sql' : sql_t} {B : List Nat} {i : Nat} {vt pt : Int} {ty : Nat}
    {pb0 : param_bind_t} {b0 : TAOS_BIND}
    {pm : Option (Nat → param_bind_t)} {bm : Option (Nat → TAOS_BIND)}
    {ar : List param_bind_t} {binds : List TAOS_BIND}
    (hk : params_ok sql B) (hi : 1 ≤ i)
    (hty : bind_buffer_type vt pt = some ty)
    (hv : pb0.valid = 1) (hvt : pb0.ValueType = vt) (hpt : pb0.ParameterType = pt)
    (hbt : b0.buffer_type = ty)
    (ga : grown_array sql.n_params i sql.params pm = some ar)
    (gb : grown_array sql.n_params i sql.binds bm = some binds)
    (la : i ≤ ar.length) (lb : i ≤ binds.length)
    (h3 : sql'.n_params = max sql.n_params i)
    (h1 : sql'.params = some (ar.set (i - 1) pb0))
    (h2 : sql'.binds = some (binds.set (i - 1) b0)) :
    params_ok sql'
      (((i - 1) :: B).filter (fun j => decide ((j : Int) < sql'.n_params))) := by
  obtain ⟨k1, k2, k3, k4⟩ := hk
  have hla := grown_array_keeps_length ga k2
  have hlb := grown_array_keeps_length gb k3
  have hnew : bound_entry sql' (i - 1) := by
    refine ⟨pb0, b0, ty, ?_, ?_, hv, by rw [hvt, hpt]; exact hty, hbt⟩
    · rw [h1]
      simp only [Option.getD_some]
      exact List.getElem?_set_self (by omega)
    · rw [h2]
      simp only [Option.getD_some]
      exact List.getElem?_set_self (by omega)
  refine ⟨?_, ?_, ?_, ?_⟩
  · rw [h3]; omega
  · rw [h1, h3]
    simp only [Option.getD_some, List.length_set]
    omega
  · rw [h2, h3]
    simp only [Option.getD_some, List.length_set]
    omega
  · intro j hj
    obtain ⟨hjB, hlt⟩ := List.mem_filter.mp hj
    simp only [decide_eq_true_eq] at hlt
    refine ⟨hlt, ?_⟩
    by_cases hji : j = i - 1
    · rw [hji]
      exact hnew
    · rcases List.mem_cons.mp hjB with hj1 | hj1
      · exact absurd hj1 hji
      · obtain ⟨hlt0, pb, b, ty1, e1, e2, e3, e4, e5⟩ := k4 j hj1
        refine ⟨pb, b, ty1, ?_, ?_, e3, e4, e5⟩
        · rw [h1]
          simp only [Option.getD_some]
          rw [List.getElem?_set_ne (fun hc => hji hc.symm)]
          exact grown_array_get ga hlt0 e1
        · rw [h2]
          simp only [Option.getD_some]
          rw [List.getElem?_set_ne (fun hc => hji hc.symm)]
          exact grown_array_get gb hlt0 e2

theorem on_parameters_live {D F : Type} (L : LibC D F) {h h' : Heap} {s : Nat} {op : Op}
    {msg : Option String} {r : SQLRETURN} (hon : op.on_parameters s = true)
    (ho : op.run L h msg = Outcome.ret r h') : ∃ sql, h.sql s = some sql := by
  cases hs : h.sql s with
  | some sql => exact ⟨sql, rfl⟩
  | none =>
    exfalso
    cases op with
    | bind_parameter s1 i dir vt pt len scale val cb soi pm bm =>
      cases s1 with
      | none => simp [Op.on_parameters, Op.on_statement] at hon
      | some s1 =>
        simp only [Op.on_parameters, decide_eq_true_eq] at hon
        subst hon
        simp [Op.run, doSQLBindParameter, hs] at ho
    | exec_direct s1 a b c d e =>
      cases s1 with
      | none => simp [Op.on_parameters, Op.on_statement] at hon
      | some s1 =>
        simp only [Op.on_parameters, Op.on_statement, decide_eq_true_eq] at hon
        subst hon
        simp [Op.run, doSQLExecDirect, hs] at ho
    | prepare s1 a b c d e =>
      cases s1 with
      | none => simp [Op.on_parameters, Op.on_statement] at hon
      | some s1 =>
        simp only [Op.on_parameters, Op.on_statement, decide_eq_true_eq] at hon
        subst hon
        simp [Op.run, doSQLPrepare, hs] at ho
    | execute s1 E =>
      cases s1 with
      | none => simp [Op.on_parameters, Op.on_statement] at hon
      | some s1 =>
        simp only [Op.on_parameters, Op.on_statement, decide_eq_true_eq] at hon
        subst hon
        simp [Op.run, doSQLExecute, hs] at ho
    | free_stmt s1 o =>
      cases s1 with
      | none => simp [Op.on_parameters, Op.on_statement] at hon
      | some s1 =>
        simp only [Op.on_parameters, Op.on_statement, Bool.and_eq_true,
          decide_eq_true_eq] at hon
        obtain ⟨h1, h2⟩ := hon
        subst h1 h2
        simp [Op.run, doSQLFreeStmt, hs, SQL_DROP, SQL_CLOSE] at ho
    | _ => simp [Op.on_parameters, Op.on_statement] at hon

theorem params_step {D F : Type} (L : LibC D F) {h h' : Heap} {s : Nat} {sql sql' : sql_t}
    {B : List Nat} {op : Op} {msg : Option String} {r : SQLRETURN}
    (hs : h.sql s = some sql) (hk : params_ok sql B) (hon : op.on_parameters s = true)
    (ho : op.run L h msg = Outcome.ret r h') (hs' : h'.sql s = some sql') :
    params_ok sql' (bound_after s op r h' B) := by
  have hlt : s < h.sqls.length := Heap.sql_lt hs
  cases op with
  | bind_parameter s1 i dir vt pt len scale val cb soi pm bm =>
    cases s1 with
    | none => simp [Op.on_parameters, Op.on_statement] at hon
    | some s1 =>
      simp only [Op.on_parameters, decide_eq_true_eq] at hon
      subst hon
      have ho2 : doSQLBindParameter h (some s1) i dir vt pt len scale val cb soi pm bm msg
          = Outcome.ret r h' := ho
      obtain ⟨sql1, e1, _, e3⟩ := bind_parameter_effect hs ho2
      subst e1
      rw [Heap.sql_after hlt] at hs'
      simp only [Option.some.injEq] at hs'
      subst hs'
      simp only [bound_after, Heap.sql_after hlt]
      rcases e3 with ⟨hr, f1, f2, f3⟩ | ⟨hr, _, hi, _, _, ty, ar, binds, hty, ga, gb, la, lb,
        hn, hp, hb⟩
      · subst hr
        simp only [reduceCtorEq, if_false]
        exact params_ok_bind_failed hk f1 f2 f3
      · subst hr
        simp only [if_true]
        exact params_ok_bind hk hi hty rfl rfl rfl rfl ga gb la lb hn hp hb
  | exec_direct s1 a b c d e =>
    cases s1 with
    | none => simp [Op.on_parameters, Op.on_statement] at hon
    | some s1 =>
      simp only [Op.on_parameters, Op.on_statement, decide_eq_true_eq] at hon
      subst hon
      obtain ⟨sql1, cs, e1, _, _, _, _, _, e7⟩ := exec_direct_effect hs ho
      subst e1
      rw [Heap.sql_after hlt] at hs'
      simp only [Option.some.injEq] at hs'
      subst hs'
      simp only [bound_after, Heap.sql_after hlt]
      rcases e7 with ⟨_, a2, a3, a4⟩ | ⟨_, _, _, a4⟩
      · exact params_ok_of_eq hk a2 a3 a4
      · exact params_ok_reset a4
  | prepare s1 a b c d e =>
    cases s1 with
    | none => simp [Op.on_parameters, Op.on_statement] at hon
    | some s1 =>
      simp only [Op.on_parameters, Op.on_statement, decide_eq_true_eq] at hon
      subst hon
      obtain ⟨sql1, cs, e1, _, _, _, _, _, _, e8⟩ := prepare_effect hs ho
      subst e1
      rw [Heap.sql_after hlt] at hs'
      simp only [Option.some.injEq] at hs'
      subst hs'
      simp only [bound_after, Heap.sql_after hlt]
      rcases e8 with ⟨_, a2, a3, a4⟩ | ⟨_, _, a4⟩
      · exact params_ok_of_eq hk a2 a3 a4
      · exact params_ok_reset a4
  | execute s1 E =>
    cases s1 with
    | none => simp [Op.on_parameters, Op.on_statement] at hon
    | some s1 =>
      simp only [Op.on_parameters, Op.on_statement, decide_eq_true_eq] at hon
      subst hon
      obtain ⟨sql1, cs, e1, _, _, _, e5, e6, e7, _⟩ := execute_effect hs ho
      subst e1
      rw [Heap.sql_after hlt] at hs'
      simp only [Option.some.injEq] at hs'
      subst hs'
      simp only [bound_after, Heap.sql_after hlt]
      exact params_ok_execute hk e5 e7 e6
  | free_stmt s1 o =>
    cases s1 with
    | none => simp [Op.on_parameters, Op.on_statement] at hon
    | some s1 =>
      simp only [Op.on_parameters, Op.on_statement, Bool.and_eq_true,
        decide_eq_true_eq] at hon
      obtain ⟨h1, h2⟩ := hon
      subst h1 h2
      obtain ⟨_, e2, _⟩ := drop_effect hs ho
      rw [e2] at hs'
      cases hs'
  | _ => simp [Op.on_parameters, Op.on_statement] at hon

/-- C27, as amended.  In every state of a statement reached from its
allocation through `doSQLBindParameter` (whether it succeeds or fails),
`doSQLPrepare`, `doSQLExecDirect`, `doSQLExecute` and `doSQLFreeStmt` with
`SQL_DROP`: `n_params` is not negative, the descriptor array and the bind array
hold at least `n_params` entries each, and every bound position lies below
`n_params`, holds a descriptor marked valid and holds a bind structure whose
wire type is the one resolved for the value type and the SQL type of that
descriptor. -/
theorem parameter_arrays_invariant {D F : Type} (L : LibC D F) (s : Nat) (h : Heap)
    (B : List Nat) (hr : StmtReach L s h B) (sql : sql_t) (hs : h.sql s = some sql) :
    0 ≤ sql.n_params ∧ sql.n_params ≤ ((sql.params.getD []).length : Int)
      ∧ sql.n_params ≤ ((sql.binds.getD []).length : Int)
      ∧ ∀ j ∈ B, (j : Int) < sql.n_params
          ∧ ∃ pb b ty, (sql.params.getD [])[j]? = some pb ∧ (sql.binds.getD [])[j]? = some b
              ∧ pb.valid = 1 ∧ bind_buffer_type pb.ValueType pb.ParameterType = some ty
              ∧ b.buffer_type = ty := by
  have key : params_ok sql B := by
    induction hr generalizing sql with
    | alloc c msg hrun =>
      obtain ⟨sql0, e1, e2, e3, e4⟩ := alloc_stmt_fresh hrun
      rw [e1] at hs
      simp only [Option.some.injEq] at hs
      subst hs
      refine ⟨by rw [e2], by rw [e2]; simp, by rw [e2]; simp, ?_⟩
      intro j hj
      cases hj
    | step op msg r _ hon ho ih =>
      obtain ⟨sql0, hs0⟩ := on_parameters_live L hon ho
      exact params_step L hs0 (ih sql0 hs0) hon ho hs
  exact key

theorem reach_demo_prepared :
    StmtReach dec_libc 0
      ({ demo_heap1 demo_prepared with
          log := [EngineCall.taos_init, EngineCall.taos_stmt_init 7,
            EngineCall.taos_stmt_prepare 3 (some (ascii "insert" ++ [0])) 6] }) [] := by
  have r1 : StmtReach dec_libc 0 _ [] :=
    StmtReach.alloc (L := dec_libc) (h := demo_connected) (some 0) none rfl
  exact StmtReach.step (L := dec_libc)
    (Op.prepare (some 0) (some (ascii "insert" ++ [0])) 6 (some 3) TsdbCode.TSDB_CODE_SUCCESS
      TsdbCode.TSDB_CODE_SUCCESS) none SQLRETURN.SQL_SUCCESS r1 rfl rfl

/-- The failure of C27 as stated.  On a statement allocated and prepared,
`doSQLBindParameter` at index 2 whose first `realloc` succeeds and whose second
fails returns `SQL_ERROR` and leaves a descriptor array of 2 entries, no bind
array and `n_params` 0. -/
theorem failed_bind_leaves_unequal_arrays :
    ∃ h B sql, StmtReach dec_libc 0 h B ∧ h.sql 0 = some sql ∧ sql.n_params = 0
      ∧ (sql.params.getD []).length = 2 ∧ (sql.binds.getD []).length = 0 := by
  have r2 : StmtReach dec_libc 0 _ _ :=
    StmtReach.step (L := dec_libc)
      (Op.bind_parameter (some 0) 2 SQL_PARAM_INPUT SQL_C_LONG SQL_INTEGER 4 0 (some 200) 0 none
        (some (fun _ => {})) none) none SQLRETURN.SQL_ERROR reach_demo_prepared rfl rfl
  exact ⟨_, _, _, r2, rfl, rfl, rfl, rfl⟩

/-- Witness of the amended C27: after index 2 alone is bound on a statement
allocated and prepared, position 1 is bound and both arrays hold 2 entries. -/
theorem parameter_arrays_invariant_witness :
    ∃ h B sql, StmtReach dec_libc 0 h B ∧ h.sql 0 = some sql ∧ 1 ∈ B
      ∧ sql.n_params ≤ ((sql.params.getD []).length : Int)
      ∧ sql.n_params ≤ ((sql.binds.getD []).length : Int) := by
  have r2 : StmtReach dec_libc 0 _ _ :=
    StmtReach.step (L := dec_libc)
      (Op.bind_parameter (some 0) 2 SQL_PARAM_INPUT SQL_C_LONG SQL_INTEGER 4 0 (some 200) 0 none
        (some (fun _ => {})) (some (fun _ => {}))) none SQLRETURN.SQL_SUCCESS
      reach_demo_prepared rfl rfl
  obtain ⟨_, k2, k3, _⟩ := parameter_arrays_invariant dec_libc 0 _ _ r2 _ rfl
  exact ⟨_, _, _, r2, rfl, by decide, k2, k3⟩

end Todbc
namespace Todbc

/-! ## `doSQLBindParameter` at index 0 -/


/-- C28.  `doSQLBindParameter` does not test `ParameterNumber` against 0.  On
a connected, prepared statement that holds parameter arrays (`n_params >= 0`
and both array pointers set), with the input direction and a pair of types
that the table resolves, the call at index 0 takes the arrays as they are
(`n_params >= 0` holds, so nothing is grown), passes the test of the two
pointers and writes the bind structure and the descriptor at position
`0 - 1`, one entry before each array: the call is undefined, it returns no
error. -/
theorem bind_parameter_index_zero (h : Heap) (s : Nat) (sql : sql_t) (hc : Connected h s sql)
    (hst : sql.stmt ≠ none) (hn : 0 ≤ sql.n_params) (ar : List param_bind_t)
    (binds : List TAOS_BIND) (hp : sql.params = some ar) (hb : sql.binds = some binds)
    (vt pt : Int) (ty : Nat) (hty : bind_buffer_type vt pt = some ty) (len : Nat) (scale : Int)
    (val : Option Nat) (cb : Int) (soi : Option Nat) (pm : Option (Nat → param_bind_t))
    (bm : Option (Nat → TAOS_BIND)) (msg : Option String) :
    doSQLBindParameter h (some s) 0 SQL_PARAM_INPUT vt pt len scale val cb soi pm bm msg
      = Outcome.fault := by
  obtain ⟨c, conn, t, c1, c2, c3⟩ := hc.connected
  have hcc := check_connection_ok msg c1 c2 c3
  have h1 : ¬ (sql.stmt.isNone = true) := by
    cases hs : sql.stmt with
    | none => exact absurd hs hst
    | some st => simp
  have hge : sql.n_params ≥ ((0 : Nat) : Int) := by simpa using hn
  unfold doSQLBindParameter
  simp only [hc.live, hcc, if_neg h1, ne_eq, not_true_eq_false, if_false, hty, grown_array,
    if_pos hge, hp, hb]
  unfold bind_parameter_store
  simp

/-- Witness of C28: index 0 on the statement `demo_bound`, whose index 1 is
bound. -/
theorem bind_parameter_index_zero_witness :
    doSQLBindParameter (demo_heap1 demo_bound) (some 0) 0 SQL_PARAM_INPUT SQL_C_LONG SQL_INTEGER
        4 0 (some 100) 0 none none none none
      = Outcome.fault :=
  bind_parameter_index_zero (demo_heap1 demo_bound) 0 demo_bound
    (demo_heap1_connected demo_bound (by rfl)) (by decide) (by decide) [demo_param] [demo_bind]
    (by rfl) (by rfl) SQL_C_LONG SQL_INTEGER TSDB_DATA_TYPE_INT (by rfl) 4 0 (some 100) 0 none
    none none none

end Todbc
namespace Todbc

/-! ## Value types of a `TIMESTAMP` parameter -/

theorem bind_buffer_type_timestamp (vt : Int) :
    bind_buffer_type vt SQL_TIMESTAMP
      = if vt ∈ [SQL_C_TINYINT, SQL_C_SHORT, SQL_C_LONG, SQL_C_SBIGINT, SQL_C_FLOAT,
            SQL_C_DOUBLE, SQL_C_NUMERIC, SQL_C_DATE, SQL_C_TIME, SQL_C_TIMESTAMP, SQL_C_CHAR,
            SQL_C_BINARY] then some TSDB_DATA_TYPE_TIMESTAMP else none := by
  by_cases hm : vt ∈ [SQL_C_TINYINT, SQL_C_SHORT, SQL_C_LONG, SQL_C_SBIGINT, SQL_C_FLOAT,
      SQL_C_DOUBLE, SQL_C_NUMERIC, SQL_C_DATE, SQL_C_TIME, SQL_C_TIMESTAMP, SQL_C_CHAR,
      SQL_C_BINARY]
  · rw [if_pos hm]
    simp only [List.mem_cons, List.mem_singleton, List.mem_nil_iff, or_false] at hm
    rcases hm with h | h | h | h | h | h | h | h | h | h | h | h <;> subst h <;> rfl
  · rw [if_neg hm]
    simp only [List.mem_cons, List.mem_singleton, List.mem_nil_iff, or_false, not_or] at hm
    obtain ⟨h1, h2, h3, h4, h5, h6, h7, h8, h9, h10, h11, h12⟩ := hm
    unfold bind_buffer_type
    have e1 : ¬ (vt = SQL_C_TINYINT ∨ vt = SQL_C_SHORT ∨ vt = SQL_C_LONG ∨ vt = SQL_C_SBIGINT
        ∨ vt = SQL_C_FLOAT ∨ vt = SQL_C_DOUBLE ∨ vt = SQL_C_NUMERIC) := by
      simp only [not_or]; exact ⟨h1, h2, h3, h4, h5, h6, h7⟩
    have e2 : ¬ (vt = SQL_C_DATE ∨ vt = SQL_C_TIME ∨ vt = SQL_C_TIMESTAMP) := by
      simp only [not_or]; exact ⟨h8, h9, h10⟩
    have e3 : ¬ (vt = SQL_C_CHAR ∨ vt = SQL_C_BINARY) := by
      simp only [not_or]; exact ⟨h11, h12⟩
    rw [if_neg e1, if_neg e2, if_neg e3]
    by_cases hb : vt = SQL_C_BIT
    · rw [if_pos hb]
      rfl
    · rw [if_neg hb]

/-- C29, as amended.  The switch of `doSQLBindParameter` resolves the SQL type
`SQL_TIMESTAMP` to the timestamp wire type for the value types of the integer
family (`SQL_C_TINYINT`, `SQL_C_SHORT`, `SQL_C_LONG`, `SQL_C_SBIGINT`), for
`SQL_C_FLOAT`, `SQL_C_DOUBLE` and `SQL_C_NUMERIC`, for `SQL_C_DATE`,
`SQL_C_TIME` and `SQL_C_TIMESTAMP`, for `SQL_C_CHAR` and for `SQL_C_BINARY`,
and for no other value type (`SQL_C_BIT` is not among them).  On a connected,
prepared statement, with the input direction: for a value type outside this
list the call returns `SQL_ERROR`, records `TSDB_CODE_COM_OPS_NOT_SUPPORT` and
changes nothing else of the statement; for a value type of the list, an index
`i >= 1` and arrays that hold the position `i - 1` (as they are or as
`realloc` returns them) the call returns `SQL_SUCCESS` and the bind structure
written carries the timestamp wire type. -/
theorem timestamp_parameter_value_types (vt : Int) :
    (bind_buffer_type vt SQL_TIMESTAMP
      = if vt ∈ [SQL_C_TINYINT, SQL_C_SHORT, SQL_C_LONG, SQL_C_SBIGINT, SQL_C_FLOAT,
            SQL_C_DOUBLE, SQL_C_NUMERIC, SQL_C_DATE, SQL_C_TIME, SQL_C_TIMESTAMP, SQL_C_CHAR,
            SQL_C_BINARY] then some TSDB_DATA_TYPE_TIMESTAMP else none)
    ∧ ∀ (h : Heap) (s : Nat) (sql : sql_t) (i len : Nat) (scale : Int) (val : Option Nat)
        (cb : Int) (soi : Option Nat) (pm : Option (Nat → param_bind_t))
        (bm : Option (Nat → TAOS_BIND)) (msg : Option String),
        Connected h s sql → sql.stmt ≠ none →
        (vt ∉ [SQL_C_TINYINT, SQL_C_SHORT, SQL_C_LONG, SQL_C_SBIGINT, SQL_C_FLOAT,
            SQL_C_DOUBLE, SQL_C_NUMERIC, SQL_C_DATE, SQL_C_TIME, SQL_C_TIMESTAMP, SQL_C_CHAR,
            SQL_C_BINARY] →
          doSQLBindParameter h (some s) i SQL_PARAM_INPUT vt SQL_TIMESTAMP len scale val cb soi
              pm bm msg
            = Outcome.ret SQLRETURN.SQL_ERROR (h.set_sql s (some { sql with
                err := SET_ERROR sql.err "HY000" TsdbCode.TSDB_CODE_COM_OPS_NOT_SUPPORT msg })))
        ∧ (vt ∈ [SQL_C_TINYINT, SQL_C_SHORT, SQL_C_LONG, SQL_C_SBIGINT, SQL_C_FLOAT,
            SQL_C_DOUBLE, SQL_C_NUMERIC, SQL_C_DATE, SQL_C_TIME, SQL_C_TIMESTAMP, SQL_C_CHAR,
            SQL_C_BINARY] →
          ∀ ar binds, grown_array sql.n_params i sql.params pm = some ar →
            grown_array sql.n_params i sql.binds bm = some binds →
            1 ≤ i → i ≤ ar.length → i ≤ binds.length →
            doSQLBindParameter h (some s) i SQL_PARAM_INPUT vt SQL_TIMESTAMP len scale val cb
                soi pm bm msg
              = Outcome.ret SQLRETURN.SQL_SUCCESS (h.set_sql s (some { sql with
                  params := some (ar.set (i - 1)
                    { ParameterNumber := i, ValueType := vt, ParameterType := SQL_TIMESTAMP,
                      LengthPrecision := len, ParameterScale := scale, ParameterValue := val,
                      StrLen_or_Ind := soi, valid := 1 }),
                  binds := some (binds.set (i - 1)
                    { buffer_type := TSDB_DATA_TYPE_TIMESTAMP, buffer_length := len }),
                  n_params := if sql.n_params < i then i else sql.n_params }))) := by
  refine ⟨bind_buffer_type_timestamp vt, ?_⟩
  intro h s sql i len scale val cb soi pm bm msg hc hst
  obtain ⟨c, conn, t, c1, c2, c3⟩ := hc.connected
  have hcc := check_connection_ok msg c1 c2 c3
  have h1 : ¬ (sql.stmt.isNone = true) := by
    cases hs : sql.stmt with
    | none => exact absurd hs hst
    | some st => simp
  constructor
  · intro hm
    have hty := bind_buffer_type_timestamp vt
    rw [if_neg hm] at hty
    unfold doSQLBindParameter
    simp only [hc.live, hcc, if_neg h1, ne_eq, not_true_eq_false, if_false, hty]
  · intro hm ar binds ha hb hi hla hlb
    have hty := bind_buffer_type_timestamp vt
    rw [if_pos hm] at hty
    have hno : ¬ (i = 0 ∨ ar.length < i ∨ binds.length < i) := by omega
    unfold doSQLBindParameter
    simp only [hc.live, hcc, if_neg h1, ne_eq, not_true_eq_false, if_false, hty, ha, hb]
    unfold bind_parameter_store
    simp only [if_neg hno]

/-- The failure of C29 as stated.  A 64-bit integer value bound to a
`TIMESTAMP` parameter on a freshly prepared statement: `doSQLBindParameter`
returns `SQL_SUCCESS` and the bind structure carries the timestamp wire type
9. -/
theorem integer_value_binds_to_timestamp :
    doSQLBindParameter (demo_heap1 demo_prepared) (some 0) 1 SQL_PARAM_INPUT SQL_C_SBIGINT
        SQL_TIMESTAMP 8 0 (some 100) 0 none (some (fun _ => {})) (some (fun _ => {})) none
      = Outcome.ret SQLRETURN.SQL_SUCCESS
          ((demo_heap1 demo_prepared).set_sql 0 (some { demo_prepared with
            params := some [{ ParameterNumber := 1, ValueType := -25, ParameterType := 11,
                              LengthPrecision := 8, ParameterValue := some 100, valid := 1 }],
            binds := some [{ buffer_type := 9, buffer_length := 8 }],
            n_params := 1 })) := by
  rfl

/-- Witness of the amended C29: a bit value is refused for a `TIMESTAMP`
parameter. -/
theorem timestamp_parameter_value_types_witness :
    doSQLBindParameter (demo_heap1 demo_prepared) (some 0) 1 SQL_PARAM_INPUT SQL_C_BIT
        SQL_TIMESTAMP 1 0 (some 100) 0 none none none none
      = Outcome.ret SQLRETURN.SQL_ERROR ((demo_heap1 demo_prepared).set_sql 0
          (some { demo_prepared with
            err := SET_ERROR demo_prepared.err "HY000" TsdbCode.TSDB_CODE_COM_OPS_NOT_SUPPORT
              none })) :=
  ((timestamp_parameter_value_types SQL_C_BIT).2 (demo_heap1 demo_prepared) 0 demo_prepared 1 1
    0 (some 100) 0 none none none none (demo_heap1_connected demo_prepared (by rfl))
    (by decide)).1 (by decide)

end Todbc
namespace Todbc

/-! ## Positions never bound -/

/-- C30.  The descriptor array grown by `realloc` in `doSQLBindParameter` is
not initialised, so the flag `valid` of a position that was never bound holds
what the memory happens to hold.  On a freshly prepared statement only index 2
is bound.  When the memory obtained holds zeroes, `doSQLExecute` fails at
position 1 with `TSDB_CODE_COM_OPS_NOT_SUPPORT` and calls nothing; when it
holds an old descriptor (as after `free` of an earlier array), `doSQLExecute`
takes position 1 for a bound parameter, calls `taos_stmt_bind_param`,
`taos_stmt_add_batch`, `taos_stmt_execute` and `taos_stmt_use_result`, and
returns `SQL_SUCCESS`. -/
theorem unbound_parameter_not_detected :
    doSQLBindParameter (demo_heap1 demo_prepared) (some 0) 2 SQL_PARAM_INPUT SQL_C_LONG
        SQL_INTEGER 4 0 (some 200) 0 none (some (fun _ => {})) (some (fun _ => {})) none
      = Outcome.ret SQLRETURN.SQL_SUCCESS
          (demo_heap1 { demo_prepared with
            params := some [{}, { demo_param with ParameterNumber := 2,
                                                  ParameterValue := some 200 }],
            binds := some [{}, demo_bind], n_params := 2 })
    ∧ doSQLExecute (demo_heap1 { demo_prepared with
            params := some [{}, { demo_param with ParameterNumber := 2,
                                                  ParameterValue := some 200 }],
            binds := some [{}, demo_bind], n_params := 2 }) (some 0) demo_env none
      = Outcome.ret SQLRETURN.SQL_ERROR
          (demo_heap1 { demo_prepared with
            params := some [{}, { demo_param with ParameterNumber := 2,
                                                  ParameterValue := some 200 }],
            binds := some [{}, demo_bind], n_params := 2,
            err := SET_ERROR {} "HY000" TsdbCode.TSDB_CODE_COM_OPS_NOT_SUPPORT none })
    ∧ doSQLBindParameter (demo_heap1 demo_prepared) (some 0) 2 SQL_PARAM_INPUT SQL_C_LONG
        SQL_INTEGER 4 0 (some 200) 0 none (some (fun _ => demo_param))
        (some (fun _ => demo_bind)) none
      = Outcome.ret SQLRETURN.SQL_SUCCESS
          (demo_heap1 { demo_prepared with
            params := some [demo_param, { demo_param with ParameterNumber := 2,
                                                          ParameterValue := some 200 }],
            binds := some [demo_bind, demo_bind], n_params := 2 })
    ∧ ∃ h2, doSQLExecute (demo_heap1 { demo_prepared with
            params := some [demo_param, { demo_param with ParameterNumber := 2,
                                                          ParameterValue := some 200 }],
            binds := some [demo_bind, demo_bind], n_params := 2 }) (some 0) demo_env none
          = Outcome.ret SQLRETURN.SQL_SUCCESS h2
        ∧ calls_between (demo_heap1 demo_prepared) h2
          = [EngineCall.taos_stmt_bind_param 3
                (some [{ buffer_type := 4, buffer := some 100, buffer_length := 4,
                         length := some 16, is_null := some 2 },
                       { buffer_type := 4, buffer := some 200, buffer_length := 4,
                         length := some 17, is_null := some 2 }]),
              EngineCall.taos_stmt_add_batch 3, EngineCall.taos_stmt_execute 3,
              EngineCall.taos_stmt_use_result 3] := by
  refine ⟨by rfl, by rfl, by rfl, _, by rfl, by rfl⟩

end Todbc
namespace Todbc

theorem prepare_binds_add (E : ExecuteEnv) (ps : List param_bind_t) :
    ∀ (k1 k2 j : Nat) (bs : List TAOS_BIND),
      prepare_binds E ps (k1 + k2) j bs
        = match prepare_binds E ps k1 j bs with
          | some (Except.ok bs1) => prepare_binds E ps k2 (j + k1) bs1
          | x => x := by
  intro k1
  induction k1 with
  | zero =>
    intro k2 j bs
    simp only [Nat.zero_add, prepare_binds, Nat.add_zero]
  | succ k ih =>
    intro k2 j bs
    have e : k + 1 + k2 = (k + k2) + 1 := by omega
    rw [e]
    conv_lhs => rw [prepare_binds]
    conv_rhs => rw [prepare_binds]
    cases hp : ps[j]? with
    | none => rfl
    | some pb =>
      simp only
      split_ifs with hv
      · rfl
      · cases hb : bs[j]? with
        | none => rfl
        | some b =>
          simp only
          cases hr : prepare_bind E j pb b with
          | none => rfl
          | some res =>
            cases res with
            | error x => rfl
            | ok b1 =>
              simp only
              rw [ih k2 (j + 1) (bs.set j b1)]
              have e2 : j + 1 + k = j + (k + 1) := by omega
              rw [e2]

theorem prepare_binds_keeps (E : ExecuteEnv) (ps : List param_bind_t) :
    ∀ (k j : Nat) (bs bs1 : List TAOS_BIND),
      prepare_binds E ps k j bs = some (Except.ok bs1) →
      ∀ p, j + k ≤ p → bs1[p]? = bs[p]? := by
  intro k
  induction k with
  | zero =>
    intro j bs bs1 he p _
    simp only [prepare_binds, Option.some.injEq, Except.ok.injEq] at he
    rw [he]
  | succ k ih =>
    intro j bs bs1 he p hp
    rw [prepare_binds] at he
    cases hq : ps[j]? with
    | none => rw [hq] at he; cases he
    | some pb =>
      rw [hq] at he
      simp only at he
      rw [if_neg (by intro hv; rw [if_pos hv] at he; cases he)] at he
      cases hb : bs[j]? with
      | none => rw [hb] at he; cases he
      | some b =>
        rw [hb] at he
        simp only at he
        cases hr : prepare_bind E j pb b with
        | none => rw [hr] at he; cases he
        | some res =>
          rw [hr] at he
          cases res with
          | error x => cases he
          | ok b1 =>
            simp only at he
            rw [ih (j + 1) (bs.set j b1) bs1 he p (by omega),
              List.getElem?_set_ne (by omega)]

theorem prepare_bind_code {E : ExecuteEnv} {i : Nat} {pb : param_bind_t} {b b1 : TAOS_BIND}
    {eno : TsdbCode} (he : prepare_bind E i pb b = some (Except.error (eno, b1))) :
    eno = TsdbCode.TSDB_CODE_COM_OPS_NOT_SUPPORT := by
  unfold prepare_bind at he
  dsimp only at he
  split_ifs at he
  all_goals try (repeat' split at he)
  all_goals first
    | (simp only [Option.some.injEq, Except.error.injEq, Prod.mk.injEq] at he
       exact he.1.symm)
    | cases he

theorem prepare_binds_code (E : ExecuteEnv) (ps : List param_bind_t) :
    ∀ (k j : Nat) (bs bs1 : List TAOS_BIND) (eno : TsdbCode),
      prepare_binds E ps k j bs = some (Except.error (eno, bs1)) →
      eno = TsdbCode.TSDB_CODE_COM_OPS_NOT_SUPPORT := by
  intro k
  induction k with
  | zero =>
    intro j bs bs1 eno he
    simp only [prepare_binds] at he
    cases he
  | succ k ih =>
    intro j bs bs1 eno he
    rw [prepare_binds] at he
    cases hq : ps[j]? with
    | none => rw [hq] at he; cases he
    | some pb =>
      rw [hq] at he
      simp only at he
      split_ifs at he with hv
      · simp only [Option.some.injEq, Except.error.injEq, Prod.mk.injEq] at he
        exact he.1.symm
      · cases hb : bs[j]? with
        | none => rw [hb] at he; cases he
        | some b =>
          rw [hb] at he
          simp only at he
          cases hr : prepare_bind E j pb b with
          | none => rw [hr] at he; cases he
          | some res =>
            rw [hr] at he
            cases res with
            | error x =>
              obtain ⟨e1, b2⟩ := x
              simp only [Option.some.injEq, Except.error.injEq, Prod.mk.injEq] at he
              rw [← he.1]
              exact prepare_bind_code hr
            | ok b1 =>
              simp only at he
              exact ih (j + 1) (bs.set j b1) bs1 eno he

theorem prepare_bind_bad {E : ExecuteEnv} {i : Nat} {pb : param_bind_t} {b : TAOS_BIND}
    (hty : b.buffer_type = TSDB_DATA_TYPE_BINARY ∨ b.buffer_type = TSDB_DATA_TYPE_NCHAR)
    (hnn : pb.StrLen_or_Ind.map E.ind ≠ some SQL_NULL_DATA)
    (hbad : pb.StrLen_or_Ind = none
      ∨ ∃ a, pb.StrLen_or_Ind = some a ∧ (b.buffer_length : Int) < E.ind a
          ∧ E.ind a < 2 ^ 63) :
    prepare_bind E i pb b
      = some (Except.error (TsdbCode.TSDB_CODE_COM_OPS_NOT_SUPPORT,
          { b with is_null := some E.addr_no })) := by
  have hfix : fixed_width_wire_type b.buffer_type = false := by
    unfold fixed_width_wire_type
    rcases hty with h | h <;> rw [h] <;> decide
  have hty2 : b.buffer_type = (TSDB_DATA_TYPE_BINARY : Int)
      ∨ b.buffer_type = (TSDB_DATA_TYPE_NCHAR : Int) := hty
  unfold prepare_bind
  rw [if_neg hnn]
  simp only [hfix, Bool.false_eq_true, if_false, if_pos hty2]
  rcases hbad with h0 | ⟨a, h1, h2, h3⟩
  · rw [h0]
  · rw [h1]
    have h4 : (0 : Int) ≤ E.ind a := by omega
    have hsz : to_size_t (E.ind a) = (E.ind a).toNat := to_size_t_of_nonneg h4 h3
    have hnts : ¬ (E.ind a).toNat = to_size_t SQL_NTS := by
      have : to_size_t SQL_NTS = 2 ^ 64 - 3 := by decide
      rw [this]
      omega
    have hgt : (E.ind a).toNat > b.buffer_length := by omega
    simp only [hsz, if_neg hnts, if_pos hgt]

theorem execute_binds_bad {E : ExecuteEnv} {sql : sql_t} {ps : List param_bind_t}
    {bs : List TAOS_BIND} {i : Nat} {pb : param_bind_t} {b : TAOS_BIND}
    (hps : sql.params = some ps) (hbs : sql.binds = some bs) (hi : (i : Int) < sql.n_params)
    (hpre : prepare_binds E ps i 0 bs ≠ none)
    (hpb : ps[i]? = some pb) (hv : pb.valid ≠ 0) (hb : bs[i]? = some b)
    (hty : b.buffer_type = TSDB_DATA_TYPE_BINARY ∨ b.buffer_type = TSDB_DATA_TYPE_NCHAR)
    (hnn : pb.StrLen_or_Ind.map E.ind ≠ some SQL_NULL_DATA)
    (hbad : pb.StrLen_or_Ind = none
      ∨ ∃ a, pb.StrLen_or_Ind = some a ∧ (b.buffer_length : Int) < E.ind a
          ∧ E.ind a < 2 ^ 63) :
    ∃ binds, execute_binds E sql
      = some (Except.error (TsdbCode.TSDB_CODE_COM_OPS_NOT_SUPPORT,
          { sql with binds := some binds })) := by
  have hn : sql.n_params.toNat = i + ((sql.n_params.toNat - i - 1) + 1) := by omega
  have hpos : ¬ sql.n_params ≤ 0 := by omega
  unfold execute_binds
  rw [if_neg hpos]
  simp only [hps, hbs, Option.getD_some, Option.map_some']
  rw [hn, prepare_binds_add]
  cases hres : prepare_binds E ps i 0 bs with
  | none => exact absurd hres hpre
  | some res =>
    cases res with
    | error x =>
      obtain ⟨eno, bs1⟩ := x
      have hcode := prepare_binds_code E ps i 0 bs bs1 eno hres
      subst hcode
      exact ⟨bs1, rfl⟩
    | ok bs1 =>
      have hb1 : bs1[i]? = some b := by
        rw [prepare_binds_keeps E ps i 0 bs bs1 hres i (by omega), hb]
      simp only [Nat.zero_add]
      rw [prepare_binds]
      simp only [hpb, if_neg hv, hb1, prepare_bind_bad hty hnn hbad]
      exact ⟨_, rfl⟩

theorem execute_rejected {h : Heap} {s st : Nat} {sql : sql_t} (E : ExecuteEnv)
    (msg : Option String) {ps : List param_bind_t} {bs : List TAOS_BIND} (i : Nat)
    {pb : param_bind_t} {b : TAOS_BIND}
    (hc : Connected h s sql) (hst : sql.stmt = some st)
    (hps : sql.params = some ps) (hbs : sql.binds = some bs) (hi : (i : Int) < sql.n_params)
    (hpre : prepare_binds E ps i 0 bs ≠ none)
    (hpb : ps[i]? = some pb) (hv : pb.valid ≠ 0) (hb : bs[i]? = some b)
    (hty : b.buffer_type = TSDB_DATA_TYPE_BINARY ∨ b.buffer_type = TSDB_DATA_TYPE_NCHAR)
    (hnn : pb.StrLen_or_Ind.map E.ind ≠ some SQL_NULL_DATA)
    (hbad : pb.StrLen_or_Ind = none
      ∨ ∃ a, pb.StrLen_or_Ind = some a ∧ (b.buffer_length : Int) < E.ind a
          ∧ E.ind a < 2 ^ 63) :
    ∃ sql', doSQLExecute h (some s) E msg
        = Outcome.ret SQLRETURN.SQL_ERROR ((release_result h sql).1.set_sql s (some sql'))
      ∧ sql'.err = SET_ERROR sql.err "HY000" TsdbCode.TSDB_CODE_COM_OPS_NOT_SUPPORT msg
      ∧ calls_between h ((release_result h sql).1.set_sql s (some sql'))
          = (sql.rs.map (fun x => EngineCall.taos_free_result x.id)).toList := by
  obtain ⟨c, conn, t, c1, c2, c3⟩ := hc.connected
  have hcc := check_connection_ok msg c1 c2 c3
  have hrel := release_result_eq h sql
  generalize hrr : release_result h sql = rr at hrel ⊢
  obtain ⟨h1, sql1⟩ := rr
  simp only [Prod.mk.injEq] at hrel
  obtain ⟨e1, e2⟩ := hrel
  have hps1 : sql1.params = some ps := by rw [e2]; exact hps
  have hbs1 : sql1.binds = some bs := by rw [e2]; exact hbs
  have hi1 : (i : Int) < sql1.n_params := by rw [e2]; exact hi
  have herr1 : sql1.err = sql.err := by rw [e2]
  obtain ⟨binds, hex⟩ := execute_binds_bad hps1 hbs1 hi1 hpre hpb hv hb hty hnn hbad
  unfold doSQLExecute
  simp only [hc.live, hcc, hst, hrr, hex]
  refine ⟨_, rfl, ?_, ?_⟩
  · simp only [herr1]
  · rw [e1]
    simp [calls_between, Heap.set_sql]

theorem prepare_bind_explicit (E : ExecuteEnv) (i : Nat) {pb : param_bind_t} {b : TAOS_BIND}
    {a n : Nat}
    (hty : b.buffer_type = TSDB_DATA_TYPE_BINARY ∨ b.buffer_type = TSDB_DATA_TYPE_NCHAR)
    (ha : pb.StrLen_or_Ind = some a) (hind : E.ind a = (n : Int))
    (hle : n ≤ b.buffer_length) (hlt : n < 2 ^ 63) :
    prepare_bind E i pb b
      = some (Except.ok { b with is_null := some E.addr_no, buffer_length := n,
                                 length := some (E.addr_buffer_length i),
                                 buffer := pb.ParameterValue }) := by
  have hfix : fixed_width_wire_type b.buffer_type = false := by
    unfold fixed_width_wire_type
    rcases hty with h | h <;> rw [h] <;> decide
  have hty2 : b.buffer_type = (TSDB_DATA_TYPE_BINARY : Int)
      ∨ b.buffer_type = (TSDB_DATA_TYPE_NCHAR : Int) := hty
  have hnn : ¬ (pb.StrLen_or_Ind.map E.ind) = some SQL_NULL_DATA := by
    rw [ha, Option.map_some', hind]
    intro e
    have e2 := Option.some.inj e
    unfold SQL_NULL_DATA at e2
    omega
  have hsz : to_size_t (E.ind a) = n := by
    rw [hind, to_size_t_of_nonneg (by omega) (by exact_mod_cast hlt), Int.toNat_ofNat]
  have hnts : to_size_t SQL_NTS = 18446744073709551613 := by decide
  unfold prepare_bind
  rw [if_neg hnn]
  simp only [hfix, Bool.false_eq_true, if_false, if_pos hty2, ha, hsz, hnts]
  rw [if_neg (by omega), if_neg (by omega)]

theorem CHK_RS_success (sql : sql_t) (terrno : TsdbCode) (msg : Option String)
    (h : answer_code sql.rs terrno = TsdbCode.TSDB_CODE_SUCCESS) :
    CHK_RS sql terrno msg = (SQLRETURN.SQL_SUCCESS, sql) := by
  unfold CHK_RS
  dsimp only
  split_ifs with he
  · exact absurd h he
  · rfl

theorem execute_one_accepted {h : Heap} {s st : Nat} {sql : sql_t} {E : ExecuteEnv}
    (msg : Option String) {pb : param_bind_t} {b : TAOS_BIND} {a n : Nat}
    (hc : Connected h s sql) (hst : sql.stmt = some st)
    (hps : sql.params = some [pb]) (hbs : sql.binds = some [b]) (hn : sql.n_params = 1)
    (hv : pb.valid ≠ 0)
    (hty : b.buffer_type = TSDB_DATA_TYPE_BINARY ∨ b.buffer_type = TSDB_DATA_TYPE_NCHAR)
    (ha : pb.StrLen_or_Ind = some a) (hind : E.ind a = (n : Int))
    (hle : n ≤ b.buffer_length) (hlt : n < 2 ^ 63)
    (g1 : E.bind_param = TsdbCode.TSDB_CODE_SUCCESS)
    (g2 : E.add_batch = TsdbCode.TSDB_CODE_SUCCESS)
    (g3 : E.execute = TsdbCode.TSDB_CODE_SUCCESS)
    (g4 : answer_code E.use_result E.terrno = TsdbCode.TSDB_CODE_SUCCESS) :
    ∃ h1 sql1 b1, doSQLExecute h (some s) E msg = Outcome.ret SQLRETURN.SQL_SUCCESS h1
      ∧ Connected h1 s sql1 ∧ sql1.stmt = some st ∧ sql1.params = some [pb]
      ∧ sql1.binds = some [b1] ∧ sql1.n_params = 1 ∧ sql1.rs = E.use_result
      ∧ b1.buffer_type = b.buffer_type ∧ b1.buffer_length = n := by
  obtain ⟨c, conn, t, c1, c2, c3⟩ := hc.connected
  have hcc := check_connection_ok msg c1 c2 c3
  have hslt : s < h.sqls.length := Heap.sql_lt hc.live
  have hrel := release_result_eq h sql
  generalize hrr : release_result h sql = rr at hrel ⊢
  obtain ⟨h1, sql1⟩ := rr
  simp only [Prod.mk.injEq] at hrel
  obtain ⟨e1, e2⟩ := hrel
  have hps1 : sql1.params = some [pb] := by rw [e2]; exact hps
  have hbs1 : sql1.binds = some [b] := by rw [e2]; exact hbs
  have hn1 : sql1.n_params = 1 := by rw [e2]; exact hn
  have hc1 : sql1.conn = some c := by rw [e2]; exact c1
  have hst1 : sql1.stmt = some st := by rw [e2]; exact hst
  have hpbd := prepare_bind_explicit E 0 hty ha hind hle hlt
  have hex : execute_binds E sql1
      = some (Except.ok { sql1 with binds := some [{ b with
          is_null := some E.addr_no, buffer_length := n,
          length := some (E.addr_buffer_length 0), buffer := pb.ParameterValue }] }) := by
    unfold execute_binds
    rw [if_neg (by rw [hn1]; decide)]
    simp only [hps1, hbs1, hn1, Option.getD_some, Option.map_some']
    rw [show (1 : Int).toNat = 0 + 1 from rfl, prepare_binds]
    simp only [List.getElem?_cons_zero, if_neg hv, hpbd, List.set_cons_zero]
    rw [prepare_binds]
  have hchk := CHK_RS_success { sql1 with
      binds := some [{ b with is_null := some E.addr_no, buffer_length := n,
                              length := some (E.addr_buffer_length 0),
                              buffer := pb.ParameterValue }],
      rs := E.use_result } E.terrno msg g4
  unfold doSQLExecute
  simp only [hc.live, hcc, hst, hrr, hex, hchk]
  unfold execute_send
  simp only [hn1, g1, g2, g3, ne_eq, not_true_eq_false, if_false]
  rw [if_pos (by decide)]
  refine ⟨_, _, _, rfl,
    ⟨Heap.sql_set_sql_same (by rw [e1]; exact hslt) _, c, conn, t, hc1, ?_, c3⟩,
    hst1, hps1, rfl, rfl, rfl, rfl, rfl⟩
  rw [Heap.conn_set_sql, e1]
  exact c2

/-- C31, as amended.  For a connected, prepared statement and a position `i`
below `n_params` whose descriptor is bound and whose bind structure has the
wire type binary or wide text and still holds the buffer length declared at
bind time, the loop reaching the position without an undefined access.  When
the parameter is not null and its indicator pointer is absent, or its
indicator holds an explicit length above the declared buffer length:
`doSQLExecute` returns `SQL_ERROR`, records `TSDB_CODE_COM_OPS_NOT_SUPPORT` on
the statement, and the only call it has made to the engine is the release of
the result set that the statement held, if any.  When the indicator holds the
sentinel `SQL_NTS`, the body of the loop takes the measured length of the
value as the buffer length and accepts the parameter, whatever the declared
length. -/
theorem execute_length_checks (h : Heap) (s st : Nat) (sql : sql_t) (E : ExecuteEnv)
    (msg : Option String) (ps : List param_bind_t) (bs : List TAOS_BIND) (i : Nat)
    (pb : param_bind_t) (b : TAOS_BIND)
    (hc : Connected h s sql) (hst : sql.stmt = some st)
    (hps : sql.params = some ps) (hbs : sql.binds = some bs) (hi : (i : Int) < sql.n_params)
    (hpre : prepare_binds E ps i 0 bs ≠ none)
    (hpb : ps[i]? = some pb) (hv : pb.valid ≠ 0) (hb : bs[i]? = some b)
    (hty : b.buffer_type = TSDB_DATA_TYPE_BINARY ∨ b.buffer_type = TSDB_DATA_TYPE_NCHAR)
    (hD : b.buffer_length = pb.LengthPrecision) :
    (pb.StrLen_or_Ind.map E.ind ≠ some SQL_NULL_DATA →
      (pb.StrLen_or_Ind = none
        ∨ ∃ a, pb.StrLen_or_Ind = some a ∧ (pb.LengthPrecision : Int) < E.ind a
            ∧ E.ind a < 2 ^ 63) →
      ∃ sql', doSQLExecute h (some s) E msg
          = Outcome.ret SQLRETURN.SQL_ERROR ((release_result h sql).1.set_sql s (some sql'))
        ∧ sql'.err = SET_ERROR sql.err "HY000" TsdbCode.TSDB_CODE_COM_OPS_NOT_SUPPORT msg
        ∧ calls_between h ((release_result h sql).1.set_sql s (some sql'))
            = (sql.rs.map (fun x => EngineCall.taos_free_result x.id)).toList)
    ∧ (∀ a v, pb.StrLen_or_Ind = some a → E.ind a = SQL_NTS → pb.ParameterValue = some v →
        prepare_bind E i pb b
          = some (Except.ok { b with is_null := some E.addr_no, buffer_length := E.strlen v,
                                     length := some (E.addr_buffer_length i),
                                     buffer := pb.ParameterValue })) := by
  constructor
  · intro hnn hbad
    rw [← hD] at hbad
    exact execute_rejected E msg i hc hst hps hbs hi hpre hpb hv hb hty hnn hbad
  · intro a v ha hnts hval
    have hfix : fixed_width_wire_type b.buffer_type = false := by
      unfold fixed_width_wire_type
      rcases hty with h | h <;> rw [h] <;> decide
    have hty2 : b.buffer_type = (TSDB_DATA_TYPE_BINARY : Int)
        ∨ b.buffer_type = (TSDB_DATA_TYPE_NCHAR : Int) := hty
    have hnn : ¬ (pb.StrLen_or_Ind.map E.ind) = some SQL_NULL_DATA := by
      rw [ha, Option.map_some', hnts]
      decide
    unfold prepare_bind
    rw [if_neg hnn]
    simp only [hfix, Bool.false_eq_true, if_false, if_pos hty2, ha, hnts, if_true, hval]

set_option maxRecDepth 8192 in
/-- The failure of C31 as stated.  A wide-text parameter declared with the
length 10, its indicator holding `SQL_NTS` and its value measuring 25
characters: `doSQLExecute` returns `SQL_SUCCESS`, having passed the bind
structure with the buffer length 25 to `taos_stmt_bind_param` and called
`taos_stmt_add_batch`, `taos_stmt_execute` and `taos_stmt_use_result`.  And
with an indicator holding 11 on a statement that holds a result set, the
failing `doSQLExecute` has called `taos_free_result`. -/
theorem measured_length_is_not_checked :
    doSQLExecute (demo_heap1 demo_text_bound) (some 0) (demo_env_len SQL_NTS 25) none
      = Outcome.ret SQLRETURN.SQL_SUCCESS
          ((demo_heap1 demo_text_bound).after 0
            { demo_text_bound with
              binds := some [{ buffer_type := 10, buffer := some 100, buffer_length := 25,
                               length := some 16, is_null := some 2 }] }
            [EngineCall.taos_stmt_bind_param 3
                (some [{ buffer_type := 10, buffer := some 100, buffer_length := 25,
                         length := some 16, is_null := some 2 }]),
              EngineCall.taos_stmt_add_batch 3, EngineCall.taos_stmt_execute 3,
              EngineCall.taos_stmt_use_result 3])
    ∧ doSQLExecute (demo_heap1 demo_text_held) (some 0) (demo_env_len 11 11) none
      = Outcome.ret SQLRETURN.SQL_ERROR
          ((demo_heap1 demo_text_held).after 0
            { demo_text_bound with
              binds := some [{ buffer_type := 10, buffer_length := 10, is_null := some 2 }],
              err := { err_no := TsdbCode.TSDB_CODE_COM_OPS_NOT_SUPPORT } }
            [EngineCall.taos_free_result 9]) := by
  constructor <;> rfl

/-- Witness of the amended C31: the parameter declared with the length 10 and
an indicator holding 11. -/
theorem execute_length_checks_witness :
    ∃ sql', doSQLExecute (demo_heap1 demo_text_bound) (some 0) (demo_env_len 11 11) none
        = Outcome.ret SQLRETURN.SQL_ERROR
            ((release_result (demo_heap1 demo_text_bound) demo_text_bound).1.set_sql 0
              (some sql'))
      ∧ sql'.err = SET_ERROR demo_text_bound.err "HY000"
          TsdbCode.TSDB_CODE_COM_OPS_NOT_SUPPORT none :=
  have k := (execute_length_checks (demo_heap1 demo_text_bound) 0 3 demo_text_bound
    (demo_env_len 11 11) none [demo_text_param] [demo_text_bind] 0 demo_text_param
    demo_text_bind (demo_heap1_connected demo_text_bound (by rfl)) rfl rfl rfl (by decide)
    (by intro e; cases e) rfl (by decide) rfl (Or.inr rfl) rfl).1 (by decide)
    (Or.inr ⟨50, rfl, by decide, by decide⟩)
  ⟨k.choose, k.choose_spec.1, k.choose_spec.2.1⟩

/-- C36, as the code behaves.  A connected, prepared statement with one
parameter of the wire type binary or wide text, bound with the declared length
`D` (`LengthPrecision`, which the bind structure holds as its buffer length),
and two explicit lengths `n1 < n2 <= D`, the engine accepting every call.
Executed with the length `n2` the statement succeeds.  Executed with the
length `n1` it succeeds as well, and the execution with `n2` that follows
returns `SQL_ERROR` with `TSDB_CODE_COM_OPS_NOT_SUPPORT`, having called the
engine only to release the result set of the first execution: the first
execution left `n1` in the buffer length against which the second one
compares. -/
theorem reexecution_checks_last_length (h : Heap) (s st : Nat) (sql : sql_t)
    (E1 E2 : ExecuteEnv) (msg : Option String) (pb : param_bind_t) (b : TAOS_BIND)
    (a n1 n2 : Nat)
    (hc : Connected h s sql) (hst : sql.stmt = some st)
    (hps : sql.params = some [pb]) (hbs : sql.binds = some [b]) (hn : sql.n_params = 1)
    (hv : pb.valid ≠ 0)
    (hty : b.buffer_type = TSDB_DATA_TYPE_BINARY ∨ b.buffer_type = TSDB_DATA_TYPE_NCHAR)
    (hD : b.buffer_length = pb.LengthPrecision)
    (ha : pb.StrLen_or_Ind = some a) (h1 : E1.ind a = (n1 : Int)) (h2 : E2.ind a = (n2 : Int))
    (h12 : n1 < n2) (h2D : n2 ≤ pb.LengthPrecision) (hlt : n2 < 2 ^ 63)
    (g1 : E1.bind_param = TsdbCode.TSDB_CODE_SUCCESS)
    (g2 : E1.add_batch = TsdbCode.TSDB_CODE_SUCCESS)
    (g3 : E1.execute = TsdbCode.TSDB_CODE_SUCCESS)
    (g4 : answer_code E1.use_result E1.terrno = TsdbCode.TSDB_CODE_SUCCESS)
    (k1 : E2.bind_param = TsdbCode.TSDB_CODE_SUCCESS)
    (k2 : E2.add_batch = TsdbCode.TSDB_CODE_SUCCESS)
    (k3 : E2.execute = TsdbCode.TSDB_CODE_SUCCESS)
    (k4 : answer_code E2.use_result E2.terrno = TsdbCode.TSDB_CODE_SUCCESS) :
    (∃ h3, doSQLExecute h (some s) E2 msg = Outcome.ret SQLRETURN.SQL_SUCCESS h3)
    ∧ ∃ h1 h2 sql2,
        doSQLExecute h (some s) E1 msg = Outcome.ret SQLRETURN.SQL_SUCCESS h1
        ∧ doSQLExecute h1 (some s) E2 msg = Outcome.ret SQLRETURN.SQL_ERROR h2
        ∧ h2.sql s = some sql2
        ∧ sql2.err.err_no = TsdbCode.TSDB_CODE_COM_OPS_NOT_SUPPORT
        ∧ calls_between h1 h2
            = (E1.use_result.map (fun x => EngineCall.taos_free_result x.id)).toList := by
  constructor
  · obtain ⟨h3, -, -, e, -⟩ := execute_one_accepted msg hc hst hps hbs hn hv hty ha h2
      (by omega) hlt k1 k2 k3 k4
    exact ⟨h3, e⟩
  · obtain ⟨h1, sql1, b1, e, hc1, hst1, hps1, hbs1, hn1, hrs1, hty1, hlen1⟩ :=
      execute_one_accepted msg hc hst hps hbs hn hv hty ha h1 (by omega) (by omega)
        g1 g2 g3 g4
    have hnn : pb.StrLen_or_Ind.map E2.ind ≠ some SQL_NULL_DATA := by
      rw [ha, Option.map_some', h2]
      intro e
      have e2 := Option.some.inj e
      unfold SQL_NULL_DATA at e2
      omega
    have hb1 : [b1][0]? = some b1 := rfl
    obtain ⟨sql2, e2, herr, hcalls⟩ := execute_rejected E2 msg 0
      hc1 hst1 hps1 hbs1 (by rw [hn1]; decide)
      (by intro e; rw [prepare_binds] at e; cases e) rfl hv hb1 (by rw [hty1]; exact hty)
      hnn (Or.inr ⟨a, ha, by rw [hlen1, h2]; exact_mod_cast h12,
        by rw [h2]; exact_mod_cast hlt⟩)
    refine ⟨h1, _, sql2, e, e2, ?_, ?_, ?_⟩
    · exact Heap.sql_set_sql_same
        (by rw [(release_result_fields h1 sql1).2.1]; exact Heap.sql_lt hc1.live) _
    · rw [herr, SET_ERROR_err_no]
    · rw [hcalls, hrs1]

set_option maxRecDepth 8192 in
/-- Witness of C36 as the code behaves.  `doSQLBindParameter` binds a text
parameter with the declared length 10 on a prepared statement; the statement
is executed with the length 3 and then with the length 5. -/
theorem reexecution_checks_last_length_witness :
    doSQLBindParameter (demo_heap1 demo_prepared) (some 0) 1 SQL_PARAM_INPUT SQL_C_CHAR
        SQL_VARCHAR 10 0 (some 100) 0 (some 50) (some (fun _ => {})) (some (fun _ => {})) none
      = Outcome.ret SQLRETURN.SQL_SUCCESS (demo_heap1 demo_text_bound)
    ∧ (∃ h3, doSQLExecute (demo_heap1 demo_text_bound) (some 0) (demo_env_len 5 5) none
        = Outcome.ret SQLRETURN.SQL_SUCCESS h3)
    ∧ ∃ h1 h2 sql2,
        doSQLExecute (demo_heap1 demo_text_bound) (some 0) (demo_env_len 3 3) none
          = Outcome.ret SQLRETURN.SQL_SUCCESS h1
        ∧ doSQLExecute h1 (some 0) (demo_env_len 5 5) none
          = Outcome.ret SQLRETURN.SQL_ERROR h2
        ∧ h2.sql 0 = some sql2
        ∧ sql2.err.err_no = TsdbCode.TSDB_CODE_COM_OPS_NOT_SUPPORT
        ∧ calls_between h1 h2 = [] :=
  ⟨by rfl, reexecution_checks_last_length (demo_heap1 demo_text_bound) 0 3 demo_text_bound
    (demo_env_len 3 3) (demo_env_len 5 5) none demo_text_param demo_text_bind 50 3 5
    (demo_heap1_connected demo_text_bound (by rfl)) rfl rfl rfl rfl (by decide)
    (Or.inr rfl) rfl rfl rfl rfl (by decide) (by decide) (by decide)
    rfl rfl rfl rfl rfl rfl rfl rfl⟩

end Todbc
namespace Todbc

theorem doSQLGetDiagRec_live {h : Heap} {HandleType : Int} {p : Nat} {err : taos_error_t}
    (he : handle_error h HandleType p = some err) (rec : Int) (hr : rec ≤ 1) (out : DiagRec)
    (len : Int) :
    doSQLGetDiagRec h HandleType (some p) rec out len
      = match FILL_ERROR err out len with
        | none => Outcome.fault
        | some out => Outcome.ret SQLRETURN.SQL_SUCCESS out := by
  unfold handle_error at he
  unfold doSQLGetDiagRec
  rw [if_neg (by omega)]
  split_ifs at he with h1 h2 h3
  · rw [if_pos h1]
    cases hx : h.env p with
    | none => rw [hx] at he; cases he
    | some x =>
      rw [hx] at he
      simp only [Option.map_some', Option.some.injEq] at he
      subst he
      simp only [hx]
  · rw [if_neg h1, if_pos h2]
    cases hx : h.conn p with
    | none => rw [hx] at he; cases he
    | some x =>
      rw [hx] at he
      simp only [Option.map_some', Option.some.injEq] at he
      subst he
      simp only [hx]
  · rw [if_neg h1, if_neg h2, if_pos h3]
    cases hx : h.sql p with
    | none => rw [hx] at he; cases he
    | some x =>
      rw [hx] at he
      simp only [Option.map_some', Option.some.injEq] at he
      subst he
      simp only [hx]

theorem FILL_ERROR_full {err : taos_error_t} {m : String} (hm : err.err_str = some m)
    (sp : Bytes) (ne : TsdbCode) (mp : Bytes) (tl : Int) (len : Int)
    (hsp : 6 ≤ sp.length) (h1 : 1 ≤ len) (h2 : len ≤ mp.length) (h3 : len ≤ 32767) :
    FILL_ERROR err
        { Sqlstate := some sp, NativeError := some ne, MessageText := some mp,
          TextLength := some tl } len
      = some { Sqlstate := some (mem_write sp (strncpy_data (sql_state_text err) 6)),
               NativeError := some err.err_no,
               MessageText := some (mem_write mp
                 ((c_str (ascii m)).take (len.toNat - 1) ++ [0])),
               TextLength := some (int_cast 2 (c_str (ascii m)).length) } := by
  have hsz : to_size_t len = len.toNat := to_size_t_of_nonneg (by omega) (by omega)
  have hne : ¬ len.toNat = 0 := by omega
  have hd : snprintf_data (c_str (ascii m)) len.toNat
      = (c_str (ascii m)).take (len.toNat - 1) ++ [0] := by
    unfold snprintf_data
    rw [if_neg hne]
  have hl : ¬ mp.length < ((c_str (ascii m)).take (len.toNat - 1) ++ [0]).length := by
    simp only [List.length_append, List.length_take, List.length_singleton]
    omega
  unfold FILL_ERROR
  simp only [hm, if_neg (not_lt.mpr hsp), hsz, hd, if_neg hl, Option.map_some']

theorem takeWhile_replicate_of_pos {α : Type} (p : α → Bool) (a : α) (hp : p a = true)
    (n : Nat) : (List.replicate n a).takeWhile p = List.replicate n a := by
  induction n with
  | zero => rfl
  | succ k ih => rw [List.replicate_succ, List.takeWhile_cons, hp, if_pos rfl, ih]

theorem long_message_length : (c_str (ascii long_message)).length = 32768 := by
  have h1 : ascii long_message = List.replicate 32768 120 := by
    unfold ascii long_message
    simp only [String.toList, List.map_replicate]
    rfl
  unfold c_str
  rw [h1, takeWhile_replicate_of_pos _ _ (by decide), List.length_replicate]

/-- C32, as amended.  For a live handle of each kind (environment, connection,
statement) whose error context holds a message, the record number 1, a state
buffer of at least 6 bytes, a message buffer of at least `BufferLength >= 1`
bytes and non-null pointers for the native error and the text length:
`doSQLGetDiagRec` returns `SQL_SUCCESS`, copies the state code of the handle
(its characters and zero bytes up to 6 bytes), stores the native error code of
the handle, writes the first `BufferLength - 1` characters of the message (all
of them when there are fewer) followed by a terminator, and stores the length
of the whole message converted to the 16-bit `SQLSMALLINT` behind
`TextLength`: the very length when it is at most 32767.  For every record
number above 1, every handle and every handle type it returns `SQL_NO_DATA`
and leaves the four outputs as they were. -/
theorem diagnostic_record_copy (h : Heap) (HandleType : Int) (p : Nat) (err : taos_error_t)
    (m : String) (sp : Bytes) (ne : TsdbCode) (mp : Bytes) (tl : Int) (len : Int)
    (he : handle_error h HandleType p = some err) (hm : err.err_str = some m)
    (hsp : 6 ≤ sp.length) (h1 : 1 ≤ len) (h2 : len ≤ mp.length) (h3 : len ≤ 32767) :
    doSQLGetDiagRec h HandleType (some p) 1
        { Sqlstate := some sp, NativeError := some ne, MessageText := some mp,
          TextLength := some tl } len
      = Outcome.ret SQLRETURN.SQL_SUCCESS
          { Sqlstate := some (mem_write sp (strncpy_data (sql_state_text err) 6)),
            NativeError := some err.err_no,
            MessageText := some (mem_write mp
              ((c_str (ascii m)).take (len.toNat - 1) ++ [0])),
            TextLength := some (int_cast 2 (c_str (ascii m)).length) }
    ∧ ((c_str (ascii m)).length ≤ 32767 →
        int_cast 2 (c_str (ascii m)).length = ((c_str (ascii m)).length : Int))
    ∧ (HandleType = SQL_HANDLE_ENV ∨ HandleType = SQL_HANDLE_DBC
        ∨ HandleType = SQL_HANDLE_STMT)
    ∧ ∀ (kind : Int) (handle : Option Nat) (rec : Int) (out : DiagRec), 1 < rec →
        doSQLGetDiagRec h kind handle rec out len = Outcome.ret SQLRETURN.SQL_NO_DATA out := by
  refine ⟨?_, ?_, ?_, ?_⟩
  · rw [doSQLGetDiagRec_live he 1 (le_refl 1), FILL_ERROR_full hm sp ne mp tl len hsp h1 h2 h3]
  · intro hl
    apply int_cast_of_in_range (Or.inr (Or.inl rfl))
    unfold in_range
    norm_num
    omega
  · unfold handle_error at he
    split_ifs at he with a1 a2 a3
    · exact Or.inl a1
    · exact Or.inr (Or.inl a2)
    · exact Or.inr (Or.inr a3)
  · intro kind handle rec out hrec
    unfold doSQLGetDiagRec
    rw [if_pos hrec]

/-- The failure of C32 as stated.  The error context of the statement holds a
message of 32768 characters; `doSQLGetDiagRec` with a message buffer of one
byte returns `SQL_SUCCESS`, writes the terminator and reports the text length
-32768, not 32768. -/
theorem diagnostic_length_wraps :
    doSQLGetDiagRec (demo_heap1 demo_long_error) SQL_HANDLE_STMT (some 0) 1
        { Sqlstate := some [170, 170, 170, 170, 170, 170],
          NativeError := some TsdbCode.TSDB_CODE_SUCCESS, MessageText := some [170],
          TextLength := some 0 } 1
      = Outcome.ret SQLRETURN.SQL_SUCCESS
          { Sqlstate := some [72, 89, 48, 48, 48, 0],
            NativeError := some TsdbCode.TSDB_CODE_RPC_NETWORK_UNAVAIL,
            MessageText := some [0], TextLength := some (-32768) } := by
  have he : handle_error (demo_heap1 demo_long_error) SQL_HANDLE_STMT 0
      = some demo_long_error.err := rfl
  rw [doSQLGetDiagRec_live he 1 (le_refl 1),
    FILL_ERROR_full (rfl : demo_long_error.err.err_str = some long_message) _ _ _ _ 1
      (by decide) (by decide) (by decide) (by decide), long_message_length]
  rfl

/-- Witness of the amended C32: the statement `demo_failed`, a message buffer
of 8 bytes. -/
theorem diagnostic_record_copy_witness :
    doSQLGetDiagRec (demo_heap1 demo_failed) SQL_HANDLE_STMT (some 0) 1
        { Sqlstate := some [170, 170, 170, 170, 170, 170, 170],
          NativeError := some TsdbCode.TSDB_CODE_SUCCESS,
          MessageText := some [170, 170, 170, 170, 170, 170, 170, 170, 170],
          TextLength := some 0 } 8
      = Outcome.ret SQLRETURN.SQL_SUCCESS
          { Sqlstate := some [72, 89, 48, 48, 48, 0, 170],
            NativeError := some TsdbCode.TSDB_CODE_TSC_QUERY_CACHE_ERASED,
            MessageText := some (ascii "no resu" ++ [0, 170]),
            TextLength := some 13 } :=
  ((diagnostic_record_copy (demo_heap1 demo_failed) SQL_HANDLE_STMT 0 demo_failed.err
    "no result set" [170, 170, 170, 170, 170, 170, 170] TsdbCode.TSDB_CODE_SUCCESS
    [170, 170, 170, 170, 170, 170, 170, 170, 170] 0 8 rfl rfl (by decide) (by decide)
    (by decide) (by decide)).1).trans (by rfl)

end Todbc
namespace Todbc

theorem doSQLColAttribute_display {h : Heap} {s : Nat} {sql : sql_t} {rs : TAOS_RES}
    {col : Nat} {field : TAOS_FIELD} (ca : Option Bytes) (len : Int) (sl : Option Int)
    (na : Int) (msg : Option String) (hc : Connected h s sql) (hrs : sql.rs = some rs)
    (h1 : 1 ≤ col) (h2 : (col : Int) ≤ rs.field_count)
    (hf : rs.fields.bind (fun fs => fs[col - 1]?) = some field) :
    doSQLColAttribute h (some s) col SQL_COLUMN_DISPLAY_SIZE ca len sl (some na) msg
      = Outcome.ret SQLRETURN.SQL_SUCCESS (h, ca, some (do_field_display_size field)) := by
  obtain ⟨hs, c, conn, t, e1, e2, e3⟩ := hc
  have hcc : check_connection h sql msg = some (Except.ok t) := check_connection_ok msg e1 e2 e3
  have hfs : ¬ (rs.field_count = 0 ∨ rs.fields.isNone = true) := by
    intro hx
    rcases hx with hx | hx
    · omega
    · cases hfd : rs.fields with
      | none => rw [hfd] at hf; cases hf
      | some fs => rw [hfd] at hx; cases hx
  unfold doSQLColAttribute
  simp only [hs, hcc, hrs, if_neg hfs, hf]
  rw [if_neg (by omega), if_neg (by omega), if_neg (by omega)]
  simp only [if_true]

/-- C33.  For a connected statement that holds a result set and a valid
column `col` with the field descriptor `field`: `doSQLColAttribute` for
`SQL_COLUMN_DISPLAY_SIZE` returns `SQL_SUCCESS`, changes nothing and stores
`do_field_display_size field`, which is 5 for int8, 7 for int16, 12 for int32,
22 for int64, 12 for float32, 20 for float64, 7 for boolean, 26 for timestamp,
`3 * (field.bytes - VARSTR_HEADER_SIZE) + 2` for binary and wide text (the byte
width is a 16-bit value) and 10 for any other type tag: a function of the wire
type and of the byte width only. -/
theorem display_size_by_wire_type (h : Heap) (s : Nat) (sql : sql_t) (rs : TAOS_RES)
    (col : Nat) (field : TAOS_FIELD) (ca : Option Bytes) (len : Int) (sl : Option Int)
    (na : Int) (msg : Option String) (hc : Connected h s sql) (hrs : sql.rs = some rs)
    (h1 : 1 ≤ col) (h2 : (col : Int) ≤ rs.field_count)
    (hf : rs.fields.bind (fun fs => fs[col - 1]?) = some field)
    (hb : in_range 2 field.bytes) :
    ∃ size : Int,
      doSQLColAttribute h (some s) col SQL_COLUMN_DISPLAY_SIZE ca len sl (some na) msg
        = Outcome.ret SQLRETURN.SQL_SUCCESS (h, ca, some size)
      ∧ (field.type = TSDB_DATA_TYPE_TINYINT → size = 5)
      ∧ (field.type = TSDB_DATA_TYPE_SMALLINT → size = 7)
      ∧ (field.type = TSDB_DATA_TYPE_INT → size = 12)
      ∧ (field.type = TSDB_DATA_TYPE_BIGINT → size = 22)
      ∧ (field.type = TSDB_DATA_TYPE_FLOAT → size = 12)
      ∧ (field.type = TSDB_DATA_TYPE_DOUBLE → size = 20)
      ∧ (field.type = TSDB_DATA_TYPE_BOOL → size = 7)
      ∧ (field.type = TSDB_DATA_TYPE_TIMESTAMP → size = 26)
      ∧ (field.type = TSDB_DATA_TYPE_BINARY ∨ field.type = TSDB_DATA_TYPE_NCHAR →
          size = 3 * (field.bytes - VARSTR_HEADER_SIZE) + 2)
      ∧ (field.type ∉ [TSDB_DATA_TYPE_TINYINT, TSDB_DATA_TYPE_SMALLINT, TSDB_DATA_TYPE_INT,
            TSDB_DATA_TYPE_BIGINT, TSDB_DATA_TYPE_FLOAT, TSDB_DATA_TYPE_DOUBLE,
            TSDB_DATA_TYPE_BOOL, TSDB_DATA_TYPE_TIMESTAMP, TSDB_DATA_TYPE_BINARY,
            TSDB_DATA_TYPE_NCHAR] → size = 10) := by
  refine ⟨do_field_display_size field, doSQLColAttribute_display ca len sl na msg hc hrs h1 h2 hf,
    ?_, ?_, ?_, ?_, ?_, ?_, ?_, ?_, ?_, ?_⟩
  · intro e; unfold do_field_display_size; rw [e]; rfl
  · intro e; unfold do_field_display_size; rw [e]; rfl
  · intro e; unfold do_field_display_size; rw [e]; rfl
  · intro e; unfold do_field_display_size; rw [e]; rfl
  · intro e; unfold do_field_display_size; rw [e]; rfl
  · intro e; unfold do_field_display_size; rw [e]; rfl
  · intro e; unfold do_field_display_size; rw [e]; rfl
  · intro e; unfold do_field_display_size; rw [e]; rfl
  · intro e
    have hv : in_range 4 (3 * (field.bytes - VARSTR_HEADER_SIZE) + 2) := by
      unfold in_range at hb ⊢
      unfold VARSTR_HEADER_SIZE
      norm_num at hb ⊢
      omega
    have hcast := int_cast_of_in_range (Or.inr (Or.inr (Or.inl rfl))) hv
    unfold do_field_display_size
    rcases e with e | e <;> rw [e] <;> simp only [hcast] <;> rfl
  · intro e
    simp only [List.mem_cons, List.mem_singleton, not_or, List.mem_nil_iff, or_false] at e
    obtain ⟨e1, e2, e3, e4, e5, e6, e7, e8, e9, e10⟩ := e
    unfold do_field_display_size
    simp only [e1, e2, e3, e4, e5, e6, e7, e8, e9, e10, if_false, or_self]

/-- Witness of C33: the wide-text column 2 of `demo_fetch`, declared with 22
bytes, has the display size 62. -/
theorem display_size_by_wire_type_witness :
    ∃ size : Int,
      doSQLColAttribute demo_fetch (some 0) 2 SQL_COLUMN_DISPLAY_SIZE none 0 none (some 0) none
        = Outcome.ret SQLRETURN.SQL_SUCCESS (demo_fetch, none, some size)
      ∧ size = 62 := by
  obtain ⟨size, k1, -, -, -, -, -, -, -, -, k2, -⟩ :=
    display_size_by_wire_type demo_fetch 0 demo_sql demo_rs 2
      { name := ascii "txt", type := TSDB_DATA_TYPE_NCHAR, bytes := 22 } none 0 none 0 none
      ⟨rfl, 0, _, 7, rfl, rfl, rfl⟩ rfl (by decide) (by decide) rfl
      ⟨by decide, by decide⟩
  exact ⟨size, k1, (k2 (Or.inr rfl)).trans (by decide)⟩

end Todbc
namespace Todbc

/-- C34.  `doSQLFreeStmt` with the option `SQL_CLOSE` returns `SQL_SUCCESS`
and leaves every object of the process as it was, whatever the statement
holds: result set, row cursor, prepared handle, parameter arrays, `n_params`,
error context and every reference count are unchanged and no call is made to
the engine.  With an option that is neither `SQL_CLOSE` nor `SQL_DROP`, on a
live statement, it returns `SQL_ERROR`, records
`TSDB_CODE_COM_OPS_NOT_SUPPORT` on the statement and changes nothing else:
nothing is freed and no call is made to the engine. -/
theorem free_statement_close_is_noop (h : Heap) (s : Nat) (msg : Option String) :
    doSQLFreeStmt h (some s) SQL_CLOSE msg = Outcome.ret SQLRETURN.SQL_SUCCESS h
      ∧ ∀ (o : Nat) (sql : sql_t), o ≠ SQL_CLOSE → o ≠ SQL_DROP → h.sql s = some sql →
          doSQLFreeStmt h (some s) o msg
            = Outcome.ret SQLRETURN.SQL_ERROR
                (h.set_sql s (some { sql with
                  err := SET_ERROR sql.err "HY000" TsdbCode.TSDB_CODE_COM_OPS_NOT_SUPPORT msg }))
          ∧ (h.set_sql s (some { sql with
                  err := SET_ERROR sql.err "HY000" TsdbCode.TSDB_CODE_COM_OPS_NOT_SUPPORT msg })).log
              = h.log := by
  constructor
  · unfold doSQLFreeStmt
    simp only [if_true]
  · intro o sql h1 h2 hs
    unfold doSQLFreeStmt
    simp only [if_neg h1, hs, ne_eq, h2, not_false_eq_true, if_true]
    exact ⟨trivial, rfl⟩

/-- Witness of C34: the option 2 (`SQL_UNBIND`) on the prepared statement
`demo_bound`. -/
theorem free_statement_close_is_noop_witness :
    doSQLFreeStmt (demo_heap1 demo_bound) (some 0) 2 none
      = Outcome.ret SQLRETURN.SQL_ERROR
          ((demo_heap1 demo_bound).set_sql 0 (some { demo_bound with
            err := SET_ERROR demo_bound.err "HY000" TsdbCode.TSDB_CODE_COM_OPS_NOT_SUPPORT
              none })) :=
  ((free_statement_close_is_noop (demo_heap1 demo_bound) 0 none).2 2 demo_bound (by decide)
    (by decide) rfl).1

/-- C40, as amended.  `doSQLConnect` reads the server name only to copy it:
for any two server names of which the copy is made (a name that is null or
already terminated at its length needs no allocation that can fail), with the
same connection, user, credentials and answers of the engine, the two calls
have the same outcome, status and objects left, and whatever a call returns,
the only request it has made to the engine is `taos_connect` for the host
`"localhost"`. -/
theorem connect_ignores_server_name (h : Heap) (c : Option Nat)
    (s1 s1b : Option Bytes) (n1 n1b : Int) (a1 a1b : Bool)
    (s2 : Option Bytes) (n2 : Int) (s3 : Option Bytes) (n3 : Int) (a2 a3 : Bool)
    (taos : Option Nat) (terrno : TsdbCode) (msg : Option String)
    (hx : ∃ x, SDUP s1 n1 a1 = some x ∧ (s1.isSome = true → x.isSome = true))
    (hy : ∃ y, SDUP s1b n1b a1b = some y ∧ (s1b.isSome = true → y.isSome = true)) :
    doSQLConnect h c s1 n1 s2 n2 s3 n3 a1 a2 a3 taos terrno msg
        = doSQLConnect h c s1b n1b s2 n2 s3 n3 a1b a2 a3 taos terrno msg
      ∧ ∀ r h', doSQLConnect h c s1 n1 s2 n2 s3 n3 a1 a2 a3 taos terrno msg
            = Outcome.ret r h' →
          ∀ call ∈ calls_between h h', ∃ user auth,
            call = EngineCall.taos_connect "localhost" user auth := by
  obtain ⟨x, hx1, hx2⟩ := hx
  obtain ⟨y, hy1, hy2⟩ := hy
  have key : ∀ (s : Option Bytes) (n : Int) (a : Bool) (x : Option Bytes),
      SDUP s n a = some x → (s.isSome = true → x.isSome = true) →
      doSQLConnect h c s n s2 n2 s3 n3 a a2 a3 taos terrno msg
        = doSQLConnect h c none 0 s2 n2 s3 n3 true a2 a3 taos terrno msg := by
    intro s n a x e1 e2
    have e3 : (s.isSome && x.isNone) = false := by
      cases s <;> cases x <;> simp_all
    have e4 : SDUP none 0 true = some (some []) := rfl
    unfold doSQLConnect
    rw [e1, e4]
    cases c with
    | none => rfl
    | some c =>
      simp only
      cases h.conn c with
      | none => rfl
      | some conn =>
        simp only
        cases SDUP s2 n2 a2 <;> cases SDUP s3 n3 a3 <;>
          first
            | rfl
            | simp only [e3, Option.isSome_none, Bool.false_and, Bool.false_or]
  refine ⟨(key s1 n1 a1 x hx1 hx2).trans (key s1b n1b a1b y hy1 hy2).symm, ?_⟩
  intro r h' hrun
  rw [key s1 n1 a1 x hx1 hx2] at hrun
  unfold doSQLConnect at hrun
  cases c with
  | none =>
    simp only [Outcome.ret.injEq] at hrun
    obtain ⟨-, rfl⟩ := hrun
    intro call hcall
    simp [calls_between] at hcall
  | some c =>
    simp only at hrun
    cases hcn : h.conn c with
    | none => rw [hcn] at hrun; cases hrun
    | some conn =>
      rw [hcn] at hrun
      simp only at hrun
      repeat' split at hrun
      all_goals first
        | (cases hrun; done)
        | (simp only [Outcome.ret.injEq] at hrun
           obtain ⟨-, rfl⟩ := hrun
           intro call hcall
           first
             | (simp [calls_between, Heap.set_conn, Heap.call] at hcall; done)
             | (simp [calls_between, Heap.set_conn, Heap.call] at hcall
                exact ⟨_, _, hcall⟩))

/-- The failure of C40 as stated.  With an allocator that is out of memory, a
connection without a native handle and an engine that accepts the
connection: for the server name `h`, terminated at its length 1,
`doSQLConnect` needs no copy and returns `SQL_SUCCESS`; for the server name
`hi` with the length 1 it needs a copy, records `TSDB_CODE_ODBC_OOM`, makes no
call to the engine and returns `SQL_ERROR`. -/
theorem server_name_copy_decides_outcome :
    doSQLConnect demo_disconnected (some 0) (some [104, 0]) 1 (some [117, 0]) 1 (some [112, 0]) 1
        false false false (some 7) TsdbCode.TSDB_CODE_SUCCESS none
      = Outcome.ret SQLRETURN.SQL_SUCCESS
          ((demo_disconnected.call
              (EngineCall.taos_connect "localhost" (some [117]) (some [112]))).set_conn 0
            (some { refcount := 1, env := some 0, taos := some 7 }))
    ∧ doSQLConnect demo_disconnected (some 0) (some [104, 105, 0]) 1 (some [117, 0]) 1
        (some [112, 0]) 1 false false false (some 7) TsdbCode.TSDB_CODE_SUCCESS none
      = Outcome.ret SQLRETURN.SQL_ERROR
          (demo_disconnected.set_conn 0
            (some { refcount := 1, env := some 0,
                    err := { err_no := TsdbCode.TSDB_CODE_ODBC_OOM } })) := by
  constructor <;> rfl

/-- Witness of the amended C40: the server names `h` and `hi` (length 2, both
terminated) with an allocator that works. -/
theorem connect_ignores_server_name_witness :
    doSQLConnect demo_disconnected (some 0) (some [104, 0]) 1 (some [117, 0]) 1 (some [112, 0]) 1
        true true true (some 7) TsdbCode.TSDB_CODE_SUCCESS none
      = doSQLConnect demo_disconnected (some 0) (some [104, 105, 0]) 2 (some [117, 0]) 1
          (some [112, 0]) 1 true true true (some 7) TsdbCode.TSDB_CODE_SUCCESS none :=
  (connect_ignores_server_name demo_disconnected (some 0) (some [104, 0]) (some [104, 105, 0]) 1 2
    true true (some [117, 0]) 1 (some [112, 0]) 1 true true (some 7) TsdbCode.TSDB_CODE_SUCCESS
    none ⟨some [104], by decide, by decide⟩ ⟨some [104, 105], by decide, by decide⟩).1

end Todbc
namespace Todbc

theorem widening_pairs_iff {ty : Nat} {ct : Int} {sw tw : Nat}
    (hs : int_wire_width ty = some sw) (ht : int_or_bit_target_width ct = some tw) :
    (ty, ct) ∈ widening_pairs
      ↔ (ct = SQL_C_BIT ∧ ty = TSDB_DATA_TYPE_BOOL) ∨ (ct ≠ SQL_C_BIT ∧ sw ≤ tw) := by
  unfold int_wire_width at hs
  unfold int_or_bit_target_width int_target_width at ht
  split_ifs at hs with a1 a2 a3 a4 a5 <;> split_ifs at ht with b0 b1 b2 b3 b4 <;>
    simp only [Option.some.injEq] at hs ht <;> subst hs <;> subst ht <;>
    first
      | (subst a1; subst b0; decide)
      | (subst a1; subst b1; decide)
      | (subst a1; subst b2; decide)
      | (subst a1; subst b3; decide)
      | (subst a1; subst b4; decide)
      | (subst a2; subst b0; decide)
      | (subst a2; subst b1; decide)
      | (subst a2; subst b2; decide)
      | (subst a2; subst b3; decide)
      | (subst a2; subst b4; decide)
      | (subst a3; subst b0; decide)
      | (subst a3; subst b1; decide)
      | (subst a3; subst b2; decide)
      | (subst a3; subst b3; decide)
      | (subst a3; subst b4; decide)
      | (subst a4; subst b0; decide)
      | (subst a4; subst b1; decide)
      | (subst a4; subst b2; decide)
      | (subst a4; subst b3; decide)
      | (subst a4; subst b4; decide)
      | (subst a5; subst b0; decide)
      | (subst a5; subst b1; decide)
      | (subst a5; subst b2; decide)
      | (subst a5; subst b3; decide)
      | (subst a5; subst b4; decide)

theorem int_or_bit_width_cases {ct : Int} {tw : Nat} (ht : int_or_bit_target_width ct = some tw) :
    tw = 1 ∨ tw = 2 ∨ tw = 4 ∨ tw = 8 := by
  unfold int_or_bit_target_width at ht
  split_ifs at ht with hb
  · simp only [Option.some.injEq] at ht; omega
  · exact int_target_width_cases ht

set_option maxHeartbeats 1000000 in
theorem dispatch_int_or_bit {D F : Type} (L : LibC D F) (sql : sql_t) (t : c_target_t)
    (field : TAOS_FIELD) (cell : Bytes) (msg : Option String) (sw tw : Nat)
    (hs : int_wire_width field.type = some sw) (ht : int_or_bit_target_width t.ct = some tw) :
    dispatch L sql t field cell msg
      = if (field.type, t.ct) ∈ widening_pairs
        then store_int tw sql t (cell_int_value field.type sw cell)
        else conv_not_support sql t msg := by
  have hiff := widening_pairs_iff hs ht
  by_cases hbit : t.ct = SQL_C_BIT
  · have htw : tw = 1 := by
      unfold int_or_bit_target_width at ht
      rw [if_pos hbit] at ht
      exact (Option.some.inj ht).symm
    subst htw
    by_cases hb : field.type = TSDB_DATA_TYPE_BOOL
    · rw [if_pos (hiff.mpr (Or.inl ⟨hbit, hb⟩))]
      have hsw : sw = 1 := by
        unfold int_wire_width at hs
        rw [if_pos hb] at hs
        exact (Option.some.inj hs).symm
      subst hsw
      unfold dispatch cell_int_value
      simp only [if_pos hb, if_pos hbit, conv_tsdb_bool_to_c_bit]
      congr 1
      split_ifs with h0 <;> first | rfl | exact h0 | exact not_not.mp h0
    · have hno : (field.type, t.ct) ∉ widening_pairs := by
        intro hin
        rcases hiff.mp hin with ⟨-, h2⟩ | ⟨h1, -⟩
        · exact hb h2
        · exact h1 hbit
      rw [if_neg hno]
      apply dispatch_unsupported
      unfold int_wire_width at hs
      rw [hbit]
      split_ifs at hs with a2 a3 a4 a5
      · rw [a2]; decide
      · rw [a3]; decide
      · rw [a4]; decide
      · rw [a5]; decide
  · have ht2 : int_target_width t.ct = some tw := by
      unfold int_or_bit_target_width at ht
      rw [if_neg hbit] at ht
      exact ht
    rw [dispatch_int L sql t field cell msg sw tw hs ht2]
    by_cases hle : sw ≤ tw
    · rw [if_pos hle, if_pos (hiff.mpr (Or.inr ⟨hbit, hle⟩))]
    · have hno : (field.type, t.ct) ∉ widening_pairs := by
        intro hin
        rcases hiff.mp hin with ⟨h1, -⟩ | ⟨-, h2⟩
        · exact hbit h1
        · exact hle h2
      rw [if_neg hle, if_neg hno]

/-- C35.  For a non-null cell of an integer wire type (boolean, int8, int16,
int32, int64, of `sw` bytes) and an integer target (bit, tinyint, short, long,
sbigint, of `tw` bytes; the bit target takes one byte).  The pair is supported
exactly when it is one of: boolean to bit, tinyint, short, long, sbigint; int8
to tinyint and wider; int16 to short and wider; int32 to long and sbigint;
int64 to sbigint, that is, the bit target for a boolean cell only and any
other target when it is at least as wide as the source.  On a supported pair
`doSQLGetData` returns `SQL_SUCCESS` and writes in the `tw` bytes of the
target the value of the cell, 1 for a boolean cell whose byte is not zero, so
that the target reads back as that very value; on any other pair it returns
`SQL_ERROR` with the conversion-not-supported code and writes nothing. -/
theorem integer_pairs_supported {D F : Type} (L : LibC D F) (h : Heap) (s : Nat)
    (sql : sql_t) (rs : TAOS_RES) (row : TAOS_ROW) (col : Nat) (field : TAOS_FIELD)
    (cell : Bytes) (ct : Int) (buf : Bytes) (len : Int) (soi : Option Int)
    (msg : Option String) (sw tw : Nat)
    (hrow : HasCurrentRow h s sql rs row) (hcol : ValidColumn rs row col field (some cell))
    (hs : int_wire_width field.type = some sw) (ht : int_or_bit_target_width ct = some tw) :
    ((field.type, ct) ∈ widening_pairs
        ↔ (ct = SQL_C_BIT ∧ field.type = TSDB_DATA_TYPE_BOOL) ∨ (ct ≠ SQL_C_BIT ∧ sw ≤ tw))
    ∧ ((field.type, ct) ∈ widening_pairs →
      doSQLGetData L h (some s) col ct (some buf) len soi msg
        = Outcome.ret SQLRETURN.SQL_SUCCESS
            (h, some (mem_write buf (int_bytes tw (cell_int_value field.type sw cell))), soi)
      ∧ read_int tw (mem_write buf (int_bytes tw (cell_int_value field.type sw cell)))
          = cell_int_value field.type sw cell
      ∧ cell_int_value field.type sw cell
          = if field.type = TSDB_DATA_TYPE_BOOL then (if read_int 1 cell ≠ 0 then 1 else 0)
            else read_int sw cell)
    ∧ ((field.type, ct) ∉ widening_pairs →
      doSQLGetData L h (some s) col ct (some buf) len soi msg
        = Outcome.ret SQLRETURN.SQL_ERROR
            (h.set_sql s (some { sql with
                err := SET_ERROR sql.err "HY000" TsdbCode.TSDB_CODE_ODBC_CONV_NOT_SUPPORT msg }),
              some buf, soi)) := by
  have hiff := widening_pairs_iff hs ht
  have hd := dispatch_int_or_bit L sql
    { col := col, ct := ct, ptr := some buf, len := len, soi := soi } field cell msg sw tw hs ht
  obtain ⟨hsw, hv⟩ := cell_int_value_in_range cell hs
  have htw := int_or_bit_width_cases ht
  refine ⟨hiff, ?_, ?_⟩
  · intro hin
    have hle : sw ≤ tw := by
      rcases hiff.mp hin with ⟨h1, h2⟩ | ⟨-, h2⟩
      · have e1 : sw = 1 := by
          unfold int_wire_width at hs
          rw [if_pos h2] at hs
          exact (Option.some.inj hs).symm
        rcases htw with h | h | h | h <;> omega
      · exact h2
    have hv2 := in_range_mono hsw htw hle hv
    rw [doSQLGetData_cell L ct buf len soi msg hrow hcol]
    simp only
    rw [hd, if_pos hin]
    refine ⟨?_, read_int_mem_write htw buf hv2, rfl⟩
    simp only [store_int, store_back, c_target_t.memcpy, int_cast_of_in_range htw hv2,
      Heap.set_sql_self hrow.live]
  · intro hno
    rw [doSQLGetData_cell L ct buf len soi msg hrow hcol]
    simp only
    rw [hd, if_neg hno]
    rfl

/-- Witness of C35: a boolean cell holding the byte 5 fetched into the bit
target is written as 1. -/
theorem integer_pairs_supported_witness :
    doSQLGetData dec_libc
        (demo_fetch1 { name := ascii "b", type := TSDB_DATA_TYPE_BOOL, bytes := 1 } (some [5]))
        (some 0) 1 SQL_C_BIT (some [170, 170]) 1 (some 0) none
      = Outcome.ret SQLRETURN.SQL_SUCCESS
          (demo_fetch1 { name := ascii "b", type := TSDB_DATA_TYPE_BOOL, bytes := 1 } (some [5]),
            some [1, 170], some 0) :=
  (((integer_pairs_supported dec_libc _ 0 _ _ _ 1
    { name := ascii "b", type := TSDB_DATA_TYPE_BOOL, bytes := 1 } [5]
    SQL_C_BIT [170, 170] 1 (some 0) none 1 1
    (demo_fetch1_row _ _) (demo_fetch1_col _ _) rfl rfl).2.1 (by decide)).1).trans (by rfl)

end Todbc
namespace Todbc

/-- C37, as the code behaves.  For a wide-text cell that parses completely as
a floating literal: into the float target `doSQLGetData` writes the 4 bytes of
the value as a `float` and reports the indicator 4; into the double target it
writes the very same 4 bytes of the value as a `float` (the local `v` of
`conv_tsdb_str_to_c_f8` is a `float`) and reports the indicator 8, so the
bytes 4 to 7 of the target keep what they held. -/
theorem text_to_double_stores_float {D F : Type} (L : LibC D F) (h : Heap) (s : Nat)
    (sql : sql_t) (rs : TAOS_RES) (row : TAOS_ROW) (col : Nat) (field : TAOS_FIELD)
    (cell : Bytes) (buf : Bytes) (len ind : Int) (msg : Option String)
    (hrow : HasCurrentRow h s sql rs row) (hcol : ValidColumn rs row col field (some cell))
    (hty : field.type = TSDB_DATA_TYPE_NCHAR)
    (hparsed : scan_incomplete L (c_str cell) = false) :
    doSQLGetData L h (some s) col SQL_C_FLOAT (some buf) len (some ind) msg
        = Outcome.ret SQLRETURN.SQL_SUCCESS
            (h, some (mem_write buf (L.f4_store (L.f4_of_f8 (scanned_f8 L (c_str cell))))),
              some 4)
      ∧ doSQLGetData L h (some s) col SQL_C_DOUBLE (some buf) len (some ind) msg
        = Outcome.ret SQLRETURN.SQL_SUCCESS
            (h, some (mem_write buf (L.f4_store (L.f4_of_f8 (scanned_f8 L (c_str cell))))),
              some 8)
      ∧ ((L.f4_store (L.f4_of_f8 (scanned_f8 L (c_str cell)))).length = 4 →
          (mem_write buf (L.f4_store (L.f4_of_f8 (scanned_f8 L (c_str cell))))).drop 4
            = buf.drop 4) := by
  refine ⟨?_, ?_, ?_⟩
  · rw [doSQLGetData_cell L SQL_C_FLOAT buf len (some ind) msg hrow hcol]
    simp only
    rw [(dispatch_nchar_numeric L sql _ field cell msg hty).2.1 rfl]
    simp only [conv_tsdb_str_to_c_f4, c_target_t.memcpy, c_target_t.set_soi, hparsed,
      Bool.false_eq_true, if_false, store_back, Heap.set_sql_self hrow.live]
  · rw [doSQLGetData_cell L SQL_C_DOUBLE buf len (some ind) msg hrow hcol]
    simp only
    rw [(dispatch_nchar_numeric L sql _ field cell msg hty).2.2 rfl]
    simp only [conv_tsdb_str_to_c_f8, c_target_t.memcpy, c_target_t.set_soi, hparsed,
      Bool.false_eq_true, if_false, store_back, Heap.set_sql_self hrow.live]
  · intro h4
    unfold mem_write
    rw [List.drop_append_eq_append_drop, h4, List.drop_of_length_le (le_of_eq h4)]
    simp

/-- The failing input of C37: the text `1.5` fetched into a double target of 8
bytes.  Only 4 bytes are written (the image of the `float`), the indicator is
8 and the bytes 4 to 7 of the buffer are those the caller left there. -/
theorem text_to_double_stores_float_witness :
    doSQLGetData dec_libc (demo_text "1.5") (some 0) 1 SQL_C_DOUBLE
        (some [170, 170, 170, 170, 170, 170, 170, 170]) 8 (some 0) none
      = Outcome.ret SQLRETURN.SQL_SUCCESS
          (demo_text "1.5", some [1, 0, 0, 0, 170, 170, 170, 170], some 8) :=
  ((text_to_double_stores_float dec_libc (demo_text "1.5") 0 _ _ _ 1 demo_nchar
    (ascii "1.5" ++ [0]) [170, 170, 170, 170, 170, 170, 170, 170] 8 0 none
    (demo_fetch1_row _ _) (demo_fetch1_col _ _) rfl (by decide)).2.1).trans (by rfl)

end Todbc
namespace Todbc

theorem dispatch_double_char {D F : Type} (L : LibC D F) (sql : sql_t) (t : c_target_t)
    (field : TAOS_FIELD) (cell : Bytes) (msg : Option String)
    (hty : field.type = TSDB_DATA_TYPE_DOUBLE) (hct : t.ct = SQL_C_CHAR) :
    dispatch L sql t field cell msg
      = conv_tsdb_f8_to_c_char L sql t field (L.f8_load cell) msg := by
  unfold dispatch
  simp [hty, hct, TSDB_DATA_TYPE_BOOL, TSDB_DATA_TYPE_TINYINT, TSDB_DATA_TYPE_SMALLINT,
    TSDB_DATA_TYPE_INT, TSDB_DATA_TYPE_BIGINT, TSDB_DATA_TYPE_FLOAT, TSDB_DATA_TYPE_DOUBLE,
    TSDB_DATA_TYPE_TIMESTAMP, TSDB_DATA_TYPE_BINARY, TSDB_DATA_TYPE_NCHAR,
    SQL_C_BIT, SQL_C_TINYINT, SQL_C_SHORT, SQL_C_LONG, SQL_C_SBIGINT, SQL_C_FLOAT,
    SQL_C_DOUBLE, SQL_C_CHAR, SQL_C_BINARY, SQL_C_TIMESTAMP]

/-- C38, as the code behaves.  For a non-null float64 cell fetched into a
character target, with `text` the `%.6f` rendering of the value: when `text`
has 64 characters or more, the `DASSERT(n<sizeof(buf))` of
`conv_tsdb_f8_to_c_char` fails and `doSQLGetData` aborts the process, whatever
the buffer and its length; when `text` has fewer than 64 characters, the
buffer length is not negative and the indicator pointer is not null, the call
returns a status. -/
theorem double_text_can_abort {D F : Type} (L : LibC D F) (h : Heap) (s : Nat)
    (sql : sql_t) (rs : TAOS_RES) (row : TAOS_ROW) (col : Nat) (field : TAOS_FIELD)
    (cell : Bytes) (buf : Bytes) (len : Int) (soi : Option Int) (msg : Option String)
    (hrow : HasCurrentRow h s sql rs row) (hcol : ValidColumn rs row col field (some cell))
    (hty : field.type = TSDB_DATA_TYPE_DOUBLE) :
    (64 ≤ (L.printf_f6 (L.f8_load cell)).length →
      doSQLGetData L h (some s) col SQL_C_CHAR (some buf) len soi msg
        = Outcome.abort (h, some buf, soi))
    ∧ ((L.printf_f6 (L.f8_load cell)).length < 64 → 0 ≤ len → soi ≠ none →
      ∃ r st, doSQLGetData L h (some s) col SQL_C_CHAR (some buf) len soi msg
        = Outcome.ret r st) := by
  constructor
  · intro hlong
    rw [doSQLGetData_cell L SQL_C_CHAR buf len soi msg hrow hcol]
    simp only
    rw [dispatch_double_char L sql _ field cell msg hty rfl]
    have h64 : ¬ ((L.printf_f6 (L.f8_load cell)).length : Int) < 64 := by omega
    simp only [conv_tsdb_f8_to_c_char, text_to_c_char, h64, not_false_eq_true, if_true,
      store_back, Heap.set_sql_self hrow.live]
  · intro hshort hlen hsoi
    rw [doSQLGetData_cell L SQL_C_CHAR buf len soi msg hrow hcol]
    simp only
    rw [dispatch_double_char L sql _ field cell msg hty rfl]
    unfold conv_tsdb_f8_to_c_char
    generalize L.printf_f6 (L.f8_load cell) = text at *
    have h64 : ¬ ¬ ((text.length : Int) < 64) := by omega
    cases soi with
    | none => exact absurd rfl hsoi
    | some ind =>
      simp only [text_to_c_char, if_neg h64, c_target_t.set_soi, c_target_t.strncpy]
      have hcnt : ¬ 2 ^ 63 ≤ to_size_t
          (if (text.length : Int) ≥ len then len else (text.length : Int) + 1) := by
        split_ifs with hge
        · rw [to_size_t_of_nonneg hlen (by omega)]
          norm_num
          omega
        · rw [to_size_t_of_nonneg (by omega) (by omega)]
          norm_num
          omega
      simp only [if_neg hcnt]
      split_ifs <;> exact ⟨_, _, rfl⟩

set_option maxRecDepth 65536 in
/-- The failing input of C38: a float64 cell holding 1e100, whose `%.6f`
rendering is the exact value of the `double` in 108 characters, fetched into a character buffer of 128 bytes:
the assertion fails and the process is aborted. -/
theorem double_text_can_abort_witness :
    ieee_libc.printf_f6 (ieee_libc.f8_load f8_1e100)
        = ascii ("1000000000000000015902891109759918046836080856394528138978"
            ++ "1327557747838772170381060813469985856815104.000000")
    ∧ (ieee_libc.printf_f6 (ieee_libc.f8_load f8_1e100)).length = 108
    ∧ doSQLGetData ieee_libc
        (demo_fetch1 { name := ascii "d", type := TSDB_DATA_TYPE_DOUBLE, bytes := 8 }
          (some f8_1e100))
        (some 0) 1 SQL_C_CHAR (some (List.replicate 128 170)) 128 (some 0) none
      = Outcome.abort
          (demo_fetch1 { name := ascii "d", type := TSDB_DATA_TYPE_DOUBLE, bytes := 8 }
            (some f8_1e100), some (List.replicate 128 170), some 0) :=
  ⟨by decide, by decide,
    (double_text_can_abort ieee_libc _ 0 _ _ _ 1
      { name := ascii "d", type := TSDB_DATA_TYPE_DOUBLE, bytes := 8 } f8_1e100
      (List.replicate 128 170) 128 (some 0) none (demo_fetch1_row _ _) (demo_fetch1_col _ _)
      rfl).1 (by decide)⟩

end Todbc
namespace Todbc

theorem dec_digits_length_le (fuel : Nat) : ∀ (n : Nat) (acc : Bytes) (k : Nat),
    1 ≤ k → n < 10 ^ k → (dec_digits fuel n acc).length ≤ k + acc.length := by
  induction fuel with
  | zero => intro n acc k _ _; simp [dec_digits]
  | succ f ih =>
    intro n acc k hk hn
    unfold dec_digits
    split_ifs with h10
    · simp only [List.length_cons]; omega
    · have hk2 : 2 ≤ k := by
        by_contra hc
        have : k = 1 := by omega
        subst this
        omega
      have hn2 : n / 10 < 10 ^ (k - 1) := by
        have e : 10 ^ k = 10 ^ (k - 1) * 10 := by
          rw [← pow_succ]; congr 1; omega
        rw [e] at hn
        exact Nat.div_lt_of_lt_mul (by omega)
      have := ih (n / 10) ((48 + n % 10) :: acc) (k - 1) (by omega) hn2
      simp only [List.length_cons] at this
      omega

theorem fmt_d_length_le (v : Int) (k : Nat) (hk : 1 ≤ k) (hv : v.natAbs < 10 ^ k) :
    (fmt_d v).length ≤ k + 1 := by
  unfold fmt_d fmt_u
  split_ifs with hneg
  · have := dec_digits_length_le 20 v.natAbs [] k hk hv
    simp only [List.length_cons, List.length_nil] at this ⊢
    omega
  · have e : v.toNat = v.natAbs := by omega
    rw [e]
    have := dec_digits_length_le 20 v.natAbs [] k hk hv
    simp only [List.length_nil] at this
    omega

theorem fmt_03d_length_le (v : Int) (hv : v.natAbs < 1000) : (fmt_03d v).length ≤ 4 := by
  have h3 : (fmt_u v.natAbs).length ≤ 3 := by
    have := dec_digits_length_le 20 v.natAbs [] 3 (by omega) (by omega)
    simpa [fmt_u] using this
  unfold fmt_03d
  split_ifs with hneg
  · simp only [List.length_cons, List.length_append, List.length_replicate]
    omega
  · have e : v.toNat = v.natAbs := by omega
    rw [e]
    simp only [List.length_append, List.length_replicate]
    omega

theorem text_to_c_char_fits (sql : sql_t) (col : Nat) (ct : Int) (buf : Bytes) (len : Int)
    (ind : Int) (text : Bytes) (msg : Option String)
    (hn : text.length ≤ 26) (h2 : (text.length : Int) < len) :
    text_to_c_char sql { col := col, ct := ct, ptr := some buf, len := len, soi := some ind }
        text msg
      = Outcome.ret SQLRETURN.SQL_SUCCESS
          (sql, { col := col, ct := ct, ptr := some (mem_write buf (text ++ [0])),
                  len := len, soi := some (text.length : Int) }) := by
  have hsz : to_size_t ((text.length : Int) + 1) = text.length + 1 := by
    rw [to_size_t_of_nonneg (by omega) (by omega)]
    omega
  have h64 : ¬ ¬ ((text.length : Int) < 64) := by omega
  have hge : ¬ ((text.length : Int) ≥ len) := by omega
  have hle : (text.length : Int) ≤ len := by omega
  simp only [text_to_c_char, if_neg h64, c_target_t.set_soi, if_neg hge, hsz,
    c_target_t.strncpy, if_pos hle]
  rw [if_neg (by norm_num; omega), strncpy_data_whole]
  simp only [if_pos hle]

theorem int_cell_text_length {ty sw : Nat} (cell : Bytes) (field : TAOS_FIELD)
    (hty : field.type = ty) (hs : int_wire_width ty = some sw) :
    ((int_cell_text ty sw cell).length : Int) ≤ do_field_display_size field
      ∧ (int_cell_text ty sw cell).length ≤ 26 := by
  obtain ⟨-, hv⟩ := cell_int_value_in_range cell hs
  unfold in_range at hv
  unfold int_wire_width at hs
  split_ifs at hs with a1 a2 a3 a4 a5 <;> simp only [Option.some.injEq] at hs <;> subst hs
  · subst a1
    have e : do_field_display_size field = 7 := by
      unfold do_field_display_size; rw [hty]; rfl
    rw [e]
    unfold int_cell_text
    simp only [if_true, List.length_singleton]
    refine ⟨by decide, by omega⟩
  · subst a2
    have e : do_field_display_size field = 5 := by
      unfold do_field_display_size; rw [hty]; rfl
    have hb : (fmt_d (cell_int_value TSDB_DATA_TYPE_TINYINT 1 cell)).length ≤ 3 + 1 :=
      fmt_d_length_le _ 3 (by omega) (by norm_num at hv; omega)
    rw [e]
    unfold int_cell_text
    rw [if_neg (by decide)]
    omega
  · subst a3
    have e : do_field_display_size field = 7 := by
      unfold do_field_display_size; rw [hty]; rfl
    have hb : (fmt_d (cell_int_value TSDB_DATA_TYPE_SMALLINT 2 cell)).length ≤ 5 + 1 :=
      fmt_d_length_le _ 5 (by omega) (by norm_num at hv; omega)
    rw [e]
    unfold int_cell_text
    rw [if_neg (by decide)]
    omega
  · subst a4
    have e : do_field_display_size field = 12 := by
      unfold do_field_display_size; rw [hty]; rfl
    have hb : (fmt_d (cell_int_value TSDB_DATA_TYPE_INT 4 cell)).length ≤ 10 + 1 :=
      fmt_d_length_le _ 10 (by omega) (by norm_num at hv; omega)
    rw [e]
    unfold int_cell_text
    rw [if_neg (by decide)]
    omega
  · subst a5
    have e : do_field_display_size field = 22 := by
      unfold do_field_display_size; rw [hty]; rfl
    have hb : (fmt_d (cell_int_value TSDB_DATA_TYPE_BIGINT 8 cell)).length ≤ 19 + 1 :=
      fmt_d_length_le _ 19 (by omega) (by norm_num at hv; omega)
    rw [e]
    unfold int_cell_text
    rw [if_neg (by decide)]
    omega

theorem tmod_1000_natAbs (v : Int) : (Int.tmod v 1000).natAbs < 1000 := by
  by_cases hv : v < 0
  · rw [(tdiv_tmod_neg v hv).2]
    omega
  · rw [Int.tmod_eq_emod (by omega) (by norm_num)]
    omega

theorem ts_fraction_text_length {D F : Type} (L : LibC D F) (cell : Bytes) :
    (fmt_03d (to_signed 4 (ts_of_cell L cell).fraction)).length ≤ 4 := by
  have hb := tmod_1000_natAbs (read_int 8 cell)
  have hr : in_range 4 (Int.tmod (read_int 8 cell) 1000) := by
    unfold in_range
    norm_num
    omega
  have e : to_signed 4 (ts_of_cell L cell).fraction = Int.tmod (read_int 8 cell) 1000 :=
    int_cast_of_in_range (Or.inr (Or.inr (Or.inl rfl))) hr
  rw [e]
  exact fmt_03d_length_le _ hb

/-- C39.  For a non-null cell fetched into a character target whose buffer
length exceeds the display size of the column (`do_field_display_size`, what
`doSQLColAttribute` reports).  For the wire types boolean, int8, int16, int32
and int64 the text of the cell is no longer than the display size, and
`doSQLGetData` returns `SQL_SUCCESS` and writes the whole text and its
terminator.  For the wire type timestamp, the text being that of `strftime`
(at most 21 characters: the year is a 16-bit field of the `TIMESTAMP_STRUCT`),
a dot and the fraction printed with `%03d`: the text is no longer than the
display size 26, and `doSQLGetData` returns `SQL_SUCCESS` and writes the whole
text and its terminator. -/
theorem display_size_covers_text {D F : Type} (L : LibC D F) (h : Heap) (s : Nat)
    (sql : sql_t) (rs : TAOS_RES) (row : TAOS_ROW) (col : Nat) (field : TAOS_FIELD)
    (cell : Bytes) (buf : Bytes) (len ind : Int) (msg : Option String)
    (hrow : HasCurrentRow h s sql rs row) (hcol : ValidColumn rs row col field (some cell))
    (hlen : do_field_display_size field < len) :
    (∀ sw, int_wire_width field.type = some sw →
      ((int_cell_text field.type sw cell).length : Int) ≤ do_field_display_size field
      ∧ doSQLGetData L h (some s) col SQL_C_CHAR (some buf) len (some ind) msg
          = Outcome.ret SQLRETURN.SQL_SUCCESS
              (h, some (mem_write buf (int_cell_text field.type sw cell ++ [0])),
                some ((int_cell_text field.type sw cell).length : Int)))
    ∧ (field.type = TSDB_DATA_TYPE_TIMESTAMP →
      (L.strftime (tm_of_ts (ts_of_cell L cell))).length ≤ 21 →
      ((ts_cell_text L cell).length : Int) ≤ do_field_display_size field
      ∧ doSQLGetData L h (some s) col SQL_C_CHAR (some buf) len (some ind) msg
          = Outcome.ret SQLRETURN.SQL_SUCCESS
              (h, some (mem_write buf (ts_cell_text L cell ++ [0])),
                some ((L.strftime (tm_of_ts (ts_of_cell L cell))).length : Int))) := by
  constructor
  · intro sw hs
    obtain ⟨k1, k2⟩ := int_cell_text_length cell field rfl hs
    refine ⟨k1, ?_⟩
    rw [doSQLGetData_cell L SQL_C_CHAR buf len (some ind) msg hrow hcol]
    simp only
    rw [dispatch_int_char L sql _ field cell msg sw hs rfl]
    by_cases hb : field.type = TSDB_DATA_TYPE_BOOL
    · have e : do_field_display_size field = 7 := by
        unfold do_field_display_size; rw [hb]; rfl
      rw [e] at hlen
      have h0 : ¬ ¬ (len > 0) := by omega
      have h1 : len > 1 := by omega
      unfold int_cell_text
      simp only [if_pos hb, conv_tsdb_bool_to_c_char, if_neg h0, c_target_t.set_soi,
        if_pos h1, c_target_t.memcpy, store_back, Heap.set_sql_self hrow.live,
        List.length_singleton, List.singleton_append, Nat.cast_one]
    · have hfit : ((int_cell_text field.type sw cell).length : Int) < len := by omega
      unfold int_cell_text at hfit k2 ⊢
      rw [if_neg hb] at hfit k2 ⊢
      rw [if_neg hb, text_to_c_char_fits sql col SQL_C_CHAR buf len ind _ msg k2 hfit]
      simp only [store_back, Heap.set_sql_self hrow.live]
  · intro hty hS
    have e : do_field_display_size field = 26 := by
      unfold do_field_display_size; rw [hty]; rfl
    have h4 := ts_fraction_text_length L cell
    have h3 := fmt_03d_length (to_signed 4 (ts_of_cell L cell).fraction)
    rw [e] at hlen ⊢
    unfold ts_cell_text
    constructor
    · simp only [List.length_append, List.length_singleton]
      omega
    · rw [doSQLGetData_cell L SQL_C_CHAR buf len (some ind) msg hrow hcol]
      simp only
      rw [(dispatch_timestamp L sql _ field cell msg hty).2.1 rfl]
      have hS64 : (L.strftime (tm_of_ts (ts_of_cell L cell))).length < 64 := by omega
      simp only [conv_tsdb_ts_to_c_str, strftime_buf, if_pos hS64]
      generalize L.strftime (tm_of_ts (ts_of_cell L cell)) = S at *
      generalize fmt_03d (to_signed 4 (ts_of_cell L cell).fraction) = frac at *
      have hn : ¬ ¬ ((S.length : Int) < 64) := by omega
      have hl : ¬ len < 0 := by omega
      have hle : (S.length : Int) ≤ len := by omega
      simp only [if_neg hn, c_target_t.set_soi,
        if_neg hl, if_pos hle, store_back, Heap.set_sql_self hrow.live]
      rw [snprintf_data_whole _ _ (by
        simp only [List.length_append, List.length_singleton]; omega)]

set_option maxRecDepth 65536 in
/-- Witness of C39: the int64 cell -9223372036854775808 fetched into a buffer of
23 bytes, and the timestamp cell 1577836800123 fetched into a buffer of 27
bytes. -/
theorem display_size_covers_text_witness :
    doSQLGetData dec_libc
        (demo_fetch1 { name := ascii "n", type := TSDB_DATA_TYPE_BIGINT, bytes := 8 }
          (some (int_bytes 8 (-9223372036854775808))))
        (some 0) 1 SQL_C_CHAR (some (List.replicate 23 170)) 23 (some 0) none
      = Outcome.ret SQLRETURN.SQL_SUCCESS
          (demo_fetch1 { name := ascii "n", type := TSDB_DATA_TYPE_BIGINT, bytes := 8 }
            (some (int_bytes 8 (-9223372036854775808))),
            some (ascii "-9223372036854775808" ++ [0, 170, 170]), some 20)
    ∧ doSQLGetData dec_libc
        (demo_fetch1 { name := ascii "ts", type := TSDB_DATA_TYPE_TIMESTAMP, bytes := 8 }
          (some (int_bytes 8 1577836800123)))
        (some 0) 1 SQL_C_CHAR (some (List.replicate 27 170)) 27 (some 0) none
      = Outcome.ret SQLRETURN.SQL_SUCCESS
          (demo_fetch1 { name := ascii "ts", type := TSDB_DATA_TYPE_TIMESTAMP, bytes := 8 }
            (some (int_bytes 8 1577836800123)),
            some (ascii "2020-01-01 00:00:00.123" ++ [0, 170, 170, 170]), some 19) :=
  ⟨(((display_size_covers_text dec_libc _ 0 _ _ _ 1
      { name := ascii "n", type := TSDB_DATA_TYPE_BIGINT, bytes := 8 }
      (int_bytes 8 (-9223372036854775808)) (List.replicate 23 170) 23 0 none
      (demo_fetch1_row _ _) (demo_fetch1_col _ _) (by decide)).1 8 rfl).2).trans (by rfl),
    (((display_size_covers_text dec_libc _ 0 _ _ _ 1
      { name := ascii "ts", type := TSDB_DATA_TYPE_TIMESTAMP, bytes := 8 }
      (int_bytes 8 1577836800123) (List.replicate 27 170) 27 0 none
      (demo_fetch1_row _ _) (demo_fetch1_col _ _) (by decide)).2 rfl (by decide)).2).trans
      (by rfl)⟩

end Todbc
